import Mathlib

/-!
# A shallow embedding of `simData::MemoryDataStore`

This file embeds the entity data store implemented in
`SDK/simData/MemoryDataStore.cpp` (the SIMDIS SDK in-memory, time-indexed
entity store) and proves properties of its operations.

Modelling conventions:
* C++ `double` time values are modelled as `Rat`; the code only compares
  times (no arithmetic that could round), so ordering is preserved.
* `std::map<ObjectId, T*>` containers are modelled as association lists
  `List (ObjectId × T)`; real stores have globally unique ids
  (`genUniqueId_`), which appears in theorems as `Nodup`/disjointness
  hypotheses on the key lists.
* External collaborator types (the slice classes, the protobuf
  property/preference messages, the table manager) are not part of the
  examined translation unit; they are modelled from the spec, and each such
  definition carries a `Modelled from the spec:` doc comment.
* Listener callbacks are modelled as pure observers: dispatch produces a
  list of events.  Re-entrant listener removal (the `justRemoved_`
  machinery) is modelled separately by `dispatchFrom` below, with callbacks
  given as a removal-request function.
-/

namespace SimData

/-- 64-bit object identifier (`simData::ObjectId`); modelled as `Nat`
(ids are generated by a monotone counter and never overflow in practice). -/
abbrev ObjectId := Nat

/-- Stand-in for the C++ constant `std::numeric_limits<double>::max()`. -/
def dblMax : Rat := 2 ^ 1024

/-- Lookup in an association list, mirroring `std::map::find`
(first matching key; real maps have unique keys). -/
def findA {β : Type} : List (ObjectId × β) → ObjectId → Option β
  | [], _ => none
  | (k, v) :: rest, id => if k = id then some v else findA rest id

/-- Erase the first entry with the given key, mirroring
`std::map::erase(iterator)` after a successful `find`. -/
def eraseKey {β : Type} : List (ObjectId × β) → ObjectId → List (ObjectId × β)
  | [], _ => []
  | (k, v) :: rest, id => if k = id then rest else (k, v) :: eraseKey rest id

/-- Modify the value stored under the given key (first occurrence),
mirroring mutation through a `std::map` iterator. -/
def modifyVal {β : Type} : List (ObjectId × β) → ObjectId → (β → β) → List (ObjectId × β)
  | [], _, _ => []
  | (k, v) :: rest, id, f =>
    if k = id then (k, f v) :: rest else (k, v) :: modifyVal rest id f

/-- Key list of an association list. -/
def keysOf {β : Type} (l : List (ObjectId × β)) : List ObjectId := l.map Prod.fst

/-- Apply a function to every value of an association list, mirroring an
in-place iteration over a `std::map` that mutates each entry. -/
def mapVals {β : Type} (l : List (ObjectId × β)) (f : ObjectId → β → β) :
    List (ObjectId × β) :=
  l.map fun p => (p.1, f p.1 p.2)

/-! ## Property, preference and sample messages

The protobuf-generated messages are opaque value types to the store
(spec §6: "support copy-from, byte-serialization for equality comparison,
and typed field accessors including optional fields").  They are modelled
as records with the fields the examined code reads, with `Option` for
optional (`has_`) fields; byte-serialization equality is structural
equality of the records. -/

/-- Modelled from the spec: `simData::CommonPrefs` fields read by the
examined code (`name`, `alias`, `usealias`, `datadraw`, data-limit
thresholds). -/
structure CommonPrefs where
  name : String
  aliasName : String
  usealias : Bool
  datadraw : Bool
  datalimitpoints : Nat
  datalimittime : Rat
  deriving DecidableEq, Repr

/-- Modelled from the spec: a discrete preference delta carried by a
command sample ("command slices additionally apply default-preference
deltas"); modelled minimally as an optional `datadraw` override. -/
structure PrefPatch where
  datadraw : Option Bool
  deriving DecidableEq, Repr

/-- Apply one preference delta. -/
def applyPatch (cp : CommonPrefs) (p : PrefPatch) : CommonPrefs :=
  match p.datadraw with
  | none => cp
  | some b => { cp with datadraw := b }

/-- Modelled from the spec: a command slice, an ordered time series of
preference deltas (`MemoryCommandSlice`). -/
structure CommandSlice where
  data : List (Rat × PrefPatch)
  deriving DecidableEq, Repr

/-- Modelled from the spec: `MemoryCommandSlice::update(store, id, time)`
applies the deltas of all commands with time ≤ `t` to the entity's
preferences. -/
def applyCommands (cp : CommonPrefs) (cs : CommandSlice) (t : Rat) : CommonPrefs :=
  cs.data.foldl (fun acc p => if p.1 ≤ t then applyPatch acc p.2 else acc) cp

/-- `simData::BeamProperties_BeamType`. -/
inductive BeamType where
  | absolutePosition
  | bodyRelative
  | target
  deriving DecidableEq, Repr

/-- `simData::GateProperties_GateType`. -/
inductive GateType where
  | absolutePosition
  | bodyRelative
  | target
  deriving DecidableEq, Repr

structure PlatformProperties where
  id : ObjectId
  originalid : ObjectId
  deriving DecidableEq, Repr

structure BeamProperties where
  id : ObjectId
  originalid : ObjectId
  hostid : Option ObjectId
  type : BeamType
  deriving DecidableEq, Repr

structure GateProperties where
  id : ObjectId
  originalid : ObjectId
  hostid : Option ObjectId
  type : GateType
  deriving DecidableEq, Repr

/-- Properties shape shared by lasers, projectors, lob groups and custom
renderings: an id plus a host id. -/
structure HostedProperties where
  id : ObjectId
  originalid : ObjectId
  hostid : Option ObjectId
  deriving DecidableEq, Repr

/-- The protobuf accessor `hostid()` returns the default value 0 when the
optional field is unset. -/
def hostidVal (o : Option ObjectId) : ObjectId := o.getD 0

structure PlatformPrefs where
  commonprefs : CommonPrefs
  interpolatepos : Bool
  deriving DecidableEq, Repr

structure BeamPrefs where
  commonprefs : CommonPrefs
  interpolatebeampos : Bool
  targetid : Option ObjectId
  deriving DecidableEq, Repr

structure GatePrefs where
  commonprefs : CommonPrefs
  interpolategatepos : Bool
  deriving DecidableEq, Repr

structure LaserPrefs where
  commonprefs : CommonPrefs
  deriving DecidableEq, Repr

structure ProjectorPrefs where
  commonprefs : CommonPrefs
  interpolateprojectorfov : Bool
  deriving DecidableEq, Repr

structure LobGroupPrefs where
  commonprefs : CommonPrefs
  maxdatapoints : Nat
  maxdataseconds : Rat
  deriving DecidableEq, Repr

structure CustomRenderingPrefs where
  commonprefs : CommonPrefs
  deriving DecidableEq, Repr

/-- `simData::PlatformUpdate`: the position payload is abstracted to the
`has_position()` flag the examined code reads. -/
structure PlatformUpdate where
  time : Rat
  hasPosition : Bool
  deriving DecidableEq, Repr, Inhabited

structure BeamUpdate where
  time : Rat
  azimuth : Rat
  elevation : Rat
  range : Rat
  deriving DecidableEq, Repr, Inhabited

structure GateUpdate where
  time : Rat
  azimuth : Rat
  elevation : Rat
  minrange : Rat
  maxrange : Rat
  centroid : Option Rat
  height : Rat
  width : Rat
  deriving DecidableEq, Repr, Inhabited

structure LaserUpdate where
  time : Rat
  deriving DecidableEq, Repr, Inhabited

structure ProjectorUpdate where
  time : Rat
  deriving DecidableEq, Repr, Inhabited

structure LobGroupUpdate where
  time : Rat
  deriving DecidableEq, Repr, Inhabited

structure CustomRenderingUpdate where
  time : Rat
  deriving DecidableEq, Repr, Inhabited

/-- Time accessor and time-stamping for update samples; used by the
modelled data slices and by the modelled interpolator. -/
class SliceSample (α : Type) where
  time : α → Rat
  withTime : α → Rat → α

instance : SliceSample PlatformUpdate where
  time u := u.time
  withTime u t := { u with time := t }

instance : SliceSample BeamUpdate where
  time u := u.time
  withTime u t := { u with time := t }

instance : SliceSample GateUpdate where
  time u := u.time
  withTime u t := { u with time := t }

instance : SliceSample LaserUpdate where
  time u := u.time
  withTime u t := { u with time := t }

instance : SliceSample ProjectorUpdate where
  time u := u.time
  withTime u t := { u with time := t }

instance : SliceSample LobGroupUpdate where
  time u := u.time
  withTime u t := { u with time := t }

instance : SliceSample CustomRenderingUpdate where
  time u := u.time
  withTime u t := { u with time := t }

/-! ## Data slices

`simData::MemoryDataSlice` is an external collaborator (spec §1 places the
slice subsystem out of scope, §6 fixes its interface: `update`,
`setCurrent`, `current`, `firstTime`/`lastTime`, `flush`, `limitByPrefs`,
`insert`).  The model keeps the ordered sample list, the published
`current` sample, the `currentInterpolated` scratch slot used by target
beams/gates, and the `changed` flag. -/

/-- Modelled from the spec: `simData::MemoryDataSlice<T>`. -/
structure MemoryDataSlice (α : Type) where
  data : List α
  current : Option α
  currentInterp : α
  changed : Bool
  deriving DecidableEq, Repr

/-- Modelled from the spec: `firstTime()`; empty slices report the
`double` maximum (no data ⇒ never "static", always out of bounds). -/
def sliceFirstTime {α : Type} [SliceSample α] (sl : MemoryDataSlice α) : Rat :=
  match sl.data.head? with
  | some a => SliceSample.time a
  | none => dblMax

/-- Modelled from the spec: `lastTime()`. -/
def sliceLastTime {α : Type} [SliceSample α] (sl : MemoryDataSlice α) : Rat :=
  match sl.data.getLast? with
  | some a => SliceSample.time a
  | none => -dblMax

/-- `setCurrent`. -/
def sliceSetCurrent {α : Type} (sl : MemoryDataSlice α) (c : Option α) :
    MemoryDataSlice α :=
  { sl with current := c }

/-- Modelled from the spec: `update(time)` without an interpolator —
exact/nearest lookup; `current` becomes the latest sample at or before
`t`, and the slice reports whether the published sample changed. -/
def sliceUpdateExact {α : Type} [SliceSample α] [DecidableEq α]
    (sl : MemoryDataSlice α) (t : Rat) : MemoryDataSlice α :=
  let c := (sl.data.filter fun a => SliceSample.time a ≤ t).getLast?
  { sl with current := c, changed := decide (c ≠ sl.current) }

/-- Modelled from the spec: the pluggable interpolator, "a pure function
from two time-bounded samples and a query time to an interpolated sample";
the payload interpolation itself is opaque to the store, so the model
re-stamps the earlier sample with the query time. -/
def interpSample {α : Type} [SliceSample α] (a _b : α) (t : Rat) : α :=
  SliceSample.withTime a t

/-- Modelled from the spec: `update(time, interpolator)` — exact sample if
one exists at `t`, an interpolated sample when `t` falls strictly between
two stored samples, and the boundary behavior of a nearest lookup
otherwise. -/
def sliceUpdateInterp {α : Type} [SliceSample α] [DecidableEq α]
    (sl : MemoryDataSlice α) (t : Rat) : MemoryDataSlice α :=
  let before := (sl.data.filter fun a => SliceSample.time a ≤ t).getLast?
  let after := (sl.data.filter fun a => t < SliceSample.time a).head?
  match before, after with
  | none, _ =>
    { sl with current := none, changed := decide ((none : Option α) ≠ sl.current) }
  | some b, none =>
    { sl with current := some b, changed := decide (some b ≠ sl.current) }
  | some b, some a =>
    if SliceSample.time b = t then
      { sl with current := some b, changed := decide (some b ≠ sl.current) }
    else
      let u := interpSample b a t
      { sl with current := some u, currentInterp := u,
                changed := decide (some u ≠ sl.current) }

/-- Modelled from the spec: `flush(startTime, endTime)` erases samples
with `startTime ≤ time < endTime`. -/
def sliceFlushRange {α : Type} [SliceSample α] (sl : MemoryDataSlice α)
    (startTime endTime : Rat) : MemoryDataSlice α :=
  { sl with data :=
      sl.data.filter fun a =>
        ¬(startTime ≤ SliceSample.time a ∧ SliceSample.time a < endTime) }

/-- Modelled from the spec: sorted insert (`insert` keeps slices ordered
by time). -/
def sliceInsert {α : Type} [SliceSample α] (sl : MemoryDataSlice α) (u : α) :
    MemoryDataSlice α :=
  { sl with data :=
      sl.data.takeWhile (fun a => SliceSample.time a ≤ SliceSample.time u) ++
      u :: sl.data.dropWhile (fun a => SliceSample.time a ≤ SliceSample.time u) }

/-- Modelled from the spec: `limitByPrefs` — oldest-first eviction beyond
the point count, and eviction of samples older than
(latest time − time span); a zero limit means unlimited. -/
def limitList {α : Type} [SliceSample α] (prefs : CommonPrefs) (l : List α) :
    List α :=
  let l1 := if prefs.datalimitpoints = 0 then l
            else l.drop (l.length - prefs.datalimitpoints)
  if prefs.datalimittime = 0 then l1
  else
    match l1.getLast? with
    | none => l1
    | some last =>
      l1.filter fun a =>
        SliceSample.time last - prefs.datalimittime ≤ SliceSample.time a

/-- `limitByPrefs` on a data slice. -/
def sliceLimitByPrefs {α : Type} [SliceSample α] (prefs : CommonPrefs)
    (sl : MemoryDataSlice α) : MemoryDataSlice α :=
  { sl with data := limitList prefs sl.data }

/-- `flush` on a command slice. -/
def commandFlushRange (cs : CommandSlice) (startTime endTime : Rat) :
    CommandSlice :=
  { cs with data :=
      cs.data.filter fun a => ¬(startTime ≤ a.1 ∧ a.1 < endTime) }

/-- `limitByPrefs` on a command slice (same eviction policy). -/
def commandLimitByPrefs (prefs : CommonPrefs) (cs : CommandSlice) :
    CommandSlice :=
  let l1 := if prefs.datalimitpoints = 0 then cs.data
            else cs.data.drop (cs.data.length - prefs.datalimitpoints)
  let l2 :=
    if prefs.datalimittime = 0 then l1
    else
      match l1.getLast? with
      | none => l1
      | some last => l1.filter fun a => last.1 - prefs.datalimittime ≤ a.1
  { data := l2 }

/-- Modelled from the spec: `MemoryGenericDataSlice` — a sparse tagged
time series with an unconditional `update(time)`. -/
structure MemoryGenericDataSlice where
  data : List (Rat × Nat)
  updateTime : Rat
  deriving DecidableEq, Repr

def genericUpdate (sl : MemoryGenericDataSlice) (t : Rat) :
    MemoryGenericDataSlice :=
  { sl with updateTime := t }

def genericFlushAll (sl : MemoryGenericDataSlice) : MemoryGenericDataSlice :=
  { sl with data := [] }

def genericFlushRange (sl : MemoryGenericDataSlice) (startTime endTime : Rat) :
    MemoryGenericDataSlice :=
  { sl with data := sl.data.filter fun a => ¬(startTime ≤ a.1 ∧ a.1 < endTime) }

def genericLimitByPrefs (prefs : CommonPrefs) (sl : MemoryGenericDataSlice) :
    MemoryGenericDataSlice :=
  let l1 := if prefs.datalimitpoints = 0 then sl.data
            else sl.data.drop (sl.data.length - prefs.datalimitpoints)
  { sl with data := l1 }

/-- Modelled from the spec: `MemoryCategoryDataSlice` — `update(time)`
reports whether the slice changed for the new time. -/
structure MemoryCategoryDataSlice where
  data : List (Rat × Nat)
  updateTime : Rat
  deriving DecidableEq, Repr

def categoryUpdate (sl : MemoryCategoryDataSlice) (t : Rat) :
    MemoryCategoryDataSlice × Bool :=
  ({ sl with updateTime := t }, decide (sl.updateTime ≠ t) && !sl.data.isEmpty)

def categoryFlushAll (sl : MemoryCategoryDataSlice) : MemoryCategoryDataSlice :=
  { sl with data := [] }

def categoryFlushRange (sl : MemoryCategoryDataSlice) (startTime endTime : Rat) :
    MemoryCategoryDataSlice :=
  { sl with data := sl.data.filter fun a => ¬(startTime ≤ a.1 ∧ a.1 < endTime) }

def categoryLimitByPrefs (prefs : CommonPrefs) (sl : MemoryCategoryDataSlice) :
    MemoryCategoryDataSlice :=
  let l1 := if prefs.datalimitpoints = 0 then sl.data
            else sl.data.drop (sl.data.length - prefs.datalimitpoints)
  { sl with data := l1 }

/-- Modelled from the spec: a data table owned by an entity (only row
times matter to flushing). -/
structure DataTableModel where
  rows : List Rat
  deriving DecidableEq, Repr

def tableFlushAll (tb : DataTableModel) : DataTableModel :=
  { tb with rows := [] }

def tableFlushRange (tb : DataTableModel) (startTime endTime : Rat) :
    DataTableModel :=
  { tb with rows := tb.rows.filter fun r => ¬(startTime ≤ r ∧ r < endTime) }

/-! ## Entries and the store -/

structure PlatformEntry where
  properties : PlatformProperties
  preferences : PlatformPrefs
  updates : MemoryDataSlice PlatformUpdate
  commands : CommandSlice
  deriving DecidableEq, Repr

structure BeamEntry where
  properties : BeamProperties
  preferences : BeamPrefs
  updates : MemoryDataSlice BeamUpdate
  commands : CommandSlice
  deriving DecidableEq, Repr

structure GateEntry where
  properties : GateProperties
  preferences : GatePrefs
  updates : MemoryDataSlice GateUpdate
  commands : CommandSlice
  deriving DecidableEq, Repr

structure LaserEntry where
  properties : HostedProperties
  preferences : LaserPrefs
  updates : MemoryDataSlice LaserUpdate
  commands : CommandSlice
  deriving DecidableEq, Repr

structure ProjectorEntry where
  properties : HostedProperties
  preferences : ProjectorPrefs
  updates : MemoryDataSlice ProjectorUpdate
  commands : CommandSlice
  deriving DecidableEq, Repr

structure LobGroupEntry where
  properties : HostedProperties
  preferences : LobGroupPrefs
  updates : MemoryDataSlice LobGroupUpdate
  commands : CommandSlice
  maxDataPoints : Nat
  maxDataSeconds : Rat
  deriving DecidableEq, Repr

structure CustomRenderingEntry where
  properties : HostedProperties
  preferences : CustomRenderingPrefs
  updates : MemoryDataSlice CustomRenderingUpdate
  commands : CommandSlice
  deriving DecidableEq, Repr

/-- `simData::ObjectType` (the bitmask member `ALL` is only used for
queries and is not a stored type). -/
inductive ObjectType where
  | none
  | platform
  | beam
  | gate
  | laser
  | projector
  | lobGroup
  | customRendering
  deriving DecidableEq, Repr

/-- The state of `simData::MemoryDataStore`: the seven per-type entity
containers, the shared generic/category/table maps, the listener list with
its deferred-removal buffer, and the scalar bookkeeping fields. -/
structure MemoryDataStore where
  baseId : ObjectId
  lastUpdateTime : Rat
  hasChanged : Bool
  interpolationEnabled : Bool
  hasInterpolator : Bool
  /-- `boundClock_`: `none` when no clock is bound, otherwise
  `some isLiveMode`. -/
  boundClock : Option Bool
  dataLimiting : Bool
  platforms : List (ObjectId × PlatformEntry)
  beams : List (ObjectId × BeamEntry)
  gates : List (ObjectId × GateEntry)
  lasers : List (ObjectId × LaserEntry)
  projectors : List (ObjectId × ProjectorEntry)
  lobGroups : List (ObjectId × LobGroupEntry)
  customRenderings : List (ObjectId × CustomRenderingEntry)
  genericData : List (ObjectId × MemoryGenericDataSlice)
  categoryData : List (ObjectId × MemoryCategoryDataSlice)
  dataTables : List (ObjectId × List DataTableModel)
  /-- `entityNameCache_`, keyed here by id. -/
  entityNames : List (ObjectId × String)
  /-- Listener identities (`ListenerPtr` values are modelled by ids). -/
  listeners : List Nat
  justRemoved : List Nat
  deriving DecidableEq, Repr

/-- Events delivered to listeners; each carries the receiving listener's
identity. -/
inductive DSEvent where
  | onChange (l : Nat)
  | onCategoryDataChange (l : Nat) (id : ObjectId) (ot : ObjectType)
  | onFlush (l : Nat) (id : ObjectId)
  | onPrefsChange (l : Nat) (id : ObjectId)
  | onPropertiesChange (l : Nat) (id : ObjectId)
  | onNameChange (l : Nat) (id : ObjectId)
  | onAddEntity (l : Nat) (id : ObjectId) (ot : ObjectType)
  | onRemoveEntity (l : Nat) (id : ObjectId) (ot : ObjectType)
  | onPostRemoveEntity (l : Nat) (id : ObjectId) (ot : ObjectType)
  deriving DecidableEq, Repr

/-- `MemoryDataStore::objectType` (lines 1396–1413): probe the containers
in declaration order. -/
def objectType (s : MemoryDataStore) (id : ObjectId) : ObjectType :=
  if (findA s.platforms id).isSome then .platform
  else if (findA s.beams id).isSome then .beam
  else if (findA s.gates id).isSome then .gate
  else if (findA s.lasers id).isSome then .laser
  else if (findA s.projectors id).isSome then .projector
  else if (findA s.lobGroups id).isSome then .lobGroup
  else if (findA s.customRenderings id).isSome then .customRendering
  else .none

/-- `beamIdListForHost`: ids of all beams whose properties' `hostid()`
equals the given host. -/
def beamIdListForHost (s : MemoryDataStore) (hostid : ObjectId) : List ObjectId :=
  (s.beams.filter fun p => hostidVal p.2.properties.hostid = hostid).map Prod.fst

/-- `gateIdListForHost`. -/
def gateIdListForHost (s : MemoryDataStore) (hostid : ObjectId) : List ObjectId :=
  (s.gates.filter fun p => hostidVal p.2.properties.hostid = hostid).map Prod.fst

/-- `laserIdListForHost`. -/
def laserIdListForHost (s : MemoryDataStore) (hostid : ObjectId) : List ObjectId :=
  (s.lasers.filter fun p => hostidVal p.2.properties.hostid = hostid).map Prod.fst

/-- `projectorIdListForHost`. -/
def projectorIdListForHost (s : MemoryDataStore) (hostid : ObjectId) :
    List ObjectId :=
  (s.projectors.filter fun p => hostidVal p.2.properties.hostid = hostid).map Prod.fst

/-- `lobGroupIdListForHost`. -/
def lobGroupIdListForHost (s : MemoryDataStore) (hostid : ObjectId) :
    List ObjectId :=
  (s.lobGroups.filter fun p => hostidVal p.2.properties.hostid = hostid).map Prod.fst

/-- `customRenderingIdListForHost`. -/
def customRenderingIdListForHost (s : MemoryDataStore) (hostid : ObjectId) :
    List ObjectId :=
  (s.customRenderings.filter fun p => hostidVal p.2.properties.hostid = hostid).map
    Prod.fst

/-! ## The update engine -/

/-- `isInterpolationEnabled()`: interpolation is on only when enabled and
an interpolator object is present. -/
def isInterpolationEnabled (s : MemoryDataStore) : Bool :=
  s.interpolationEnabled && s.hasInterpolator

/-- File mode (`updatePlatforms_` line 472): no bound clock, or the bound
clock is not in live mode. -/
def fileMode (s : MemoryDataStore) : Bool :=
  match s.boundClock with
  | none => true
  | some live => !live

/-- `platform->commands()->update(this, id, time)`. -/
def applyPlatformCommands (p : PlatformEntry) (t : Rat) : PlatformEntry :=
  { p with preferences :=
      { p.preferences with
          commonprefs := applyCommands p.preferences.commonprefs p.commands t } }

def applyBeamCommands (b : BeamEntry) (t : Rat) : BeamEntry :=
  { b with preferences :=
      { b.preferences with
          commonprefs := applyCommands b.preferences.commonprefs b.commands t } }

def applyGateCommands (g : GateEntry) (t : Rat) : GateEntry :=
  { g with preferences :=
      { g.preferences with
          commonprefs := applyCommands g.preferences.commonprefs g.commands t } }

def applyLaserCommands (l : LaserEntry) (t : Rat) : LaserEntry :=
  { l with preferences :=
      { l.preferences with
          commonprefs := applyCommands l.preferences.commonprefs l.commands t } }

def applyProjectorCommands (p : ProjectorEntry) (t : Rat) : ProjectorEntry :=
  { p with preferences :=
      { p.preferences with
          commonprefs := applyCommands p.preferences.commonprefs p.commands t } }

def applyLobGroupCommands (lg : LobGroupEntry) (t : Rat) : LobGroupEntry :=
  { lg with preferences :=
      { lg.preferences with
          commonprefs := applyCommands lg.preferences.commonprefs lg.commands t } }

def applyCustomRenderingCommands (c : CustomRenderingEntry) (t : Rat) :
    CustomRenderingEntry :=
  { c with preferences :=
      { c.preferences with
          commonprefs := applyCommands c.preferences.commonprefs c.commands t } }

/-- One platform iteration of `updatePlatforms_` (lines 474–505): apply
commands, clear the current sample while `datadraw` is off, expire
non-static platforms outside their time bounds in file mode, otherwise
interpolated or exact lookup. -/
def updatePlatformEntry (s : MemoryDataStore) (t : Rat) (p : PlatformEntry) :
    PlatformEntry :=
  let p := applyPlatformCommands p t
  if p.preferences.commonprefs.datadraw = false then
    { p with updates := sliceSetCurrent p.updates none }
  else if fileMode s = true ∧ sliceFirstTime p.updates ≠ -1 ∧
      (t < sliceFirstTime p.updates ∨ sliceLastTime p.updates < t) then
    { p with updates := sliceSetCurrent p.updates none }
  else if isInterpolationEnabled s = true ∧ p.preferences.interpolatepos = true then
    { p with updates := sliceUpdateInterp p.updates t }
  else
    { p with updates := sliceUpdateExact p.updates t }

/-- `updatePlatforms_`. -/
def updatePlatforms (s : MemoryDataStore) (t : Rat) : MemoryDataStore :=
  { s with platforms := mapVals s.platforms fun _ p => updatePlatformEntry s t p }

/-- Collapses the three platform early-outs of `updateTargetBeam_`
(lines 523–536 and 538–551): the platform must be present and its current
update must exist and have a position. -/
def platformCurrentPosition (platforms : List (ObjectId × PlatformEntry))
    (pid : ObjectId) : Option PlatformUpdate :=
  match findA platforms pid with
  | none => none
  | some pe =>
    match pe.updates.current with
    | none => none
    | some u => if u.hasPosition then some u else none

/-- Clear a beam's published sample (`beam->updates()->setCurrent(nullptr)`). -/
def clearBeamCurrent (b : BeamEntry) : BeamEntry :=
  { b with updates := sliceSetCurrent b.updates none }

/-- `MemoryDataStore::updateTargetBeam_` (lines 508–571). -/
def updateTargetBeam (platforms : List (ObjectId × PlatformEntry))
    (_id : ObjectId) (b : BeamEntry) (t : Rat) : BeamEntry :=
  if b.properties.hostid = none then clearBeamCurrent b
  else if b.preferences.targetid = none then clearBeamCurrent b
  else
    match platformCurrentPosition platforms (hostidVal b.properties.hostid) with
    | none => clearBeamCurrent b
    | some _ =>
      match platformCurrentPosition platforms (hostidVal b.preferences.targetid) with
      | none => clearBeamCurrent b
      | some _ =>
        let u0 := b.updates.currentInterp
        if b.updates.current = none ∨ u0.time ≠ t then
          let u : BeamUpdate :=
            { u0 with time := t, azimuth := 0, elevation := 0, range := 0 }
          { b with updates :=
              { b.updates with currentInterp := u, current := some u, changed := true } }
        else
          { b with updates := { b.updates with changed := false } }

/-- One beam iteration of `updateBeams_` (lines 575–590). -/
def updateBeamEntry (s : MemoryDataStore) (t : Rat) (id : ObjectId)
    (b : BeamEntry) : BeamEntry :=
  let b := applyBeamCommands b t
  if b.preferences.commonprefs.datadraw = false then clearBeamCurrent b
  else if b.properties.type = .target then updateTargetBeam s.platforms id b t
  else if isInterpolationEnabled s = true ∧ b.preferences.interpolatebeampos = true then
    { b with updates := sliceUpdateInterp b.updates t }
  else
    { b with updates := sliceUpdateExact b.updates t }

/-- `updateBeams_`. -/
def updateBeams (s : MemoryDataStore) (t : Rat) : MemoryDataStore :=
  { s with beams := mapVals s.beams fun id b => updateBeamEntry s t id b }

/-- Clear a gate's published sample. -/
def clearGateCurrent (g : GateEntry) : GateEntry :=
  { g with updates := sliceSetCurrent g.updates none }

/-- `MemoryDataStore::gateUsesBeamBeamwidth_` (lines 694–699). -/
def gateUsesBeamBeamwidth (g : GateEntry) : Bool :=
  match g.updates.current with
  | none => false
  | some cu =>
    g.properties.hostid.isSome && (decide (cu.height ≤ 0) || decide (cu.width ≤ 0))

/-- The body of `updateTargetGate_` after the host beam has been obtained
(lines 617–692): the compound guard of line 617 (minus the null test),
the two platform-position guards, the ordinary slice update, and the
republish-into-`currentInterpolated` logic. -/
def targetGateWithBeam (platforms : List (ObjectId × PlatformEntry))
    (interpEnabled : Bool) (beam : BeamEntry) (g : GateEntry) (t : Rat) :
    GateEntry :=
  if beam.properties.hostid = none ∨ beam.properties.type ≠ .target ∨
      beam.preferences.targetid = none then clearGateCurrent g
  else
    match platformCurrentPosition platforms (hostidVal beam.properties.hostid) with
    | none => clearGateCurrent g
    | some _ =>
      match platformCurrentPosition platforms (hostidVal beam.preferences.targetid) with
      | none => clearGateCurrent g
      | some _ =>
        let gateWasOff := g.updates.current = none
        let u0 := g.updates.currentInterp
        let lastTimeInterp := u0.time
        let g1 :=
          if interpEnabled = true ∧ g.preferences.interpolategatepos = true then
            { g with updates := sliceUpdateInterp g.updates t }
          else
            { g with updates := sliceUpdateExact g.updates t }
        match g1.updates.current with
        | none => g1
        | some currentUpdate =>
          if gateWasOff ∨ lastTimeInterp ≠ t ∨ gateUsesBeamBeamwidth g1 = true then
            let u : GateUpdate :=
              { u0 with time := t, azimuth := 0, elevation := 0,
                        minrange := currentUpdate.minrange,
                        maxrange := currentUpdate.maxrange,
                        centroid := currentUpdate.centroid }
            { g1 with updates :=
                { g1.updates with currentInterp := u, current := some u, changed := true } }
          else
            { g1 with updates := { g1.updates with changed := false } }

/-- `MemoryDataStore::updateTargetGate_` (lines 602–692) in release-build
semantics (`assert` compiled out): a missing host id, a host id that does
not resolve to a beam, a non-target host beam or a host beam without a
`targetid` preference all clear the gate's current sample. -/
def updateTargetGate (platforms : List (ObjectId × PlatformEntry))
    (beams : List (ObjectId × BeamEntry)) (interpEnabled : Bool)
    (g : GateEntry) (t : Rat) : GateEntry :=
  if g.properties.hostid = none then clearGateCurrent g
  else
    match findA beams (hostidVal g.properties.hostid) with
    | none => clearGateCurrent g
    | some beam => targetGateWithBeam platforms interpEnabled beam g t

/-- Faults observable when running the debug-build semantics of
`updateTargetGate_`. -/
inductive UpdateFault where
  | nullDeref
  | assertFail
  deriving DecidableEq, Repr

/-- `MemoryDataStore::updateTargetGate_` in debug-build semantics: the
`assert`s at lines 605 and 616 are evaluated in program order.  The
assert at line 616 reads `beam->properties()->type()` *before* the
`!beam` test on line 617, so a host id that resolves to no beam
dereferences a null pointer instead of failing the assertion. -/
def updateTargetGateDebug (platforms : List (ObjectId × PlatformEntry))
    (beams : List (ObjectId × BeamEntry)) (interpEnabled : Bool)
    (g : GateEntry) (t : Rat) : Except UpdateFault GateEntry :=
  if g.properties.type ≠ .target then .error .assertFail
  else if g.properties.hostid = none then .ok (clearGateCurrent g)
  else
    match findA beams (hostidVal g.properties.hostid) with
    | none => .error .nullDeref
    | some beam =>
      if beam.properties.type ≠ .target then .error .assertFail
      else .ok (targetGateWithBeam platforms interpEnabled beam g t)

/-- One gate iteration of `updateGates_` (lines 703–731). -/
def updateGateEntry (s : MemoryDataStore) (t : Rat) (_id : ObjectId)
    (g : GateEntry) : GateEntry :=
  let g := applyGateCommands g t
  if g.preferences.commonprefs.datadraw = false then clearGateCurrent g
  else if g.properties.type = .target then
    updateTargetGate s.platforms s.beams (isInterpolationEnabled s) g t
  else
    let g1 :=
      if isInterpolationEnabled s = true ∧ g.preferences.interpolategatepos = true then
        { g with updates := sliceUpdateInterp g.updates t }
      else
        { g with updates := sliceUpdateExact g.updates t }
    if gateUsesBeamBeamwidth g1 = true then
      { g1 with updates := { g1.updates with changed := true } }
    else g1

/-- `updateGates_`. -/
def updateGates (s : MemoryDataStore) (t : Rat) : MemoryDataStore :=
  { s with gates := mapVals s.gates fun id g => updateGateEntry s t id g }

/-- One laser iteration of `updateLasers_` (lines 736–750): lasers have no
interpolation preference — interpolation is on whenever the store
interpolates. -/
def updateLaserEntry (s : MemoryDataStore) (t : Rat) (l : LaserEntry) :
    LaserEntry :=
  let l := applyLaserCommands l t
  if l.preferences.commonprefs.datadraw = false then
    { l with updates := sliceSetCurrent l.updates none }
  else if isInterpolationEnabled s = true then
    { l with updates := sliceUpdateInterp l.updates t }
  else
    { l with updates := sliceUpdateExact l.updates t }

/-- `updateLasers_`. -/
def updateLasers (s : MemoryDataStore) (t : Rat) : MemoryDataStore :=
  { s with lasers := mapVals s.lasers fun _ l => updateLaserEntry s t l }

/-- One projector iteration of `updateProjectors_` (lines 755–765): apply
commands, then interpolated or exact lookup; there is no `datadraw` test
(compare `updateLasers_` line 743). -/
def updateProjectorEntry (s : MemoryDataStore) (t : Rat) (p : ProjectorEntry) :
    ProjectorEntry :=
  let p := applyProjectorCommands p t
  if isInterpolationEnabled s = true ∧ p.preferences.interpolateprojectorfov = true then
    { p with updates := sliceUpdateInterp p.updates t }
  else
    { p with updates := sliceUpdateExact p.updates t }

/-- `updateProjectors_`. -/
def updateProjectors (s : MemoryDataStore) (t : Rat) : MemoryDataStore :=
  { s with projectors := mapVals s.projectors fun _ p => updateProjectorEntry s t p }

/-- One lob-group iteration of `updateLobGroups_` (lines 771–789):
commands, re-read of the max-points/max-seconds limits from the current
preferences, then an exact slice update. -/
def updateLobGroupEntry (_s : MemoryDataStore) (t : Rat) (lg : LobGroupEntry) :
    LobGroupEntry :=
  let lg := applyLobGroupCommands lg t
  let lg := { lg with maxDataPoints := lg.preferences.maxdatapoints,
                      maxDataSeconds := lg.preferences.maxdataseconds }
  { lg with updates := sliceUpdateExact lg.updates t }

/-- `updateLobGroups_`. -/
def updateLobGroups (s : MemoryDataStore) (t : Rat) : MemoryDataStore :=
  { s with lobGroups := mapVals s.lobGroups fun _ lg => updateLobGroupEntry s t lg }

/-- `updateCustomRenderings_` (lines 792–800): commands only. -/
def updateCustomRenderings (s : MemoryDataStore) (t : Rat) : MemoryDataStore :=
  { s with customRenderings :=
      mapVals s.customRenderings fun _ c => applyCustomRenderingCommands c t }

/-- The category-data pass of `update` (lines 986–1006): update every
category slice and, for each slice that reports a change, notify every
listener with the id's object type. -/
def updateCategoryData (s : MemoryDataStore) (t : Rat) :
    MemoryDataStore × List DSEvent :=
  let step :=
    s.categoryData.foldl
      (fun (acc : List (ObjectId × MemoryCategoryDataSlice) × List DSEvent) p =>
        let r := categoryUpdate p.2 t
        let evs :=
          if r.2 then
            s.listeners.map fun l => DSEvent.onCategoryDataChange l p.1 (objectType s p.1)
          else []
        (acc.1 ++ [(p.1, r.1)], acc.2 ++ evs))
      ([], [])
  ({ s with categoryData := step.1 }, step.2)

/-- `MemoryDataStore::update` (lines 974–1025): short-circuit when nothing
changed and the time is unchanged; otherwise run the per-type passes in
order (platforms, beams, gates, generic data, category data with
interleaved notifications, lasers, projectors, lob groups, custom
renderings), record the new update time, clear the changed flag, and fire
`onChange` to every listener. -/
def update (s : MemoryDataStore) (t : Rat) : MemoryDataStore × List DSEvent :=
  if s.hasChanged = false ∧ t = s.lastUpdateTime then (s, [])
  else
    let s1 := updatePlatforms s t
    let s2 := updateBeams s1 t
    let s3 := updateGates s2 t
    let s4 := { s3 with genericData := mapVals s3.genericData fun _ sl => genericUpdate sl t }
    let r5 := updateCategoryData s4 t
    let s6 := updateLasers r5.1 t
    let s7 := updateProjectors s6 t
    let s8 := updateLobGroups s7 t
    let s9 := updateCustomRenderings s8 t
    let s10 := { s9 with lastUpdateTime := t, hasChanged := false }
    (s10, r5.2 ++ s10.listeners.map DSEvent.onChange)
/-! ## Entity removal -/

/-- Total number of entities in the seven containers. -/
def totalEntities (s : MemoryDataStore) : Nat :=
  s.platforms.length + s.beams.length + s.gates.length + s.lasers.length +
  s.projectors.length + s.lobGroups.length + s.customRenderings.length

/-- The bookkeeping `removeEntity` performs before the container search
(lines 1572–1592): mark changed, drop the entity-name cache entry, detach
the generic/category entries (non-owning) and delete the entity's data
tables. -/
def detachShared (s : MemoryDataStore) (id : ObjectId) : MemoryDataStore :=
  { s with hasChanged := true,
           entityNames := eraseKey s.entityNames id,
           genericData := eraseKey s.genericData id,
           categoryData := eraseKey s.categoryData id,
           dataTables := eraseKey s.dataTables id }

/-- The ids attached to a platform (lines 1603–1607): beams, lasers,
projectors, lob groups, custom renderings hosted on it. -/
def platformChildIds (s : MemoryDataStore) (id : ObjectId) : List ObjectId :=
  beamIdListForHost s id ++ laserIdListForHost s id ++
  projectorIdListForHost s id ++ lobGroupIdListForHost s id ++
  customRenderingIdListForHost s id

/-- The ids attached to a beam (lines 1622–1623): gates and projectors
hosted on it. -/
def beamChildIds (s : MemoryDataStore) (id : ObjectId) : List ObjectId :=
  gateIdListForHost s id ++ projectorIdListForHost s id

/-- Erase the platform entry for `id` (the `deleteFromMap(platforms_, id)`
call at line 1616). -/
def erasePlatformKey (s : MemoryDataStore) (id : ObjectId) : MemoryDataStore :=
  { s with platforms := eraseKey s.platforms id }

/-- Erase the beam entry for `id` (the `deleteFromMap(beams_, id)` call at
line 1632). -/
def eraseBeamKey (s : MemoryDataStore) (id : ObjectId) : MemoryDataStore :=
  { s with beams := eraseKey s.beams id }

/-- Platform branch of `removeEntity` (lines 1598–1616): after the shared
bookkeeping, recursively remove every hosted beam, laser, projector, lob
group and custom rendering, then erase the platform entry itself.  `rec`
is the recursive call at the next smaller budget.  The child lists are
computed on the incoming store; the C++ computes them after the shared
bookkeeping, which leaves the seven entity containers untouched. -/
def removeStepPlatform (rec : MemoryDataStore → ObjectId → MemoryDataStore)
    (s : MemoryDataStore) (id : ObjectId) : MemoryDataStore :=
  erasePlatformKey ((platformChildIds s id).foldl rec (detachShared s id)) id

/-- Beam branch of `removeEntity` (lines 1618–1632): recursively remove the
gates and projectors hosted on the beam, then erase the beam entry. -/
def removeStepBeam (rec : MemoryDataStore → ObjectId → MemoryDataStore)
    (s : MemoryDataStore) (id : ObjectId) : MemoryDataStore :=
  eraseBeamKey ((beamChildIds s id).foldl rec (detachShared s id)) id

/-- Leaf branches of `removeEntity` (lines 1634–1662): gates, lasers,
projectors, lob groups and custom renderings own no children, so the entry
is simply erased from whichever container holds it, after the shared
bookkeeping (a container of `detachShared s id` equals the same container
of `s`, so the searches are written on `s`). -/
def removeStepOther (s : MemoryDataStore) (id : ObjectId) : MemoryDataStore :=
  if (findA s.gates id).isSome then
    { detachShared s id with gates := eraseKey s.gates id }
  else if (findA s.lasers id).isSome then
    { detachShared s id with lasers := eraseKey s.lasers id }
  else if (findA s.projectors id).isSome then
    { detachShared s id with projectors := eraseKey s.projectors id }
  else if (findA s.lobGroups id).isSome then
    { detachShared s id with lobGroups := eraseKey s.lobGroups id }
  else if (findA s.customRenderings id).isSome then
    { detachShared s id with customRenderings := eraseKey s.customRenderings id }
  else detachShared s id

/-- `MemoryDataStore::removeEntity` (lines 1566–1663), written with an
explicit recursion budget: the C++ recursion is driven by which container
the id is found in (platform → hosted children → beam's gates/projectors),
so on stores whose containers have pairwise-disjoint keys the recursion
depth never exceeds three and the budget chosen by `removeEntity` below is
always sufficient.  The `onRemoveEntity`/`onPostRemoveEntity` listener
notifications touch no container state and are modelled separately by the
dispatch model, so this function returns only the store. -/
def removeEntityF : Nat → MemoryDataStore → ObjectId → MemoryDataStore
  | 0, s, _ => s
  | Nat.succ fuel, s, id =>
    if objectType s id = .none then s
    else if (findA s.platforms id).isSome then
      removeStepPlatform (fun st c => removeEntityF fuel st c) s id
    else if (findA s.beams id).isSome then
      removeStepBeam (fun st c => removeEntityF fuel st c) s id
    else removeStepOther s id

/-- `removeEntity(id)` with a recursion budget that cannot be exhausted on
stores with unique ids. -/
def removeEntity (s : MemoryDataStore) (id : ObjectId) : MemoryDataStore :=
  removeEntityF (totalEntities s + 1) s id

/-! ## Flushing -/

/-- Modelled from the spec: the `FlushFields` bitmask — "any combination
of {updates, commands, category-data, generic-data, data-tables}" plus the
`FLUSH_EXCLUDE_MINUS_ONE` start-time modifier. -/
structure FlushFields where
  updates : Bool
  commands : Bool
  categoryData : Bool
  genericData : Bool
  dataTables : Bool
  excludeMinusOne : Bool
  deriving DecidableEq, Repr

/-- Modelled from the spec: `FLUSH_ALL` selects all five data fields. -/
def FLUSH_ALL : FlushFields :=
  { updates := true, commands := true, categoryData := true,
    genericData := true, dataTables := true, excludeMinusOne := false }

/-- `simData::DataStore::FlushScope`. -/
inductive FlushScope where
  | nonrecursive
  | recursive
  deriving DecidableEq, Repr

/-- `flushEntityData(platforms_, id, ...)`: flush a platform's update and
command slices over the given time range. -/
def flushPlatformData (s : MemoryDataStore) (id : ObjectId) (fu fc : Bool)
    (st en : Rat) : MemoryDataStore :=
  { s with platforms := modifyVal s.platforms id fun e =>
      let e := if fu then { e with updates := sliceFlushRange e.updates st en } else e
      if fc then { e with commands := commandFlushRange e.commands st en } else e }

def flushBeamData (s : MemoryDataStore) (id : ObjectId) (fu fc : Bool)
    (st en : Rat) : MemoryDataStore :=
  { s with beams := modifyVal s.beams id fun e =>
      let e := if fu then { e with updates := sliceFlushRange e.updates st en } else e
      if fc then { e with commands := commandFlushRange e.commands st en } else e }

def flushGateData (s : MemoryDataStore) (id : ObjectId) (fu fc : Bool)
    (st en : Rat) : MemoryDataStore :=
  { s with gates := modifyVal s.gates id fun e =>
      let e := if fu then { e with updates := sliceFlushRange e.updates st en } else e
      if fc then { e with commands := commandFlushRange e.commands st en } else e }

def flushLaserData (s : MemoryDataStore) (id : ObjectId) (fu fc : Bool)
    (st en : Rat) : MemoryDataStore :=
  { s with lasers := modifyVal s.lasers id fun e =>
      let e := if fu then { e with updates := sliceFlushRange e.updates st en } else e
      if fc then { e with commands := commandFlushRange e.commands st en } else e }

def flushProjectorData (s : MemoryDataStore) (id : ObjectId) (fu fc : Bool)
    (st en : Rat) : MemoryDataStore :=
  { s with projectors := modifyVal s.projectors id fun e =>
      let e := if fu then { e with updates := sliceFlushRange e.updates st en } else e
      if fc then { e with commands := commandFlushRange e.commands st en } else e }

def flushLobGroupData (s : MemoryDataStore) (id : ObjectId) (fu fc : Bool)
    (st en : Rat) : MemoryDataStore :=
  { s with lobGroups := modifyVal s.lobGroups id fun e =>
      let e := if fu then { e with updates := sliceFlushRange e.updates st en } else e
      if fc then { e with commands := commandFlushRange e.commands st en } else e }

def flushCustomRenderingData (s : MemoryDataStore) (id : ObjectId) (fu fc : Bool)
    (st en : Rat) : MemoryDataStore :=
  { s with customRenderings := modifyVal s.customRenderings id fun e =>
      let e := if fu then { e with updates := sliceFlushRange e.updates st en } else e
      if fc then { e with commands := commandFlushRange e.commands st en } else e }

/-- Category-data block of the `flushEntity_` tail (lines 868–878): full
clear only for the `(0, max, FLUSH_EXCLUDE_MINUS_ONE)` combination,
otherwise a ranged flush. -/
def flushCatStep (s : MemoryDataStore) (id : ObjectId) (ff : FlushFields)
    (st en : Rat) : MemoryDataStore :=
  if ff.categoryData then
    { s with categoryData := modifyVal s.categoryData id fun sl =>
        if st = 0 ∧ en = dblMax ∧ ff.excludeMinusOne = true then categoryFlushAll sl
        else categoryFlushRange sl st en }
  else s

/-- Generic-data block of the `flushEntity_` tail (lines 880–890): full
clear whenever `startTime ≤ 0` and `endTime` is the double maximum. -/
def flushGenStep (s : MemoryDataStore) (id : ObjectId) (ff : FlushFields)
    (st en : Rat) : MemoryDataStore :=
  if ff.genericData then
    { s with genericData := modifyVal s.genericData id fun sl =>
        if st ≤ 0 ∧ en = dblMax then genericFlushAll sl
        else genericFlushRange sl st en }
  else s

/-- Data-table block of the `flushEntity_` tail (lines 892–893 via
`flushDataTables_`). -/
def flushTabStep (s : MemoryDataStore) (id : ObjectId) (ff : FlushFields)
    (st en : Rat) : MemoryDataStore :=
  if ff.dataTables then
    { s with dataTables := modifyVal s.dataTables id fun tl =>
        tl.map fun tb =>
          if st ≤ 0 ∧ en = dblMax then tableFlushAll tb
          else tableFlushRange tb st en }
  else s

/-- The category/generic/data-table blocks at the end of `flushEntity_`
(lines 868–893). -/
def flushCommonTail (s : MemoryDataStore) (id : ObjectId) (ff : FlushFields)
    (st en : Rat) : MemoryDataStore :=
  flushTabStep (flushGenStep (flushCatStep s id ff st en) id ff st en) id ff st en

/-- The slice part of the non-recursive cases of the `flushEntity_` switch
(GATE, LASER, LOB_GROUP, PROJECTOR, CUSTOM_RENDERING; NONE/ALL flush no
slices). -/
def flushOtherData (s : MemoryDataStore) (id : ObjectId) (ty : ObjectType)
    (ff : FlushFields) (st en : Rat) : MemoryDataStore :=
  match ty with
  | .gate => flushGateData s id ff.updates ff.commands st en
  | .laser => flushLaserData s id ff.updates ff.commands st en
  | .lobGroup => flushLobGroupData s id ff.updates ff.commands st en
  | .projector => flushProjectorData s id ff.updates ff.commands st en
  | .customRendering => flushCustomRenderingData s id ff.updates ff.commands st en
  | _ => s

/-- Non-recursive cases of `flushEntity_`, plus the common tail. -/
def flushEntityOther (s : MemoryDataStore) (id : ObjectId) (ty : ObjectType)
    (ff : FlushFields) (st en : Rat) : MemoryDataStore :=
  flushCommonTail (flushOtherData s id ty ff st en) id ff st en

/-- The recursive block of the BEAM case (lines 838–845): flush hosted
gates, then hosted projectors (each list gathered from the store state at
that point). -/
def flushBeamGateFold (s : MemoryDataStore) (id : ObjectId) (ff : FlushFields)
    (st en : Rat) : MemoryDataStore :=
  (gateIdListForHost s id).foldl
    (fun st2 g => flushEntityOther st2 g .gate ff st en) s

def flushBeamProjFold (s : MemoryDataStore) (id : ObjectId) (ff : FlushFields)
    (st en : Rat) : MemoryDataStore :=
  (projectorIdListForHost s id).foldl
    (fun st2 q => flushEntityOther st2 q .projector ff st en) s

def flushBeamChildren (s : MemoryDataStore) (id : ObjectId) (ff : FlushFields)
    (st en : Rat) : MemoryDataStore :=
  flushBeamProjFold (flushBeamGateFold s id ff st en) id ff st en

/-- The BEAM case of `flushEntity_` (lines 835–847): own slices, then —
recursively — hosted gates and projectors, plus the common tail.  The C++
recursive calls pass the child's type explicitly, so the recursion is
type-directed and is unfolded here by type. -/
def flushEntityBeam (s : MemoryDataStore) (id : ObjectId) (scope : FlushScope)
    (ff : FlushFields) (st en : Rat) : MemoryDataStore :=
  flushCommonTail
    (if scope = .recursive then
      flushBeamChildren (flushBeamData s id ff.updates ff.commands st en) id ff st en
    else flushBeamData s id ff.updates ff.commands st en) id ff st en

/-- The recursive block of the PLATFORM case (lines 812–833): flush hosted
beams (recursively), lasers, lob groups, projectors and custom renderings,
in the source's order. -/
def flushPlatBeamFold (s : MemoryDataStore) (id : ObjectId) (scope : FlushScope)
    (ff : FlushFields) (st en : Rat) : MemoryDataStore :=
  (beamIdListForHost s id).foldl
    (fun st2 b => flushEntityBeam st2 b scope ff st en) s

def flushPlatLaserFold (s : MemoryDataStore) (id : ObjectId) (ff : FlushFields)
    (st en : Rat) : MemoryDataStore :=
  (laserIdListForHost s id).foldl
    (fun st2 l => flushEntityOther st2 l .laser ff st en) s

def flushPlatLobFold (s : MemoryDataStore) (id : ObjectId) (ff : FlushFields)
    (st en : Rat) : MemoryDataStore :=
  (lobGroupIdListForHost s id).foldl
    (fun st2 o => flushEntityOther st2 o .lobGroup ff st en) s

def flushPlatProjFold (s : MemoryDataStore) (id : ObjectId) (ff : FlushFields)
    (st en : Rat) : MemoryDataStore :=
  (projectorIdListForHost s id).foldl
    (fun st2 q => flushEntityOther st2 q .projector ff st en) s

def flushPlatCrFold (s : MemoryDataStore) (id : ObjectId) (ff : FlushFields)
    (st en : Rat) : MemoryDataStore :=
  (customRenderingIdListForHost s id).foldl
    (fun st2 c => flushEntityOther st2 c .customRendering ff st en) s

def flushPlatformChildren (s : MemoryDataStore) (id : ObjectId)
    (scope : FlushScope) (ff : FlushFields) (st en : Rat) : MemoryDataStore :=
  flushPlatCrFold
    (flushPlatProjFold
      (flushPlatLobFold
        (flushPlatLaserFold
          (flushPlatBeamFold s id scope ff st en) id ff st en) id ff st en)
      id ff st en) id ff st en

/-- The PLATFORM case of `flushEntity_` (lines 810–834): own slices, then
— recursively — the hosted subtrees, plus the common tail. -/
def flushEntityPlatform (s : MemoryDataStore) (id : ObjectId) (scope : FlushScope)
    (ff : FlushFields) (st en : Rat) : MemoryDataStore :=
  flushCommonTail
    (if scope = .recursive then
      flushPlatformChildren (flushPlatformData s id ff.updates ff.commands st en)
        id scope ff st en
    else flushPlatformData s id ff.updates ff.commands st en) id ff st en

/-- `MemoryDataStore::flushEntity_` (lines 802–894). -/
def flushEntity (s : MemoryDataStore) (id : ObjectId) (ty : ObjectType)
    (scope : FlushScope) (ff : FlushFields) (st en : Rat) : MemoryDataStore :=
  match ty with
  | .platform => flushEntityPlatform s id scope ff st en
  | .beam => flushEntityBeam s id scope ff st en
  | _ => flushEntityOther s id ty ff st en

/-- `MemoryDataStore::flush(id, scope, fields)` (lines 1083–1143): the
start time is 0 when `FLUSH_EXCLUDE_MINUS_ONE` is set and −1 otherwise,
the end time is the double maximum; id 0 flushes every platform and
custom-rendering subtree (when recursive) plus scenario tables/generic
data; an unknown nonzero id returns 1 without marking the store changed or
notifying; otherwise the entity subtree is flushed, the store is marked
changed and `onFlush` fires to every listener.  (The additional
`newUpdatesListener_` callback is an external observer and is not
modelled.) -/
def flushStart (ff : FlushFields) : Rat :=
  if ff.excludeMinusOne then 0 else -1

/-- The store produced by a nonzero-id flush: the entity subtree flushed,
then the store marked changed. -/
def flushedResult (s : MemoryDataStore) (id : ObjectId) (scope : FlushScope)
    (ff : FlushFields) : MemoryDataStore :=
  { flushEntity s id (objectType s id) scope ff (flushStart ff) dblMax with
      hasChanged := true }

def flushStore (s : MemoryDataStore) (id : ObjectId) (scope : FlushScope)
    (ff : FlushFields) : MemoryDataStore × List DSEvent × Int :=
  if id = 0 then
    let st : Rat := flushStart ff
    let en : Rat := dblMax
    let s :=
      if scope = .recursive then
        let s := s.platforms.foldl
          (fun st2 p => flushEntityPlatform st2 p.1 scope ff st en) s
        s.customRenderings.foldl
          (fun st2 p => flushEntityOther st2 p.1 .customRendering ff st en) s
      else s
    let s :=
      if ff.dataTables then
        { s with dataTables := modifyVal s.dataTables 0 fun tl =>
            tl.map fun tb =>
              if st ≤ 0 ∧ en = dblMax then tableFlushAll tb
              else tableFlushRange tb st en }
      else s
    let s :=
      if ff.genericData then
        { s with genericData := modifyVal s.genericData 0 fun sl =>
            if st ≤ 0 ∧ en = dblMax then genericFlushAll sl
            else genericFlushRange sl st en }
      else s
    let s := { s with hasChanged := true }
    (s, s.listeners.map fun l => DSEvent.onFlush l 0, 0)
  else if objectType s id = .none then (s, [], 1)
  else
    (flushedResult s id scope ff,
     (flushedResult s id scope ff).listeners.map fun l => DSEvent.onFlush l id, 0)
/-! ## Common preferences and data limiting -/

/-- `MemoryDataStore::commonPrefs` (lines 2005–2030): probe the per-type
preference accessors in order. -/
def commonPrefs (s : MemoryDataStore) (id : ObjectId) : Option CommonPrefs :=
  match findA s.platforms id with
  | some e => some e.preferences.commonprefs
  | none =>
    match findA s.beams id with
    | some e => some e.preferences.commonprefs
    | none =>
      match findA s.gates id with
      | some e => some e.preferences.commonprefs
      | none =>
        match findA s.lasers id with
        | some e => some e.preferences.commonprefs
        | none =>
          match findA s.lobGroups id with
          | some e => some e.preferences.commonprefs
          | none =>
            match findA s.projectors id with
            | some e => some e.preferences.commonprefs
            | none =>
              match findA s.customRenderings id with
              | some e => some e.preferences.commonprefs
              | none => none

/-- `MemoryDataStore::applyDataLimiting_` (lines 1145–1188): a no-op
unless limiting is enabled; otherwise the entity's update and command
slices, and its generic and category slices, self-trim by the entity's
common preferences.  (When the id resolves to no entity the C++ would
dereference a null preferences pointer in the generic/category block; that
state is unreachable through the public interface and is modelled as a
no-op.) -/
def applyDataLimiting (s : MemoryDataStore) (id : ObjectId) : MemoryDataStore :=
  if s.dataLimiting = false then s
  else
    match commonPrefs s id with
    | none => s
    | some prefs =>
      let s :=
        match objectType s id with
        | .platform =>
          { s with platforms := modifyVal s.platforms id fun e =>
              { e with updates := sliceLimitByPrefs prefs e.updates,
                       commands := commandLimitByPrefs prefs e.commands } }
        | .beam =>
          { s with beams := modifyVal s.beams id fun e =>
              { e with updates := sliceLimitByPrefs prefs e.updates,
                       commands := commandLimitByPrefs prefs e.commands } }
        | .gate =>
          { s with gates := modifyVal s.gates id fun e =>
              { e with updates := sliceLimitByPrefs prefs e.updates,
                       commands := commandLimitByPrefs prefs e.commands } }
        | .laser =>
          { s with lasers := modifyVal s.lasers id fun e =>
              { e with updates := sliceLimitByPrefs prefs e.updates,
                       commands := commandLimitByPrefs prefs e.commands } }
        | .lobGroup =>
          { s with lobGroups := modifyVal s.lobGroups id fun e =>
              { e with updates := sliceLimitByPrefs prefs e.updates,
                       commands := commandLimitByPrefs prefs e.commands } }
        | .projector =>
          { s with projectors := modifyVal s.projectors id fun e =>
              { e with updates := sliceLimitByPrefs prefs e.updates,
                       commands := commandLimitByPrefs prefs e.commands } }
        | .customRendering =>
          { s with customRenderings := modifyVal s.customRenderings id fun e =>
              { e with updates := sliceLimitByPrefs prefs e.updates,
                       commands := commandLimitByPrefs prefs e.commands } }
        | .none => s
      let s := { s with
        genericData := modifyVal s.genericData id (genericLimitByPrefs prefs) }
      { s with
        categoryData := modifyVal s.categoryData id (categoryLimitByPrefs prefs) }

/-! ## Transactions

Each transaction implementation is modelled by a state record mirroring
the C++ members, a `commit` and a `release`; the destructor calls
`release`.  The live object a settings transaction points to is passed as
a value together with a function that writes it back into the store
(modelling `currentSettings_`, a pointer into the entry). -/

/-- Members of `MutableSettingsTransactionImpl<T>` (lines 2613–2627). -/
structure MutableSettingsTxn (P : Type) where
  id : ObjectId
  committed : Bool
  notified : Bool
  nameChange : Bool
  oldName : String
  newName : String
  modifiedSettings : P
  deriving DecidableEq, Repr

/-- The constructor: flags cleared, scratch copy of the live settings. -/
def mkMutableSettingsTxn {P : Type} (id : ObjectId) (live : P) :
    MutableSettingsTxn P :=
  { id := id, committed := false, notified := false, nameChange := false,
    oldName := "", newName := "", modifiedSettings := live }

/-- `MutableSettingsTransactionImpl<T>::commit` (lines 2629–2658):
skip when the serialized scratch equals the live value; otherwise detect a
name change (name differs, or alias differs while aliasing is on, or the
aliasing toggle changed), copy the scratch over the live value, apply data
limiting and mark the store changed. -/
def mutableSettingsCommit {P : Type} [DecidableEq P] (common : P → CommonPrefs)
    (live : P) (setLive : MemoryDataStore → P → MemoryDataStore)
    (txn : MutableSettingsTxn P) (s : MemoryDataStore) :
    MutableSettingsTxn P × MemoryDataStore :=
  if txn.modifiedSettings ≠ live then
    let useAlias := (common txn.modifiedSettings).usealias
    let useAliasChanged := useAlias ≠ (common live).usealias
    let nameChanged := (common txn.modifiedSettings).name ≠ (common live).name
    let aliasChanged := useAlias = true ∧
      (common txn.modifiedSettings).aliasName ≠ (common live).aliasName
    let txn :=
      if nameChanged ∨ aliasChanged ∨ useAliasChanged then
        { txn with committed := true, nameChange := true,
                   oldName := (common live).name,
                   newName := (common txn.modifiedSettings).name }
      else { txn with committed := true }
    let s := setLive s txn.modifiedSettings
    let s := applyDataLimiting s txn.id
    (txn, { s with hasChanged := true })
  else (txn, s)

/-- `entityNameCache_->nameChange(newName, oldName, id)`. -/
def nameCacheChange (cache : List (ObjectId × String)) (id : ObjectId)
    (newName : String) : List (ObjectId × String) :=
  modifyVal cache id fun _ => newName

/-- `MutableSettingsTransactionImpl<T>::release` (lines 2661–2690):
nothing happens unless committed and not yet notified; otherwise the name
cache is updated when the recorded names differ, and every listener
receives `onPrefsChange` followed — when a name change was recorded — by
`onNameChange`. -/
def mutableSettingsRelease {P : Type} (txn : MutableSettingsTxn P)
    (s : MemoryDataStore) : MutableSettingsTxn P × MemoryDataStore × List DSEvent :=
  if txn.committed = true ∧ txn.notified = false then
    let s :=
      if txn.nameChange = true ∧ txn.oldName ≠ txn.newName then
        { s with entityNames := nameCacheChange s.entityNames txn.id txn.newName }
      else s
    let evs := s.listeners.foldr
      (fun l acc =>
        DSEvent.onPrefsChange l txn.id ::
          (if txn.nameChange then DSEvent.onNameChange l txn.id :: acc else acc))
      []
    ({ txn with notified := true }, s, evs)
  else (txn, s, [])

/-- Members of `MutablePropertyTransactionImpl<T>` (lines 2700–2713). -/
structure MutablePropertyTxn (P : Type) where
  id : ObjectId
  committed : Bool
  notified : Bool
  modifiedProperties : P
  deriving DecidableEq, Repr

def mkMutablePropertyTxn {P : Type} (id : ObjectId) (live : P) :
    MutablePropertyTxn P :=
  { id := id, committed := false, notified := false, modifiedProperties := live }

/-- `MutablePropertyTransactionImpl<T>::commit` (lines 2715–2727). -/
def mutablePropertyCommit {P : Type} [DecidableEq P] (live : P)
    (setLive : MemoryDataStore → P → MemoryDataStore)
    (txn : MutablePropertyTxn P) (s : MemoryDataStore) :
    MutablePropertyTxn P × MemoryDataStore :=
  if txn.modifiedProperties ≠ live then
    ({ txn with committed := true },
     { setLive s txn.modifiedProperties with hasChanged := true })
  else (txn, s)

/-- `MutablePropertyTransactionImpl<T>::release` (lines 2730–2751). -/
def mutablePropertyRelease {P : Type} (txn : MutablePropertyTxn P)
    (s : MemoryDataStore) : MutablePropertyTxn P × MemoryDataStore × List DSEvent :=
  if txn.committed = true ∧ txn.notified = false then
    ({ txn with notified := true }, s,
     s.listeners.map fun l => DSEvent.onPropertiesChange l txn.id)
  else (txn, s, [])

/-- Members of `NewEntryTransactionImpl<T, P>`. -/
structure NewEntryTxn (E : Type) where
  committed : Bool
  notified : Bool
  initialId : ObjectId
  entry : Option E
  deriving DecidableEq, Repr

def mkNewEntryTxn {E : Type} (id : ObjectId) (e : E) : NewEntryTxn E :=
  { committed := false, notified := false, initialId := id, entry := some e }

/-- `NewEntryTransactionImpl<T, P>::commit` (lines 2814–2854): assign the
default preferences and insert the staged entry into its container;
container insertion and generic/category registration are supplied by the
caller per entity type (`insertEntry`). -/
def newEntryCommit {E : Type} (applyDefaults : E → E)
    (insertEntry : MemoryDataStore → E → MemoryDataStore)
    (txn : NewEntryTxn E) (s : MemoryDataStore) :
    NewEntryTxn E × MemoryDataStore :=
  if txn.committed = false then
    match txn.entry with
    | none => (txn, s)
    | some e =>
      let e := applyDefaults e
      ({ txn with committed := true, entry := some e },
       { insertEntry s e with hasChanged := true })
  else (txn, s)

/-- `NewEntryTransactionImpl<T, P>::release` (lines 2856–2888): without a
commit the staged entry is deleted and nothing else happens; after a
commit, `onAddEntity` fires once to every listener. -/
def newEntryRelease {E : Type} (txn : NewEntryTxn E) (s : MemoryDataStore) :
    NewEntryTxn E × MemoryDataStore × List DSEvent :=
  if txn.committed = false then
    ({ txn with entry := none }, s, [])
  else if txn.notified = false then
    ({ txn with notified := true }, s,
     s.listeners.map fun l =>
       DSEvent.onAddEntity l txn.initialId (objectType s txn.initialId))
  else (txn, s, [])

/-- Members of `NewUpdateTransactionImpl<T, SliceType>`; `isEntityUpdate`
distinguishes new-update transactions from new-command transactions. -/
structure NewUpdateTxn (α : Type) where
  committed : Bool
  id : ObjectId
  isEntityUpdate : Bool
  update : Option α
  deriving DecidableEq, Repr

def mkNewUpdateTxn {α : Type} (id : ObjectId) (isEntityUpdate : Bool) (u : α) :
    NewUpdateTxn α :=
  { committed := false, id := id, isEntityUpdate := isEntityUpdate, update := some u }

/-- `NewUpdateTransactionImpl::commit` (lines 2898–2923) specialized to
platform updates: sorted insert, optional data limiting, mark changed.
(The `newUpdatesListener_` callback is an external observer and is not
modelled.) -/
def newPlatformUpdateCommit (txn : NewUpdateTxn PlatformUpdate)
    (s : MemoryDataStore) : NewUpdateTxn PlatformUpdate × MemoryDataStore :=
  if txn.committed = false then
    match txn.update with
    | none => (txn, s)
    | some u =>
      let s := { s with platforms := modifyVal s.platforms txn.id fun e =>
                  { e with updates := sliceInsert e.updates u } }
      let s :=
        if s.dataLimiting = true then
          match commonPrefs s txn.id with
          | none => s
          | some prefs =>
            { s with platforms := modifyVal s.platforms txn.id fun e =>
                { e with updates := sliceLimitByPrefs prefs e.updates } }
        else s
      ({ txn with committed := true }, { s with hasChanged := true })
  else (txn, s)

/-- `NewUpdateTransactionImpl::release` (lines 2942–2951): without a
commit the heap sample is deleted; the store is untouched and no
notification fires in either case. -/
def newUpdateRelease {α : Type} (txn : NewUpdateTxn α) (s : MemoryDataStore) :
    NewUpdateTxn α × MemoryDataStore × List DSEvent :=
  if txn.committed = false then
    ({ txn with update := none }, s, [])
  else (txn, s, [])

/-! ## The listener dispatch model

`MemoryDataStore` dispatch loops (e.g. `update` lines 1017–1024, `flush`
lines 1131–1138, `removeEntity` lines 1577–1584, settings release lines
2676–2688) all follow one pattern: copy the listener list, clear
`justRemoved_`, and after each callback invocation run `checkForRemoval_`
(lines 2526–2542), which nulls the first snapshot entry matching each
just-removed listener.  Listeners are identified by `Nat`; a callback's
effect on the listener list is given by `act l`, the list of
`removeListener` calls the callback `l` performs. -/

/-- The listener-list state: the master list and the `justRemoved_`
staging buffer. -/
structure ListenerState where
  listeners : List Nat
  justRemoved : List Nat
  deriving DecidableEq, Repr

/-- `MemoryDataStore::removeListener` (lines 2516–2524): erase the first
matching master entry and stage the listener in `justRemoved_`; not found
means no effect. -/
def removeListenerM (st : ListenerState) (l : Nat) : ListenerState :=
  if l ∈ st.listeners then
    { listeners := st.listeners.erase l, justRemoved := st.justRemoved ++ [l] }
  else st

/-- `std::find` + `reset()`: null the first snapshot entry equal to the
given listener. -/
def resetFirst : List (Option Nat) → Nat → List (Option Nat)
  | [], _ => []
  | o :: rest, l => if o = some l then none :: rest else o :: resetFirst rest l

/-- `MemoryDataStore::checkForRemoval_` (lines 2526–2542). -/
def checkForRemoval (snap : List (Option Nat)) (st : ListenerState) :
    List (Option Nat) × ListenerState :=
  if st.justRemoved.isEmpty then (snap, st)
  else (st.justRemoved.foldl resetFirst snap, { st with justRemoved := [] })

/-- The dispatch loop from snapshot position `i` on: invoke each non-null
snapshot entry, apply its removal requests, then run `checkForRemoval_`.
The first argument is a step budget instantiated with the snapshot length
(the snapshot's length never changes). -/
def dispatchFrom (act : Nat → List Nat) :
    Nat → Nat → List (Option Nat) → ListenerState → List Nat →
    List (Option Nat) × ListenerState × List Nat
  | 0, _, snap, st, calls => (snap, st, calls)
  | Nat.succ k, i, snap, st, calls =>
    match snap[i]? with
    | none => (snap, st, calls)
    | some none => dispatchFrom act k (i + 1) snap st calls
    | some (some l) =>
      let calls := calls ++ [l]
      let st := (act l).foldl removeListenerM st
      let r := checkForRemoval snap st
      dispatchFrom act k (i + 1) r.1 r.2 calls

/-- One full dispatch pass: snapshot the master list, clear
`justRemoved_`, and run the loop. -/
def dispatchPass (act : Nat → List Nat) (master : List Nat) :
    List (Option Nat) × ListenerState × List Nat :=
  let snap := master.map some
  dispatchFrom act snap.length 0 snap { listeners := master, justRemoved := [] } []
/-! ## Association-list lemmas -/

theorem findA_mapVals {β : Type} (l : List (ObjectId × β)) (f : ObjectId → β → β)
    (id : ObjectId) : findA (mapVals l f) id = (findA l id).map (f id) := by
  induction l with
  | nil => rfl
  | cons p rest ih =>
    obtain ⟨k, v⟩ := p
    by_cases h : k = id
    · subst h
      simp [mapVals, findA]
    · simpa [mapVals, findA, h] using ih

theorem findA_eq_none_iff {β : Type} (l : List (ObjectId × β)) (id : ObjectId) :
    findA l id = none ↔ id ∉ keysOf l := by
  induction l with
  | nil => simp [findA, keysOf]
  | cons p rest ih =>
    obtain ⟨k, v⟩ := p
    by_cases h : k = id
    · subst h
      simp [findA, keysOf]
    · rw [findA, if_neg h]
      have hk : keysOf ((k, v) :: rest) = k :: keysOf rest := rfl
      rw [hk, ih]
      constructor
      · intro hn hmem
        rcases List.mem_cons.mp hmem with he | hm
        · exact h he.symm
        · exact hn hm
      · intro hn hm
        exact hn (List.mem_cons_of_mem _ hm)

theorem findA_isSome_iff {β : Type} (l : List (ObjectId × β)) (id : ObjectId) :
    (findA l id).isSome = true ↔ id ∈ keysOf l := by
  rcases he : findA l id with _ | v
  · simp [Option.isSome]
    exact (findA_eq_none_iff l id).mp he
  · simp [Option.isSome]
    by_contra hmem
    rw [← findA_eq_none_iff l id] at hmem
    rw [he] at hmem
    cases hmem

theorem eraseKey_sublist {β : Type} (l : List (ObjectId × β)) (id : ObjectId) :
    (eraseKey l id).Sublist l := by
  induction l with
  | nil => simp [eraseKey]
  | cons p rest ih =>
    obtain ⟨k, v⟩ := p
    by_cases h : k = id
    · simp [eraseKey, h]
    · simpa [eraseKey, h] using ih.cons₂ (k, v)

theorem mem_of_findA_eq_some {β : Type} {l : List (ObjectId × β)} {id : ObjectId}
    {v : β} (h : findA l id = some v) : (id, v) ∈ l := by
  induction l with
  | nil => cases h
  | cons p rest ih =>
    obtain ⟨k, w⟩ := p
    by_cases hk : k = id
    · subst hk
      simp [findA] at h
      subst h
      exact List.mem_cons_self _ _
    · simp [findA, hk] at h
      exact List.mem_cons_of_mem _ (ih h)

theorem findA_eq_some_of_mem {β : Type} {l : List (ObjectId × β)} {id : ObjectId}
    {v : β} (hnd : (keysOf l).Nodup) (h : (id, v) ∈ l) : findA l id = some v := by
  induction l with
  | nil => cases h
  | cons p rest ih =>
    obtain ⟨k, w⟩ := p
    rw [keysOf, List.map_cons, List.nodup_cons] at hnd
    rcases List.mem_cons.mp h with he | hm
    · rw [← he]
      simp [findA]
    · have hk : k ≠ id := by
        intro hkid
        subst hkid
        exact hnd.1 (List.mem_map.mpr ⟨(k, v), hm, rfl⟩)
      simpa [findA, hk] using ih hnd.2 hm

theorem findA_eraseKey_self {β : Type} (l : List (ObjectId × β)) (id : ObjectId)
    (hnd : (keysOf l).Nodup) : findA (eraseKey l id) id = none := by
  induction l with
  | nil => rfl
  | cons p rest ih =>
    obtain ⟨k, v⟩ := p
    rw [keysOf, List.map_cons, List.nodup_cons] at hnd
    by_cases h : k = id
    · subst h
      rw [eraseKey, if_pos rfl, findA_eq_none_iff]
      exact hnd.1
    · simpa [eraseKey, findA, h] using ih hnd.2

theorem findA_eraseKey_ne {β : Type} (l : List (ObjectId × β)) {id k : ObjectId}
    (h : k ≠ id) : findA (eraseKey l id) k = findA l k := by
  induction l with
  | nil => rfl
  | cons p rest ih =>
    obtain ⟨k2, v⟩ := p
    by_cases h2 : k2 = id
    · subst h2
      rw [eraseKey, if_pos rfl, findA, if_neg fun hh : k2 = k => h hh.symm]
    · by_cases h3 : k2 = k
      · subst h3
        simp [eraseKey, h2, findA]
      · simpa [eraseKey, findA, h2, h3] using ih

theorem keysOf_sublist_of_sublist {β : Type} {l l2 : List (ObjectId × β)}
    (h : l.Sublist l2) : (keysOf l).Sublist (keysOf l2) :=
  h.map Prod.fst

theorem findA_of_sublist {β : Type} {l l2 : List (ObjectId × β)} {id : ObjectId}
    {v : β} (hsub : l.Sublist l2) (hnd : (keysOf l2).Nodup)
    (h : findA l id = some v) : findA l2 id = some v :=
  findA_eq_some_of_mem hnd (hsub.subset (mem_of_findA_eq_some h))

theorem findA_none_of_sublist {β : Type} {l l2 : List (ObjectId × β)}
    {id : ObjectId} (hsub : l.Sublist l2) (h : findA l2 id = none) :
    findA l id = none := by
  rw [findA_eq_none_iff] at h ⊢
  exact fun hm => h ((keysOf_sublist_of_sublist hsub).subset hm)

theorem keysOf_modifyVal {β : Type} (l : List (ObjectId × β)) (id : ObjectId)
    (f : β → β) : keysOf (modifyVal l id f) = keysOf l := by
  induction l with
  | nil => rfl
  | cons p rest ih =>
    obtain ⟨k, v⟩ := p
    by_cases h : k = id
    · simp [modifyVal, h, keysOf]
    · simp [modifyVal, h, keysOf] at ih ⊢
      exact ih

theorem findA_modifyVal_ne {β : Type} (l : List (ObjectId × β)) {id k : ObjectId}
    (f : β → β) (h : k ≠ id) : findA (modifyVal l id f) k = findA l k := by
  induction l with
  | nil => rfl
  | cons p rest ih =>
    obtain ⟨k2, v⟩ := p
    by_cases h2 : k2 = id
    · subst h2
      rw [modifyVal, if_pos rfl, findA, if_neg fun hh : k2 = k => h hh.symm,
        findA, if_neg fun hh : k2 = k => h hh.symm]
    · by_cases h3 : k2 = k
      · subst h3
        simp [modifyVal, findA, h2]
      · simpa [modifyVal, findA, h2, h3] using ih

theorem findA_modifyVal_self {β : Type} (l : List (ObjectId × β)) (id : ObjectId)
    (f : β → β) : findA (modifyVal l id f) id = (findA l id).map f := by
  induction l with
  | nil => rfl
  | cons p rest ih =>
    obtain ⟨k, v⟩ := p
    by_cases h : k = id
    · subst h
      simp [modifyVal, findA]
    · simpa [modifyVal, findA, h] using ih
/-! ## Example data used by witnesses -/

/-- A store with no entities, no listeners, default flags. -/
def emptyStore : MemoryDataStore :=
  { baseId := 0, lastUpdateTime := 0, hasChanged := false,
    interpolationEnabled := false, hasInterpolator := false,
    boundClock := none, dataLimiting := false,
    platforms := [], beams := [], gates := [], lasers := [], projectors := [],
    lobGroups := [], customRenderings := [], genericData := [],
    categoryData := [], dataTables := [], entityNames := [], listeners := [],
    justRemoved := [] }

def defaultCommon : CommonPrefs :=
  { name := "", aliasName := "", usealias := false, datadraw := true,
    datalimitpoints := 0, datalimittime := 0 }

def emptyCommands : CommandSlice := { data := [] }

/-! ## Claim theorems -/

/-- Helper: an `update` call on a store with a clean changed flag at the
recorded update time returns the store unchanged with no events
(the short-circuit at line 976). -/
theorem update_noop_of_clean (s : MemoryDataStore) (t : Rat)
    (h1 : s.hasChanged = false) (h2 : t = s.lastUpdateTime) :
    update s t = (s, []) := by
  rw [update, if_pos ⟨h1, h2⟩]

/-- C3: after `update(t)` has completed, a second `update(t)` with the
same `t` and no intervening mutation hits the `!hasChanged_ && time ==
lastUpdateTime_` short-circuit: the store (hence every entity's current
sample) is unchanged and no listener event — neither `onChange` nor
`onCategoryDataChange` — fires. -/
theorem update_same_time_second_call_noop (s : MemoryDataStore) (t : Rat) :
    update (update s t).1 t = ((update s t).1, []) := by
  by_cases h : s.hasChanged = false ∧ t = s.lastUpdateTime
  · have e : update s t = (s, []) := by rw [update, if_pos h]
    rw [e]
    exact update_noop_of_clean s t h.1 h.2
  · apply update_noop_of_clean
    · rw [update, if_neg h]
    · rw [update, if_neg h]

/-- C2: destroying any mutation transaction (new-entity, mutable
properties, mutable preferences/settings, new-update, new-command) without
having called `commit` leaves the store exactly as it was and produces no
listener event.  The `committed` flag of each transaction state is `false`
as constructed; all other members are universally quantified, covering any
scratch edits the caller made before discarding. -/
theorem discarded_transaction_is_noop (s : MemoryDataStore) :
    (∀ (P : Type) (idv : ObjectId) (nb nc : Bool) (onm nnm : String) (m : P),
      (mutableSettingsRelease
        { id := idv, committed := false, notified := nb, nameChange := nc,
          oldName := onm, newName := nnm, modifiedSettings := m } s).2 = (s, [])) ∧
    (∀ (P : Type) (idv : ObjectId) (nb : Bool) (m : P),
      (mutablePropertyRelease
        { id := idv, committed := false, notified := nb,
          modifiedProperties := m } s).2 = (s, [])) ∧
    (∀ (E : Type) (idv : ObjectId) (nb : Bool) (e : Option E),
      (newEntryRelease
        { committed := false, notified := nb, initialId := idv,
          entry := e } s).2 = (s, [])) ∧
    (∀ (α : Type) (idv : ObjectId) (isUpd : Bool) (u : Option α),
      (newUpdateRelease
        { committed := false, id := idv, isEntityUpdate := isUpd,
          update := u } s).2 = (s, [])) := by
  refine ⟨fun P idv nb nc onm nnm m => ?_, fun P idv nb m => ?_,
          fun E idv nb e => ?_, fun α idv isUpd u => ?_⟩
  · rw [mutableSettingsRelease, if_neg]
    intro hc
    cases hc.1
  · rw [mutablePropertyRelease, if_neg]
    intro hc
    cases hc.1
  · rw [newEntryRelease, if_pos rfl]
  · rw [newUpdateRelease, if_pos rfl]
/-- Helper: the published updates of a projector after its update
iteration, in closed form. -/
theorem updateProjectorEntry_updates (s : MemoryDataStore) (t : Rat)
    (e : ProjectorEntry) :
    (updateProjectorEntry s t e).updates =
      (if isInterpolationEnabled s = true ∧ e.preferences.interpolateprojectorfov = true
       then sliceUpdateInterp e.updates t else sliceUpdateExact e.updates t) := by
  by_cases hc : isInterpolationEnabled s = true ∧ e.preferences.interpolateprojectorfov = true
  · simp only [updateProjectorEntry, applyProjectorCommands]
    rw [if_pos hc, if_pos]
    exact hc
  · simp only [updateProjectorEntry, applyProjectorCommands]
    rw [if_neg hc, if_neg]
    exact hc

/-- C10: a projector's update iteration applies commands and recomputes
the current sample by interpolated or exact lookup with no `datadraw`
test: the resulting slice is the plain lookup, it does not depend on the
`datadraw` preference at all, and — by contrast — a laser whose
(command-adjusted) `datadraw` is off has its current sample cleared. -/
theorem projector_update_ignores_datadraw (s : MemoryDataStore) (t : Rat)
    (id : ObjectId) (e : ProjectorEntry)
    (h : findA s.projectors id = some e) :
    findA (updateProjectors s t).projectors id = some (updateProjectorEntry s t e) ∧
    (updateProjectorEntry s t e).updates =
      (if isInterpolationEnabled s = true ∧ e.preferences.interpolateprojectorfov = true
       then sliceUpdateInterp e.updates t else sliceUpdateExact e.updates t) ∧
    (∀ b : Bool,
      (updateProjectorEntry s t
        { e with preferences := { e.preferences with
            commonprefs := { e.preferences.commonprefs with datadraw := b } } }).updates
        = (updateProjectorEntry s t e).updates) ∧
    (∀ l : LaserEntry,
      (applyLaserCommands l t).preferences.commonprefs.datadraw = false →
      (updateLaserEntry s t l).updates.current = none) := by
  refine ⟨?_, updateProjectorEntry_updates s t e, fun b => ?_, fun l hl => ?_⟩
  · rw [show (updateProjectors s t).projectors =
        mapVals s.projectors (fun _ q => updateProjectorEntry s t q) from rfl,
      findA_mapVals, h]
    rfl
  · rw [updateProjectorEntry_updates, updateProjectorEntry_updates]
  · simp only [updateLaserEntry]
    rw [if_pos hl]
    rfl

def wProjectorSlice : MemoryDataSlice ProjectorUpdate :=
  { data := [{ time := 1 }], current := none, currentInterp := { time := 0 },
    changed := false }

def wProjector : ProjectorEntry :=
  { properties := { id := 1, originalid := 0, hostid := some 9 },
    preferences := { commonprefs := { defaultCommon with datadraw := false },
                     interpolateprojectorfov := false },
    updates := wProjectorSlice, commands := emptyCommands }

def wStoreC10 : MemoryDataStore := { emptyStore with projectors := [(1, wProjector)] }

/-- Witness for C10 at a concrete store holding one projector whose
`datadraw` preference is off. -/
theorem projector_update_ignores_datadraw_witness :
    findA wStoreC10.projectors 1 = some wProjector ∧
    (findA (updateProjectors wStoreC10 2).projectors 1 =
        some (updateProjectorEntry wStoreC10 2 wProjector) ∧
      (updateProjectorEntry wStoreC10 2 wProjector).updates =
        (if isInterpolationEnabled wStoreC10 = true ∧
            wProjector.preferences.interpolateprojectorfov = true
         then sliceUpdateInterp wProjector.updates 2
         else sliceUpdateExact wProjector.updates 2) ∧
      (∀ b : Bool,
        (updateProjectorEntry wStoreC10 2
          { wProjector with preferences := { wProjector.preferences with
              commonprefs := { wProjector.preferences.commonprefs with datadraw := b } } }).updates
          = (updateProjectorEntry wStoreC10 2 wProjector).updates) ∧
      (∀ l : LaserEntry,
        (applyLaserCommands l 2).preferences.commonprefs.datadraw = false →
        (updateLaserEntry wStoreC10 2 l).updates.current = none)) :=
  ⟨rfl, projector_update_ignores_datadraw wStoreC10 2 1 wProjector rfl⟩
/-- C5: in file mode (no bound clock, or clock not live), a platform with
`datadraw` on (after commands) expires — its current sample becomes null —
whenever it is non-static (`firstTime ≠ -1`) and `t` lies outside
`[firstTime, lastTime]`; a static platform, or one with `t` inside its
bounds, gets its current sample from interpolated lookup (when
interpolation is enabled and `interpolatepos` is set) or exact lookup
otherwise. -/
theorem platform_file_mode_expiry (s : MemoryDataStore) (t : Rat)
    (id : ObjectId) (p : PlatformEntry)
    (hp : findA s.platforms id = some p)
    (hfile : fileMode s = true)
    (hdraw : (applyPlatformCommands p t).preferences.commonprefs.datadraw = true) :
    findA (updatePlatforms s t).platforms id = some (updatePlatformEntry s t p) ∧
    ((sliceFirstTime p.updates ≠ -1 ∧
        (t < sliceFirstTime p.updates ∨ sliceLastTime p.updates < t)) →
      (updatePlatformEntry s t p).updates.current = none) ∧
    ((sliceFirstTime p.updates = -1 ∨
        (sliceFirstTime p.updates ≤ t ∧ t ≤ sliceLastTime p.updates)) →
      (updatePlatformEntry s t p).updates =
        (if isInterpolationEnabled s = true ∧
            (applyPlatformCommands p t).preferences.interpolatepos = true
         then sliceUpdateInterp p.updates t
         else sliceUpdateExact p.updates t)) := by
  have hdrawne : ¬((applyPlatformCommands p t).preferences.commonprefs.datadraw = false) := by
    rw [hdraw]
    exact fun hc => by cases hc
  refine ⟨?_, fun hc => ?_, fun hc => ?_⟩
  · rw [show (updatePlatforms s t).platforms =
        mapVals s.platforms (fun _ q => updatePlatformEntry s t q) from rfl,
      findA_mapVals, hp]
    rfl
  · simp only [updatePlatformEntry]
    rw [if_neg hdrawne, if_pos]
    · rfl
    · exact ⟨hfile, hc.1, hc.2⟩
  · simp only [updatePlatformEntry]
    rw [if_neg hdrawne, if_neg]
    · by_cases hcc : isInterpolationEnabled s = true ∧
          (applyPlatformCommands p t).preferences.interpolatepos = true
      · rw [if_pos hcc, if_pos hcc]
        rfl
      · rw [if_neg hcc, if_neg hcc]
        rfl
    · rintro ⟨-, hne, hb⟩
      rcases hc with h1 | h2
      · exact hne h1
      · rcases hb with hb | hb
        · exact absurd hb (not_lt.mpr h2.1)
        · exact absurd hb (not_lt.mpr h2.2)

def wPlatformSlice : MemoryDataSlice PlatformUpdate :=
  { data := [{ time := 5, hasPosition := true }], current := none,
    currentInterp := { time := 0, hasPosition := false }, changed := false }

def wPlatform : PlatformEntry :=
  { properties := { id := 1, originalid := 0 },
    preferences := { commonprefs := defaultCommon, interpolatepos := false },
    updates := wPlatformSlice, commands := emptyCommands }

def wStoreC5 : MemoryDataStore := { emptyStore with platforms := [(1, wPlatform)] }

/-- Witness for C5: one platform with a single sample at time 5, queried
at time 6 (spec §8's scenario: past `lastTime`, non-static, file mode). -/
theorem platform_file_mode_expiry_witness :
    (findA wStoreC5.platforms 1 = some wPlatform ∧
      fileMode wStoreC5 = true ∧
      (applyPlatformCommands wPlatform 6).preferences.commonprefs.datadraw = true) ∧
    (findA (updatePlatforms wStoreC5 6).platforms 1 =
        some (updatePlatformEntry wStoreC5 6 wPlatform) ∧
      ((sliceFirstTime wPlatform.updates ≠ -1 ∧
          (6 < sliceFirstTime wPlatform.updates ∨ sliceLastTime wPlatform.updates < 6)) →
        (updatePlatformEntry wStoreC5 6 wPlatform).updates.current = none) ∧
      ((sliceFirstTime wPlatform.updates = -1 ∨
          (sliceFirstTime wPlatform.updates ≤ 6 ∧ 6 ≤ sliceLastTime wPlatform.updates)) →
        (updatePlatformEntry wStoreC5 6 wPlatform).updates =
          (if isInterpolationEnabled wStoreC5 = true ∧
              (applyPlatformCommands wPlatform 6).preferences.interpolatepos = true
           then sliceUpdateInterp wPlatform.updates 6
           else sliceUpdateExact wPlatform.updates 6))) :=
  ⟨⟨rfl, rfl, rfl⟩,
   platform_file_mode_expiry wStoreC5 6 1 wPlatform rfl rfl rfl⟩
/-- Helper: `updateTargetBeam_` clears the published sample whenever the
host id is missing, the target preference is missing, or either endpoint
platform is absent or lacks a positioned current update. -/
theorem updateTargetBeam_clears_of_failure
    (platforms : List (ObjectId × PlatformEntry)) (id : ObjectId)
    (b : BeamEntry) (t : Rat)
    (hfail : b.properties.hostid = none ∨ b.preferences.targetid = none ∨
      platformCurrentPosition platforms (hostidVal b.properties.hostid) = none ∨
      platformCurrentPosition platforms (hostidVal b.preferences.targetid) = none) :
    (updateTargetBeam platforms id b t).updates.current = none := by
  simp only [updateTargetBeam]
  by_cases h1 : b.properties.hostid = none
  · rw [if_pos h1]
    rfl
  · rw [if_neg h1]
    by_cases h2 : b.preferences.targetid = none
    · rw [if_pos h2]
      rfl
    · rw [if_neg h2]
      rcases hfail with hf | hf | hf | hf
      · exact absurd hf h1
      · exact absurd hf h2
      · rw [hf]
        rfl
      · rcases hpos : platformCurrentPosition platforms (hostidVal b.properties.hostid)
          with _ | u
        · rfl
        · rw [hf]
          rfl

/-- C4: a TARGET beam whose (command-adjusted) `datadraw` is on has a null
current sample after `update(t)` whenever it lacks a host id or a
`targetid` preference, or the host or target platform is absent from the
platform container or has no positioned current update after the platform
pass.  The condition is re-evaluated from scratch on every `update`, so
the sample stays null at every subsequent update while the condition
persists. -/
theorem target_beam_invalid_endpoints_null (s : MemoryDataStore) (t : Rat)
    (id : ObjectId) (b : BeamEntry)
    (hrun : ¬(s.hasChanged = false ∧ t = s.lastUpdateTime))
    (hb : findA s.beams id = some b)
    (htype : b.properties.type = .target)
    (hdraw : (applyBeamCommands b t).preferences.commonprefs.datadraw = true)
    (hfail : b.properties.hostid = none ∨ b.preferences.targetid = none ∨
      platformCurrentPosition (updatePlatforms s t).platforms
        (hostidVal b.properties.hostid) = none ∨
      platformCurrentPosition (updatePlatforms s t).platforms
        (hostidVal b.preferences.targetid) = none) :
    ∃ b2, findA (update s t).1.beams id = some b2 ∧ b2.updates.current = none := by
  have hbeams : (update s t).1.beams =
      mapVals s.beams (fun i e => updateBeamEntry (updatePlatforms s t) t i e) := by
    rw [update, if_neg hrun]
    rfl
  refine ⟨updateBeamEntry (updatePlatforms s t) t id b, ?_, ?_⟩
  · rw [hbeams, findA_mapVals, hb]
    rfl
  · have hdrawne :
        ¬((applyBeamCommands b t).preferences.commonprefs.datadraw = false) := by
      rw [hdraw]
      exact fun hc => by cases hc
    simp only [updateBeamEntry]
    rw [if_neg hdrawne, if_pos (show (applyBeamCommands b t).properties.type = .target
      from htype)]
    exact updateTargetBeam_clears_of_failure _ id _ t hfail

def wBeamSlice : MemoryDataSlice BeamUpdate :=
  { data := [], current := none, currentInterp := default, changed := false }

def wTargetBeam : BeamEntry :=
  { properties := { id := 2, originalid := 0, hostid := some 1, type := .target },
    preferences := { commonprefs := defaultCommon, interpolatebeampos := false,
                     targetid := some 7 },
    updates := wBeamSlice, commands := emptyCommands }

def wStoreC4 : MemoryDataStore :=
  { emptyStore with hasChanged := true,
                    platforms := [(1, wPlatform)], beams := [(2, wTargetBeam)] }

/-- Witness for C4: a target beam hosted on a live platform whose target
id points at a platform absent from the store. -/
theorem target_beam_invalid_endpoints_null_witness :
    (¬(wStoreC4.hasChanged = false ∧ (5 : Rat) = wStoreC4.lastUpdateTime) ∧
      findA wStoreC4.beams 2 = some wTargetBeam ∧
      wTargetBeam.properties.type = .target ∧
      (applyBeamCommands wTargetBeam 5).preferences.commonprefs.datadraw = true ∧
      platformCurrentPosition (updatePlatforms wStoreC4 5).platforms
        (hostidVal wTargetBeam.preferences.targetid) = none) ∧
    (∃ b2, findA (update wStoreC4 5).1.beams 2 = some b2 ∧
      b2.updates.current = none) :=
  ⟨⟨by decide, rfl, rfl, rfl, by decide⟩,
   target_beam_invalid_endpoints_null wStoreC4 5 2 wTargetBeam (by decide) rfl rfl rfl
     (Or.inr (Or.inr (Or.inr (by decide))))⟩
def wGateSlice : MemoryDataSlice GateUpdate :=
  { data := [], current := none, currentInterp := default, changed := false }

/-- A TARGET gate whose host id (5) resolves to no beam. -/
def wOrphanTargetGate : GateEntry :=
  { properties := { id := 3, originalid := 0, hostid := some 5, type := .target },
    preferences := { commonprefs := defaultCommon, interpolategatepos := false },
    updates := wGateSlice, commands := emptyCommands }

/-- A non-TARGET beam under id 5 (a violating host for a target gate). -/
def wNonTargetBeam : BeamEntry :=
  { properties := { id := 5, originalid := 0, hostid := some 1,
                    type := .absolutePosition },
    preferences := { commonprefs := defaultCommon, interpolatebeampos := false,
                     targetid := none },
    updates := wBeamSlice, commands := emptyCommands }

/-- C8 (evaluation at the failing input): for a TARGET gate whose host id
resolves to no beam, the debug-build semantics of `updateTargetGate_`
fault with a null-pointer dereference — the assert at line 616 reads
`beam->properties()` before the `!beam` check of line 617 — rather than
with the assertion failure the claim describes; the release-build
semantics do clear the sample and return for this configuration.  When
the host id resolves to a non-TARGET beam, the debug build does fail the
assertion and the release build clears the sample, as the claim states. -/
theorem target_gate_null_host_beam_faults :
    updateTargetGateDebug [] [] false wOrphanTargetGate 1 =
      Except.error UpdateFault.nullDeref ∧
    (updateTargetGate [] [] false wOrphanTargetGate 1).updates.current = none ∧
    updateTargetGateDebug [] [(5, wNonTargetBeam)] false wOrphanTargetGate 1 =
      Except.error UpdateFault.assertFail ∧
    (updateTargetGate [] [(5, wNonTargetBeam)] false
        wOrphanTargetGate 1).updates.current = none := by
  exact ⟨rfl, rfl, rfl, rfl⟩
/-- The name-change rule exactly as the claim states it (spec side, for
comparison with the committed transaction's flag): the name differs, or
the alias differs while aliasing is enabled in the new settings, or the
`usealias` toggle itself changed. -/
def nameChangeRule {P : Type} (common : P → CommonPrefs) (m live : P) : Prop :=
  (common m).name ≠ (common live).name ∨
  ((common m).usealias = true ∧ (common m).aliasName ≠ (common live).aliasName) ∨
  (common m).usealias ≠ (common live).usealias

instance {P : Type} (common : P → CommonPrefs) (m live : P) :
    Decidable (nameChangeRule common m live) := by
  unfold nameChangeRule
  infer_instance

/-- The per-listener event list a settings release produces:
`onPrefsChange`, followed by `onNameChange` when a name change was
recorded. -/
def settingsReleaseEvents (L : List Nat) (idv : ObjectId) (nc : Bool) :
    List DSEvent :=
  L.foldr
    (fun l acc => DSEvent.onPrefsChange l idv ::
      (if nc = true then DSEvent.onNameChange l idv :: acc else acc)) []

/-- Helper: a committed, not-yet-notified settings transaction releases
into the notified transaction, the (conditionally) renamed store, and the
per-listener event list. -/
theorem mutableSettingsRelease_eq {P : Type} (idv : ObjectId) (nc : Bool)
    (onm nnm : String) (m : P) (s2 : MemoryDataStore) :
    mutableSettingsRelease
      { id := idv, committed := true, notified := false, nameChange := nc,
        oldName := onm, newName := nnm, modifiedSettings := m } s2 =
      ({ id := idv, committed := true, notified := true, nameChange := nc,
         oldName := onm, newName := nnm, modifiedSettings := m },
       (if nc = true ∧ onm ≠ nnm
        then { s2 with entityNames := nameCacheChange s2.entityNames idv nnm }
        else s2),
       settingsReleaseEvents s2.listeners idv nc) := by
  rw [mutableSettingsRelease, if_pos ⟨rfl, rfl⟩]
  by_cases hc : nc = true ∧ onm ≠ nnm
  · rw [if_pos hc]
    rfl
  · rw [if_neg hc]
    rfl

/-- Helper: membership of `onNameChange` in the event list produced by a
settings release. -/
theorem onName_mem_release_events (L : List Nat) (idv : ObjectId) (nc : Bool)
    (l : Nat) :
    DSEvent.onNameChange l idv ∈ settingsReleaseEvents L idv nc ↔
      (nc = true ∧ l ∈ L) := by
  induction L with
  | nil => simp [settingsReleaseEvents]
  | cons a L ih =>
    have hunfold : settingsReleaseEvents (a :: L) idv nc =
        DSEvent.onPrefsChange a idv ::
          (if nc = true then
            DSEvent.onNameChange a idv :: settingsReleaseEvents L idv nc
           else settingsReleaseEvents L idv nc) := rfl
    rw [hunfold]
    by_cases hnc : nc = true
    · rw [if_pos hnc]
      subst hnc
      simp only [List.mem_cons, ih]
      constructor
      · rintro (he | he | ⟨-, hm⟩)
        · cases he
        · cases he
          exact ⟨trivial, Or.inl rfl⟩
        · exact ⟨trivial, Or.inr hm⟩
      · rintro ⟨-, he | hm⟩
        · exact Or.inr (Or.inl (by rw [he]))
        · exact Or.inr (Or.inr ⟨trivial, hm⟩)
    · rw [if_neg hnc]
      simp only [List.mem_cons, ih]
      constructor
      · rintro (he | ⟨he, -⟩)
        · cases he
        · exact absurd he hnc
      · rintro ⟨he, -⟩
        exact absurd he hnc

/-- Helper: every listener receives `onPrefsChange` from a settings
release. -/
theorem onPrefs_mem_release_events (L : List Nat) (idv : ObjectId) (nc : Bool)
    (l : Nat) (h : l ∈ L) :
    DSEvent.onPrefsChange l idv ∈ settingsReleaseEvents L idv nc := by
  induction L with
  | nil => cases h
  | cons a L ih =>
    have hunfold : settingsReleaseEvents (a :: L) idv nc =
        DSEvent.onPrefsChange a idv ::
          (if nc = true then
            DSEvent.onNameChange a idv :: settingsReleaseEvents L idv nc
           else settingsReleaseEvents L idv nc) := rfl
    rw [hunfold]
    rcases List.mem_cons.mp h with he | hm
    · subst he
      exact List.mem_cons_self _ _
    · refine List.mem_cons_of_mem _ ?_
      by_cases hnc : nc = true
      · rw [if_pos hnc]
        exact List.mem_cons_of_mem _ (ih hm)
      · rw [if_neg hnc]
        exact ih hm

/-- C6: committing a mutable-preferences transaction whose serialized
content differs from the live value records a name change exactly when the
claim's rule holds (name differs, or alias differs while aliasing is
enabled, or the `usealias` toggle changed); on release, `onNameChange`
reaches a listener iff the rule held, `onPrefsChange` always reaches every
listener, and the entity-name cache is rewritten exactly when the rule
held and the old and new names differ. -/
theorem prefs_commit_name_change_rule {P : Type} [DecidableEq P]
    (common : P → CommonPrefs) (live : P)
    (setLive : MemoryDataStore → P → MemoryDataStore) (idv : ObjectId) (m : P)
    (s : MemoryDataStore) (hdiff : m ≠ live) :
    (mutableSettingsCommit common live setLive
        { id := idv, committed := false, notified := false, nameChange := false,
          oldName := "", newName := "", modifiedSettings := m } s).1.committed = true ∧
    ((mutableSettingsCommit common live setLive
        { id := idv, committed := false, notified := false, nameChange := false,
          oldName := "", newName := "", modifiedSettings := m } s).1.nameChange = true ↔
      nameChangeRule common m live) ∧
    (∀ (s2 : MemoryDataStore) (l : Nat),
      (DSEvent.onNameChange l idv ∈
          (mutableSettingsRelease
            (mutableSettingsCommit common live setLive
              { id := idv, committed := false, notified := false, nameChange := false,
                oldName := "", newName := "", modifiedSettings := m } s).1 s2).2.2 ↔
        (nameChangeRule common m live ∧ l ∈ s2.listeners)) ∧
      (l ∈ s2.listeners →
        DSEvent.onPrefsChange l idv ∈
          (mutableSettingsRelease
            (mutableSettingsCommit common live setLive
              { id := idv, committed := false, notified := false, nameChange := false,
                oldName := "", newName := "", modifiedSettings := m } s).1 s2).2.2)) ∧
    (∀ s2 : MemoryDataStore,
      (mutableSettingsRelease
          (mutableSettingsCommit common live setLive
            { id := idv, committed := false, notified := false, nameChange := false,
              oldName := "", newName := "", modifiedSettings := m } s).1 s2).2.1.entityNames =
        (if nameChangeRule common m live ∧ (common live).name ≠ (common m).name
         then nameCacheChange s2.entityNames idv (common m).name
         else s2.entityNames)) := by
  by_cases hrule : nameChangeRule common m live
  · have hrule2 : (common m).name ≠ (common live).name ∨
        ((common m).usealias = true ∧ (common m).aliasName ≠ (common live).aliasName) ∨
        (common m).usealias ≠ (common live).usealias := hrule
    have htxn : (mutableSettingsCommit common live setLive
        { id := idv, committed := false, notified := false, nameChange := false,
          oldName := "", newName := "", modifiedSettings := m } s).1 =
        { id := idv, committed := true, notified := false, nameChange := true,
          oldName := (common live).name, newName := (common m).name,
          modifiedSettings := m } := by
      simp only [mutableSettingsCommit]
      rw [if_pos hdiff, if_pos hrule2]
    rw [htxn]
    refine ⟨rfl, by simpa using hrule, fun s2 l => ⟨?_, fun hl => ?_⟩, fun s2 => ?_⟩
    · rw [mutableSettingsRelease_eq]
      show DSEvent.onNameChange l idv ∈ settingsReleaseEvents s2.listeners idv true ↔ _
      rw [onName_mem_release_events]
      simp [hrule]
    · rw [mutableSettingsRelease_eq]
      exact onPrefs_mem_release_events _ _ _ _ hl
    · rw [mutableSettingsRelease_eq]
      show (if true = true ∧ (common live).name ≠ (common m).name
            then { s2 with entityNames :=
                    nameCacheChange s2.entityNames idv (common m).name }
            else s2).entityNames = _
      by_cases hnm : (common live).name ≠ (common m).name
      · rw [if_pos ⟨rfl, hnm⟩, if_pos ⟨hrule, hnm⟩]
      · rw [if_neg (fun hc => hnm hc.2), if_neg (fun hc => hnm hc.2)]
  · have hrule2 : ¬((common m).name ≠ (common live).name ∨
        ((common m).usealias = true ∧ (common m).aliasName ≠ (common live).aliasName) ∨
        (common m).usealias ≠ (common live).usealias) := hrule
    have htxn : (mutableSettingsCommit common live setLive
        { id := idv, committed := false, notified := false, nameChange := false,
          oldName := "", newName := "", modifiedSettings := m } s).1 =
        { id := idv, committed := true, notified := false, nameChange := false,
          oldName := "", newName := "", modifiedSettings := m } := by
      simp only [mutableSettingsCommit]
      rw [if_pos hdiff, if_neg hrule2]
    rw [htxn]
    refine ⟨rfl, by simpa using hrule, fun s2 l => ⟨?_, fun hl => ?_⟩, fun s2 => ?_⟩
    · rw [mutableSettingsRelease_eq]
      show DSEvent.onNameChange l idv ∈ settingsReleaseEvents s2.listeners idv false ↔ _
      rw [onName_mem_release_events]
      simp [hrule]
    · rw [mutableSettingsRelease_eq]
      exact onPrefs_mem_release_events _ _ _ _ hl
    · rw [mutableSettingsRelease_eq]
      show (if false = true ∧ ("" : String) ≠ ""
            then { s2 with entityNames := nameCacheChange s2.entityNames idv "" }
            else s2).entityNames = _
      rw [if_neg (fun hc : false = true ∧ ("" : String) ≠ "" => by cases hc.1),
        if_neg (fun hc => hrule hc.1)]
def wLivePrefs : PlatformPrefs :=
  { commonprefs := { defaultCommon with name := "a" }, interpolatepos := false }

def wModPrefs : PlatformPrefs :=
  { commonprefs := { defaultCommon with name := "b" }, interpolatepos := false }

def wCommonOf : PlatformPrefs → CommonPrefs := fun p => p.commonprefs

def wSetLive : MemoryDataStore → PlatformPrefs → MemoryDataStore := fun s2 _ => s2

/-- Witness for C6: platform preferences whose name changes from "a" to
"b" (and nothing else), so the rule holds through its first disjunct. -/
theorem prefs_commit_name_change_rule_witness :
    wModPrefs ≠ wLivePrefs ∧
    ((mutableSettingsCommit wCommonOf wLivePrefs wSetLive
        { id := 1, committed := false, notified := false, nameChange := false,
          oldName := "", newName := "", modifiedSettings := wModPrefs }
        emptyStore).1.committed = true ∧
    ((mutableSettingsCommit wCommonOf wLivePrefs wSetLive
        { id := 1, committed := false, notified := false, nameChange := false,
          oldName := "", newName := "", modifiedSettings := wModPrefs }
        emptyStore).1.nameChange = true ↔
      nameChangeRule wCommonOf wModPrefs wLivePrefs) ∧
    (∀ (s2 : MemoryDataStore) (l : Nat),
      (DSEvent.onNameChange l 1 ∈
          (mutableSettingsRelease
            (mutableSettingsCommit wCommonOf wLivePrefs wSetLive
              { id := 1, committed := false, notified := false, nameChange := false,
                oldName := "", newName := "", modifiedSettings := wModPrefs }
              emptyStore).1 s2).2.2 ↔
        (nameChangeRule wCommonOf wModPrefs wLivePrefs ∧ l ∈ s2.listeners)) ∧
      (l ∈ s2.listeners →
        DSEvent.onPrefsChange l 1 ∈
          (mutableSettingsRelease
            (mutableSettingsCommit wCommonOf wLivePrefs wSetLive
              { id := 1, committed := false, notified := false, nameChange := false,
                oldName := "", newName := "", modifiedSettings := wModPrefs }
              emptyStore).1 s2).2.2)) ∧
    (∀ s2 : MemoryDataStore,
      (mutableSettingsRelease
          (mutableSettingsCommit wCommonOf wLivePrefs wSetLive
            { id := 1, committed := false, notified := false, nameChange := false,
              oldName := "", newName := "", modifiedSettings := wModPrefs }
            emptyStore).1 s2).2.1.entityNames =
        (if nameChangeRule wCommonOf wModPrefs wLivePrefs ∧
            (wCommonOf wLivePrefs).name ≠ (wCommonOf wModPrefs).name
         then nameCacheChange s2.entityNames 1 (wCommonOf wModPrefs).name
         else s2.entityNames))) :=
  ⟨by decide,
   prefs_commit_name_change_rule wCommonOf wLivePrefs wSetLive 1 wModPrefs
     emptyStore (by decide)⟩
/-- The listener identities of the non-null snapshot entries. -/
def someVals (snap : List (Option Nat)) : List Nat := snap.filterMap id

theorem mem_someVals {snap : List (Option Nat)} {x : Nat} :
    x ∈ someVals snap ↔ some x ∈ snap := by
  simp [someVals, List.mem_filterMap]

theorem resetFirst_mem_mono (snap : List (Option Nat)) (d x : Nat)
    (h : some x ∈ resetFirst snap d) : some x ∈ snap := by
  induction snap with
  | nil => cases h
  | cons o rest ih =>
    by_cases ho : o = some d
    · rw [resetFirst, if_pos ho] at h
      rcases List.mem_cons.mp h with he | hm
      · cases he
      · exact List.mem_cons_of_mem _ hm
    · rw [resetFirst, if_neg ho] at h
      rcases List.mem_cons.mp h with he | hm
      · exact he ▸ List.mem_cons_self _ _
      · exact List.mem_cons_of_mem _ (ih hm)

theorem resetFirst_someVals_sublist (snap : List (Option Nat)) (d : Nat) :
    (someVals (resetFirst snap d)).Sublist (someVals snap) := by
  induction snap with
  | nil => simp [resetFirst]
  | cons o rest ih =>
    by_cases ho : o = some d
    · subst ho
      rw [resetFirst, if_pos rfl]
      show someVals (none :: rest) |>.Sublist (someVals (some d :: rest))
      simp only [someVals, List.filterMap_cons]
      exact (List.sublist_cons_self _ _)
    · rw [resetFirst, if_neg ho]
      cases o with
      | none => simpa [someVals, List.filterMap_cons] using ih
      | some y => simpa [someVals, List.filterMap_cons] using ih.cons₂ y

theorem resetFirst_not_mem (snap : List (Option Nat)) (d : Nat)
    (h : (someVals snap).Nodup) : some d ∉ resetFirst snap d := by
  induction snap with
  | nil => simp [resetFirst]
  | cons o rest ih =>
    by_cases ho : o = some d
    · subst ho
      rw [resetFirst, if_pos rfl]
      intro hm
      rcases List.mem_cons.mp hm with he | hm2
      · cases he
      · have : d ∈ someVals rest := mem_someVals.mpr hm2
        have hnd : (someVals (some d :: rest)) = d :: someVals rest := by
          simp [someVals, List.filterMap_cons]
        rw [hnd] at h
        exact (List.nodup_cons.mp h).1 this
    · rw [resetFirst, if_neg ho]
      intro hm
      rcases List.mem_cons.mp hm with he | hm2
      · exact ho he.symm
      · refine ih ?_ hm2
        cases o with
        | none => simpa [someVals, List.filterMap_cons] using h
        | some y =>
          have : someVals (some y :: rest) = y :: someVals rest := by
            simp [someVals, List.filterMap_cons]
          rw [this] at h
          exact (List.nodup_cons.mp h).2

theorem foldl_resetFirst_mem_mono (D : List Nat) (snap : List (Option Nat))
    (x : Nat) (h : some x ∈ D.foldl resetFirst snap) : some x ∈ snap := by
  induction D generalizing snap with
  | nil => exact h
  | cons d D ih => exact resetFirst_mem_mono snap d x (ih (resetFirst snap d) h)

theorem foldl_resetFirst_someVals_sublist (D : List Nat)
    (snap : List (Option Nat)) :
    (someVals (D.foldl resetFirst snap)).Sublist (someVals snap) := by
  induction D generalizing snap with
  | nil => exact List.Sublist.refl _
  | cons d D ih =>
    exact (ih (resetFirst snap d)).trans (resetFirst_someVals_sublist snap d)

theorem foldl_resetFirst_not_mem (D : List Nat) :
    ∀ (snap : List (Option Nat)) (x : Nat), (someVals snap).Nodup → x ∈ D →
      some x ∉ D.foldl resetFirst snap := by
  induction D with
  | nil =>
    intro snap x _ hx
    cases hx
  | cons d D ih =>
    intro snap x hnd hx
    rcases List.mem_cons.mp hx with he | hm
    · subst he
      intro hmem
      exact resetFirst_not_mem snap x hnd
        (foldl_resetFirst_mem_mono D (resetFirst snap x) x hmem)
    · exact ih (resetFirst snap d) x
        ((resetFirst_someVals_sublist snap d).nodup hnd) hm

theorem removeListenerM_listeners_sublist (st : ListenerState) (l : Nat) :
    (removeListenerM st l).listeners.Sublist st.listeners := by
  rw [removeListenerM]
  by_cases h : l ∈ st.listeners
  · rw [if_pos h]
    exact List.erase_sublist _ _
  · rw [if_neg h]

theorem foldl_removeListenerM_listeners_sublist (R : List Nat)
    (st : ListenerState) :
    (R.foldl removeListenerM st).listeners.Sublist st.listeners := by
  induction R generalizing st with
  | nil => exact List.Sublist.refl _
  | cons r R ih =>
    exact (ih (removeListenerM st r)).trans
      (removeListenerM_listeners_sublist st r)

theorem foldl_removeListenerM_justRemoved_mem (R : List Nat)
    (st : ListenerState) (x : Nat) (h : x ∈ st.justRemoved) :
    x ∈ (R.foldl removeListenerM st).justRemoved := by
  induction R generalizing st with
  | nil => exact h
  | cons r R ih =>
    refine ih (removeListenerM st r) ?_
    rw [removeListenerM]
    by_cases hr : r ∈ st.listeners
    · rw [if_pos hr]
      exact List.mem_append_left _ h
    · rw [if_neg hr]
      exact h

theorem foldl_removeListenerM_removed_staged (R : List Nat)
    (st : ListenerState) (x : Nat) (hx : x ∈ st.listeners)
    (hnx : x ∉ (R.foldl removeListenerM st).listeners) :
    x ∈ (R.foldl removeListenerM st).justRemoved := by
  induction R generalizing st with
  | nil => exact absurd hx hnx
  | cons r R ih =>
    by_cases hx1 : x ∈ (removeListenerM st r).listeners
    · exact ih (removeListenerM st r) hx1 hnx
    · have hrx : (removeListenerM st r).justRemoved = st.justRemoved ++ [x] := by
        rw [removeListenerM] at hx1 ⊢
        by_cases hr : r ∈ st.listeners
        · rw [if_pos hr] at hx1 ⊢
          have : r = x := by
            by_contra hne
            exact hx1 ((List.mem_erase_of_ne (fun he => hne he.symm)).mpr hx)
          rw [this]
        · rw [if_neg hr] at hx1
          exact absurd hx hx1
      refine foldl_removeListenerM_justRemoved_mem R _ x ?_
      rw [hrx]
      exact List.mem_append_right _ (List.mem_singleton.mpr rfl)

theorem foldl_removeListenerM_listeners_of_nil (R : List Nat)
    (st : ListenerState) (h0 : st.justRemoved = [])
    (h : (R.foldl removeListenerM st).justRemoved = []) :
    (R.foldl removeListenerM st).listeners = st.listeners := by
  induction R generalizing st with
  | nil => rfl
  | cons r R ih =>
    by_cases hr : r ∈ st.listeners
    · exfalso
      have hstage : r ∈ (removeListenerM st r).justRemoved := by
        rw [removeListenerM, if_pos hr, h0]
        exact List.mem_singleton.mpr rfl
      have hmem2 := foldl_removeListenerM_justRemoved_mem R (removeListenerM st r) r hstage
      rw [List.foldl_cons] at h
      rw [h] at hmem2
      cases hmem2
    · have hstep : removeListenerM st r = st := by
        rw [removeListenerM, if_neg hr]
      rw [List.foldl_cons] at h ⊢
      rw [hstep] at h ⊢
      exact ih st h0 h

/-- Helper: unfolding of a loop step past the end of the snapshot. -/
theorem dispatchFrom_step_none (act : Nat → List Nat) (k i : Nat)
    (snap : List (Option Nat)) (st : ListenerState) (calls : List Nat)
    (hget : snap[i]? = none) :
    dispatchFrom act (k + 1) i snap st calls = (snap, st, calls) := by
  rw [dispatchFrom, hget]

/-- Helper: unfolding of a loop step over a nulled snapshot entry. -/
theorem dispatchFrom_step_skip (act : Nat → List Nat) (k i : Nat)
    (snap : List (Option Nat)) (st : ListenerState) (calls : List Nat)
    (hget : snap[i]? = some none) :
    dispatchFrom act (k + 1) i snap st calls =
      dispatchFrom act k (i + 1) snap st calls := by
  rw [dispatchFrom, hget]

/-- Helper: unfolding of one invoking step of the dispatch loop. -/
theorem dispatchFrom_step_some (act : Nat → List Nat) (k i : Nat)
    (snap : List (Option Nat)) (st : ListenerState) (calls : List Nat) (l : Nat)
    (hget : snap[i]? = some (some l)) :
    dispatchFrom act (k + 1) i snap st calls =
      dispatchFrom act k (i + 1)
        (checkForRemoval snap ((act l).foldl removeListenerM st)).1
        (checkForRemoval snap ((act l).foldl removeListenerM st)).2
        (calls ++ [l]) := by
  rw [dispatchFrom, hget]

/-- Helper: `checkForRemoval_` with an empty `justRemoved_` buffer. -/
theorem checkForRemoval_pos (snap : List (Option Nat)) (st : ListenerState)
    (h : st.justRemoved.isEmpty = true) : checkForRemoval snap st = (snap, st) := by
  rw [checkForRemoval, if_pos h]

/-- Helper: `checkForRemoval_` with a nonempty `justRemoved_` buffer. -/
theorem checkForRemoval_neg (snap : List (Option Nat)) (st : ListenerState)
    (h : ¬st.justRemoved.isEmpty = true) :
    checkForRemoval snap st =
      (st.justRemoved.foldl resetFirst snap, { st with justRemoved := [] }) := by
  rw [checkForRemoval, if_neg h]

/-- C9 (amended): during a dispatch pass whose snapshot has no duplicate
listener entries, once a listener `L` is no longer registered at a loop
boundary (its `removeListener` has been processed, or it was never
registered), the remainder of the pass delivers no callback to `L`: any
call to `L` recorded by the rest of the loop was already in `calls`. -/
theorem dispatch_no_callback_after_removal (act : Nat → List Nat) :
    ∀ (k i : Nat) (snap : List (Option Nat)) (st : ListenerState)
      (calls : List Nat) (L : Nat),
      (∀ x, some x ∈ snap → x ∈ st.listeners) →
      (someVals snap).Nodup →
      st.justRemoved = [] →
      L ∉ st.listeners →
      L ∈ (dispatchFrom act k i snap st calls).2.2 → L ∈ calls := by
  intro k
  induction k with
  | zero => exact fun i snap st calls L _ _ _ _ h => h
  | succ k ih =>
    intro i snap st calls L hinv hnd hjr hL hmem
    rcases hget : snap[i]? with _ | o
    · rw [dispatchFrom_step_none act k i snap st calls hget] at hmem
      exact hmem
    · cases o with
      | none =>
        rw [dispatchFrom_step_skip act k i snap st calls hget] at hmem
        exact ih (i + 1) snap st calls L hinv hnd hjr hL hmem
      | some l =>
        rw [dispatchFrom_step_some act k i snap st calls l hget] at hmem
        have hlmem : l ∈ st.listeners := hinv l (List.getElem?_mem hget)
        have hneq : L ≠ l := fun he => hL (he ▸ hlmem)
        by_cases hje : ((act l).foldl removeListenerM st).justRemoved.isEmpty = true
        · rw [checkForRemoval_pos snap _ hje] at hmem
          have hnil : ((act l).foldl removeListenerM st).justRemoved = [] :=
            List.isEmpty_iff.mp hje
          have heq : ((act l).foldl removeListenerM st).listeners = st.listeners :=
            foldl_removeListenerM_listeners_of_nil (act l) st hjr hnil
          have hres := ih (i + 1) snap ((act l).foldl removeListenerM st)
            (calls ++ [l]) L (fun x hx => heq ▸ hinv x hx) hnd hnil (heq ▸ hL) hmem
          rcases List.mem_append.mp hres with hc | hc
          · exact hc
          · exact absurd (List.mem_singleton.mp hc) hneq
        · rw [checkForRemoval_neg snap _ hje] at hmem
          have hsubl := foldl_removeListenerM_listeners_sublist (act l) st
          have hinv2 : ∀ x, some x ∈
              ((act l).foldl removeListenerM st).justRemoved.foldl resetFirst snap →
              x ∈ ((act l).foldl removeListenerM st).listeners := by
            intro x hx
            have hxsnap := foldl_resetFirst_mem_mono _ snap x hx
            have hxst := hinv x hxsnap
            by_contra hxn
            have hstaged := foldl_removeListenerM_removed_staged (act l) st x hxst hxn
            exact foldl_resetFirst_not_mem _ snap x hnd hstaged hx
          have hres := ih (i + 1)
            (((act l).foldl removeListenerM st).justRemoved.foldl resetFirst snap)
            { (act l).foldl removeListenerM st with justRemoved := [] }
            (calls ++ [l]) L hinv2
            ((foldl_resetFirst_someVals_sublist _ snap).nodup hnd) rfl
            (fun hc => hL (hsubl.subset hc)) hmem
          rcases List.mem_append.mp hres with hc | hc
          · exact hc
          · exact absurd (List.mem_singleton.mp hc) hneq

/-- Witness for C9 (amended), at a concrete two-listener state where the
first callback removes the second listener. -/
theorem dispatch_no_callback_after_removal_witness :
    ((∀ x, some x ∈ [some 1, some 2] → x ∈ ([1, 2] : List Nat)) ∧
      (someVals [some 1, some 2]).Nodup ∧
      (⟨[1, 2], []⟩ : ListenerState).justRemoved = [] ∧
      (3 : Nat) ∉ (⟨[1, 2], []⟩ : ListenerState).listeners) ∧
    (3 ∈ (dispatchFrom (fun _ => [2]) 2 0 [some 1, some 2]
        (⟨[1, 2], []⟩ : ListenerState) []).2.2 → 3 ∈ ([] : List Nat)) :=
  ⟨⟨by
      intro x hx
      simp at hx
      rcases hx with h | h <;> simp [h], by decide, rfl, by decide⟩,
   dispatch_no_callback_after_removal (fun _ => [2]) 2 0 [some 1, some 2]
     ⟨[1, 2], []⟩ [] 3
     (by
       intro x hx
       simp at hx
       rcases hx with h | h <;> simp [h])
     (by decide) rfl (by decide)⟩

/-- C9 counterexample to the claim as stated: with a listener registered
twice (`addListener` has no duplicate guard, line 2511), a callback that
calls `removeListener` on itself mid-dispatch still receives a further
callback in the same pass — `checkForRemoval_` nulls only the *first*
matching snapshot entry (`std::find`, line 2536), which is the entry
already visited.  The pass records two calls to listener 7 even though
`removeListener(7)` ran during the first one (the master list ends
empty). -/
theorem dispatch_duplicate_registration_counterexample :
    (dispatchPass (fun _ => [7]) [7, 7]).2.2 = [7, 7] ∧
    (dispatchPass (fun _ => [7]) [7, 7]).2.1.listeners = [] := by
  constructor <;> decide
/-! ## Well-formedness and removal lemmas -/

/-- All ids present in the seven entity containers. -/
def allKeys (s : MemoryDataStore) : List ObjectId :=
  keysOf s.platforms ++ keysOf s.beams ++ keysOf s.gates ++ keysOf s.lasers ++
  keysOf s.projectors ++ keysOf s.lobGroups ++ keysOf s.customRenderings

/-- Store well-formedness: entity ids are globally unique across the
seven containers.  `genUniqueId_` guarantees this for every store built
through the public interface. -/
def StoreWF (s : MemoryDataStore) : Prop := (allKeys s).Nodup

instance (s : MemoryDataStore) : Decidable (StoreWF s) :=
  decidable_of_iff ((allKeys s).Nodup) (by rw [StoreWF])

/-- The id is absent from every entity container. -/
def absentAll (s : MemoryDataStore) (x : ObjectId) : Prop :=
  findA s.platforms x = none ∧ findA s.beams x = none ∧ findA s.gates x = none ∧
  findA s.lasers x = none ∧ findA s.projectors x = none ∧
  findA s.lobGroups x = none ∧ findA s.customRenderings x = none

theorem objectType_none_iff (s : MemoryDataStore) (x : ObjectId) :
    objectType s x = ObjectType.none ↔ absentAll s x := by
  rw [objectType]
  split_ifs with h1 h2 h3 h4 h5 h6 h7 <;>
    simp_all [absentAll, Option.isSome_iff_ne_none]

theorem storeWF_nodups (s : MemoryDataStore) (h : StoreWF s) :
    (keysOf s.platforms).Nodup ∧ (keysOf s.beams).Nodup ∧
    (keysOf s.gates).Nodup ∧ (keysOf s.lasers).Nodup ∧
    (keysOf s.projectors).Nodup ∧ (keysOf s.lobGroups).Nodup ∧
    (keysOf s.customRenderings).Nodup := by
  rw [StoreWF, allKeys] at h
  simp only [List.nodup_append] at h
  tauto

theorem storeWF_forward (s : MemoryDataStore) (h : StoreWF s) (x : ObjectId) :
    (x ∈ keysOf s.platforms →
      x ∉ keysOf s.beams ∧ x ∉ keysOf s.gates ∧ x ∉ keysOf s.lasers ∧
      x ∉ keysOf s.projectors ∧ x ∉ keysOf s.lobGroups ∧
      x ∉ keysOf s.customRenderings) ∧
    (x ∈ keysOf s.beams →
      x ∉ keysOf s.gates ∧ x ∉ keysOf s.lasers ∧ x ∉ keysOf s.projectors ∧
      x ∉ keysOf s.lobGroups ∧ x ∉ keysOf s.customRenderings) ∧
    (x ∈ keysOf s.gates →
      x ∉ keysOf s.lasers ∧ x ∉ keysOf s.projectors ∧
      x ∉ keysOf s.lobGroups ∧ x ∉ keysOf s.customRenderings) ∧
    (x ∈ keysOf s.lasers →
      x ∉ keysOf s.projectors ∧ x ∉ keysOf s.lobGroups ∧
      x ∉ keysOf s.customRenderings) ∧
    (x ∈ keysOf s.projectors →
      x ∉ keysOf s.lobGroups ∧ x ∉ keysOf s.customRenderings) ∧
    (x ∈ keysOf s.lobGroups → x ∉ keysOf s.customRenderings) := by
  rw [StoreWF, allKeys] at h
  simp only [List.nodup_append, List.disjoint_append_left, List.disjoint_left,
    List.mem_append, or_imp, forall_and] at h
  refine ⟨fun hx => ?_, fun hx => ?_, fun hx => ?_, fun hx => ?_, fun hx => ?_,
    fun hx => ?_⟩ <;> tauto

/-- The seven containers of `s1` are sublists of those of `s2`
("erase-only" evolution). -/
def containersSub (s1 s2 : MemoryDataStore) : Prop :=
  s1.platforms.Sublist s2.platforms ∧ s1.beams.Sublist s2.beams ∧
  s1.gates.Sublist s2.gates ∧ s1.lasers.Sublist s2.lasers ∧
  s1.projectors.Sublist s2.projectors ∧ s1.lobGroups.Sublist s2.lobGroups ∧
  s1.customRenderings.Sublist s2.customRenderings

theorem containersSub_refl (s : MemoryDataStore) : containersSub s s :=
  ⟨List.Sublist.refl _, List.Sublist.refl _, List.Sublist.refl _,
   List.Sublist.refl _, List.Sublist.refl _, List.Sublist.refl _,
   List.Sublist.refl _⟩

theorem containersSub_trans {a b c : MemoryDataStore}
    (h1 : containersSub a b) (h2 : containersSub b c) : containersSub a c :=
  ⟨h1.1.trans h2.1, h1.2.1.trans h2.2.1, h1.2.2.1.trans h2.2.2.1,
   h1.2.2.2.1.trans h2.2.2.2.1, h1.2.2.2.2.1.trans h2.2.2.2.2.1,
   h1.2.2.2.2.2.1.trans h2.2.2.2.2.2.1, h1.2.2.2.2.2.2.trans h2.2.2.2.2.2.2⟩

theorem storeWF_of_sub {s1 s2 : MemoryDataStore} (hsub : containersSub s1 s2)
    (h : StoreWF s2) : StoreWF s1 := by
  rw [StoreWF, allKeys] at h ⊢
  refine List.Nodup.sublist ?_ h
  obtain ⟨a, b, c, d, e, f, g⟩ := hsub
  exact (((((((a.map Prod.fst).append (b.map Prod.fst)).append (c.map Prod.fst)).append
    (d.map Prod.fst)).append (e.map Prod.fst)).append (f.map Prod.fst)).append
      (g.map Prod.fst))

theorem absentAll_of_sub {s1 s2 : MemoryDataStore} (hsub : containersSub s1 s2)
    {x : ObjectId} (h : absentAll s2 x) : absentAll s1 x :=
  ⟨findA_none_of_sublist hsub.1 h.1, findA_none_of_sublist hsub.2.1 h.2.1,
   findA_none_of_sublist hsub.2.2.1 h.2.2.1,
   findA_none_of_sublist hsub.2.2.2.1 h.2.2.2.1,
   findA_none_of_sublist hsub.2.2.2.2.1 h.2.2.2.2.1,
   findA_none_of_sublist hsub.2.2.2.2.2.1 h.2.2.2.2.2.1,
   findA_none_of_sublist hsub.2.2.2.2.2.2 h.2.2.2.2.2.2⟩

theorem detachShared_sub (s : MemoryDataStore) (id : ObjectId) :
    containersSub (detachShared s id) s :=
  ⟨List.Sublist.refl _, List.Sublist.refl _, List.Sublist.refl _,
   List.Sublist.refl _, List.Sublist.refl _, List.Sublist.refl _,
   List.Sublist.refl _⟩

theorem foldl_containersSub (rec : MemoryDataStore → ObjectId → MemoryDataStore)
    (hrec : ∀ st c, containersSub (rec st c) st) :
    ∀ (ids : List ObjectId) (s0 : MemoryDataStore),
      containersSub (ids.foldl rec s0) s0 := by
  intro ids
  induction ids with
  | nil => intro s0; exact containersSub_refl s0
  | cons c ids ih =>
    intro s0
    rw [List.foldl_cons]
    exact containersSub_trans (ih (rec s0 c)) (hrec s0 c)

theorem removeStepOther_sub (s : MemoryDataStore) (id : ObjectId) :
    containersSub (removeStepOther s id) s := by
  rw [removeStepOther]
  split_ifs
  · exact ⟨List.Sublist.refl _, List.Sublist.refl _, eraseKey_sublist _ _,
      List.Sublist.refl _, List.Sublist.refl _, List.Sublist.refl _,
      List.Sublist.refl _⟩
  · exact ⟨List.Sublist.refl _, List.Sublist.refl _, List.Sublist.refl _,
      eraseKey_sublist _ _, List.Sublist.refl _, List.Sublist.refl _,
      List.Sublist.refl _⟩
  · exact ⟨List.Sublist.refl _, List.Sublist.refl _, List.Sublist.refl _,
      List.Sublist.refl _, eraseKey_sublist _ _, List.Sublist.refl _,
      List.Sublist.refl _⟩
  · exact ⟨List.Sublist.refl _, List.Sublist.refl _, List.Sublist.refl _,
      List.Sublist.refl _, List.Sublist.refl _, eraseKey_sublist _ _,
      List.Sublist.refl _⟩
  · exact ⟨List.Sublist.refl _, List.Sublist.refl _, List.Sublist.refl _,
      List.Sublist.refl _, List.Sublist.refl _, List.Sublist.refl _,
      eraseKey_sublist _ _⟩
  · exact detachShared_sub s id

theorem removeStepPlatform_sub (rec : MemoryDataStore → ObjectId → MemoryDataStore)
    (hrec : ∀ st c, containersSub (rec st c) st) (s : MemoryDataStore)
    (id : ObjectId) : containersSub (removeStepPlatform rec s id) s := by
  rw [removeStepPlatform]
  refine containersSub_trans ?_ (detachShared_sub s id)
  have h2 := foldl_containersSub rec hrec (platformChildIds s id) (detachShared s id)
  exact ⟨(eraseKey_sublist _ _).trans h2.1, h2.2.1, h2.2.2.1, h2.2.2.2.1,
    h2.2.2.2.2.1, h2.2.2.2.2.2.1, h2.2.2.2.2.2.2⟩

theorem removeStepBeam_sub (rec : MemoryDataStore → ObjectId → MemoryDataStore)
    (hrec : ∀ st c, containersSub (rec st c) st) (s : MemoryDataStore)
    (id : ObjectId) : containersSub (removeStepBeam rec s id) s := by
  rw [removeStepBeam]
  refine containersSub_trans ?_ (detachShared_sub s id)
  have h2 := foldl_containersSub rec hrec (beamChildIds s id) (detachShared s id)
  exact ⟨h2.1, (eraseKey_sublist _ _).trans h2.2.1, h2.2.2.1, h2.2.2.2.1,
    h2.2.2.2.2.1, h2.2.2.2.2.2.1, h2.2.2.2.2.2.2⟩

theorem removeEntityF_sub : ∀ (fuel : Nat) (s : MemoryDataStore) (id : ObjectId),
    containersSub (removeEntityF fuel s id) s := by
  intro fuel
  induction fuel with
  | zero => intro s id; exact containersSub_refl s
  | succ fuel ih =>
    intro s id
    rw [removeEntityF]
    split_ifs
    · exact containersSub_refl s
    · exact removeStepPlatform_sub _ (fun st c => ih st c) s id
    · exact removeStepBeam_sub _ (fun st c => ih st c) s id
    · exact removeStepOther_sub s id

theorem removeEntityF_storeWF (fuel : Nat) (s : MemoryDataStore) (id : ObjectId)
    (h : StoreWF s) : StoreWF (removeEntityF fuel s id) :=
  storeWF_of_sub (removeEntityF_sub fuel s id) h

theorem removeEntityF_absentAll (fuel : Nat) (s : MemoryDataStore) (id : ObjectId)
    {x : ObjectId} (h : absentAll s x) : absentAll (removeEntityF fuel s id) x :=
  absentAll_of_sub (removeEntityF_sub fuel s id) h

theorem foldl_removeEntityF_sub (fuel : Nat) (ids : List ObjectId)
    (s0 : MemoryDataStore) :
    containersSub (ids.foldl (fun st c => removeEntityF fuel st c) s0) s0 :=
  foldl_containersSub _ (fun st c => removeEntityF_sub fuel st c) ids s0

theorem mem_keysOf_of_mem {β : Type} {l : List (ObjectId × β)} {c : ObjectId}
    {e : β} (h : (c, e) ∈ l) : c ∈ keysOf l := by
  rw [keysOf, List.mem_map]
  exact ⟨(c, e), h, rfl⟩

theorem mem_beamIdListForHost {s : MemoryDataStore} {h c : ObjectId} :
    c ∈ beamIdListForHost s h ↔
      ∃ e, (c, e) ∈ s.beams ∧ hostidVal e.properties.hostid = h := by
  rw [beamIdListForHost]
  simp only [List.mem_map, List.mem_filter, decide_eq_true_eq]
  constructor
  · rintro ⟨⟨a, b⟩, ⟨hmem, hh⟩, rfl⟩
    exact ⟨b, hmem, hh⟩
  · rintro ⟨e, hmem, hh⟩
    exact ⟨(c, e), ⟨hmem, hh⟩, rfl⟩

theorem mem_gateIdListForHost {s : MemoryDataStore} {h c : ObjectId} :
    c ∈ gateIdListForHost s h ↔
      ∃ e, (c, e) ∈ s.gates ∧ hostidVal e.properties.hostid = h := by
  rw [gateIdListForHost]
  simp only [List.mem_map, List.mem_filter, decide_eq_true_eq]
  constructor
  · rintro ⟨⟨a, b⟩, ⟨hmem, hh⟩, rfl⟩
    exact ⟨b, hmem, hh⟩
  · rintro ⟨e, hmem, hh⟩
    exact ⟨(c, e), ⟨hmem, hh⟩, rfl⟩

theorem mem_laserIdListForHost {s : MemoryDataStore} {h c : ObjectId} :
    c ∈ laserIdListForHost s h ↔
      ∃ e, (c, e) ∈ s.lasers ∧ hostidVal e.properties.hostid = h := by
  rw [laserIdListForHost]
  simp only [List.mem_map, List.mem_filter, decide_eq_true_eq]
  constructor
  · rintro ⟨⟨a, b⟩, ⟨hmem, hh⟩, rfl⟩
    exact ⟨b, hmem, hh⟩
  · rintro ⟨e, hmem, hh⟩
    exact ⟨(c, e), ⟨hmem, hh⟩, rfl⟩

theorem mem_projectorIdListForHost {s : MemoryDataStore} {h c : ObjectId} :
    c ∈ projectorIdListForHost s h ↔
      ∃ e, (c, e) ∈ s.projectors ∧ hostidVal e.properties.hostid = h := by
  rw [projectorIdListForHost]
  simp only [List.mem_map, List.mem_filter, decide_eq_true_eq]
  constructor
  · rintro ⟨⟨a, b⟩, ⟨hmem, hh⟩, rfl⟩
    exact ⟨b, hmem, hh⟩
  · rintro ⟨e, hmem, hh⟩
    exact ⟨(c, e), ⟨hmem, hh⟩, rfl⟩

theorem mem_lobGroupIdListForHost {s : MemoryDataStore} {h c : ObjectId} :
    c ∈ lobGroupIdListForHost s h ↔
      ∃ e, (c, e) ∈ s.lobGroups ∧ hostidVal e.properties.hostid = h := by
  rw [lobGroupIdListForHost]
  simp only [List.mem_map, List.mem_filter, decide_eq_true_eq]
  constructor
  · rintro ⟨⟨a, b⟩, ⟨hmem, hh⟩, rfl⟩
    exact ⟨b, hmem, hh⟩
  · rintro ⟨e, hmem, hh⟩
    exact ⟨(c, e), ⟨hmem, hh⟩, rfl⟩

theorem mem_customRenderingIdListForHost {s : MemoryDataStore} {h c : ObjectId} :
    c ∈ customRenderingIdListForHost s h ↔
      ∃ e, (c, e) ∈ s.customRenderings ∧ hostidVal e.properties.hostid = h := by
  rw [customRenderingIdListForHost]
  simp only [List.mem_map, List.mem_filter, decide_eq_true_eq]
  constructor
  · rintro ⟨⟨a, b⟩, ⟨hmem, hh⟩, rfl⟩
    exact ⟨b, hmem, hh⟩
  · rintro ⟨e, hmem, hh⟩
    exact ⟨(c, e), ⟨hmem, hh⟩, rfl⟩

theorem removeStepOther_spec (s : MemoryDataStore) (c : ObjectId) :
    (removeStepOther s c).platforms = s.platforms ∧
    (removeStepOther s c).beams = s.beams ∧
    ∀ x, x ≠ c →
      findA (removeStepOther s c).gates x = findA s.gates x ∧
      findA (removeStepOther s c).lasers x = findA s.lasers x ∧
      findA (removeStepOther s c).projectors x = findA s.projectors x ∧
      findA (removeStepOther s c).lobGroups x = findA s.lobGroups x ∧
      findA (removeStepOther s c).customRenderings x = findA s.customRenderings x := by
  rw [removeStepOther]
  split_ifs
  · exact ⟨rfl, rfl, fun x hx => ⟨findA_eraseKey_ne _ hx, rfl, rfl, rfl, rfl⟩⟩
  · exact ⟨rfl, rfl, fun x hx => ⟨rfl, findA_eraseKey_ne _ hx, rfl, rfl, rfl⟩⟩
  · exact ⟨rfl, rfl, fun x hx => ⟨rfl, rfl, findA_eraseKey_ne _ hx, rfl, rfl⟩⟩
  · exact ⟨rfl, rfl, fun x hx => ⟨rfl, rfl, rfl, findA_eraseKey_ne _ hx, rfl⟩⟩
  · exact ⟨rfl, rfl, fun x hx => ⟨rfl, rfl, rfl, rfl, findA_eraseKey_ne _ hx⟩⟩
  · exact ⟨rfl, rfl, fun x hx => ⟨rfl, rfl, rfl, rfl, rfl⟩⟩

theorem removeEntityF_leaf (fuel : Nat) (s : MemoryDataStore) (c : ObjectId)
    (hp : c ∉ keysOf s.platforms) (hb : c ∉ keysOf s.beams) :
    (removeEntityF fuel s c).platforms = s.platforms ∧
    (removeEntityF fuel s c).beams = s.beams ∧
    ∀ x, x ≠ c →
      findA (removeEntityF fuel s c).gates x = findA s.gates x ∧
      findA (removeEntityF fuel s c).lasers x = findA s.lasers x ∧
      findA (removeEntityF fuel s c).projectors x = findA s.projectors x ∧
      findA (removeEntityF fuel s c).lobGroups x = findA s.lobGroups x ∧
      findA (removeEntityF fuel s c).customRenderings x = findA s.customRenderings x := by
  cases fuel with
  | zero => exact ⟨rfl, rfl, fun x _ => ⟨rfl, rfl, rfl, rfl, rfl⟩⟩
  | succ fuel =>
    rw [removeEntityF]
    by_cases h0 : objectType s c = .none
    · rw [if_pos h0]
      exact ⟨rfl, rfl, fun x _ => ⟨rfl, rfl, rfl, rfl, rfl⟩⟩
    · have hpn : ¬((findA s.platforms c).isSome = true) :=
        fun hh => hp ((findA_isSome_iff _ _).mp hh)
      have hbn : ¬((findA s.beams c).isSome = true) :=
        fun hh => hb ((findA_isSome_iff _ _).mp hh)
      rw [if_neg h0, if_neg hpn, if_neg hbn]
      exact removeStepOther_spec s c

theorem foldl_leaf_spec (fuel : Nat) (ids : List ObjectId) :
    ∀ s0 : MemoryDataStore,
      (∀ c ∈ ids, c ∉ keysOf s0.platforms ∧ c ∉ keysOf s0.beams) →
      ((ids.foldl (fun st c => removeEntityF fuel st c) s0).platforms = s0.platforms ∧
       (ids.foldl (fun st c => removeEntityF fuel st c) s0).beams = s0.beams ∧
       ∀ x, x ∉ ids →
         findA (ids.foldl (fun st c => removeEntityF fuel st c) s0).gates x =
           findA s0.gates x ∧
         findA (ids.foldl (fun st c => removeEntityF fuel st c) s0).lasers x =
           findA s0.lasers x ∧
         findA (ids.foldl (fun st c => removeEntityF fuel st c) s0).projectors x =
           findA s0.projectors x ∧
         findA (ids.foldl (fun st c => removeEntityF fuel st c) s0).lobGroups x =
           findA s0.lobGroups x ∧
         findA (ids.foldl (fun st c => removeEntityF fuel st c) s0).customRenderings x =
           findA s0.customRenderings x) := by
  induction ids with
  | nil => intro s0 _; exact ⟨rfl, rfl, fun x _ => ⟨rfl, rfl, rfl, rfl, rfl⟩⟩
  | cons c ids ih =>
    intro s0 hcond
    obtain ⟨hcp, hcb⟩ := hcond c (List.mem_cons_self c ids)
    have hleaf := removeEntityF_leaf fuel s0 c hcp hcb
    have hcond2 : ∀ c2 ∈ ids, c2 ∉ keysOf (removeEntityF fuel s0 c).platforms ∧
        c2 ∉ keysOf (removeEntityF fuel s0 c).beams := by
      intro c2 hc2
      obtain ⟨h1, h2⟩ := hcond c2 (List.mem_cons_of_mem c hc2)
      rw [hleaf.1, hleaf.2.1]
      exact ⟨h1, h2⟩
    have hih := ih (removeEntityF fuel s0 c) hcond2
    refine ⟨hih.1.trans hleaf.1, hih.2.1.trans hleaf.2.1, fun x hx => ?_⟩
    have hxc : x ≠ c := fun he => hx (by rw [he]; exact List.mem_cons_self c ids)
    have hxids : x ∉ ids := fun hm => hx (List.mem_cons_of_mem c hm)
    obtain ⟨g1, g2, g3, g4, g5⟩ := hih.2.2 x hxids
    obtain ⟨l1, l2, l3, l4, l5⟩ := hleaf.2.2 x hxc
    exact ⟨g1.trans l1, g2.trans l2, g3.trans l3, g4.trans l4, g5.trans l5⟩

theorem beamChildIds_not_pb (s : MemoryDataStore) (c : ObjectId)
    (hwf : StoreWF s) : ∀ c2 ∈ beamChildIds s c,
      c2 ∉ keysOf s.platforms ∧ c2 ∉ keysOf s.beams := by
  intro c2 hc2
  have hmem : c2 ∈ keysOf s.gates ∨ c2 ∈ keysOf s.projectors := by
    rw [beamChildIds, List.mem_append] at hc2
    rcases hc2 with h | h
    · obtain ⟨e, hm, -⟩ := mem_gateIdListForHost.mp h
      exact Or.inl (mem_keysOf_of_mem hm)
    · obtain ⟨e, hm, -⟩ := mem_projectorIdListForHost.mp h
      exact Or.inr (mem_keysOf_of_mem hm)
  have hfw := storeWF_forward s hwf c2
  constructor
  · intro hcp
    rcases hmem with h | h
    · exact (hfw.1 hcp).2.1 h
    · exact (hfw.1 hcp).2.2.2.1 h
  · intro hcb
    rcases hmem with h | h
    · exact (hfw.2.1 hcb).1 h
    · exact (hfw.2.1 hcb).2.2.1 h

theorem removeEntityF_platforms_eq (fuel : Nat) (s : MemoryDataStore)
    (c : ObjectId) (hwf : StoreWF s) (hp : c ∉ keysOf s.platforms) :
    (removeEntityF fuel s c).platforms = s.platforms := by
  cases fuel with
  | zero => rfl
  | succ fuel =>
    rw [removeEntityF]
    by_cases h0 : objectType s c = .none
    · rw [if_pos h0]
    · have hpn : ¬((findA s.platforms c).isSome = true) :=
        fun hh => hp ((findA_isSome_iff _ _).mp hh)
      rw [if_neg h0, if_neg hpn]
      by_cases hbc : (findA s.beams c).isSome = true
      · rw [if_pos hbc, removeStepBeam]
        have hfold := foldl_leaf_spec fuel (beamChildIds s c) (detachShared s c)
          (fun c2 hc2 => beamChildIds_not_pb s c hwf c2 hc2)
        exact hfold.1
      · rw [if_neg hbc]
        exact (removeStepOther_spec s c).1

theorem removeEntityF_beams_preserve (fuel : Nat) (s : MemoryDataStore)
    (c : ObjectId) (hwf : StoreWF s) (hp : c ∉ keysOf s.platforms)
    {x : ObjectId} (hx : x ≠ c) :
    findA (removeEntityF fuel s c).beams x = findA s.beams x := by
  cases fuel with
  | zero => rfl
  | succ fuel =>
    rw [removeEntityF]
    by_cases h0 : objectType s c = .none
    · rw [if_pos h0]
    · have hpn : ¬((findA s.platforms c).isSome = true) :=
        fun hh => hp ((findA_isSome_iff _ _).mp hh)
      rw [if_neg h0, if_neg hpn]
      by_cases hbc : (findA s.beams c).isSome = true
      · rw [if_pos hbc, removeStepBeam]
        have hfold := foldl_leaf_spec fuel (beamChildIds s c) (detachShared s c)
          (fun c2 hc2 => beamChildIds_not_pb s c hwf c2 hc2)
        exact (findA_eraseKey_ne _ hx).trans (by rw [hfold.2.1]; rfl)
      · rw [if_neg hbc]
        rw [(removeStepOther_spec s c).2.1]

theorem removeEntityF_gates_entry_preserve (fuel : Nat) (s : MemoryDataStore)
    (c : ObjectId) (hwf : StoreWF s) (hp : c ∉ keysOf s.platforms)
    {x : ObjectId} {e : GateEntry} (hx : x ≠ c)
    (hfind : findA s.gates x = some e)
    (hhost : hostidVal e.properties.hostid ≠ c) :
    findA (removeEntityF fuel s c).gates x = some e := by
  cases fuel with
  | zero => exact hfind
  | succ fuel =>
    rw [removeEntityF]
    by_cases h0 : objectType s c = .none
    · rw [if_pos h0]; exact hfind
    · have hpn : ¬((findA s.platforms c).isSome = true) :=
        fun hh => hp ((findA_isSome_iff _ _).mp hh)
      rw [if_neg h0, if_neg hpn]
      by_cases hbc : (findA s.beams c).isSome = true
      · rw [if_pos hbc, removeStepBeam]
        have hnd := storeWF_nodups s hwf
        have hxnot : x ∉ beamChildIds s c := by
          intro hmem
          rw [beamChildIds, List.mem_append] at hmem
          rcases hmem with h | h
          · obtain ⟨e2, hm, hh⟩ := mem_gateIdListForHost.mp h
            have he2 : findA s.gates x = some e2 :=
              findA_eq_some_of_mem hnd.2.2.1 hm
            rw [hfind] at he2
            injection he2 with he2
            rw [← he2] at hh
            exact hhost hh
          · obtain ⟨e2, hm, -⟩ := mem_projectorIdListForHost.mp h
            have hxg : x ∈ keysOf s.gates :=
              mem_keysOf_of_mem (mem_of_findA_eq_some hfind)
            have hxp : x ∈ keysOf s.projectors := mem_keysOf_of_mem hm
            exact ((storeWF_forward s hwf x).2.2.1 hxg).2.1 hxp
        have hfold := foldl_leaf_spec fuel (beamChildIds s c) (detachShared s c)
          (fun c2 hc2 => beamChildIds_not_pb s c hwf c2 hc2)
        exact ((hfold.2.2 x hxnot).1).trans hfind
      · rw [if_neg hbc]
        exact ((removeStepOther_spec s c).2.2 x hx).1.trans hfind

theorem removeEntityF_projectors_entry_preserve (fuel : Nat) (s : MemoryDataStore)
    (c : ObjectId) (hwf : StoreWF s) (hp : c ∉ keysOf s.platforms)
    {x : ObjectId} {e : ProjectorEntry} (hx : x ≠ c)
    (hfind : findA s.projectors x = some e)
    (hhost : hostidVal e.properties.hostid ≠ c) :
    findA (removeEntityF fuel s c).projectors x = some e := by
  cases fuel with
  | zero => exact hfind
  | succ fuel =>
    rw [removeEntityF]
    by_cases h0 : objectType s c = .none
    · rw [if_pos h0]; exact hfind
    · have hpn : ¬((findA s.platforms c).isSome = true) :=
        fun hh => hp ((findA_isSome_iff _ _).mp hh)
      rw [if_neg h0, if_neg hpn]
      by_cases hbc : (findA s.beams c).isSome = true
      · rw [if_pos hbc, removeStepBeam]
        have hnd := storeWF_nodups s hwf
        have hxnot : x ∉ beamChildIds s c := by
          intro hmem
          rw [beamChildIds, List.mem_append] at hmem
          rcases hmem with h | h
          · obtain ⟨e2, hm, -⟩ := mem_gateIdListForHost.mp h
            have hxg : x ∈ keysOf s.gates := mem_keysOf_of_mem hm
            have hxp : x ∈ keysOf s.projectors :=
              mem_keysOf_of_mem (mem_of_findA_eq_some hfind)
            exact ((storeWF_forward s hwf x).2.2.1 hxg).2.1 hxp
          · obtain ⟨e2, hm, hh⟩ := mem_projectorIdListForHost.mp h
            have he2 : findA s.projectors x = some e2 :=
              findA_eq_some_of_mem hnd.2.2.2.2.1 hm
            rw [hfind] at he2
            injection he2 with he2
            rw [← he2] at hh
            exact hhost hh
        have hfold := foldl_leaf_spec fuel (beamChildIds s c) (detachShared s c)
          (fun c2 hc2 => beamChildIds_not_pb s c hwf c2 hc2)
        exact ((hfold.2.2 x hxnot).2.2.1).trans hfind
      · rw [if_neg hbc]
        exact ((removeStepOther_spec s c).2.2 x hx).2.2.1.trans hfind

theorem findA_none_of_not_isSome {β : Type} {l : List (ObjectId × β)}
    {c : ObjectId} (h : ¬((findA l c).isSome = true)) : findA l c = none := by
  rcases he : findA l c with _ | v
  · rfl
  · exact absurd (by rw [he]; rfl) h

theorem absentAll_erasePlatformKey {s : MemoryDataStore} {x id : ObjectId}
    (h : absentAll s x) : absentAll (erasePlatformKey s id) x :=
  ⟨findA_none_of_sublist (eraseKey_sublist _ _) h.1, h.2.1, h.2.2.1, h.2.2.2.1,
   h.2.2.2.2.1, h.2.2.2.2.2.1, h.2.2.2.2.2.2⟩

theorem absentAll_eraseBeamKey {s : MemoryDataStore} {x id : ObjectId}
    (h : absentAll s x) : absentAll (eraseBeamKey s id) x :=
  ⟨h.1, findA_none_of_sublist (eraseKey_sublist _ _) h.2.1, h.2.2.1, h.2.2.2.1,
   h.2.2.2.2.1, h.2.2.2.2.2.1, h.2.2.2.2.2.2⟩

theorem removeEntityF_self_absent (fuel : Nat) (s : MemoryDataStore)
    (c : ObjectId) (hwf : StoreWF s) :
    absentAll (removeEntityF (fuel + 1) s c) c := by
  rw [removeEntityF]
  by_cases h0 : objectType s c = .none
  · rw [if_pos h0]
    exact (objectType_none_iff s c).mp h0
  · rw [if_neg h0]
    have hnd := storeWF_nodups s hwf
    have hfw := storeWF_forward s hwf c
    by_cases hpc : (findA s.platforms c).isSome = true
    · rw [if_pos hpc, removeStepPlatform]
      have hcP : c ∈ keysOf s.platforms := (findA_isSome_iff _ _).mp hpc
      have hsub := foldl_removeEntityF_sub fuel (platformChildIds s c)
        (detachShared s c)
      refine ⟨?_, ?_, ?_, ?_, ?_, ?_, ?_⟩
      · exact findA_eraseKey_self _ _
          (List.Nodup.sublist (keysOf_sublist_of_sublist hsub.1) hnd.1)
      · exact findA_none_of_sublist hsub.2.1
          ((findA_eq_none_iff _ _).mpr (hfw.1 hcP).1)
      · exact findA_none_of_sublist hsub.2.2.1
          ((findA_eq_none_iff _ _).mpr (hfw.1 hcP).2.1)
      · exact findA_none_of_sublist hsub.2.2.2.1
          ((findA_eq_none_iff _ _).mpr (hfw.1 hcP).2.2.1)
      · exact findA_none_of_sublist hsub.2.2.2.2.1
          ((findA_eq_none_iff _ _).mpr (hfw.1 hcP).2.2.2.1)
      · exact findA_none_of_sublist hsub.2.2.2.2.2.1
          ((findA_eq_none_iff _ _).mpr (hfw.1 hcP).2.2.2.2.1)
      · exact findA_none_of_sublist hsub.2.2.2.2.2.2
          ((findA_eq_none_iff _ _).mpr (hfw.1 hcP).2.2.2.2.2)
    · rw [if_neg hpc]
      by_cases hbc : (findA s.beams c).isSome = true
      · rw [if_pos hbc, removeStepBeam]
        have hcB : c ∈ keysOf s.beams := (findA_isSome_iff _ _).mp hbc
        have hsub := foldl_removeEntityF_sub fuel (beamChildIds s c)
          (detachShared s c)
        refine ⟨?_, ?_, ?_, ?_, ?_, ?_, ?_⟩
        · exact findA_none_of_sublist hsub.1 (findA_none_of_not_isSome hpc)
        · exact findA_eraseKey_self _ _
            (List.Nodup.sublist (keysOf_sublist_of_sublist hsub.2.1) hnd.2.1)
        · exact findA_none_of_sublist hsub.2.2.1
            ((findA_eq_none_iff _ _).mpr (hfw.2.1 hcB).1)
        · exact findA_none_of_sublist hsub.2.2.2.1
            ((findA_eq_none_iff _ _).mpr (hfw.2.1 hcB).2.1)
        · exact findA_none_of_sublist hsub.2.2.2.2.1
            ((findA_eq_none_iff _ _).mpr (hfw.2.1 hcB).2.2.1)
        · exact findA_none_of_sublist hsub.2.2.2.2.2.1
            ((findA_eq_none_iff _ _).mpr (hfw.2.1 hcB).2.2.2.1)
        · exact findA_none_of_sublist hsub.2.2.2.2.2.2
            ((findA_eq_none_iff _ _).mpr (hfw.2.1 hcB).2.2.2.2)
      · rw [if_neg hbc, removeStepOther]
        split_ifs with h1 h2 h3 h4 h5
        · have hcG : c ∈ keysOf s.gates := (findA_isSome_iff _ _).mp h1
          exact ⟨findA_none_of_not_isSome hpc, findA_none_of_not_isSome hbc,
            findA_eraseKey_self _ _ hnd.2.2.1,
            (findA_eq_none_iff _ _).mpr (hfw.2.2.1 hcG).1,
            (findA_eq_none_iff _ _).mpr (hfw.2.2.1 hcG).2.1,
            (findA_eq_none_iff _ _).mpr (hfw.2.2.1 hcG).2.2.1,
            (findA_eq_none_iff _ _).mpr (hfw.2.2.1 hcG).2.2.2⟩
        · have hcL : c ∈ keysOf s.lasers := (findA_isSome_iff _ _).mp h2
          exact ⟨findA_none_of_not_isSome hpc, findA_none_of_not_isSome hbc,
            findA_none_of_not_isSome h1,
            findA_eraseKey_self _ _ hnd.2.2.2.1,
            (findA_eq_none_iff _ _).mpr (hfw.2.2.2.1 hcL).1,
            (findA_eq_none_iff _ _).mpr (hfw.2.2.2.1 hcL).2.1,
            (findA_eq_none_iff _ _).mpr (hfw.2.2.2.1 hcL).2.2⟩
        · have hcQ : c ∈ keysOf s.projectors := (findA_isSome_iff _ _).mp h3
          exact ⟨findA_none_of_not_isSome hpc, findA_none_of_not_isSome hbc,
            findA_none_of_not_isSome h1, findA_none_of_not_isSome h2,
            findA_eraseKey_self _ _ hnd.2.2.2.2.1,
            (findA_eq_none_iff _ _).mpr (hfw.2.2.2.2.1 hcQ).1,
            (findA_eq_none_iff _ _).mpr (hfw.2.2.2.2.1 hcQ).2⟩
        · have hcO : c ∈ keysOf s.lobGroups := (findA_isSome_iff _ _).mp h4
          exact ⟨findA_none_of_not_isSome hpc, findA_none_of_not_isSome hbc,
            findA_none_of_not_isSome h1, findA_none_of_not_isSome h2,
            findA_none_of_not_isSome h3,
            findA_eraseKey_self _ _ hnd.2.2.2.2.2.1,
            (findA_eq_none_iff _ _).mpr (hfw.2.2.2.2.2 hcO)⟩
        · exact ⟨findA_none_of_not_isSome hpc, findA_none_of_not_isSome hbc,
            findA_none_of_not_isSome h1, findA_none_of_not_isSome h2,
            findA_none_of_not_isSome h3, findA_none_of_not_isSome h4,
            findA_eraseKey_self _ _ hnd.2.2.2.2.2.2⟩
        · exact ⟨findA_none_of_not_isSome hpc, findA_none_of_not_isSome hbc,
            findA_none_of_not_isSome h1, findA_none_of_not_isSome h2,
            findA_none_of_not_isSome h3, findA_none_of_not_isSome h4,
            findA_none_of_not_isSome h5⟩

theorem foldl_removeEntityF_absent (fuel : Nat) :
    ∀ (ids : List ObjectId) (s0 : MemoryDataStore), StoreWF s0 →
      ∀ {c : ObjectId}, c ∈ ids →
      absentAll (ids.foldl (fun st c2 => removeEntityF (fuel + 1) st c2) s0) c := by
  intro ids
  induction ids with
  | nil => intro s0 _ c hc; cases hc
  | cons d ids ih =>
    intro s0 hwf c hc
    rcases List.mem_cons.mp hc with rfl | hmem
    · exact absentAll_of_sub
        (foldl_removeEntityF_sub (fuel + 1) ids (removeEntityF (fuel + 1) s0 c))
        (removeEntityF_self_absent fuel s0 c hwf)
    · exact ih (removeEntityF (fuel + 1) s0 d) (removeEntityF_storeWF _ _ _ hwf) hmem

theorem beamIdListForHost_sublist_keys (s : MemoryDataStore) (h : ObjectId) :
    (beamIdListForHost s h).Sublist (keysOf s.beams) :=
  (List.filter_sublist _).map Prod.fst

theorem gateIdListForHost_sublist_keys (s : MemoryDataStore) (h : ObjectId) :
    (gateIdListForHost s h).Sublist (keysOf s.gates) :=
  (List.filter_sublist _).map Prod.fst

theorem laserIdListForHost_sublist_keys (s : MemoryDataStore) (h : ObjectId) :
    (laserIdListForHost s h).Sublist (keysOf s.lasers) :=
  (List.filter_sublist _).map Prod.fst

theorem projectorIdListForHost_sublist_keys (s : MemoryDataStore) (h : ObjectId) :
    (projectorIdListForHost s h).Sublist (keysOf s.projectors) :=
  (List.filter_sublist _).map Prod.fst

theorem lobGroupIdListForHost_sublist_keys (s : MemoryDataStore) (h : ObjectId) :
    (lobGroupIdListForHost s h).Sublist (keysOf s.lobGroups) :=
  (List.filter_sublist _).map Prod.fst

theorem customRenderingIdListForHost_sublist_keys (s : MemoryDataStore)
    (h : ObjectId) :
    (customRenderingIdListForHost s h).Sublist (keysOf s.customRenderings) :=
  (List.filter_sublist _).map Prod.fst

theorem platformChildIds_not_platform (s : MemoryDataStore) (P : ObjectId)
    (hwf : StoreWF s) : ∀ c ∈ platformChildIds s P, c ∉ keysOf s.platforms := by
  intro c hc hP2
  rw [platformChildIds] at hc
  simp only [List.mem_append] at hc
  have hfw := storeWF_forward s hwf c
  rcases hc with ((((h | h) | h) | h) | h)
  · exact (hfw.1 hP2).1 ((beamIdListForHost_sublist_keys s P).subset h)
  · exact (hfw.1 hP2).2.2.1 ((laserIdListForHost_sublist_keys s P).subset h)
  · exact (hfw.1 hP2).2.2.2.1 ((projectorIdListForHost_sublist_keys s P).subset h)
  · exact (hfw.1 hP2).2.2.2.2.1 ((lobGroupIdListForHost_sublist_keys s P).subset h)
  · exact (hfw.1 hP2).2.2.2.2.2
      ((customRenderingIdListForHost_sublist_keys s P).subset h)

theorem platformChildIds_nodup (s : MemoryDataStore) (P : ObjectId)
    (hwf : StoreWF s) : (platformChildIds s P).Nodup := by
  have hnd := storeWF_nodups s hwf
  have nB := List.Nodup.sublist (beamIdListForHost_sublist_keys s P) hnd.2.1
  have nL := List.Nodup.sublist (laserIdListForHost_sublist_keys s P) hnd.2.2.2.1
  have nQ := List.Nodup.sublist (projectorIdListForHost_sublist_keys s P)
    hnd.2.2.2.2.1
  have nO := List.Nodup.sublist (lobGroupIdListForHost_sublist_keys s P)
    hnd.2.2.2.2.2.1
  have nC := List.Nodup.sublist (customRenderingIdListForHost_sublist_keys s P)
    hnd.2.2.2.2.2.2
  have kB : ∀ a ∈ beamIdListForHost s P, a ∈ keysOf s.beams :=
    fun a ha => (beamIdListForHost_sublist_keys s P).subset ha
  have kL : ∀ a ∈ laserIdListForHost s P, a ∈ keysOf s.lasers :=
    fun a ha => (laserIdListForHost_sublist_keys s P).subset ha
  have kQ : ∀ a ∈ projectorIdListForHost s P, a ∈ keysOf s.projectors :=
    fun a ha => (projectorIdListForHost_sublist_keys s P).subset ha
  have kO : ∀ a ∈ lobGroupIdListForHost s P, a ∈ keysOf s.lobGroups :=
    fun a ha => (lobGroupIdListForHost_sublist_keys s P).subset ha
  have kC : ∀ a ∈ customRenderingIdListForHost s P, a ∈ keysOf s.customRenderings :=
    fun a ha => (customRenderingIdListForHost_sublist_keys s P).subset ha
  rw [platformChildIds]
  refine (((nB.append nL ?_).append nQ ?_).append nO ?_).append nC ?_
  · intro a h1 h2
    exact ((storeWF_forward s hwf a).2.1 (kB a h1)).2.1 (kL a h2)
  · intro a h1 h2
    rcases List.mem_append.mp h1 with h | h
    · exact ((storeWF_forward s hwf a).2.1 (kB a h)).2.2.1 (kQ a h2)
    · exact ((storeWF_forward s hwf a).2.2.2.1 (kL a h)).1 (kQ a h2)
  · intro a h1 h2
    rcases List.mem_append.mp h1 with h | h
    · rcases List.mem_append.mp h with h2' | h2'
      · exact ((storeWF_forward s hwf a).2.1 (kB a h2')).2.2.2.1 (kO a h2)
      · exact ((storeWF_forward s hwf a).2.2.2.1 (kL a h2')).2.1 (kO a h2)
    · exact ((storeWF_forward s hwf a).2.2.2.2.1 (kQ a h)).1 (kO a h2)
  · intro a h1 h2
    rcases List.mem_append.mp h1 with h | h
    · rcases List.mem_append.mp h with h2' | h2'
      · rcases List.mem_append.mp h2' with h3' | h3'
        · exact ((storeWF_forward s hwf a).2.1 (kB a h3')).2.2.2.2 (kC a h2)
        · exact ((storeWF_forward s hwf a).2.2.2.1 (kL a h3')).2.2 (kC a h2)
      · exact ((storeWF_forward s hwf a).2.2.2.2.1 (kQ a h2')).2 (kC a h2)
    · exact ((storeWF_forward s hwf a).2.2.2.2.2 (kO a h)) (kC a h2)

theorem foldl_grandchild_absent (K : Nat) :
    ∀ (ids : List ObjectId) (s0 : MemoryDataStore), StoreWF s0 → ids.Nodup →
      (∀ c ∈ ids, c ∉ keysOf s0.platforms) →
      ∀ {b g : ObjectId}, b ∈ ids → b ∈ keysOf s0.beams →
      ((∃ e : GateEntry, findA s0.gates g = some e ∧
          hostidVal e.properties.hostid = b) ∨
       (∃ e : ProjectorEntry, findA s0.projectors g = some e ∧
          hostidVal e.properties.hostid = b)) →
      g ∉ ids →
      absentAll (ids.foldl (fun st c => removeEntityF (K + 2) st c) s0) g := by
  intro ids
  induction ids with
  | nil => intro s0 _ _ _ b g hb; cases hb
  | cons d ids ih =>
    intro s0 hwf hnd hplat b g hb hbB hg hgid
    rcases List.mem_cons.mp hb with rfl | hmem
    · have habs : absentAll (removeEntityF (K + 2) s0 b) g := by
        show absentAll (removeEntityF ((K + 1) + 1) s0 b) g
        rw [removeEntityF]
        have h0 : ¬(objectType s0 b = .none) := by
          intro hno
          have hnone := ((objectType_none_iff s0 b).mp hno).2.1
          rw [findA_eq_none_iff] at hnone
          exact hnone hbB
        have hpn : ¬((findA s0.platforms b).isSome = true) :=
          fun hh => hplat b (List.mem_cons_self b ids)
            ((findA_isSome_iff _ _).mp hh)
        have hbp : (findA s0.beams b).isSome = true :=
          (findA_isSome_iff _ _).mpr hbB
        rw [if_neg h0, if_neg hpn, if_pos hbp, removeStepBeam]
        have hgmem : g ∈ beamChildIds s0 b := by
          rw [beamChildIds, List.mem_append]
          rcases hg with ⟨e, hf, hh⟩ | ⟨e, hf, hh⟩
          · exact Or.inl
              (mem_gateIdListForHost.mpr ⟨e, mem_of_findA_eq_some hf, hh⟩)
          · exact Or.inr
              (mem_projectorIdListForHost.mpr ⟨e, mem_of_findA_eq_some hf, hh⟩)
        have habs2 := foldl_removeEntityF_absent K (beamChildIds s0 b)
          (detachShared s0 b) (storeWF_of_sub (detachShared_sub s0 b) hwf) hgmem
        exact absentAll_eraseBeamKey habs2
      exact absentAll_of_sub
        (foldl_removeEntityF_sub (K + 2) ids (removeEntityF (K + 2) s0 b)) habs
    · have hd_nonplat : d ∉ keysOf s0.platforms :=
        hplat d (List.mem_cons_self d ids)
      have hbd : b ≠ d := by
        intro he
        rw [he] at hmem
        exact (List.nodup_cons.mp hnd).1 hmem
      have hgd : g ≠ d :=
        fun he => hgid (by rw [he]; exact List.mem_cons_self d ids)
      have hwf1 : StoreWF (removeEntityF (K + 2) s0 d) :=
        removeEntityF_storeWF _ _ _ hwf
      have hplat1 : ∀ c ∈ ids, c ∉ keysOf (removeEntityF (K + 2) s0 d).platforms := by
        intro c hc
        rw [removeEntityF_platforms_eq (K + 2) s0 d hwf hd_nonplat]
        exact hplat c (List.mem_cons_of_mem d hc)
      have hbB1 : b ∈ keysOf (removeEntityF (K + 2) s0 d).beams :=
        (findA_isSome_iff _ _).mp
          (by rw [removeEntityF_beams_preserve (K + 2) s0 d hwf hd_nonplat hbd]
              exact (findA_isSome_iff _ _).mpr hbB)
      have hg1 :
          (∃ e : GateEntry,
             findA (removeEntityF (K + 2) s0 d).gates g = some e ∧
             hostidVal e.properties.hostid = b) ∨
          (∃ e : ProjectorEntry,
             findA (removeEntityF (K + 2) s0 d).projectors g = some e ∧
             hostidVal e.properties.hostid = b) := by
        rcases hg with ⟨e, hf, hh⟩ | ⟨e, hf, hh⟩
        · exact Or.inl ⟨e, removeEntityF_gates_entry_preserve (K + 2) s0 d hwf
            hd_nonplat hgd hf (by rw [hh]; exact hbd), hh⟩
        · exact Or.inr ⟨e, removeEntityF_projectors_entry_preserve (K + 2) s0 d hwf
            hd_nonplat hgd hf (by rw [hh]; exact hbd), hh⟩
      exact ih (removeEntityF (K + 2) s0 d) hwf1 (List.nodup_cons.mp hnd).2 hplat1
        hmem hbB1 hg1 (fun hm => hgid (List.mem_cons_of_mem d hm))

/-- The ids removed by `removeEntity(P)` on a platform `P`: the platform
itself, its directly hosted entities, and the gates/projectors hosted on
its beams. -/
def removedBy (s : MemoryDataStore) (P r : ObjectId) : Prop :=
  r = P ∨ r ∈ platformChildIds s P ∨
  ∃ b ∈ beamIdListForHost s P, r ∈ beamChildIds s b

instance (s : MemoryDataStore) (P r : ObjectId) : Decidable (removedBy s P r) :=
  decidable_of_iff (r = P ∨ r ∈ platformChildIds s P ∨
    ∃ b ∈ beamIdListForHost s P, r ∈ beamChildIds s b) (by rw [removedBy])

/-- Host well-formedness: every hosted entity's host id refers to an
entity of the kind the data store hosts it on — beams, lasers, lob groups
and custom renderings live on platforms, gates on beams, projectors on
platforms or beams. -/
def HostWF (s : MemoryDataStore) : Prop :=
  (∀ p ∈ s.beams, hostidVal p.2.properties.hostid ∈ keysOf s.platforms) ∧
  (∀ p ∈ s.lasers, hostidVal p.2.properties.hostid ∈ keysOf s.platforms) ∧
  (∀ p ∈ s.lobGroups, hostidVal p.2.properties.hostid ∈ keysOf s.platforms) ∧
  (∀ p ∈ s.customRenderings,
    hostidVal p.2.properties.hostid ∈ keysOf s.platforms) ∧
  (∀ p ∈ s.gates, hostidVal p.2.properties.hostid ∈ keysOf s.beams) ∧
  (∀ p ∈ s.projectors, hostidVal p.2.properties.hostid ∈ keysOf s.platforms ∨
    hostidVal p.2.properties.hostid ∈ keysOf s.beams)

instance (s : MemoryDataStore) : Decidable (HostWF s) :=
  decidable_of_iff
    ((∀ p ∈ s.beams, hostidVal p.2.properties.hostid ∈ keysOf s.platforms) ∧
     (∀ p ∈ s.lasers, hostidVal p.2.properties.hostid ∈ keysOf s.platforms) ∧
     (∀ p ∈ s.lobGroups, hostidVal p.2.properties.hostid ∈ keysOf s.platforms) ∧
     (∀ p ∈ s.customRenderings,
       hostidVal p.2.properties.hostid ∈ keysOf s.platforms) ∧
     (∀ p ∈ s.gates, hostidVal p.2.properties.hostid ∈ keysOf s.beams) ∧
     (∀ p ∈ s.projectors, hostidVal p.2.properties.hostid ∈ keysOf s.platforms ∨
       hostidVal p.2.properties.hostid ∈ keysOf s.beams)) (by rw [HostWF])

theorem removeEntityF_platform_branch (fuel : Nat) (s : MemoryDataStore)
    (P : ObjectId) (hP : (findA s.platforms P).isSome = true) :
    removeEntityF (fuel + 1) s P =
      erasePlatformKey ((platformChildIds s P).foldl
        (fun st c => removeEntityF fuel st c) (detachShared s P)) P := by
  rw [removeEntityF]
  have h0 : ¬(objectType s P = .none) := by
    rw [objectType, if_pos hP]; simp
  rw [if_neg h0, if_pos hP, removeStepPlatform]

theorem removeEntity_removedBy_absent (s : MemoryDataStore) (P : ObjectId)
    (hwf : StoreWF s) (hP : (findA s.platforms P).isSome = true) :
    ∀ r, removedBy s P r → absentAll (removeEntity s P) r := by
  intro r hr
  have hPk : P ∈ keysOf s.platforms := (findA_isSome_iff _ _).mp hP
  have hlenP : 1 ≤ s.platforms.length := by
    rcases hl : s.platforms with _ | ⟨p, rest⟩
    · rw [hl] at hPk; simp [keysOf] at hPk
    · simp
  rcases hr with heq | hchild | ⟨b, hbmem, hgmem⟩
  · subst heq
    rw [removeEntity]
    exact removeEntityF_self_absent (totalEntities s) s r hwf
  · rw [removeEntity]
    obtain ⟨M, hM⟩ : ∃ M, totalEntities s = M + 1 := by
      have h1 : 1 ≤ totalEntities s := by
        unfold totalEntities
        omega
      exact ⟨totalEntities s - 1, by omega⟩
    rw [hM, removeEntityF_platform_branch (M + 1) s P hP]
    refine absentAll_erasePlatformKey ?_
    exact foldl_removeEntityF_absent M (platformChildIds s P) (detachShared s P)
      (storeWF_of_sub (detachShared_sub s P) hwf) hchild
  · rw [removeEntity]
    have hbK : b ∈ keysOf s.beams :=
      (beamIdListForHost_sublist_keys s P).subset hbmem
    have hlenB : 1 ≤ s.beams.length := by
      rcases hl : s.beams with _ | ⟨p, rest⟩
      · rw [hl] at hbK; simp [keysOf] at hbK
      · simp
    obtain ⟨K, hK⟩ : ∃ K, totalEntities s = K + 2 := by
      have h2 : 2 ≤ totalEntities s := by
        unfold totalEntities
        omega
      exact ⟨totalEntities s - 2, by omega⟩
    rw [hK, removeEntityF_platform_branch (K + 2) s P hP]
    refine absentAll_erasePlatformKey ?_
    have hg : (∃ e : GateEntry, findA s.gates r = some e ∧
          hostidVal e.properties.hostid = b) ∨
        (∃ e : ProjectorEntry, findA s.projectors r = some e ∧
          hostidVal e.properties.hostid = b) := by
      rw [beamChildIds, List.mem_append] at hgmem
      rcases hgmem with h | h
      · obtain ⟨e, hm, hh⟩ := mem_gateIdListForHost.mp h
        exact Or.inl ⟨e, findA_eq_some_of_mem (storeWF_nodups s hwf).2.2.1 hm, hh⟩
      · obtain ⟨e, hm, hh⟩ := mem_projectorIdListForHost.mp h
        exact Or.inr
          ⟨e, findA_eq_some_of_mem (storeWF_nodups s hwf).2.2.2.2.1 hm, hh⟩
    have hbChild : b ∈ platformChildIds s P := by
      rw [platformChildIds]
      simp only [List.mem_append]
      exact Or.inl (Or.inl (Or.inl (Or.inl hbmem)))
    have hgnot : r ∉ platformChildIds s P := by
      intro hmem
      rw [platformChildIds] at hmem
      simp only [List.mem_append] at hmem
      have hfw := storeWF_forward s hwf r
      rcases hg with ⟨e, hf, hh⟩ | ⟨e, hf, hh⟩
      · have hrG : r ∈ keysOf s.gates :=
          mem_keysOf_of_mem (mem_of_findA_eq_some hf)
        rcases hmem with ((((h | h) | h) | h) | h)
        · exact (hfw.2.1 ((beamIdListForHost_sublist_keys s P).subset h)).1 hrG
        · exact (hfw.2.2.1 hrG).1 ((laserIdListForHost_sublist_keys s P).subset h)
        · exact (hfw.2.2.1 hrG).2.1
            ((projectorIdListForHost_sublist_keys s P).subset h)
        · exact (hfw.2.2.1 hrG).2.2.1
            ((lobGroupIdListForHost_sublist_keys s P).subset h)
        · exact (hfw.2.2.1 hrG).2.2.2
            ((customRenderingIdListForHost_sublist_keys s P).subset h)
      · have hrQ : r ∈ keysOf s.projectors :=
          mem_keysOf_of_mem (mem_of_findA_eq_some hf)
        rcases hmem with ((((h | h) | h) | h) | h)
        · exact (hfw.2.1 ((beamIdListForHost_sublist_keys s P).subset h)).2.2.1 hrQ
        · exact (hfw.2.2.2.1
            ((laserIdListForHost_sublist_keys s P).subset h)).1 hrQ
        · obtain ⟨e2, hm2, hh2⟩ := mem_projectorIdListForHost.mp h
          have he2 : findA s.projectors r = some e2 :=
            findA_eq_some_of_mem (storeWF_nodups s hwf).2.2.2.2.1 hm2
          rw [hf] at he2
          injection he2 with he2
          rw [← he2] at hh2
          rw [hh] at hh2
          rw [hh2] at hbK
          exact ((storeWF_forward s hwf P).1 hPk).1 hbK
        · exact (hfw.2.2.2.2.1 hrQ).1
            ((lobGroupIdListForHost_sublist_keys s P).subset h)
        · exact (hfw.2.2.2.2.1 hrQ).2
            ((customRenderingIdListForHost_sublist_keys s P).subset h)
    exact foldl_grandchild_absent K (platformChildIds s P) (detachShared s P)
      (storeWF_of_sub (detachShared_sub s P) hwf)
      (platformChildIds_nodup s P hwf)
      (fun c hc => platformChildIds_not_platform s P hwf c hc)
      hbChild hbK hg hgnot

theorem removedBy_cases (s : MemoryDataStore) (P r : ObjectId)
    (hr : removedBy s P r) :
    r = P ∨ r ∈ beamIdListForHost s P ∨ r ∈ laserIdListForHost s P ∨
    r ∈ projectorIdListForHost s P ∨ r ∈ lobGroupIdListForHost s P ∨
    r ∈ customRenderingIdListForHost s P ∨
    (∃ b ∈ beamIdListForHost s P, r ∈ beamChildIds s b) := by
  rcases hr with heq | hchild | hg
  · exact Or.inl heq
  · rw [platformChildIds] at hchild
    simp only [List.mem_append] at hchild
    tauto
  · exact Or.inr (Or.inr (Or.inr (Or.inr (Or.inr (Or.inr hg)))))

theorem removedBy_platform_eq (s : MemoryDataStore) (P r : ObjectId)
    (hwf : StoreWF s) (hr : removedBy s P r)
    (hrP : r ∈ keysOf s.platforms) : r = P := by
  have hfw := storeWF_forward s hwf r
  rcases removedBy_cases s P r hr with heq | h | h | h | h | h | ⟨b, -, h⟩
  · exact heq
  · exact absurd ((beamIdListForHost_sublist_keys s P).subset h) (hfw.1 hrP).1
  · exact absurd ((laserIdListForHost_sublist_keys s P).subset h) (hfw.1 hrP).2.2.1
  · exact absurd ((projectorIdListForHost_sublist_keys s P).subset h)
      (hfw.1 hrP).2.2.2.1
  · exact absurd ((lobGroupIdListForHost_sublist_keys s P).subset h)
      (hfw.1 hrP).2.2.2.2.1
  · exact absurd ((customRenderingIdListForHost_sublist_keys s P).subset h)
      (hfw.1 hrP).2.2.2.2.2
  · rw [beamChildIds, List.mem_append] at h
    rcases h with h | h
    · exact absurd ((gateIdListForHost_sublist_keys s b).subset h) (hfw.1 hrP).2.1
    · exact absurd ((projectorIdListForHost_sublist_keys s b).subset h)
        (hfw.1 hrP).2.2.2.1

theorem removedBy_beam_list (s : MemoryDataStore) (P r : ObjectId)
    (hwf : StoreWF s) (hP : P ∈ keysOf s.platforms) (hr : removedBy s P r)
    (hrB : r ∈ keysOf s.beams) : r ∈ beamIdListForHost s P := by
  have hfw := storeWF_forward s hwf r
  rcases removedBy_cases s P r hr with heq | h | h | h | h | h | ⟨b, -, h⟩
  · rw [heq] at hrB
    exact absurd hrB ((storeWF_forward s hwf P).1 hP).1
  · exact h
  · exact absurd ((laserIdListForHost_sublist_keys s P).subset h)
      ((hfw.2.1 hrB).2.1)
  · exact absurd ((projectorIdListForHost_sublist_keys s P).subset h)
      ((hfw.2.1 hrB).2.2.1)
  · exact absurd ((lobGroupIdListForHost_sublist_keys s P).subset h)
      ((hfw.2.1 hrB).2.2.2.1)
  · exact absurd ((customRenderingIdListForHost_sublist_keys s P).subset h)
      ((hfw.2.1 hrB).2.2.2.2)
  · rw [beamChildIds, List.mem_append] at h
    rcases h with h | h
    · exact absurd ((gateIdListForHost_sublist_keys s b).subset h)
        ((hfw.2.1 hrB).1)
    · exact absurd ((projectorIdListForHost_sublist_keys s b).subset h)
        ((hfw.2.1 hrB).2.2.1)

/-- C1: for a platform `P` present in a store whose ids are unique across
containers and whose host ids are well-formed, `removeEntity(P)` leaves
`objectType` equal to `NONE` for `P` itself and for every entity hosted
directly or transitively on it (beams, lasers, projectors, lob groups,
custom renderings on `P`, and the gates/projectors hosted on those
beams), and afterwards no entity remaining in any container has a host id
referring to a removed entity. -/
theorem remove_platform_transitive (s : MemoryDataStore) (P : ObjectId)
    (hwf : StoreWF s) (hhost : HostWF s)
    (hP : (findA s.platforms P).isSome = true) :
    (∀ r, removedBy s P r → objectType (removeEntity s P) r = ObjectType.none) ∧
    (∀ r, removedBy s P r → ∀ c,
      c ∉ beamIdListForHost (removeEntity s P) r ∧
      c ∉ gateIdListForHost (removeEntity s P) r ∧
      c ∉ laserIdListForHost (removeEntity s P) r ∧
      c ∉ projectorIdListForHost (removeEntity s P) r ∧
      c ∉ lobGroupIdListForHost (removeEntity s P) r ∧
      c ∉ customRenderingIdListForHost (removeEntity s P) r) := by
  have habs := removeEntity_removedBy_absent s P hwf hP
  have hPk : P ∈ keysOf s.platforms := (findA_isSome_iff _ _).mp hP
  have hsub : containersSub (removeEntity s P) s :=
    removeEntityF_sub (totalEntities s + 1) s P
  refine ⟨fun r hr => (objectType_none_iff _ _).mpr (habs r hr), fun r hr c => ?_⟩
  refine ⟨fun hc => ?_, fun hc => ?_, fun hc => ?_, fun hc => ?_, fun hc => ?_,
    fun hc => ?_⟩
  · obtain ⟨e, hm, hh⟩ := mem_beamIdListForHost.mp hc
    have hm0 : (c, e) ∈ s.beams := hsub.2.1.subset hm
    have hrP : r ∈ keysOf s.platforms := by
      rw [← hh]; exact hhost.1 (c, e) hm0
    have hreq : r = P := removedBy_platform_eq s P r hwf hr hrP
    have hcrem : removedBy s P c := Or.inr (Or.inl (by
      rw [platformChildIds]
      simp only [List.mem_append]
      exact Or.inl (Or.inl (Or.inl (Or.inl
        (mem_beamIdListForHost.mpr ⟨e, hm0, hh.trans hreq⟩))))))
    have hnone := (habs c hcrem).2.1
    rw [findA_eq_none_iff] at hnone
    exact hnone (mem_keysOf_of_mem hm)
  · obtain ⟨e, hm, hh⟩ := mem_gateIdListForHost.mp hc
    have hm0 : (c, e) ∈ s.gates := hsub.2.2.1.subset hm
    have hrB : r ∈ keysOf s.beams := by
      rw [← hh]; exact hhost.2.2.2.2.1 (c, e) hm0
    have hrBL : r ∈ beamIdListForHost s P :=
      removedBy_beam_list s P r hwf hPk hr hrB
    have hcrem : removedBy s P c := Or.inr (Or.inr ⟨r, hrBL, by
      rw [beamChildIds, List.mem_append]
      exact Or.inl (mem_gateIdListForHost.mpr ⟨e, hm0, hh⟩)⟩)
    have hnone := (habs c hcrem).2.2.1
    rw [findA_eq_none_iff] at hnone
    exact hnone (mem_keysOf_of_mem hm)
  · obtain ⟨e, hm, hh⟩ := mem_laserIdListForHost.mp hc
    have hm0 : (c, e) ∈ s.lasers := hsub.2.2.2.1.subset hm
    have hrP : r ∈ keysOf s.platforms := by
      rw [← hh]; exact hhost.2.1 (c, e) hm0
    have hreq : r = P := removedBy_platform_eq s P r hwf hr hrP
    have hcrem : removedBy s P c := Or.inr (Or.inl (by
      rw [platformChildIds]
      simp only [List.mem_append]
      exact Or.inl (Or.inl (Or.inl (Or.inr
        (mem_laserIdListForHost.mpr ⟨e, hm0, hh.trans hreq⟩))))))
    have hnone := (habs c hcrem).2.2.2.1
    rw [findA_eq_none_iff] at hnone
    exact hnone (mem_keysOf_of_mem hm)
  · obtain ⟨e, hm, hh⟩ := mem_projectorIdListForHost.mp hc
    have hm0 : (c, e) ∈ s.projectors := hsub.2.2.2.2.1.subset hm
    rcases hhost.2.2.2.2.2 (c, e) hm0 with h2 | h2
    · have hrP : r ∈ keysOf s.platforms := by rw [← hh]; exact h2
      have hreq : r = P := removedBy_platform_eq s P r hwf hr hrP
      have hcrem : removedBy s P c := Or.inr (Or.inl (by
        rw [platformChildIds]
        simp only [List.mem_append]
        exact Or.inl (Or.inl (Or.inr
          (mem_projectorIdListForHost.mpr ⟨e, hm0, hh.trans hreq⟩)))))
      have hnone := (habs c hcrem).2.2.2.2.1
      rw [findA_eq_none_iff] at hnone
      exact hnone (mem_keysOf_of_mem hm)
    · have hrB : r ∈ keysOf s.beams := by rw [← hh]; exact h2
      have hrBL : r ∈ beamIdListForHost s P :=
        removedBy_beam_list s P r hwf hPk hr hrB
      have hcrem : removedBy s P c := Or.inr (Or.inr ⟨r, hrBL, by
        rw [beamChildIds, List.mem_append]
        exact Or.inr (mem_projectorIdListForHost.mpr ⟨e, hm0, hh⟩)⟩)
      have hnone := (habs c hcrem).2.2.2.2.1
      rw [findA_eq_none_iff] at hnone
      exact hnone (mem_keysOf_of_mem hm)
  · obtain ⟨e, hm, hh⟩ := mem_lobGroupIdListForHost.mp hc
    have hm0 : (c, e) ∈ s.lobGroups := hsub.2.2.2.2.2.1.subset hm
    have hrP : r ∈ keysOf s.platforms := by
      rw [← hh]; exact hhost.2.2.1 (c, e) hm0
    have hreq : r = P := removedBy_platform_eq s P r hwf hr hrP
    have hcrem : removedBy s P c := Or.inr (Or.inl (by
      rw [platformChildIds]
      simp only [List.mem_append]
      exact Or.inl (Or.inr
        (mem_lobGroupIdListForHost.mpr ⟨e, hm0, hh.trans hreq⟩))))
    have hnone := (habs c hcrem).2.2.2.2.2.1
    rw [findA_eq_none_iff] at hnone
    exact hnone (mem_keysOf_of_mem hm)
  · obtain ⟨e, hm, hh⟩ := mem_customRenderingIdListForHost.mp hc
    have hm0 : (c, e) ∈ s.customRenderings := hsub.2.2.2.2.2.2.subset hm
    have hrP : r ∈ keysOf s.platforms := by
      rw [← hh]; exact hhost.2.2.2.1 (c, e) hm0
    have hreq : r = P := removedBy_platform_eq s P r hwf hr hrP
    have hcrem : removedBy s P c := Or.inr (Or.inl (by
      rw [platformChildIds]
      simp only [List.mem_append]
      exact Or.inr
        (mem_customRenderingIdListForHost.mpr ⟨e, hm0, hh.trans hreq⟩)))
    have hnone := (habs c hcrem).2.2.2.2.2.2
    rw [findA_eq_none_iff] at hnone
    exact hnone (mem_keysOf_of_mem hm)

/-- A gate hosted on beam 2 (for the removal scenario). -/
def wGateOn2 : GateEntry :=
  { properties := { id := 3, originalid := 0, hostid := some 2,
                    type := .absolutePosition },
    preferences := { commonprefs := defaultCommon, interpolategatepos := false },
    updates := wGateSlice, commands := emptyCommands }

/-- Platform 1 hosting beam 2, which hosts gate 3. -/
def wStoreC1 : MemoryDataStore :=
  { emptyStore with platforms := [(1, wPlatform)], beams := [(2, wTargetBeam)],
                    gates := [(3, wGateOn2)] }

/-- Witness for C1: removing platform 1 also removes the hosted beam 2 and
the gate 3 hosted on that beam, and no gate hosted on the removed beam
remains. -/
theorem remove_platform_transitive_witness :
    objectType (removeEntity wStoreC1 1) 1 = ObjectType.none ∧
    objectType (removeEntity wStoreC1 1) 2 = ObjectType.none ∧
    objectType (removeEntity wStoreC1 1) 3 = ObjectType.none ∧
    3 ∉ gateIdListForHost (removeEntity wStoreC1 1) 2 := by
  have h := remove_platform_transitive wStoreC1 1 (by decide) (by decide)
    (by decide)
  exact ⟨h.1 1 (by decide), h.1 2 (by decide), h.1 3 (by decide),
    (h.2 2 (by decide) 3).2.1⟩
/-! ## Flush lemmas -/

/-- All sample times of a data slice lie in the `[-1, dblMax)` window that
`flush(id, scope, FLUSH_ALL)` erases. -/
def sliceTimesWF {α : Type} [SliceSample α] (sl : MemoryDataSlice α) : Prop :=
  ∀ a ∈ sl.data, -1 ≤ SliceSample.time a ∧ SliceSample.time a < dblMax

def commandTimesWF (cs : CommandSlice) : Prop :=
  ∀ a ∈ cs.data, -1 ≤ a.1 ∧ a.1 < dblMax

def catTimesWF (sl : MemoryCategoryDataSlice) : Prop :=
  ∀ a ∈ sl.data, -1 ≤ a.1 ∧ a.1 < dblMax

/-- Every stored time in the store lies in the `[-1, dblMax)` window
(true of every store fed by the double-valued C++ API, whose times are
at least −1 and below `DBL_MAX`). -/
def storeTimesWF (s : MemoryDataStore) : Prop :=
  (∀ p ∈ s.platforms, sliceTimesWF p.2.updates ∧ commandTimesWF p.2.commands) ∧
  (∀ p ∈ s.beams, sliceTimesWF p.2.updates ∧ commandTimesWF p.2.commands) ∧
  (∀ p ∈ s.gates, sliceTimesWF p.2.updates ∧ commandTimesWF p.2.commands) ∧
  (∀ p ∈ s.lasers, sliceTimesWF p.2.updates ∧ commandTimesWF p.2.commands) ∧
  (∀ p ∈ s.projectors, sliceTimesWF p.2.updates ∧ commandTimesWF p.2.commands) ∧
  (∀ p ∈ s.lobGroups, sliceTimesWF p.2.updates ∧ commandTimesWF p.2.commands) ∧
  (∀ p ∈ s.customRenderings,
    sliceTimesWF p.2.updates ∧ commandTimesWF p.2.commands) ∧
  (∀ p ∈ s.categoryData, catTimesWF p.2)

theorem sliceFlushRange_all {α : Type} [SliceSample α] (sl : MemoryDataSlice α)
    (h : sliceTimesWF sl) : (sliceFlushRange sl (-1) dblMax).data = [] := by
  rw [sliceFlushRange]
  show sl.data.filter _ = []
  rw [List.filter_eq_nil_iff]
  intro a ha
  simpa using h a ha

theorem commandFlushRange_all (cs : CommandSlice) (h : commandTimesWF cs) :
    (commandFlushRange cs (-1) dblMax).data = [] := by
  rw [commandFlushRange]
  show cs.data.filter _ = []
  rw [List.filter_eq_nil_iff]
  intro a ha
  simpa using h a ha

theorem categoryFlushRange_all (sl : MemoryCategoryDataSlice) (h : catTimesWF sl) :
    (categoryFlushRange sl (-1) dblMax).data = [] := by
  rw [categoryFlushRange]
  show sl.data.filter _ = []
  rw [List.filter_eq_nil_iff]
  intro a ha
  simpa using h a ha

/-- Properties/preferences projections of every entry in every container
agree between two stores (flushing touches only slice data). -/
def ppEq (s1 s2 : MemoryDataStore) : Prop :=
  (∀ x, (findA s1.platforms x).map (fun e => (e.properties, e.preferences)) =
        (findA s2.platforms x).map (fun e => (e.properties, e.preferences))) ∧
  (∀ x, (findA s1.beams x).map (fun e => (e.properties, e.preferences)) =
        (findA s2.beams x).map (fun e => (e.properties, e.preferences))) ∧
  (∀ x, (findA s1.gates x).map (fun e => (e.properties, e.preferences)) =
        (findA s2.gates x).map (fun e => (e.properties, e.preferences))) ∧
  (∀ x, (findA s1.lasers x).map (fun e => (e.properties, e.preferences)) =
        (findA s2.lasers x).map (fun e => (e.properties, e.preferences))) ∧
  (∀ x, (findA s1.projectors x).map (fun e => (e.properties, e.preferences)) =
        (findA s2.projectors x).map (fun e => (e.properties, e.preferences))) ∧
  (∀ x, (findA s1.lobGroups x).map (fun e => (e.properties, e.preferences)) =
        (findA s2.lobGroups x).map (fun e => (e.properties, e.preferences))) ∧
  (∀ x, (findA s1.customRenderings x).map (fun e => (e.properties, e.preferences)) =
        (findA s2.customRenderings x).map (fun e => (e.properties, e.preferences)))

theorem ppEq_refl (s : MemoryDataStore) : ppEq s s :=
  ⟨fun _ => rfl, fun _ => rfl, fun _ => rfl, fun _ => rfl, fun _ => rfl,
   fun _ => rfl, fun _ => rfl⟩

theorem ppEq_trans {a b c : MemoryDataStore} (h1 : ppEq a b) (h2 : ppEq b c) :
    ppEq a c :=
  ⟨fun x => (h1.1 x).trans (h2.1 x), fun x => (h1.2.1 x).trans (h2.2.1 x),
   fun x => (h1.2.2.1 x).trans (h2.2.2.1 x),
   fun x => (h1.2.2.2.1 x).trans (h2.2.2.2.1 x),
   fun x => (h1.2.2.2.2.1 x).trans (h2.2.2.2.2.1 x),
   fun x => (h1.2.2.2.2.2.1 x).trans (h2.2.2.2.2.2.1 x),
   fun x => (h1.2.2.2.2.2.2 x).trans (h2.2.2.2.2.2.2 x)⟩

theorem isSome_eq_of_pp {β γ : Type} {l1 : List (ObjectId × β)}
    {l2 : List (ObjectId × γ)} {pb : β → PP} {pg : γ → PP} {x : ObjectId}
    (h : (findA l1 x).map pb = (findA l2 x).map pg) :
    (findA l1 x).isSome = (findA l2 x).isSome := by
  have h1 := congrArg Option.isSome h
  simpa using h1

theorem flushPlatformData_self (s : MemoryDataStore) (id : ObjectId)
    {e : PlatformEntry} (hf : findA s.platforms id = some e)
    (hu : sliceTimesWF e.updates) (hc : commandTimesWF e.commands) :
    ∃ e2, findA (flushPlatformData s id true true (-1) dblMax).platforms id =
        some e2 ∧ e2.properties = e.properties ∧ e2.preferences = e.preferences ∧
      e2.updates.data = [] ∧ e2.commands.data = [] := by
  refine ⟨{ e with
            updates := sliceFlushRange e.updates (-1) dblMax
            commands := commandFlushRange e.commands (-1) dblMax },
    ?_, rfl, rfl, sliceFlushRange_all _ hu, commandFlushRange_all _ hc⟩
  show findA (modifyVal s.platforms id _) id = _
  rw [findA_modifyVal_self, hf]
  rfl

theorem flushBeamData_self (s : MemoryDataStore) (id : ObjectId)
    {e : BeamEntry} (hf : findA s.beams id = some e)
    (hu : sliceTimesWF e.updates) (hc : commandTimesWF e.commands) :
    ∃ e2, findA (flushBeamData s id true true (-1) dblMax).beams id =
        some e2 ∧ e2.properties = e.properties ∧ e2.preferences = e.preferences ∧
      e2.updates.data = [] ∧ e2.commands.data = [] := by
  refine ⟨{ e with
            updates := sliceFlushRange e.updates (-1) dblMax
            commands := commandFlushRange e.commands (-1) dblMax },
    ?_, rfl, rfl, sliceFlushRange_all _ hu, commandFlushRange_all _ hc⟩
  show findA (modifyVal s.beams id _) id = _
  rw [findA_modifyVal_self, hf]
  rfl

theorem flushGateData_self (s : MemoryDataStore) (id : ObjectId)
    {e : GateEntry} (hf : findA s.gates id = some e)
    (hu : sliceTimesWF e.updates) (hc : commandTimesWF e.commands) :
    ∃ e2, findA (flushGateData s id true true (-1) dblMax).gates id =
        some e2 ∧ e2.properties = e.properties ∧ e2.preferences = e.preferences ∧
      e2.updates.data = [] ∧ e2.commands.data = [] := by
  refine ⟨{ e with
            updates := sliceFlushRange e.updates (-1) dblMax
            commands := commandFlushRange e.commands (-1) dblMax },
    ?_, rfl, rfl, sliceFlushRange_all _ hu, commandFlushRange_all _ hc⟩
  show findA (modifyVal s.gates id _) id = _
  rw [findA_modifyVal_self, hf]
  rfl

theorem flushLaserData_self (s : MemoryDataStore) (id : ObjectId)
    {e : LaserEntry} (hf : findA s.lasers id = some e)
    (hu : sliceTimesWF e.updates) (hc : commandTimesWF e.commands) :
    ∃ e2, findA (flushLaserData s id true true (-1) dblMax).lasers id =
        some e2 ∧ e2.properties = e.properties ∧ e2.preferences = e.preferences ∧
      e2.updates.data = [] ∧ e2.commands.data = [] := by
  refine ⟨{ e with
            updates := sliceFlushRange e.updates (-1) dblMax
            commands := commandFlushRange e.commands (-1) dblMax },
    ?_, rfl, rfl, sliceFlushRange_all _ hu, commandFlushRange_all _ hc⟩
  show findA (modifyVal s.lasers id _) id = _
  rw [findA_modifyVal_self, hf]
  rfl

theorem flushProjectorData_self (s : MemoryDataStore) (id : ObjectId)
    {e : ProjectorEntry} (hf : findA s.projectors id = some e)
    (hu : sliceTimesWF e.updates) (hc : commandTimesWF e.commands) :
    ∃ e2, findA (flushProjectorData s id true true (-1) dblMax).projectors id =
        some e2 ∧ e2.properties = e.properties ∧ e2.preferences = e.preferences ∧
      e2.updates.data = [] ∧ e2.commands.data = [] := by
  refine ⟨{ e with
            updates := sliceFlushRange e.updates (-1) dblMax
            commands := commandFlushRange e.commands (-1) dblMax },
    ?_, rfl, rfl, sliceFlushRange_all _ hu, commandFlushRange_all _ hc⟩
  show findA (modifyVal s.projectors id _) id = _
  rw [findA_modifyVal_self, hf]
  rfl

theorem flushLobGroupData_self (s : MemoryDataStore) (id : ObjectId)
    {e : LobGroupEntry} (hf : findA s.lobGroups id = some e)
    (hu : sliceTimesWF e.updates) (hc : commandTimesWF e.commands) :
    ∃ e2, findA (flushLobGroupData s id true true (-1) dblMax).lobGroups id =
        some e2 ∧ e2.properties = e.properties ∧ e2.preferences = e.preferences ∧
      e2.updates.data = [] ∧ e2.commands.data = [] := by
  refine ⟨{ e with
            updates := sliceFlushRange e.updates (-1) dblMax
            commands := commandFlushRange e.commands (-1) dblMax },
    ?_, rfl, rfl, sliceFlushRange_all _ hu, commandFlushRange_all _ hc⟩
  show findA (modifyVal s.lobGroups id _) id = _
  rw [findA_modifyVal_self, hf]
  rfl

theorem flushCustomRenderingData_self (s : MemoryDataStore) (id : ObjectId)
    {e : CustomRenderingEntry} (hf : findA s.customRenderings id = some e)
    (hu : sliceTimesWF e.updates) (hc : commandTimesWF e.commands) :
    ∃ e2, findA (flushCustomRenderingData s id true true (-1)
        dblMax).customRenderings id =
        some e2 ∧ e2.properties = e.properties ∧ e2.preferences = e.preferences ∧
      e2.updates.data = [] ∧ e2.commands.data = [] := by
  refine ⟨{ e with
            updates := sliceFlushRange e.updates (-1) dblMax
            commands := commandFlushRange e.commands (-1) dblMax },
    ?_, rfl, rfl, sliceFlushRange_all _ hu, commandFlushRange_all _ hc⟩
  show findA (modifyVal s.customRenderings id _) id = _
  rw [findA_modifyVal_self, hf]
  rfl

theorem flushCommonTail_all_entities (s : MemoryDataStore) (id : ObjectId) :
    (flushCommonTail s id FLUSH_ALL (-1) dblMax).platforms = s.platforms ∧
    (flushCommonTail s id FLUSH_ALL (-1) dblMax).beams = s.beams ∧
    (flushCommonTail s id FLUSH_ALL (-1) dblMax).gates = s.gates ∧
    (flushCommonTail s id FLUSH_ALL (-1) dblMax).lasers = s.lasers ∧
    (flushCommonTail s id FLUSH_ALL (-1) dblMax).projectors = s.projectors ∧
    (flushCommonTail s id FLUSH_ALL (-1) dblMax).lobGroups = s.lobGroups ∧
    (flushCommonTail s id FLUSH_ALL (-1) dblMax).customRenderings =
      s.customRenderings :=
  ⟨rfl, rfl, rfl, rfl, rfl, rfl, rfl⟩

theorem flushCommonTail_all_frame (s : MemoryDataStore) (id x : ObjectId)
    (hx : x ≠ id) :
    findA (flushCommonTail s id FLUSH_ALL (-1) dblMax).categoryData x =
      findA s.categoryData x ∧
    findA (flushCommonTail s id FLUSH_ALL (-1) dblMax).genericData x =
      findA s.genericData x ∧
    findA (flushCommonTail s id FLUSH_ALL (-1) dblMax).dataTables x =
      findA s.dataTables x := by
  refine ⟨?_, ?_, ?_⟩
  · show findA (modifyVal s.categoryData id _) x = _
    exact findA_modifyVal_ne _ _ hx
  · show findA (modifyVal s.genericData id _) x = _
    exact findA_modifyVal_ne _ _ hx
  · show findA (modifyVal s.dataTables id _) x = _
    exact findA_modifyVal_ne _ _ hx

theorem flushCommonTail_all_self (s : MemoryDataStore) (id : ObjectId) :
    (∀ sl, findA s.categoryData id = some sl → catTimesWF sl →
       ∃ sl2, findA (flushCommonTail s id FLUSH_ALL (-1) dblMax).categoryData id =
         some sl2 ∧ sl2.data = []) ∧
    (∀ sl, findA s.genericData id = some sl →
       ∃ sl2, findA (flushCommonTail s id FLUSH_ALL (-1) dblMax).genericData id =
         some sl2 ∧ sl2.data = []) ∧
    (∀ tl, findA s.dataTables id = some tl →
       ∃ tl2, findA (flushCommonTail s id FLUSH_ALL (-1) dblMax).dataTables id =
         some tl2 ∧ ∀ tb ∈ tl2, tb.rows = []) := by
  refine ⟨fun sl hf hwf => ?_, fun sl hf => ?_, fun tl hf => ?_⟩
  · refine ⟨categoryFlushRange sl (-1) dblMax, ?_, categoryFlushRange_all sl hwf⟩
    show findA (modifyVal s.categoryData id _) id = _
    rw [findA_modifyVal_self, hf]
    show some (if (-1 : Rat) = 0 ∧ dblMax = dblMax ∧ FLUSH_ALL.excludeMinusOne = true
        then categoryFlushAll sl else categoryFlushRange sl (-1) dblMax) = _
    rw [if_neg]
    intro hcon
    exact absurd hcon.1 (by norm_num)
  · refine ⟨genericFlushAll sl, ?_, rfl⟩
    show findA (modifyVal s.genericData id _) id = _
    rw [findA_modifyVal_self, hf]
    show some (if (-1 : Rat) ≤ 0 ∧ dblMax = dblMax then genericFlushAll sl
        else genericFlushRange sl (-1) dblMax) = _
    rw [if_pos ⟨by norm_num, rfl⟩]
  · refine ⟨tl.map tableFlushAll, ?_, ?_⟩
    · show findA (modifyVal s.dataTables id _) id = _
      rw [findA_modifyVal_self, hf]
      show some (tl.map fun tb =>
          if (-1 : Rat) ≤ 0 ∧ dblMax = dblMax then tableFlushAll tb
          else tableFlushRange tb (-1) dblMax) = _
      have hfn : (fun tb => if (-1 : Rat) ≤ 0 ∧ dblMax = dblMax then tableFlushAll tb
          else tableFlushRange tb (-1) dblMax) = tableFlushAll := by
        funext tb
        rw [if_pos ⟨by norm_num, rfl⟩]
      rw [hfn]
    · intro tb htb
      obtain ⟨tb0, -, heq⟩ := List.mem_map.mp htb
      rw [← heq]
      rfl

theorem findA_modifyVal_map {β γ : Type} (l : List (ObjectId × β))
    (id x : ObjectId) (f : β → β) (p : β → γ) (hp : ∀ b, p (f b) = p b) :
    (findA (modifyVal l id f) x).map p = (findA l x).map p := by
  by_cases hx : x = id
  · subst hx
    rw [findA_modifyVal_self]
    rcases hv : findA l x with _ | v
    · rfl
    · show some (p (f v)) = some (p v)
      rw [hp v]
  · rw [findA_modifyVal_ne _ _ hx]

theorem flushPlatformData_pp (s : MemoryDataStore) (id : ObjectId) :
    ppEq (flushPlatformData s id true true (-1) dblMax) s := by
  refine ⟨fun x => ?_, fun x => rfl, fun x => rfl, fun x => rfl, fun x => rfl,
    fun x => rfl, fun x => rfl⟩
  exact findA_modifyVal_map s.platforms id x _ _ (fun b => rfl)

theorem flushBeamData_pp (s : MemoryDataStore) (id : ObjectId) :
    ppEq (flushBeamData s id true true (-1) dblMax) s := by
  refine ⟨fun x => rfl, fun x => ?_, fun x => rfl, fun x => rfl, fun x => rfl,
    fun x => rfl, fun x => rfl⟩
  exact findA_modifyVal_map s.beams id x _ _ (fun b => rfl)

theorem flushGateData_pp (s : MemoryDataStore) (id : ObjectId) :
    ppEq (flushGateData s id true true (-1) dblMax) s := by
  refine ⟨fun x => rfl, fun x => rfl, fun x => ?_, fun x => rfl, fun x => rfl,
    fun x => rfl, fun x => rfl⟩
  exact findA_modifyVal_map s.gates id x _ _ (fun b => rfl)

theorem flushLaserData_pp (s : MemoryDataStore) (id : ObjectId) :
    ppEq (flushLaserData s id true true (-1) dblMax) s := by
  refine ⟨fun x => rfl, fun x => rfl, fun x => rfl, fun x => ?_, fun x => rfl,
    fun x => rfl, fun x => rfl⟩
  exact findA_modifyVal_map s.lasers id x _ _ (fun b => rfl)

theorem flushProjectorData_pp (s : MemoryDataStore) (id : ObjectId) :
    ppEq (flushProjectorData s id true true (-1) dblMax) s := by
  refine ⟨fun x => rfl, fun x => rfl, fun x => rfl, fun x => rfl, fun x => ?_,
    fun x => rfl, fun x => rfl⟩
  exact findA_modifyVal_map s.projectors id x _ _ (fun b => rfl)

theorem flushLobGroupData_pp (s : MemoryDataStore) (id : ObjectId) :
    ppEq (flushLobGroupData s id true true (-1) dblMax) s := by
  refine ⟨fun x => rfl, fun x => rfl, fun x => rfl, fun x => rfl, fun x => rfl,
    fun x => ?_, fun x => rfl⟩
  exact findA_modifyVal_map s.lobGroups id x _ _ (fun b => rfl)

theorem flushCustomRenderingData_pp (s : MemoryDataStore) (id : ObjectId) :
    ppEq (flushCustomRenderingData s id true true (-1) dblMax) s := by
  refine ⟨fun x => rfl, fun x => rfl, fun x => rfl, fun x => rfl, fun x => rfl,
    fun x => rfl, fun x => ?_⟩
  exact findA_modifyVal_map s.customRenderings id x _ _ (fun b => rfl)

theorem flushCommonTail_pp (s : MemoryDataStore) (id : ObjectId) :
    ppEq (flushCommonTail s id FLUSH_ALL (-1) dblMax) s :=
  ⟨fun _ => rfl, fun _ => rfl, fun _ => rfl, fun _ => rfl, fun _ => rfl,
   fun _ => rfl, fun _ => rfl⟩

theorem otherStep_pp (ty : ObjectType) (s : MemoryDataStore) (c : ObjectId) :
    ppEq (flushEntityOther s c ty FLUSH_ALL (-1) dblMax) s := by
  cases ty
  · exact flushCommonTail_pp s c
  · exact flushCommonTail_pp s c
  · exact flushCommonTail_pp s c
  · exact ppEq_trans (flushCommonTail_pp _ c) (flushGateData_pp s c)
  · exact ppEq_trans (flushCommonTail_pp _ c) (flushLaserData_pp s c)
  · exact ppEq_trans (flushCommonTail_pp _ c) (flushProjectorData_pp s c)
  · exact ppEq_trans (flushCommonTail_pp _ c) (flushLobGroupData_pp s c)
  · exact ppEq_trans (flushCommonTail_pp _ c) (flushCustomRenderingData_pp s c)

theorem foldl_ppEq (step : MemoryDataStore → ObjectId → MemoryDataStore)
    (hstep : ∀ st c, ppEq (step st c) st) :
    ∀ (ids : List ObjectId) (s0 : MemoryDataStore), ppEq (ids.foldl step s0) s0 := by
  intro ids
  induction ids with
  | nil => intro s0; exact ppEq_refl s0
  | cons c ids ih =>
    intro s0
    rw [List.foldl_cons]
    exact ppEq_trans (ih (step s0 c)) (hstep s0 c)

theorem beamStep_pp (s : MemoryDataStore) (b : ObjectId) :
    ppEq (flushEntityBeam s b .recursive FLUSH_ALL (-1) dblMax) s := by
  refine ppEq_trans (flushCommonTail_pp _ b) ?_
  refine ppEq_trans (foldl_ppEq _ (fun st c => otherStep_pp .projector st c) _ _) ?_
  refine ppEq_trans (foldl_ppEq _ (fun st c => otherStep_pp .gate st c) _ _) ?_
  exact flushBeamData_pp s b

theorem platformStep_pp (s : MemoryDataStore) (P : ObjectId) :
    ppEq (flushEntityPlatform s P .recursive FLUSH_ALL (-1) dblMax) s := by
  refine ppEq_trans (flushCommonTail_pp _ P) ?_
  refine ppEq_trans (foldl_ppEq _ (fun st c => otherStep_pp .customRendering st c) _ _) ?_
  refine ppEq_trans (foldl_ppEq _ (fun st c => otherStep_pp .projector st c) _ _) ?_
  refine ppEq_trans (foldl_ppEq _ (fun st c => otherStep_pp .lobGroup st c) _ _) ?_
  refine ppEq_trans (foldl_ppEq _ (fun st c => otherStep_pp .laser st c) _ _) ?_
  refine ppEq_trans (foldl_ppEq _ (fun st c => beamStep_pp st c) _ _) ?_
  exact flushPlatformData_pp s P

theorem objectType_eq_of_ppEq {s1 s2 : MemoryDataStore} (h : ppEq s1 s2)
    (id : ObjectId) : objectType s1 id = objectType s2 id := by
  rw [objectType, objectType, isSome_eq_of_pp (h.1 id),
    isSome_eq_of_pp (h.2.1 id), isSome_eq_of_pp (h.2.2.1 id),
    isSome_eq_of_pp (h.2.2.2.1 id), isSome_eq_of_pp (h.2.2.2.2.1 id),
    isSome_eq_of_pp (h.2.2.2.2.2.1 id), isSome_eq_of_pp (h.2.2.2.2.2.2 id)]

set_option maxHeartbeats 1000000
theorem gateFold_frame (ids : List ObjectId) : ∀ s0 : MemoryDataStore,
    ((ids.foldl (fun st2 g => flushEntityOther st2 g .gate FLUSH_ALL (-1) dblMax)
        s0).platforms = s0.platforms ∧
     (ids.foldl (fun st2 g => flushEntityOther st2 g .gate FLUSH_ALL (-1) dblMax)
        s0).beams = s0.beams ∧
     (ids.foldl (fun st2 g => flushEntityOther st2 g .gate FLUSH_ALL (-1) dblMax)
        s0).lasers = s0.lasers ∧
     (ids.foldl (fun st2 g => flushEntityOther st2 g .gate FLUSH_ALL (-1) dblMax)
        s0).projectors = s0.projectors ∧
     (ids.foldl (fun st2 g => flushEntityOther st2 g .gate FLUSH_ALL (-1) dblMax)
        s0).lobGroups = s0.lobGroups ∧
     (ids.foldl (fun st2 g => flushEntityOther st2 g .gate FLUSH_ALL (-1) dblMax)
        s0).customRenderings = s0.customRenderings ∧
     keysOf (ids.foldl
        (fun st2 g => flushEntityOther st2 g .gate FLUSH_ALL (-1) dblMax)
        s0).gates = keysOf s0.gates) ∧
    ∀ x, x ∉ ids →
      findA (ids.foldl
        (fun st2 g => flushEntityOther st2 g .gate FLUSH_ALL (-1) dblMax)
        s0).gates x = findA s0.gates x ∧
      findA (ids.foldl
        (fun st2 g => flushEntityOther st2 g .gate FLUSH_ALL (-1) dblMax)
        s0).categoryData x = findA s0.categoryData x ∧
      findA (ids.foldl
        (fun st2 g => flushEntityOther st2 g .gate FLUSH_ALL (-1) dblMax)
        s0).genericData x = findA s0.genericData x ∧
      findA (ids.foldl
        (fun st2 g => flushEntityOther st2 g .gate FLUSH_ALL (-1) dblMax)
        s0).dataTables x = findA s0.dataTables x := by
  induction ids with
  | nil =>
    intro s0
    exact ⟨⟨rfl, rfl, rfl, rfl, rfl, rfl, rfl⟩, fun x _ => ⟨rfl, rfl, rfl, rfl⟩⟩
  | cons c ids ih =>
    intro s0
    have hstep_keys :
        keysOf (flushEntityOther s0 c .gate FLUSH_ALL (-1) dblMax).gates =
          keysOf s0.gates := by
      show keysOf (modifyVal s0.gates c _) = _
      exact keysOf_modifyVal _ _ _
    obtain ⟨hE, hF⟩ := ih (flushEntityOther s0 c .gate FLUSH_ALL (-1) dblMax)
    refine ⟨⟨hE.1, hE.2.1, hE.2.2.1, hE.2.2.2.1, hE.2.2.2.2.1, hE.2.2.2.2.2.1,
      hE.2.2.2.2.2.2.trans hstep_keys⟩, fun x hx => ?_⟩
    have hxc : x ≠ c := fun he => hx (by rw [he]; exact List.mem_cons_self c ids)
    have hxids : x ∉ ids := fun hm => hx (List.mem_cons_of_mem c hm)
    obtain ⟨g1, g2, g3, g4⟩ := hF x hxids
    refine ⟨g1.trans ?_, g2.trans ?_, g3.trans ?_, g4.trans ?_⟩
    · show findA (modifyVal s0.gates c _) x = _
      exact findA_modifyVal_ne _ _ hxc
    · exact (flushCommonTail_all_frame
        (flushOtherData s0 c .gate FLUSH_ALL (-1) dblMax) c x hxc).1
    · exact (flushCommonTail_all_frame
        (flushOtherData s0 c .gate FLUSH_ALL (-1) dblMax) c x hxc).2.1
    · exact (flushCommonTail_all_frame
        (flushOtherData s0 c .gate FLUSH_ALL (-1) dblMax) c x hxc).2.2

theorem gateFold_flushes (ids : List ObjectId) :
    ∀ (s0 : MemoryDataStore) {g : ObjectId} {e : GateEntry}, ids.Nodup →
    g ∈ ids → findA s0.gates g = some e → sliceTimesWF e.updates →
    commandTimesWF e.commands →
    ∃ e2, findA (ids.foldl
        (fun st2 g2 => flushEntityOther st2 g2 .gate FLUSH_ALL (-1) dblMax)
        s0).gates g = some e2 ∧ e2.properties = e.properties ∧
      e2.preferences = e.preferences ∧ e2.updates.data = [] ∧
      e2.commands.data = [] := by
  induction ids with
  | nil => intro s0 g e _ hg; cases hg
  | cons c ids ih =>
    intro s0 g e hnd hg hf hu hc
    rcases List.mem_cons.mp hg with rfl | hmem
    · obtain ⟨e2, hf2, hp2, hpr2, hu2, hc2⟩ := flushGateData_self s0 g hf hu hc
      have hrest := (gateFold_frame ids
        (flushEntityOther s0 g .gate FLUSH_ALL (-1) dblMax)).2 g
        (List.nodup_cons.mp hnd).1
      exact ⟨e2, hrest.1.trans hf2, hp2, hpr2, hu2, hc2⟩
    · have hgc : g ≠ c := by
        rintro rfl
        exact (List.nodup_cons.mp hnd).1 hmem
      have hstep : findA (flushEntityOther s0 c .gate FLUSH_ALL
          (-1) dblMax).gates g = findA s0.gates g := by
        show findA (modifyVal s0.gates c _) g = _
        exact findA_modifyVal_ne _ _ hgc
      exact ih (flushEntityOther s0 c .gate FLUSH_ALL (-1) dblMax)
        (List.nodup_cons.mp hnd).2 hmem (hstep.trans hf) hu hc

theorem gateFold_shared_flushes (ids : List ObjectId) :
    ∀ (s0 : MemoryDataStore) {g : ObjectId}, ids.Nodup → g ∈ ids →
    ((∀ sl, findA s0.categoryData g = some sl → catTimesWF sl →
       ∃ sl2, findA (ids.foldl
         (fun st2 g2 => flushEntityOther st2 g2 .gate FLUSH_ALL (-1) dblMax)
         s0).categoryData g = some sl2 ∧ sl2.data = []) ∧
     (∀ sl, findA s0.genericData g = some sl →
       ∃ sl2, findA (ids.foldl
         (fun st2 g2 => flushEntityOther st2 g2 .gate FLUSH_ALL (-1) dblMax)
         s0).genericData g = some sl2 ∧ sl2.data = []) ∧
     (∀ tl, findA s0.dataTables g = some tl →
       ∃ tl2, findA (ids.foldl
         (fun st2 g2 => flushEntityOther st2 g2 .gate FLUSH_ALL (-1) dblMax)
         s0).dataTables g = some tl2 ∧ ∀ tb ∈ tl2, tb.rows = [])) := by
  induction ids with
  | nil => intro s0 g _ hg; cases hg
  | cons c ids ih =>
    intro s0 g hnd hg
    rcases List.mem_cons.mp hg with rfl | hmem
    · have hrest := (gateFold_frame ids
        (flushEntityOther s0 g .gate FLUSH_ALL (-1) dblMax)).2 g
        (List.nodup_cons.mp hnd).1
      have hself := flushCommonTail_all_self
        (flushOtherData s0 g .gate FLUSH_ALL (-1) dblMax) g
      refine ⟨fun sl hf hwf => ?_, fun sl hf => ?_, fun tl hf => ?_⟩
      · obtain ⟨sl2, hf2, hd2⟩ := hself.1 sl hf hwf
        exact ⟨sl2, hrest.2.1.trans hf2, hd2⟩
      · obtain ⟨sl2, hf2, hd2⟩ := hself.2.1 sl hf
        exact ⟨sl2, hrest.2.2.1.trans hf2, hd2⟩
      · obtain ⟨tl2, hf2, hd2⟩ := hself.2.2 tl hf
        exact ⟨tl2, hrest.2.2.2.trans hf2, hd2⟩
    · have hgc : g ≠ c := by
        rintro rfl
        exact (List.nodup_cons.mp hnd).1 hmem
      have hstep := flushCommonTail_all_frame
        (flushOtherData s0 c .gate FLUSH_ALL (-1) dblMax) c g hgc
      obtain ⟨h1, h2, h3⟩ := ih (flushEntityOther s0 c .gate FLUSH_ALL (-1) dblMax)
        (List.nodup_cons.mp hnd).2 hmem
      refine ⟨fun sl hf hwf => h1 sl (hstep.1.trans hf) hwf,
        fun sl hf => h2 sl (hstep.2.1.trans hf),
        fun tl hf => h3 tl (hstep.2.2.trans hf)⟩

theorem laserFold_frame (ids : List ObjectId) : ∀ s0 : MemoryDataStore,
    ((ids.foldl (fun st2 g => flushEntityOther st2 g .laser FLUSH_ALL (-1) dblMax)
        s0).platforms = s0.platforms ∧
     (ids.foldl (fun st2 g => flushEntityOther st2 g .laser FLUSH_ALL (-1) dblMax)
        s0).beams = s0.beams ∧
     (ids.foldl (fun st2 g => flushEntityOther st2 g .laser FLUSH_ALL (-1) dblMax)
        s0).gates = s0.gates ∧
     (ids.foldl (fun st2 g => flushEntityOther st2 g .laser FLUSH_ALL (-1) dblMax)
        s0).projectors = s0.projectors ∧
     (ids.foldl (fun st2 g => flushEntityOther st2 g .laser FLUSH_ALL (-1) dblMax)
        s0).lobGroups = s0.lobGroups ∧
     (ids.foldl (fun st2 g => flushEntityOther st2 g .laser FLUSH_ALL (-1) dblMax)
        s0).customRenderings = s0.customRenderings ∧
     keysOf (ids.foldl
        (fun st2 g => flushEntityOther st2 g .laser FLUSH_ALL (-1) dblMax)
        s0).lasers = keysOf s0.lasers) ∧
    ∀ x, x ∉ ids →
      findA (ids.foldl
        (fun st2 g => flushEntityOther st2 g .laser FLUSH_ALL (-1) dblMax)
        s0).lasers x = findA s0.lasers x ∧
      findA (ids.foldl
        (fun st2 g => flushEntityOther st2 g .laser FLUSH_ALL (-1) dblMax)
        s0).categoryData x = findA s0.categoryData x ∧
      findA (ids.foldl
        (fun st2 g => flushEntityOther st2 g .laser FLUSH_ALL (-1) dblMax)
        s0).genericData x = findA s0.genericData x ∧
      findA (ids.foldl
        (fun st2 g => flushEntityOther st2 g .laser FLUSH_ALL (-1) dblMax)
        s0).dataTables x = findA s0.dataTables x := by
  induction ids with
  | nil =>
    intro s0
    exact ⟨⟨rfl, rfl, rfl, rfl, rfl, rfl, rfl⟩, fun x _ => ⟨rfl, rfl, rfl, rfl⟩⟩
  | cons c ids ih =>
    intro s0
    have hstep_keys :
        keysOf (flushEntityOther s0 c .laser FLUSH_ALL (-1) dblMax).lasers =
          keysOf s0.lasers := by
      show keysOf (modifyVal s0.lasers c _) = _
      exact keysOf_modifyVal _ _ _
    obtain ⟨hE, hF⟩ := ih (flushEntityOther s0 c .laser FLUSH_ALL (-1) dblMax)
    refine ⟨⟨hE.1, hE.2.1, hE.2.2.1, hE.2.2.2.1, hE.2.2.2.2.1, hE.2.2.2.2.2.1,
      hE.2.2.2.2.2.2.trans hstep_keys⟩, fun x hx => ?_⟩
    have hxc : x ≠ c := fun he => hx (by rw [he]; exact List.mem_cons_self c ids)
    have hxids : x ∉ ids := fun hm => hx (List.mem_cons_of_mem c hm)
    obtain ⟨g1, g2, g3, g4⟩ := hF x hxids
    refine ⟨g1.trans ?_, g2.trans ?_, g3.trans ?_, g4.trans ?_⟩
    · show findA (modifyVal s0.lasers c _) x = _
      exact findA_modifyVal_ne _ _ hxc
    · exact (flushCommonTail_all_frame
        (flushOtherData s0 c .laser FLUSH_ALL (-1) dblMax) c x hxc).1
    · exact (flushCommonTail_all_frame
        (flushOtherData s0 c .laser FLUSH_ALL (-1) dblMax) c x hxc).2.1
    · exact (flushCommonTail_all_frame
        (flushOtherData s0 c .laser FLUSH_ALL (-1) dblMax) c x hxc).2.2

theorem laserFold_flushes (ids : List ObjectId) :
    ∀ (s0 : MemoryDataStore) {g : ObjectId} {e : LaserEntry}, ids.Nodup →
    g ∈ ids → findA s0.lasers g = some e → sliceTimesWF e.updates →
    commandTimesWF e.commands →
    ∃ e2, findA (ids.foldl
        (fun st2 g2 => flushEntityOther st2 g2 .laser FLUSH_ALL (-1) dblMax)
        s0).lasers g = some e2 ∧ e2.properties = e.properties ∧
      e2.preferences = e.preferences ∧ e2.updates.data = [] ∧
      e2.commands.data = [] := by
  induction ids with
  | nil => intro s0 g e _ hg; cases hg
  | cons c ids ih =>
    intro s0 g e hnd hg hf hu hc
    rcases List.mem_cons.mp hg with rfl | hmem
    · obtain ⟨e2, hf2, hp2, hpr2, hu2, hc2⟩ := flushLaserData_self s0 g hf hu hc
      have hrest := (laserFold_frame ids
        (flushEntityOther s0 g .laser FLUSH_ALL (-1) dblMax)).2 g
        (List.nodup_cons.mp hnd).1
      exact ⟨e2, hrest.1.trans hf2, hp2, hpr2, hu2, hc2⟩
    · have hgc : g ≠ c := by
        rintro rfl
        exact (List.nodup_cons.mp hnd).1 hmem
      have hstep : findA (flushEntityOther s0 c .laser FLUSH_ALL
          (-1) dblMax).lasers g = findA s0.lasers g := by
        show findA (modifyVal s0.lasers c _) g = _
        exact findA_modifyVal_ne _ _ hgc
      exact ih (flushEntityOther s0 c .laser FLUSH_ALL (-1) dblMax)
        (List.nodup_cons.mp hnd).2 hmem (hstep.trans hf) hu hc

theorem laserFold_shared_flushes (ids : List ObjectId) :
    ∀ (s0 : MemoryDataStore) {g : ObjectId}, ids.Nodup → g ∈ ids →
    ((∀ sl, findA s0.categoryData g = some sl → catTimesWF sl →
       ∃ sl2, findA (ids.foldl
         (fun st2 g2 => flushEntityOther st2 g2 .laser FLUSH_ALL (-1) dblMax)
         s0).categoryData g = some sl2 ∧ sl2.data = []) ∧
     (∀ sl, findA s0.genericData g = some sl →
       ∃ sl2, findA (ids.foldl
         (fun st2 g2 => flushEntityOther st2 g2 .laser FLUSH_ALL (-1) dblMax)
         s0).genericData g = some sl2 ∧ sl2.data = []) ∧
     (∀ tl, findA s0.dataTables g = some tl →
       ∃ tl2, findA (ids.foldl
         (fun st2 g2 => flushEntityOther st2 g2 .laser FLUSH_ALL (-1) dblMax)
         s0).dataTables g = some tl2 ∧ ∀ tb ∈ tl2, tb.rows = [])) := by
  induction ids with
  | nil => intro s0 g _ hg; cases hg
  | cons c ids ih =>
    intro s0 g hnd hg
    rcases List.mem_cons.mp hg with rfl | hmem
    · have hrest := (laserFold_frame ids
        (flushEntityOther s0 g .laser FLUSH_ALL (-1) dblMax)).2 g
        (List.nodup_cons.mp hnd).1
      have hself := flushCommonTail_all_self
        (flushOtherData s0 g .laser FLUSH_ALL (-1) dblMax) g
      refine ⟨fun sl hf hwf => ?_, fun sl hf => ?_, fun tl hf => ?_⟩
      · obtain ⟨sl2, hf2, hd2⟩ := hself.1 sl hf hwf
        exact ⟨sl2, hrest.2.1.trans hf2, hd2⟩
      · obtain ⟨sl2, hf2, hd2⟩ := hself.2.1 sl hf
        exact ⟨sl2, hrest.2.2.1.trans hf2, hd2⟩
      · obtain ⟨tl2, hf2, hd2⟩ := hself.2.2 tl hf
        exact ⟨tl2, hrest.2.2.2.trans hf2, hd2⟩
    · have hgc : g ≠ c := by
        rintro rfl
        exact (List.nodup_cons.mp hnd).1 hmem
      have hstep := flushCommonTail_all_frame
        (flushOtherData s0 c .laser FLUSH_ALL (-1) dblMax) c g hgc
      obtain ⟨h1, h2, h3⟩ := ih (flushEntityOther s0 c .laser FLUSH_ALL (-1) dblMax)
        (List.nodup_cons.mp hnd).2 hmem
      refine ⟨fun sl hf hwf => h1 sl (hstep.1.trans hf) hwf,
        fun sl hf => h2 sl (hstep.2.1.trans hf),
        fun tl hf => h3 tl (hstep.2.2.trans hf)⟩

theorem lobFold_frame (ids : List ObjectId) : ∀ s0 : MemoryDataStore,
    ((ids.foldl (fun st2 g => flushEntityOther st2 g .lobGroup FLUSH_ALL (-1) dblMax)
        s0).platforms = s0.platforms ∧
     (ids.foldl (fun st2 g => flushEntityOther st2 g .lobGroup FLUSH_ALL (-1) dblMax)
        s0).beams = s0.beams ∧
     (ids.foldl (fun st2 g => flushEntityOther st2 g .lobGroup FLUSH_ALL (-1) dblMax)
        s0).gates = s0.gates ∧
     (ids.foldl (fun st2 g => flushEntityOther st2 g .lobGroup FLUSH_ALL (-1) dblMax)
        s0).lasers = s0.lasers ∧
     (ids.foldl (fun st2 g => flushEntityOther st2 g .lobGroup FLUSH_ALL (-1) dblMax)
        s0).projectors = s0.projectors ∧
     (ids.foldl (fun st2 g => flushEntityOther st2 g .lobGroup FLUSH_ALL (-1) dblMax)
        s0).customRenderings = s0.customRenderings ∧
     keysOf (ids.foldl
        (fun st2 g => flushEntityOther st2 g .lobGroup FLUSH_ALL (-1) dblMax)
        s0).lobGroups = keysOf s0.lobGroups) ∧
    ∀ x, x ∉ ids →
      findA (ids.foldl
        (fun st2 g => flushEntityOther st2 g .lobGroup FLUSH_ALL (-1) dblMax)
        s0).lobGroups x = findA s0.lobGroups x ∧
      findA (ids.foldl
        (fun st2 g => flushEntityOther st2 g .lobGroup FLUSH_ALL (-1) dblMax)
        s0).categoryData x = findA s0.categoryData x ∧
      findA (ids.foldl
        (fun st2 g => flushEntityOther st2 g .lobGroup FLUSH_ALL (-1) dblMax)
        s0).genericData x = findA s0.genericData x ∧
      findA (ids.foldl
        (fun st2 g => flushEntityOther st2 g .lobGroup FLUSH_ALL (-1) dblMax)
        s0).dataTables x = findA s0.dataTables x := by
  induction ids with
  | nil =>
    intro s0
    exact ⟨⟨rfl, rfl, rfl, rfl, rfl, rfl, rfl⟩, fun x _ => ⟨rfl, rfl, rfl, rfl⟩⟩
  | cons c ids ih =>
    intro s0
    have hstep_keys :
        keysOf (flushEntityOther s0 c .lobGroup FLUSH_ALL (-1) dblMax).lobGroups =
          keysOf s0.lobGroups := by
      show keysOf (modifyVal s0.lobGroups c _) = _
      exact keysOf_modifyVal _ _ _
    obtain ⟨hE, hF⟩ := ih (flushEntityOther s0 c .lobGroup FLUSH_ALL (-1) dblMax)
    refine ⟨⟨hE.1, hE.2.1, hE.2.2.1, hE.2.2.2.1, hE.2.2.2.2.1, hE.2.2.2.2.2.1,
      hE.2.2.2.2.2.2.trans hstep_keys⟩, fun x hx => ?_⟩
    have hxc : x ≠ c := fun he => hx (by rw [he]; exact List.mem_cons_self c ids)
    have hxids : x ∉ ids := fun hm => hx (List.mem_cons_of_mem c hm)
    obtain ⟨g1, g2, g3, g4⟩ := hF x hxids
    refine ⟨g1.trans ?_, g2.trans ?_, g3.trans ?_, g4.trans ?_⟩
    · show findA (modifyVal s0.lobGroups c _) x = _
      exact findA_modifyVal_ne _ _ hxc
    · exact (flushCommonTail_all_frame
        (flushOtherData s0 c .lobGroup FLUSH_ALL (-1) dblMax) c x hxc).1
    · exact (flushCommonTail_all_frame
        (flushOtherData s0 c .lobGroup FLUSH_ALL (-1) dblMax) c x hxc).2.1
    · exact (flushCommonTail_all_frame
        (flushOtherData s0 c .lobGroup FLUSH_ALL (-1) dblMax) c x hxc).2.2

theorem lobFold_flushes (ids : List ObjectId) :
    ∀ (s0 : MemoryDataStore) {g : ObjectId} {e : LobGroupEntry}, ids.Nodup →
    g ∈ ids → findA s0.lobGroups g = some e → sliceTimesWF e.updates →
    commandTimesWF e.commands →
    ∃ e2, findA (ids.foldl
        (fun st2 g2 => flushEntityOther st2 g2 .lobGroup FLUSH_ALL (-1) dblMax)
        s0).lobGroups g = some e2 ∧ e2.properties = e.properties ∧
      e2.preferences = e.preferences ∧ e2.updates.data = [] ∧
      e2.commands.data = [] := by
  induction ids with
  | nil => intro s0 g e _ hg; cases hg
  | cons c ids ih =>
    intro s0 g e hnd hg hf hu hc
    rcases List.mem_cons.mp hg with rfl | hmem
    · obtain ⟨e2, hf2, hp2, hpr2, hu2, hc2⟩ := flushLobGroupData_self s0 g hf hu hc
      have hrest := (lobFold_frame ids
        (flushEntityOther s0 g .lobGroup FLUSH_ALL (-1) dblMax)).2 g
        (List.nodup_cons.mp hnd).1
      exact ⟨e2, hrest.1.trans hf2, hp2, hpr2, hu2, hc2⟩
    · have hgc : g ≠ c := by
        rintro rfl
        exact (List.nodup_cons.mp hnd).1 hmem
      have hstep : findA (flushEntityOther s0 c .lobGroup FLUSH_ALL
          (-1) dblMax).lobGroups g = findA s0.lobGroups g := by
        show findA (modifyVal s0.lobGroups c _) g = _
        exact findA_modifyVal_ne _ _ hgc
      exact ih (flushEntityOther s0 c .lobGroup FLUSH_ALL (-1) dblMax)
        (List.nodup_cons.mp hnd).2 hmem (hstep.trans hf) hu hc

theorem lobFold_shared_flushes (ids : List ObjectId) :
    ∀ (s0 : MemoryDataStore) {g : ObjectId}, ids.Nodup → g ∈ ids →
    ((∀ sl, findA s0.categoryData g = some sl → catTimesWF sl →
       ∃ sl2, findA (ids.foldl
         (fun st2 g2 => flushEntityOther st2 g2 .lobGroup FLUSH_ALL (-1) dblMax)
         s0).categoryData g = some sl2 ∧ sl2.data = []) ∧
     (∀ sl, findA s0.genericData g = some sl →
       ∃ sl2, findA (ids.foldl
         (fun st2 g2 => flushEntityOther st2 g2 .lobGroup FLUSH_ALL (-1) dblMax)
         s0).genericData g = some sl2 ∧ sl2.data = []) ∧
     (∀ tl, findA s0.dataTables g = some tl →
       ∃ tl2, findA (ids.foldl
         (fun st2 g2 => flushEntityOther st2 g2 .lobGroup FLUSH_ALL (-1) dblMax)
         s0).dataTables g = some tl2 ∧ ∀ tb ∈ tl2, tb.rows = [])) := by
  induction ids with
  | nil => intro s0 g _ hg; cases hg
  | cons c ids ih =>
    intro s0 g hnd hg
    rcases List.mem_cons.mp hg with rfl | hmem
    · have hrest := (lobFold_frame ids
        (flushEntityOther s0 g .lobGroup FLUSH_ALL (-1) dblMax)).2 g
        (List.nodup_cons.mp hnd).1
      have hself := flushCommonTail_all_self
        (flushOtherData s0 g .lobGroup FLUSH_ALL (-1) dblMax) g
      refine ⟨fun sl hf hwf => ?_, fun sl hf => ?_, fun tl hf => ?_⟩
      · obtain ⟨sl2, hf2, hd2⟩ := hself.1 sl hf hwf
        exact ⟨sl2, hrest.2.1.trans hf2, hd2⟩
      · obtain ⟨sl2, hf2, hd2⟩ := hself.2.1 sl hf
        exact ⟨sl2, hrest.2.2.1.trans hf2, hd2⟩
      · obtain ⟨tl2, hf2, hd2⟩ := hself.2.2 tl hf
        exact ⟨tl2, hrest.2.2.2.trans hf2, hd2⟩
    · have hgc : g ≠ c := by
        rintro rfl
        exact (List.nodup_cons.mp hnd).1 hmem
      have hstep := flushCommonTail_all_frame
        (flushOtherData s0 c .lobGroup FLUSH_ALL (-1) dblMax) c g hgc
      obtain ⟨h1, h2, h3⟩ := ih (flushEntityOther s0 c .lobGroup FLUSH_ALL (-1) dblMax)
        (List.nodup_cons.mp hnd).2 hmem
      refine ⟨fun sl hf hwf => h1 sl (hstep.1.trans hf) hwf,
        fun sl hf => h2 sl (hstep.2.1.trans hf),
        fun tl hf => h3 tl (hstep.2.2.trans hf)⟩

theorem projFold_frame (ids : List ObjectId) : ∀ s0 : MemoryDataStore,
    ((ids.foldl (fun st2 g => flushEntityOther st2 g .projector FLUSH_ALL (-1) dblMax)
        s0).platforms = s0.platforms ∧
     (ids.foldl (fun st2 g => flushEntityOther st2 g .projector FLUSH_ALL (-1) dblMax)
        s0).beams = s0.beams ∧
     (ids.foldl (fun st2 g => flushEntityOther st2 g .projector FLUSH_ALL (-1) dblMax)
        s0).gates = s0.gates ∧
     (ids.foldl (fun st2 g => flushEntityOther st2 g .projector FLUSH_ALL (-1) dblMax)
        s0).lasers = s0.lasers ∧
     (ids.foldl (fun st2 g => flushEntityOther st2 g .projector FLUSH_ALL (-1) dblMax)
        s0).lobGroups = s0.lobGroups ∧
     (ids.foldl (fun st2 g => flushEntityOther st2 g .projector FLUSH_ALL (-1) dblMax)
        s0).customRenderings = s0.customRenderings ∧
     keysOf (ids.foldl
        (fun st2 g => flushEntityOther st2 g .projector FLUSH_ALL (-1) dblMax)
        s0).projectors = keysOf s0.projectors) ∧
    ∀ x, x ∉ ids →
      findA (ids.foldl
        (fun st2 g => flushEntityOther st2 g .projector FLUSH_ALL (-1) dblMax)
        s0).projectors x = findA s0.projectors x ∧
      findA (ids.foldl
        (fun st2 g => flushEntityOther st2 g .projector FLUSH_ALL (-1) dblMax)
        s0).categoryData x = findA s0.categoryData x ∧
      findA (ids.foldl
        (fun st2 g => flushEntityOther st2 g .projector FLUSH_ALL (-1) dblMax)
        s0).genericData x = findA s0.genericData x ∧
      findA (ids.foldl
        (fun st2 g => flushEntityOther st2 g .projector FLUSH_ALL (-1) dblMax)
        s0).dataTables x = findA s0.dataTables x := by
  induction ids with
  | nil =>
    intro s0
    exact ⟨⟨rfl, rfl, rfl, rfl, rfl, rfl, rfl⟩, fun x _ => ⟨rfl, rfl, rfl, rfl⟩⟩
  | cons c ids ih =>
    intro s0
    have hstep_keys :
        keysOf (flushEntityOther s0 c .projector FLUSH_ALL (-1) dblMax).projectors =
          keysOf s0.projectors := by
      show keysOf (modifyVal s0.projectors c _) = _
      exact keysOf_modifyVal _ _ _
    obtain ⟨hE, hF⟩ := ih (flushEntityOther s0 c .projector FLUSH_ALL (-1) dblMax)
    refine ⟨⟨hE.1, hE.2.1, hE.2.2.1, hE.2.2.2.1, hE.2.2.2.2.1, hE.2.2.2.2.2.1,
      hE.2.2.2.2.2.2.trans hstep_keys⟩, fun x hx => ?_⟩
    have hxc : x ≠ c := fun he => hx (by rw [he]; exact List.mem_cons_self c ids)
    have hxids : x ∉ ids := fun hm => hx (List.mem_cons_of_mem c hm)
    obtain ⟨g1, g2, g3, g4⟩ := hF x hxids
    refine ⟨g1.trans ?_, g2.trans ?_, g3.trans ?_, g4.trans ?_⟩
    · show findA (modifyVal s0.projectors c _) x = _
      exact findA_modifyVal_ne _ _ hxc
    · exact (flushCommonTail_all_frame
        (flushOtherData s0 c .projector FLUSH_ALL (-1) dblMax) c x hxc).1
    · exact (flushCommonTail_all_frame
        (flushOtherData s0 c .projector FLUSH_ALL (-1) dblMax) c x hxc).2.1
    · exact (flushCommonTail_all_frame
        (flushOtherData s0 c .projector FLUSH_ALL (-1) dblMax) c x hxc).2.2

theorem projFold_flushes (ids : List ObjectId) :
    ∀ (s0 : MemoryDataStore) {g : ObjectId} {e : ProjectorEntry}, ids.Nodup →
    g ∈ ids → findA s0.projectors g = some e → sliceTimesWF e.updates →
    commandTimesWF e.commands →
    ∃ e2, findA (ids.foldl
        (fun st2 g2 => flushEntityOther st2 g2 .projector FLUSH_ALL (-1) dblMax)
        s0).projectors g = some e2 ∧ e2.properties = e.properties ∧
      e2.preferences = e.preferences ∧ e2.updates.data = [] ∧
      e2.commands.data = [] := by
  induction ids with
  | nil => intro s0 g e _ hg; cases hg
  | cons c ids ih =>
    intro s0 g e hnd hg hf hu hc
    rcases List.mem_cons.mp hg with rfl | hmem
    · obtain ⟨e2, hf2, hp2, hpr2, hu2, hc2⟩ := flushProjectorData_self s0 g hf hu hc
      have hrest := (projFold_frame ids
        (flushEntityOther s0 g .projector FLUSH_ALL (-1) dblMax)).2 g
        (List.nodup_cons.mp hnd).1
      exact ⟨e2, hrest.1.trans hf2, hp2, hpr2, hu2, hc2⟩
    · have hgc : g ≠ c := by
        rintro rfl
        exact (List.nodup_cons.mp hnd).1 hmem
      have hstep : findA (flushEntityOther s0 c .projector FLUSH_ALL
          (-1) dblMax).projectors g = findA s0.projectors g := by
        show findA (modifyVal s0.projectors c _) g = _
        exact findA_modifyVal_ne _ _ hgc
      exact ih (flushEntityOther s0 c .projector FLUSH_ALL (-1) dblMax)
        (List.nodup_cons.mp hnd).2 hmem (hstep.trans hf) hu hc

theorem projFold_shared_flushes (ids : List ObjectId) :
    ∀ (s0 : MemoryDataStore) {g : ObjectId}, ids.Nodup → g ∈ ids →
    ((∀ sl, findA s0.categoryData g = some sl → catTimesWF sl →
       ∃ sl2, findA (ids.foldl
         (fun st2 g2 => flushEntityOther st2 g2 .projector FLUSH_ALL (-1) dblMax)
         s0).categoryData g = some sl2 ∧ sl2.data = []) ∧
     (∀ sl, findA s0.genericData g = some sl →
       ∃ sl2, findA (ids.foldl
         (fun st2 g2 => flushEntityOther st2 g2 .projector FLUSH_ALL (-1) dblMax)
         s0).genericData g = some sl2 ∧ sl2.data = []) ∧
     (∀ tl, findA s0.dataTables g = some tl →
       ∃ tl2, findA (ids.foldl
         (fun st2 g2 => flushEntityOther st2 g2 .projector FLUSH_ALL (-1) dblMax)
         s0).dataTables g = some tl2 ∧ ∀ tb ∈ tl2, tb.rows = [])) := by
  induction ids with
  | nil => intro s0 g _ hg; cases hg
  | cons c ids ih =>
    intro s0 g hnd hg
    rcases List.mem_cons.mp hg with rfl | hmem
    · have hrest := (projFold_frame ids
        (flushEntityOther s0 g .projector FLUSH_ALL (-1) dblMax)).2 g
        (List.nodup_cons.mp hnd).1
      have hself := flushCommonTail_all_self
        (flushOtherData s0 g .projector FLUSH_ALL (-1) dblMax) g
      refine ⟨fun sl hf hwf => ?_, fun sl hf => ?_, fun tl hf => ?_⟩
      · obtain ⟨sl2, hf2, hd2⟩ := hself.1 sl hf hwf
        exact ⟨sl2, hrest.2.1.trans hf2, hd2⟩
      · obtain ⟨sl2, hf2, hd2⟩ := hself.2.1 sl hf
        exact ⟨sl2, hrest.2.2.1.trans hf2, hd2⟩
      · obtain ⟨tl2, hf2, hd2⟩ := hself.2.2 tl hf
        exact ⟨tl2, hrest.2.2.2.trans hf2, hd2⟩
    · have hgc : g ≠ c := by
        rintro rfl
        exact (List.nodup_cons.mp hnd).1 hmem
      have hstep := flushCommonTail_all_frame
        (flushOtherData s0 c .projector FLUSH_ALL (-1) dblMax) c g hgc
      obtain ⟨h1, h2, h3⟩ := ih (flushEntityOther s0 c .projector FLUSH_ALL (-1) dblMax)
        (List.nodup_cons.mp hnd).2 hmem
      refine ⟨fun sl hf hwf => h1 sl (hstep.1.trans hf) hwf,
        fun sl hf => h2 sl (hstep.2.1.trans hf),
        fun tl hf => h3 tl (hstep.2.2.trans hf)⟩

theorem crFold_frame (ids : List ObjectId) : ∀ s0 : MemoryDataStore,
    ((ids.foldl (fun st2 g => flushEntityOther st2 g .customRendering FLUSH_ALL (-1) dblMax)
        s0).platforms = s0.platforms ∧
     (ids.foldl (fun st2 g => flushEntityOther st2 g .customRendering FLUSH_ALL (-1) dblMax)
        s0).beams = s0.beams ∧
     (ids.foldl (fun st2 g => flushEntityOther st2 g .customRendering FLUSH_ALL (-1) dblMax)
        s0).gates = s0.gates ∧
     (ids.foldl (fun st2 g => flushEntityOther st2 g .customRendering FLUSH_ALL (-1) dblMax)
        s0).lasers = s0.lasers ∧
     (ids.foldl (fun st2 g => flushEntityOther st2 g .customRendering FLUSH_ALL (-1) dblMax)
        s0).projectors = s0.projectors ∧
     (ids.foldl (fun st2 g => flushEntityOther st2 g .customRendering FLUSH_ALL (-1) dblMax)
        s0).lobGroups = s0.lobGroups ∧
     keysOf (ids.foldl
        (fun st2 g => flushEntityOther st2 g .customRendering FLUSH_ALL (-1) dblMax)
        s0).customRenderings = keysOf s0.customRenderings) ∧
    ∀ x, x ∉ ids →
      findA (ids.foldl
        (fun st2 g => flushEntityOther st2 g .customRendering FLUSH_ALL (-1) dblMax)
        s0).customRenderings x = findA s0.customRenderings x ∧
      findA (ids.foldl
        (fun st2 g => flushEntityOther st2 g .customRendering FLUSH_ALL (-1) dblMax)
        s0).categoryData x = findA s0.categoryData x ∧
      findA (ids.foldl
        (fun st2 g => flushEntityOther st2 g .customRendering FLUSH_ALL (-1) dblMax)
        s0).genericData x = findA s0.genericData x ∧
      findA (ids.foldl
        (fun st2 g => flushEntityOther st2 g .customRendering FLUSH_ALL (-1) dblMax)
        s0).dataTables x = findA s0.dataTables x := by
  induction ids with
  | nil =>
    intro s0
    exact ⟨⟨rfl, rfl, rfl, rfl, rfl, rfl, rfl⟩, fun x _ => ⟨rfl, rfl, rfl, rfl⟩⟩
  | cons c ids ih =>
    intro s0
    have hstep_keys :
        keysOf (flushEntityOther s0 c .customRendering FLUSH_ALL (-1) dblMax).customRenderings =
          keysOf s0.customRenderings := by
      show keysOf (modifyVal s0.customRenderings c _) = _
      exact keysOf_modifyVal _ _ _
    obtain ⟨hE, hF⟩ := ih (flushEntityOther s0 c .customRendering FLUSH_ALL (-1) dblMax)
    refine ⟨⟨hE.1, hE.2.1, hE.2.2.1, hE.2.2.2.1, hE.2.2.2.2.1, hE.2.2.2.2.2.1,
      hE.2.2.2.2.2.2.trans hstep_keys⟩, fun x hx => ?_⟩
    have hxc : x ≠ c := fun he => hx (by rw [he]; exact List.mem_cons_self c ids)
    have hxids : x ∉ ids := fun hm => hx (List.mem_cons_of_mem c hm)
    obtain ⟨g1, g2, g3, g4⟩ := hF x hxids
    refine ⟨g1.trans ?_, g2.trans ?_, g3.trans ?_, g4.trans ?_⟩
    · show findA (modifyVal s0.customRenderings c _) x = _
      exact findA_modifyVal_ne _ _ hxc
    · exact (flushCommonTail_all_frame
        (flushOtherData s0 c .customRendering FLUSH_ALL (-1) dblMax) c x hxc).1
    · exact (flushCommonTail_all_frame
        (flushOtherData s0 c .customRendering FLUSH_ALL (-1) dblMax) c x hxc).2.1
    · exact (flushCommonTail_all_frame
        (flushOtherData s0 c .customRendering FLUSH_ALL (-1) dblMax) c x hxc).2.2

theorem crFold_flushes (ids : List ObjectId) :
    ∀ (s0 : MemoryDataStore) {g : ObjectId} {e : CustomRenderingEntry}, ids.Nodup →
    g ∈ ids → findA s0.customRenderings g = some e → sliceTimesWF e.updates →
    commandTimesWF e.commands →
    ∃ e2, findA (ids.foldl
        (fun st2 g2 => flushEntityOther st2 g2 .customRendering FLUSH_ALL (-1) dblMax)
        s0).customRenderings g = some e2 ∧ e2.properties = e.properties ∧
      e2.preferences = e.preferences ∧ e2.updates.data = [] ∧
      e2.commands.data = [] := by
  induction ids with
  | nil => intro s0 g e _ hg; cases hg
  | cons c ids ih =>
    intro s0 g e hnd hg hf hu hc
    rcases List.mem_cons.mp hg with rfl | hmem
    · obtain ⟨e2, hf2, hp2, hpr2, hu2, hc2⟩ := flushCustomRenderingData_self s0 g hf hu hc
      have hrest := (crFold_frame ids
        (flushEntityOther s0 g .customRendering FLUSH_ALL (-1) dblMax)).2 g
        (List.nodup_cons.mp hnd).1
      exact ⟨e2, hrest.1.trans hf2, hp2, hpr2, hu2, hc2⟩
    · have hgc : g ≠ c := by
        rintro rfl
        exact (List.nodup_cons.mp hnd).1 hmem
      have hstep : findA (flushEntityOther s0 c .customRendering FLUSH_ALL
          (-1) dblMax).customRenderings g = findA s0.customRenderings g := by
        show findA (modifyVal s0.customRenderings c _) g = _
        exact findA_modifyVal_ne _ _ hgc
      exact ih (flushEntityOther s0 c .customRendering FLUSH_ALL (-1) dblMax)
        (List.nodup_cons.mp hnd).2 hmem (hstep.trans hf) hu hc

theorem crFold_shared_flushes (ids : List ObjectId) :
    ∀ (s0 : MemoryDataStore) {g : ObjectId}, ids.Nodup → g ∈ ids →
    ((∀ sl, findA s0.categoryData g = some sl → catTimesWF sl →
       ∃ sl2, findA (ids.foldl
         (fun st2 g2 => flushEntityOther st2 g2 .customRendering FLUSH_ALL (-1) dblMax)
         s0).categoryData g = some sl2 ∧ sl2.data = []) ∧
     (∀ sl, findA s0.genericData g = some sl →
       ∃ sl2, findA (ids.foldl
         (fun st2 g2 => flushEntityOther st2 g2 .customRendering FLUSH_ALL (-1) dblMax)
         s0).genericData g = some sl2 ∧ sl2.data = []) ∧
     (∀ tl, findA s0.dataTables g = some tl →
       ∃ tl2, findA (ids.foldl
         (fun st2 g2 => flushEntityOther st2 g2 .customRendering FLUSH_ALL (-1) dblMax)
         s0).dataTables g = some tl2 ∧ ∀ tb ∈ tl2, tb.rows = [])) := by
  induction ids with
  | nil => intro s0 g _ hg; cases hg
  | cons c ids ih =>
    intro s0 g hnd hg
    rcases List.mem_cons.mp hg with rfl | hmem
    · have hrest := (crFold_frame ids
        (flushEntityOther s0 g .customRendering FLUSH_ALL (-1) dblMax)).2 g
        (List.nodup_cons.mp hnd).1
      have hself := flushCommonTail_all_self
        (flushOtherData s0 g .customRendering FLUSH_ALL (-1) dblMax) g
      refine ⟨fun sl hf hwf => ?_, fun sl hf => ?_, fun tl hf => ?_⟩
      · obtain ⟨sl2, hf2, hd2⟩ := hself.1 sl hf hwf
        exact ⟨sl2, hrest.2.1.trans hf2, hd2⟩
      · obtain ⟨sl2, hf2, hd2⟩ := hself.2.1 sl hf
        exact ⟨sl2, hrest.2.2.1.trans hf2, hd2⟩
      · obtain ⟨tl2, hf2, hd2⟩ := hself.2.2 tl hf
        exact ⟨tl2, hrest.2.2.2.trans hf2, hd2⟩
    · have hgc : g ≠ c := by
        rintro rfl
        exact (List.nodup_cons.mp hnd).1 hmem
      have hstep := flushCommonTail_all_frame
        (flushOtherData s0 c .customRendering FLUSH_ALL (-1) dblMax) c g hgc
      obtain ⟨h1, h2, h3⟩ := ih (flushEntityOther s0 c .customRendering FLUSH_ALL (-1) dblMax)
        (List.nodup_cons.mp hnd).2 hmem
      refine ⟨fun sl hf hwf => h1 sl (hstep.1.trans hf) hwf,
        fun sl hf => h2 sl (hstep.2.1.trans hf),
        fun tl hf => h3 tl (hstep.2.2.trans hf)⟩

theorem beamStep_eq (s : MemoryDataStore) (b : ObjectId) :
    flushEntityBeam s b .recursive FLUSH_ALL (-1) dblMax =
      flushCommonTail
        (flushBeamProjFold
          (flushBeamGateFold (flushBeamData s b true true (-1) dblMax) b
            FLUSH_ALL (-1) dblMax) b FLUSH_ALL (-1) dblMax)
        b FLUSH_ALL (-1) dblMax := rfl

theorem flushBeamGateFold_def (s : MemoryDataStore) (id : ObjectId) :
    flushBeamGateFold s id FLUSH_ALL (-1) dblMax =
      (gateIdListForHost s id).foldl
        (fun st2 g => flushEntityOther st2 g .gate FLUSH_ALL (-1) dblMax) s := rfl

theorem flushBeamProjFold_def (s : MemoryDataStore) (id : ObjectId) :
    flushBeamProjFold s id FLUSH_ALL (-1) dblMax =
      (projectorIdListForHost s id).foldl
        (fun st2 q => flushEntityOther st2 q .projector FLUSH_ALL (-1) dblMax)
        s := rfl

theorem flushPlatBeamFold_def (s : MemoryDataStore) (id : ObjectId) :
    flushPlatBeamFold s id .recursive FLUSH_ALL (-1) dblMax =
      (beamIdListForHost s id).foldl
        (fun st2 b => flushEntityBeam st2 b .recursive FLUSH_ALL (-1) dblMax)
        s := rfl

theorem flushPlatLaserFold_def (s : MemoryDataStore) (id : ObjectId) :
    flushPlatLaserFold s id FLUSH_ALL (-1) dblMax =
      (laserIdListForHost s id).foldl
        (fun st2 l => flushEntityOther st2 l .laser FLUSH_ALL (-1) dblMax)
        s := rfl

theorem flushPlatLobFold_def (s : MemoryDataStore) (id : ObjectId) :
    flushPlatLobFold s id FLUSH_ALL (-1) dblMax =
      (lobGroupIdListForHost s id).foldl
        (fun st2 o => flushEntityOther st2 o .lobGroup FLUSH_ALL (-1) dblMax)
        s := rfl

theorem flushPlatProjFold_def (s : MemoryDataStore) (id : ObjectId) :
    flushPlatProjFold s id FLUSH_ALL (-1) dblMax =
      (projectorIdListForHost s id).foldl
        (fun st2 q => flushEntityOther st2 q .projector FLUSH_ALL (-1) dblMax)
        s := rfl

theorem flushPlatCrFold_def (s : MemoryDataStore) (id : ObjectId) :
    flushPlatCrFold s id FLUSH_ALL (-1) dblMax =
      (customRenderingIdListForHost s id).foldl
        (fun st2 c => flushEntityOther st2 c .customRendering FLUSH_ALL (-1)
          dblMax) s := rfl

theorem platformStep_eq (s : MemoryDataStore) (P : ObjectId) :
    flushEntityPlatform s P .recursive FLUSH_ALL (-1) dblMax =
      flushCommonTail
        (flushPlatCrFold
          (flushPlatProjFold
            (flushPlatLobFold
              (flushPlatLaserFold
                (flushPlatBeamFold (flushPlatformData s P true true (-1) dblMax)
                  P .recursive FLUSH_ALL (-1) dblMax) P FLUSH_ALL (-1) dblMax)
              P FLUSH_ALL (-1) dblMax) P FLUSH_ALL (-1) dblMax)
          P FLUSH_ALL (-1) dblMax) P FLUSH_ALL (-1) dblMax := rfl

theorem flushEntityOther_gate_eq (s : MemoryDataStore) (c : ObjectId) :
    flushEntityOther s c .gate FLUSH_ALL (-1) dblMax =
      flushCommonTail (flushGateData s c true true (-1) dblMax) c
        FLUSH_ALL (-1) dblMax := rfl

theorem flushEntityOther_laser_eq (s : MemoryDataStore) (c : ObjectId) :
    flushEntityOther s c .laser FLUSH_ALL (-1) dblMax =
      flushCommonTail (flushLaserData s c true true (-1) dblMax) c
        FLUSH_ALL (-1) dblMax := rfl

theorem flushEntityOther_lob_eq (s : MemoryDataStore) (c : ObjectId) :
    flushEntityOther s c .lobGroup FLUSH_ALL (-1) dblMax =
      flushCommonTail (flushLobGroupData s c true true (-1) dblMax) c
        FLUSH_ALL (-1) dblMax := rfl

theorem flushEntityOther_proj_eq (s : MemoryDataStore) (c : ObjectId) :
    flushEntityOther s c .projector FLUSH_ALL (-1) dblMax =
      flushCommonTail (flushProjectorData s c true true (-1) dblMax) c
        FLUSH_ALL (-1) dblMax := rfl

theorem flushEntityOther_cr_eq (s : MemoryDataStore) (c : ObjectId) :
    flushEntityOther s c .customRendering FLUSH_ALL (-1) dblMax =
      flushCommonTail (flushCustomRenderingData s c true true (-1) dblMax) c
        FLUSH_ALL (-1) dblMax := rfl

theorem flushPlatformData_parts (s : MemoryDataStore) (id : ObjectId) :
    (flushPlatformData s id true true (-1) dblMax).beams = s.beams ∧
    (flushPlatformData s id true true (-1) dblMax).gates = s.gates ∧
    (flushPlatformData s id true true (-1) dblMax).lasers = s.lasers ∧
    (flushPlatformData s id true true (-1) dblMax).projectors = s.projectors ∧
    (flushPlatformData s id true true (-1) dblMax).lobGroups = s.lobGroups ∧
    (flushPlatformData s id true true (-1) dblMax).customRenderings = s.customRenderings ∧
    (flushPlatformData s id true true (-1) dblMax).categoryData = s.categoryData ∧
    (flushPlatformData s id true true (-1) dblMax).genericData = s.genericData ∧
    (flushPlatformData s id true true (-1) dblMax).dataTables = s.dataTables ∧
    keysOf (flushPlatformData s id true true (-1) dblMax).platforms = keysOf s.platforms ∧
    ∀ x, x ≠ id → findA (flushPlatformData s id true true (-1) dblMax).platforms x = findA s.platforms x := by
  refine ⟨rfl, rfl, rfl, rfl, rfl, rfl, rfl, rfl, rfl, keysOf_modifyVal _ _ _, fun x hx => findA_modifyVal_ne _ _ hx⟩

theorem flushBeamData_parts (s : MemoryDataStore) (id : ObjectId) :
    (flushBeamData s id true true (-1) dblMax).platforms = s.platforms ∧
    (flushBeamData s id true true (-1) dblMax).gates = s.gates ∧
    (flushBeamData s id true true (-1) dblMax).lasers = s.lasers ∧
    (flushBeamData s id true true (-1) dblMax).projectors = s.projectors ∧
    (flushBeamData s id true true (-1) dblMax).lobGroups = s.lobGroups ∧
    (flushBeamData s id true true (-1) dblMax).customRenderings = s.customRenderings ∧
    (flushBeamData s id true true (-1) dblMax).categoryData = s.categoryData ∧
    (flushBeamData s id true true (-1) dblMax).genericData = s.genericData ∧
    (flushBeamData s id true true (-1) dblMax).dataTables = s.dataTables ∧
    keysOf (flushBeamData s id true true (-1) dblMax).beams = keysOf s.beams ∧
    ∀ x, x ≠ id → findA (flushBeamData s id true true (-1) dblMax).beams x = findA s.beams x := by
  refine ⟨rfl, rfl, rfl, rfl, rfl, rfl, rfl, rfl, rfl, keysOf_modifyVal _ _ _, fun x hx => findA_modifyVal_ne _ _ hx⟩

theorem flushGateData_parts (s : MemoryDataStore) (id : ObjectId) :
    (flushGateData s id true true (-1) dblMax).platforms = s.platforms ∧
    (flushGateData s id true true (-1) dblMax).beams = s.beams ∧
    (flushGateData s id true true (-1) dblMax).lasers = s.lasers ∧
    (flushGateData s id true true (-1) dblMax).projectors = s.projectors ∧
    (flushGateData s id true true (-1) dblMax).lobGroups = s.lobGroups ∧
    (flushGateData s id true true (-1) dblMax).customRenderings = s.customRenderings ∧
    (flushGateData s id true true (-1) dblMax).categoryData = s.categoryData ∧
    (flushGateData s id true true (-1) dblMax).genericData = s.genericData ∧
    (flushGateData s id true true (-1) dblMax).dataTables = s.dataTables ∧
    keysOf (flushGateData s id true true (-1) dblMax).gates = keysOf s.gates ∧
    ∀ x, x ≠ id → findA (flushGateData s id true true (-1) dblMax).gates x = findA s.gates x := by
  refine ⟨rfl, rfl, rfl, rfl, rfl, rfl, rfl, rfl, rfl, keysOf_modifyVal _ _ _, fun x hx => findA_modifyVal_ne _ _ hx⟩

theorem flushLaserData_parts (s : MemoryDataStore) (id : ObjectId) :
    (flushLaserData s id true true (-1) dblMax).platforms = s.platforms ∧
    (flushLaserData s id true true (-1) dblMax).beams = s.beams ∧
    (flushLaserData s id true true (-1) dblMax).gates = s.gates ∧
    (flushLaserData s id true true (-1) dblMax).projectors = s.projectors ∧
    (flushLaserData s id true true (-1) dblMax).lobGroups = s.lobGroups ∧
    (flushLaserData s id true true (-1) dblMax).customRenderings = s.customRenderings ∧
    (flushLaserData s id true true (-1) dblMax).categoryData = s.categoryData ∧
    (flushLaserData s id true true (-1) dblMax).genericData = s.genericData ∧
    (flushLaserData s id true true (-1) dblMax).dataTables = s.dataTables ∧
    keysOf (flushLaserData s id true true (-1) dblMax).lasers = keysOf s.lasers ∧
    ∀ x, x ≠ id → findA (flushLaserData s id true true (-1) dblMax).lasers x = findA s.lasers x := by
  refine ⟨rfl, rfl, rfl, rfl, rfl, rfl, rfl, rfl, rfl, keysOf_modifyVal _ _ _, fun x hx => findA_modifyVal_ne _ _ hx⟩

theorem flushProjectorData_parts (s : MemoryDataStore) (id : ObjectId) :
    (flushProjectorData s id true true (-1) dblMax).platforms = s.platforms ∧
    (flushProjectorData s id true true (-1) dblMax).beams = s.beams ∧
    (flushProjectorData s id true true (-1) dblMax).gates = s.gates ∧
    (flushProjectorData s id true true (-1) dblMax).lasers = s.lasers ∧
    (flushProjectorData s id true true (-1) dblMax).lobGroups = s.lobGroups ∧
    (flushProjectorData s id true true (-1) dblMax).customRenderings = s.customRenderings ∧
    (flushProjectorData s id true true (-1) dblMax).categoryData = s.categoryData ∧
    (flushProjectorData s id true true (-1) dblMax).genericData = s.genericData ∧
    (flushProjectorData s id true true (-1) dblMax).dataTables = s.dataTables ∧
    keysOf (flushProjectorData s id true true (-1) dblMax).projectors = keysOf s.projectors ∧
    ∀ x, x ≠ id → findA (flushProjectorData s id true true (-1) dblMax).projectors x = findA s.projectors x := by
  refine ⟨rfl, rfl, rfl, rfl, rfl, rfl, rfl, rfl, rfl, keysOf_modifyVal _ _ _, fun x hx => findA_modifyVal_ne _ _ hx⟩

theorem flushLobGroupData_parts (s : MemoryDataStore) (id : ObjectId) :
    (flushLobGroupData s id true true (-1) dblMax).platforms = s.platforms ∧
    (flushLobGroupData s id true true (-1) dblMax).beams = s.beams ∧
    (flushLobGroupData s id true true (-1) dblMax).gates = s.gates ∧
    (flushLobGroupData s id true true (-1) dblMax).lasers = s.lasers ∧
    (flushLobGroupData s id true true (-1) dblMax).projectors = s.projectors ∧
    (flushLobGroupData s id true true (-1) dblMax).customRenderings = s.customRenderings ∧
    (flushLobGroupData s id true true (-1) dblMax).categoryData = s.categoryData ∧
    (flushLobGroupData s id true true (-1) dblMax).genericData = s.genericData ∧
    (flushLobGroupData s id true true (-1) dblMax).dataTables = s.dataTables ∧
    keysOf (flushLobGroupData s id true true (-1) dblMax).lobGroups = keysOf s.lobGroups ∧
    ∀ x, x ≠ id → findA (flushLobGroupData s id true true (-1) dblMax).lobGroups x = findA s.lobGroups x := by
  refine ⟨rfl, rfl, rfl, rfl, rfl, rfl, rfl, rfl, rfl, keysOf_modifyVal _ _ _, fun x hx => findA_modifyVal_ne _ _ hx⟩

theorem flushCustomRenderingData_parts (s : MemoryDataStore) (id : ObjectId) :
    (flushCustomRenderingData s id true true (-1) dblMax).platforms = s.platforms ∧
    (flushCustomRenderingData s id true true (-1) dblMax).beams = s.beams ∧
    (flushCustomRenderingData s id true true (-1) dblMax).gates = s.gates ∧
    (flushCustomRenderingData s id true true (-1) dblMax).lasers = s.lasers ∧
    (flushCustomRenderingData s id true true (-1) dblMax).projectors = s.projectors ∧
    (flushCustomRenderingData s id true true (-1) dblMax).lobGroups = s.lobGroups ∧
    (flushCustomRenderingData s id true true (-1) dblMax).categoryData = s.categoryData ∧
    (flushCustomRenderingData s id true true (-1) dblMax).genericData = s.genericData ∧
    (flushCustomRenderingData s id true true (-1) dblMax).dataTables = s.dataTables ∧
    keysOf (flushCustomRenderingData s id true true (-1) dblMax).customRenderings = keysOf s.customRenderings ∧
    ∀ x, x ≠ id → findA (flushCustomRenderingData s id true true (-1) dblMax).customRenderings x = findA s.customRenderings x := by
  refine ⟨rfl, rfl, rfl, rfl, rfl, rfl, rfl, rfl, rfl, keysOf_modifyVal _ _ _, fun x hx => findA_modifyVal_ne _ _ hx⟩

theorem beamIdListForHost_congr {s1 s2 : MemoryDataStore} (h : s1.beams = s2.beams)
    (b : ObjectId) : beamIdListForHost s1 b = beamIdListForHost s2 b := by
  rw [beamIdListForHost, beamIdListForHost, h]

theorem gateIdListForHost_congr {s1 s2 : MemoryDataStore} (h : s1.gates = s2.gates)
    (b : ObjectId) : gateIdListForHost s1 b = gateIdListForHost s2 b := by
  rw [gateIdListForHost, gateIdListForHost, h]

theorem laserIdListForHost_congr {s1 s2 : MemoryDataStore} (h : s1.lasers = s2.lasers)
    (b : ObjectId) : laserIdListForHost s1 b = laserIdListForHost s2 b := by
  rw [laserIdListForHost, laserIdListForHost, h]

theorem projectorIdListForHost_congr {s1 s2 : MemoryDataStore} (h : s1.projectors = s2.projectors)
    (b : ObjectId) : projectorIdListForHost s1 b = projectorIdListForHost s2 b := by
  rw [projectorIdListForHost, projectorIdListForHost, h]

theorem lobGroupIdListForHost_congr {s1 s2 : MemoryDataStore} (h : s1.lobGroups = s2.lobGroups)
    (b : ObjectId) : lobGroupIdListForHost s1 b = lobGroupIdListForHost s2 b := by
  rw [lobGroupIdListForHost, lobGroupIdListForHost, h]

theorem customRenderingIdListForHost_congr {s1 s2 : MemoryDataStore} (h : s1.customRenderings = s2.customRenderings)
    (b : ObjectId) : customRenderingIdListForHost s1 b = customRenderingIdListForHost s2 b := by
  rw [customRenderingIdListForHost, customRenderingIdListForHost, h]


theorem flushStart_all : flushStart FLUSH_ALL = -1 := rfl

theorem flushedResult_eq (s : MemoryDataStore) (id : ObjectId)
    (scope : FlushScope) (ff : FlushFields) :
    flushedResult s id scope ff =
      { flushEntity s id (objectType s id) scope ff (flushStart ff) dblMax with
          hasChanged := true } := rfl

theorem flushEntity_platform_eq (s : MemoryDataStore) (id : ObjectId)
    (scope : FlushScope) (ff : FlushFields) (st en : Rat) :
    flushEntity s id .platform scope ff st en =
      flushEntityPlatform s id scope ff st en := rfl

theorem flushStore_nonzero (s : MemoryDataStore) (id : ObjectId)
    (scope : FlushScope) (ff : FlushFields) (h0 : ¬(id = 0))
    (hne : ¬(objectType s id = .none)) :
    flushStore s id scope ff =
      (flushedResult s id scope ff,
       (flushedResult s id scope ff).listeners.map
         (fun l => DSEvent.onFlush l id), 0) := by
  rw [flushStore, if_neg h0, if_neg hne]

attribute [irreducible] flushPlatformData flushBeamData flushGateData
  flushLaserData flushProjectorData flushLobGroupData flushCustomRenderingData
  flushCatStep flushGenStep flushTabStep flushCommonTail flushOtherData
  flushEntityOther flushBeamGateFold flushBeamProjFold flushBeamChildren
  flushEntityBeam flushPlatBeamFold flushPlatLaserFold flushPlatLobFold
  flushPlatProjFold flushPlatCrFold flushPlatformChildren flushEntityPlatform
  flushEntity flushStart flushedResult flushStore

theorem beamStep_eq2 (s : MemoryDataStore) (b : ObjectId) :
    flushEntityBeam s b .recursive FLUSH_ALL (-1) dblMax =
      flushCommonTail
        ((projectorIdListForHost s b).foldl
          (fun st2 q => flushEntityOther st2 q .projector FLUSH_ALL (-1) dblMax)
          ((gateIdListForHost s b).foldl
            (fun st2 g => flushEntityOther st2 g .gate FLUSH_ALL (-1) dblMax)
            (flushBeamData s b true true (-1) dblMax)))
        b FLUSH_ALL (-1) dblMax := by
  rw [beamStep_eq, flushBeamProjFold_def, flushBeamGateFold_def]
  rw [gateIdListForHost_congr (flushBeamData_parts s b).2.1 b]
  rw [projectorIdListForHost_congr
    ((gateFold_frame (gateIdListForHost s b)
        (flushBeamData s b true true (-1) dblMax)).1.2.2.2.1.trans
      (flushBeamData_parts s b).2.2.2.1) b]

theorem beamStep_frame (s : MemoryDataStore) (b : ObjectId)
    (hndG : (keysOf s.gates).Nodup) (hndQ : (keysOf s.projectors).Nodup) :
    ((flushEntityBeam s b .recursive FLUSH_ALL (-1) dblMax).platforms =
        s.platforms ∧
     (flushEntityBeam s b .recursive FLUSH_ALL (-1) dblMax).lasers = s.lasers ∧
     (flushEntityBeam s b .recursive FLUSH_ALL (-1) dblMax).lobGroups =
        s.lobGroups ∧
     (flushEntityBeam s b .recursive FLUSH_ALL (-1) dblMax).customRenderings =
        s.customRenderings ∧
     keysOf (flushEntityBeam s b .recursive FLUSH_ALL (-1) dblMax).beams =
        keysOf s.beams ∧
     keysOf (flushEntityBeam s b .recursive FLUSH_ALL (-1) dblMax).gates =
        keysOf s.gates ∧
     keysOf (flushEntityBeam s b .recursive FLUSH_ALL (-1) dblMax).projectors =
        keysOf s.projectors) ∧
    (∀ x, x ≠ b →
       findA (flushEntityBeam s b .recursive FLUSH_ALL (-1) dblMax).beams x =
         findA s.beams x) ∧
    (∀ x (e : GateEntry), findA s.gates x = some e →
       hostidVal e.properties.hostid ≠ b →
       findA (flushEntityBeam s b .recursive FLUSH_ALL (-1) dblMax).gates x =
         some e) ∧
    (∀ x (e : ProjectorEntry), findA s.projectors x = some e →
       hostidVal e.properties.hostid ≠ b →
       findA (flushEntityBeam s b .recursive FLUSH_ALL
         (-1) dblMax).projectors x = some e) ∧
    (∀ x, x ≠ b →
       (∀ e : GateEntry, findA s.gates x = some e →
         hostidVal e.properties.hostid ≠ b) →
       (∀ e : ProjectorEntry, findA s.projectors x = some e →
         hostidVal e.properties.hostid ≠ b) →
       findA (flushEntityBeam s b .recursive FLUSH_ALL
         (-1) dblMax).categoryData x = findA s.categoryData x ∧
       findA (flushEntityBeam s b .recursive FLUSH_ALL
         (-1) dblMax).genericData x = findA s.genericData x ∧
       findA (flushEntityBeam s b .recursive FLUSH_ALL
         (-1) dblMax).dataTables x = findA s.dataTables x) := by
  have hB := flushBeamData_parts s b
  have hG := gateFold_frame (gateIdListForHost s b)
    (flushBeamData s b true true (-1) dblMax)
  have hQ := projFold_frame (projectorIdListForHost s b)
    ((gateIdListForHost s b).foldl
      (fun st2 g => flushEntityOther st2 g .gate FLUSH_ALL (-1) dblMax)
      (flushBeamData s b true true (-1) dblMax))
  have hT := flushCommonTail_all_entities
    ((projectorIdListForHost s b).foldl
      (fun st2 q => flushEntityOther st2 q .projector FLUSH_ALL (-1) dblMax)
      ((gateIdListForHost s b).foldl
        (fun st2 g => flushEntityOther st2 g .gate FLUSH_ALL (-1) dblMax)
        (flushBeamData s b true true (-1) dblMax))) b
  have hnotinG : ∀ x, (∀ e : GateEntry, findA s.gates x = some e →
      hostidVal e.properties.hostid ≠ b) → x ∉ gateIdListForHost s b := by
    intro x hcond hmem
    obtain ⟨e2, hm, hh⟩ := mem_gateIdListForHost.mp hmem
    exact hcond e2 (findA_eq_some_of_mem hndG hm) hh
  have hnotinQ : ∀ x, (∀ e : ProjectorEntry, findA s.projectors x = some e →
      hostidVal e.properties.hostid ≠ b) → x ∉ projectorIdListForHost s b := by
    intro x hcond hmem
    obtain ⟨e2, hm, hh⟩ := mem_projectorIdListForHost.mp hmem
    exact hcond e2 (findA_eq_some_of_mem hndQ hm) hh
  rw [beamStep_eq2]
  refine ⟨⟨?_, ?_, ?_, ?_, ?_, ?_, ?_⟩, fun x hx => ?_,
    fun x e hf hh => ?_, fun x e hf hh => ?_, fun x hx hcg hcq => ?_⟩
  · exact hT.1.trans (hQ.1.1.trans (hG.1.1.trans hB.1))
  · exact hT.2.2.2.1.trans (hQ.1.2.2.2.1.trans (hG.1.2.2.1.trans hB.2.2.1))
  · exact hT.2.2.2.2.2.1.trans
      (hQ.1.2.2.2.2.1.trans (hG.1.2.2.2.2.1.trans hB.2.2.2.2.1))
  · exact hT.2.2.2.2.2.2.trans
      (hQ.1.2.2.2.2.2.1.trans (hG.1.2.2.2.2.2.1.trans hB.2.2.2.2.2.1))
  · exact (congrArg keysOf (hT.2.1.trans (hQ.1.2.1.trans hG.1.2.1))).trans
      hB.2.2.2.2.2.2.2.2.2.1
  · exact (congrArg keysOf (hT.2.2.1.trans hQ.1.2.2.1)).trans
      (hG.1.2.2.2.2.2.2.trans (congrArg keysOf hB.2.1))
  · exact (congrArg keysOf hT.2.2.2.2.1).trans
      (hQ.1.2.2.2.2.2.2.trans
        (congrArg keysOf (hG.1.2.2.2.1.trans hB.2.2.2.1)))
  · exact (congrArg (fun l => findA l x)
      (hT.2.1.trans (hQ.1.2.1.trans hG.1.2.1))).trans
      (hB.2.2.2.2.2.2.2.2.2.2 x hx)
  · have hxg : x ∉ gateIdListForHost s b := by
      apply hnotinG
      intro e2 hf2
      rw [hf] at hf2
      injection hf2 with hf2
      rw [← hf2]
      exact hh
    exact (congrArg (fun l => findA l x) (hT.2.2.1.trans hQ.1.2.2.1)).trans
      (((hG.2 x hxg).1).trans
        ((congrArg (fun l => findA l x) hB.2.1).trans hf))
  · have hxq : x ∉ projectorIdListForHost s b := by
      apply hnotinQ
      intro e2 hf2
      rw [hf] at hf2
      injection hf2 with hf2
      rw [← hf2]
      exact hh
    exact (congrArg (fun l => findA l x) hT.2.2.2.2.1).trans
      (((hQ.2 x hxq).1).trans
        ((congrArg (fun l => findA l x)
          (hG.1.2.2.2.1.trans hB.2.2.2.1)).trans hf))
  · have hxg : x ∉ gateIdListForHost s b := hnotinG x hcg
    have hxq : x ∉ projectorIdListForHost s b := hnotinQ x hcq
    have hTf := flushCommonTail_all_frame
      ((projectorIdListForHost s b).foldl
        (fun st2 q => flushEntityOther st2 q .projector FLUSH_ALL (-1) dblMax)
        ((gateIdListForHost s b).foldl
          (fun st2 g => flushEntityOther st2 g .gate FLUSH_ALL (-1) dblMax)
          (flushBeamData s b true true (-1) dblMax))) b x hx
    refine ⟨hTf.1.trans (((hQ.2 x hxq).2.1).trans (((hG.2 x hxg).2.1).trans
        (congrArg (fun l => findA l x) hB.2.2.2.2.2.2.1))), ?_, ?_⟩
    · exact hTf.2.1.trans (((hQ.2 x hxq).2.2.1).trans (((hG.2 x hxg).2.2.1).trans
        (congrArg (fun l => findA l x) hB.2.2.2.2.2.2.2.1)))
    · exact hTf.2.2.trans (((hQ.2 x hxq).2.2.2).trans (((hG.2 x hxg).2.2.2).trans
        (congrArg (fun l => findA l x) hB.2.2.2.2.2.2.2.2.1)))

theorem gates_pp_transfer {s1 s2 : MemoryDataStore} (hpp : ppEq s1 s2)
    {x : ObjectId} {e1 : GateEntry} (hf1 : findA s1.gates x = some e1) :
    ∃ e2, findA s2.gates x = some e2 ∧ e2.properties = e1.properties := by
  have h := hpp.2.2.1 x
  rw [hf1] at h
  rcases hv : findA s2.gates x with _ | e2
  · rw [hv] at h
    cases h
  · rw [hv] at h
    injection h with h
    exact ⟨e2, rfl, (congrArg Prod.fst h).symm⟩

theorem projectors_pp_transfer {s1 s2 : MemoryDataStore} (hpp : ppEq s1 s2)
    {x : ObjectId} {e1 : ProjectorEntry} (hf1 : findA s1.projectors x = some e1) :
    ∃ e2, findA s2.projectors x = some e2 ∧ e2.properties = e1.properties := by
  have h := hpp.2.2.2.2.1 x
  rw [hf1] at h
  rcases hv : findA s2.projectors x with _ | e2
  · rw [hv] at h
    cases h
  · rw [hv] at h
    injection h with h
    exact ⟨e2, rfl, (congrArg Prod.fst h).symm⟩

theorem beamStep_self (s : MemoryDataStore) (b : ObjectId)
    (hndG : (keysOf s.gates).Nodup) (hndQ : (keysOf s.projectors).Nodup) :
    (∀ e : BeamEntry, findA s.beams b = some e → sliceTimesWF e.updates →
      commandTimesWF e.commands →
      ∃ e2, findA (flushEntityBeam s b .recursive FLUSH_ALL (-1)
          dblMax).beams b = some e2 ∧ e2.properties = e.properties ∧
        e2.preferences = e.preferences ∧ e2.updates.data = [] ∧
        e2.commands.data = []) ∧
    (∀ g (e : GateEntry), findA s.gates g = some e →
      hostidVal e.properties.hostid = b → sliceTimesWF e.updates →
      commandTimesWF e.commands →
      ∃ e2, findA (flushEntityBeam s b .recursive FLUSH_ALL (-1)
          dblMax).gates g = some e2 ∧ e2.properties = e.properties ∧
        e2.preferences = e.preferences ∧ e2.updates.data = [] ∧
        e2.commands.data = []) ∧
    (∀ q (e : ProjectorEntry), findA s.projectors q = some e →
      hostidVal e.properties.hostid = b → sliceTimesWF e.updates →
      commandTimesWF e.commands →
      ∃ e2, findA (flushEntityBeam s b .recursive FLUSH_ALL (-1)
          dblMax).projectors q = some e2 ∧ e2.properties = e.properties ∧
        e2.preferences = e.preferences ∧ e2.updates.data = [] ∧
        e2.commands.data = []) ∧
    (b ∉ keysOf s.gates → b ∉ keysOf s.projectors →
      (∀ sl, findA s.categoryData b = some sl → catTimesWF sl →
        ∃ sl2, findA (flushEntityBeam s b .recursive FLUSH_ALL (-1)
          dblMax).categoryData b = some sl2 ∧ sl2.data = []) ∧
      (∀ sl, findA s.genericData b = some sl →
        ∃ sl2, findA (flushEntityBeam s b .recursive FLUSH_ALL (-1)
          dblMax).genericData b = some sl2 ∧ sl2.data = []) ∧
      (∀ tl, findA s.dataTables b = some tl →
        ∃ tl2, findA (flushEntityBeam s b .recursive FLUSH_ALL (-1)
          dblMax).dataTables b = some tl2 ∧ ∀ tb ∈ tl2, tb.rows = [])) ∧
    (∀ g (e : GateEntry), findA s.gates g = some e →
      hostidVal e.properties.hostid = b → g ≠ b → g ∉ keysOf s.projectors →
      (∀ sl, findA s.categoryData g = some sl → catTimesWF sl →
        ∃ sl2, findA (flushEntityBeam s b .recursive FLUSH_ALL (-1)
          dblMax).categoryData g = some sl2 ∧ sl2.data = []) ∧
      (∀ sl, findA s.genericData g = some sl →
        ∃ sl2, findA (flushEntityBeam s b .recursive FLUSH_ALL (-1)
          dblMax).genericData g = some sl2 ∧ sl2.data = []) ∧
      (∀ tl, findA s.dataTables g = some tl →
        ∃ tl2, findA (flushEntityBeam s b .recursive FLUSH_ALL (-1)
          dblMax).dataTables g = some tl2 ∧ ∀ tb ∈ tl2, tb.rows = [])) ∧
    (∀ q (e : ProjectorEntry), findA s.projectors q = some e →
      hostidVal e.properties.hostid = b → q ≠ b → q ∉ keysOf s.gates →
      (∀ sl, findA s.categoryData q = some sl → catTimesWF sl →
        ∃ sl2, findA (flushEntityBeam s b .recursive FLUSH_ALL (-1)
          dblMax).categoryData q = some sl2 ∧ sl2.data = []) ∧
      (∀ sl, findA s.genericData q = some sl →
        ∃ sl2, findA (flushEntityBeam s b .recursive FLUSH_ALL (-1)
          dblMax).genericData q = some sl2 ∧ sl2.data = []) ∧
      (∀ tl, findA s.dataTables q = some tl →
        ∃ tl2, findA (flushEntityBeam s b .recursive FLUSH_ALL (-1)
          dblMax).dataTables q = some tl2 ∧ ∀ tb ∈ tl2, tb.rows = [])) := by
  have hB := flushBeamData_parts s b
  have hG := gateFold_frame (gateIdListForHost s b)
    (flushBeamData s b true true (-1) dblMax)
  have hQ := projFold_frame (projectorIdListForHost s b)
    ((gateIdListForHost s b).foldl
      (fun st2 g => flushEntityOther st2 g .gate FLUSH_ALL (-1) dblMax)
      (flushBeamData s b true true (-1) dblMax))
  have hT := flushCommonTail_all_entities
    ((projectorIdListForHost s b).foldl
      (fun st2 q => flushEntityOther st2 q .projector FLUSH_ALL (-1) dblMax)
      ((gateIdListForHost s b).foldl
        (fun st2 g => flushEntityOther st2 g .gate FLUSH_ALL (-1) dblMax)
        (flushBeamData s b true true (-1) dblMax))) b
  have hndgids : (gateIdListForHost s b).Nodup :=
    List.Nodup.sublist (gateIdListForHost_sublist_keys s b) hndG
  have hndpids : (projectorIdListForHost s b).Nodup :=
    List.Nodup.sublist (projectorIdListForHost_sublist_keys s b) hndQ
  rw [beamStep_eq2]
  refine ⟨fun e hf hu hc => ?_, fun g e hf hh hu hc => ?_,
    fun q e hf hh hu hc => ?_, fun hbG hbQ => ?_,
    fun g e hf hh hgb hgQ => ?_, fun q e hf hh hqb hqG => ?_⟩
  · obtain ⟨e2, hf2, hp2, hpr2, hu2, hc2⟩ := flushBeamData_self s b hf hu hc
    exact ⟨e2, (congrArg (fun l => findA l b)
      (hT.2.1.trans (hQ.1.2.1.trans hG.1.2.1))).trans hf2, hp2, hpr2, hu2, hc2⟩
  · have hgmem : g ∈ gateIdListForHost s b :=
      mem_gateIdListForHost.mpr ⟨e, mem_of_findA_eq_some hf, hh⟩
    obtain ⟨e2, hf2, hp2, hpr2, hu2, hc2⟩ := gateFold_flushes
      (gateIdListForHost s b) (flushBeamData s b true true (-1) dblMax)
      hndgids hgmem ((congrArg (fun l => findA l g) hB.2.1).trans hf) hu hc
    exact ⟨e2, (congrArg (fun l => findA l g)
      (hT.2.2.1.trans hQ.1.2.2.1)).trans hf2, hp2, hpr2, hu2, hc2⟩
  · have hqmem : q ∈ projectorIdListForHost s b :=
      mem_projectorIdListForHost.mpr ⟨e, mem_of_findA_eq_some hf, hh⟩
    obtain ⟨e2, hf2, hp2, hpr2, hu2, hc2⟩ := projFold_flushes
      (projectorIdListForHost s b)
      ((gateIdListForHost s b).foldl
        (fun st2 g => flushEntityOther st2 g .gate FLUSH_ALL (-1) dblMax)
        (flushBeamData s b true true (-1) dblMax))
      hndpids hqmem ((congrArg (fun l => findA l q)
        (hG.1.2.2.2.1.trans hB.2.2.2.1)).trans hf) hu hc
    exact ⟨e2, (congrArg (fun l => findA l q) hT.2.2.2.2.1).trans hf2,
      hp2, hpr2, hu2, hc2⟩
  · have hbg : b ∉ gateIdListForHost s b :=
      fun hm => hbG ((gateIdListForHost_sublist_keys s b).subset hm)
    have hbq : b ∉ projectorIdListForHost s b :=
      fun hm => hbQ ((projectorIdListForHost_sublist_keys s b).subset hm)
    have hself := flushCommonTail_all_self
      ((projectorIdListForHost s b).foldl
        (fun st2 q => flushEntityOther st2 q .projector FLUSH_ALL (-1) dblMax)
        ((gateIdListForHost s b).foldl
          (fun st2 g => flushEntityOther st2 g .gate FLUSH_ALL (-1) dblMax)
          (flushBeamData s b true true (-1) dblMax))) b
    have hcat : findA ((projectorIdListForHost s b).foldl
        (fun st2 q => flushEntityOther st2 q .projector FLUSH_ALL (-1) dblMax)
        ((gateIdListForHost s b).foldl
          (fun st2 g => flushEntityOther st2 g .gate FLUSH_ALL (-1) dblMax)
          (flushBeamData s b true true (-1) dblMax))).categoryData b =
        findA s.categoryData b :=
      ((hQ.2 b hbq).2.1).trans (((hG.2 b hbg).2.1).trans
        (congrArg (fun l => findA l b) hB.2.2.2.2.2.2.1))
    have hgen : findA ((projectorIdListForHost s b).foldl
        (fun st2 q => flushEntityOther st2 q .projector FLUSH_ALL (-1) dblMax)
        ((gateIdListForHost s b).foldl
          (fun st2 g => flushEntityOther st2 g .gate FLUSH_ALL (-1) dblMax)
          (flushBeamData s b true true (-1) dblMax))).genericData b =
        findA s.genericData b :=
      ((hQ.2 b hbq).2.2.1).trans (((hG.2 b hbg).2.2.1).trans
        (congrArg (fun l => findA l b) hB.2.2.2.2.2.2.2.1))
    have htab : findA ((projectorIdListForHost s b).foldl
        (fun st2 q => flushEntityOther st2 q .projector FLUSH_ALL (-1) dblMax)
        ((gateIdListForHost s b).foldl
          (fun st2 g => flushEntityOther st2 g .gate FLUSH_ALL (-1) dblMax)
          (flushBeamData s b true true (-1) dblMax))).dataTables b =
        findA s.dataTables b :=
      ((hQ.2 b hbq).2.2.2).trans (((hG.2 b hbg).2.2.2).trans
        (congrArg (fun l => findA l b) hB.2.2.2.2.2.2.2.2.1))
    exact ⟨fun sl hf hwf => hself.1 sl (hcat.trans hf) hwf,
      fun sl hf => hself.2.1 sl (hgen.trans hf),
      fun tl hf => hself.2.2 tl (htab.trans hf)⟩
  · have hgmem : g ∈ gateIdListForHost s b :=
      mem_gateIdListForHost.mpr ⟨e, mem_of_findA_eq_some hf, hh⟩
    have hgq : g ∉ projectorIdListForHost s b :=
      fun hm => hgQ ((projectorIdListForHost_sublist_keys s b).subset hm)
    obtain ⟨h1, h2, h3⟩ := gateFold_shared_flushes (gateIdListForHost s b)
      (flushBeamData s b true true (-1) dblMax) hndgids hgmem
    have hTf := flushCommonTail_all_frame
      ((projectorIdListForHost s b).foldl
        (fun st2 q => flushEntityOther st2 q .projector FLUSH_ALL (-1) dblMax)
        ((gateIdListForHost s b).foldl
          (fun st2 g => flushEntityOther st2 g .gate FLUSH_ALL (-1) dblMax)
          (flushBeamData s b true true (-1) dblMax))) b g hgb
    refine ⟨fun sl hf2 hwf => ?_, fun sl hf2 => ?_, fun tl hf2 => ?_⟩
    · obtain ⟨sl2, hf3, hd3⟩ := h1 sl ((congrArg (fun l => findA l g)
        hB.2.2.2.2.2.2.1).trans hf2) hwf
      exact ⟨sl2, hTf.1.trans (((hQ.2 g hgq).2.1).trans hf3), hd3⟩
    · obtain ⟨sl2, hf3, hd3⟩ := h2 sl ((congrArg (fun l => findA l g)
        hB.2.2.2.2.2.2.2.1).trans hf2)
      exact ⟨sl2, hTf.2.1.trans (((hQ.2 g hgq).2.2.1).trans hf3), hd3⟩
    · obtain ⟨tl2, hf3, hd3⟩ := h3 tl ((congrArg (fun l => findA l g)
        hB.2.2.2.2.2.2.2.2.1).trans hf2)
      exact ⟨tl2, hTf.2.2.trans (((hQ.2 g hgq).2.2.2).trans hf3), hd3⟩
  · have hqmem : q ∈ projectorIdListForHost s b :=
      mem_projectorIdListForHost.mpr ⟨e, mem_of_findA_eq_some hf, hh⟩
    have hqg : q ∉ gateIdListForHost s b :=
      fun hm => hqG ((gateIdListForHost_sublist_keys s b).subset hm)
    obtain ⟨h1, h2, h3⟩ := projFold_shared_flushes (projectorIdListForHost s b)
      ((gateIdListForHost s b).foldl
        (fun st2 g => flushEntityOther st2 g .gate FLUSH_ALL (-1) dblMax)
        (flushBeamData s b true true (-1) dblMax)) hndpids hqmem
    have hTf := flushCommonTail_all_frame
      ((projectorIdListForHost s b).foldl
        (fun st2 q => flushEntityOther st2 q .projector FLUSH_ALL (-1) dblMax)
        ((gateIdListForHost s b).foldl
          (fun st2 g => flushEntityOther st2 g .gate FLUSH_ALL (-1) dblMax)
          (flushBeamData s b true true (-1) dblMax))) b q hqb
    refine ⟨fun sl hf2 hwf => ?_, fun sl hf2 => ?_, fun tl hf2 => ?_⟩
    · obtain ⟨sl2, hf3, hd3⟩ := h1 sl (((hG.2 q hqg).2.1).trans
        ((congrArg (fun l => findA l q) hB.2.2.2.2.2.2.1).trans hf2)) hwf
      exact ⟨sl2, hTf.1.trans hf3, hd3⟩
    · obtain ⟨sl2, hf3, hd3⟩ := h2 sl (((hG.2 q hqg).2.2.1).trans
        ((congrArg (fun l => findA l q) hB.2.2.2.2.2.2.2.1).trans hf2))
      exact ⟨sl2, hTf.2.1.trans hf3, hd3⟩
    · obtain ⟨tl2, hf3, hd3⟩ := h3 tl (((hG.2 q hqg).2.2.2).trans
        ((congrArg (fun l => findA l q) hB.2.2.2.2.2.2.2.2.1).trans hf2))
      exact ⟨tl2, hTf.2.2.trans hf3, hd3⟩

theorem beamFold_frame (ids : List ObjectId) : ∀ s0 : MemoryDataStore,
    (keysOf s0.gates).Nodup → (keysOf s0.projectors).Nodup →
    ((ids.foldl (fun st2 b2 => flushEntityBeam st2 b2 .recursive FLUSH_ALL
        (-1) dblMax) s0).platforms = s0.platforms ∧
     (ids.foldl (fun st2 b2 => flushEntityBeam st2 b2 .recursive FLUSH_ALL
        (-1) dblMax) s0).lasers = s0.lasers ∧
     (ids.foldl (fun st2 b2 => flushEntityBeam st2 b2 .recursive FLUSH_ALL
        (-1) dblMax) s0).lobGroups = s0.lobGroups ∧
     (ids.foldl (fun st2 b2 => flushEntityBeam st2 b2 .recursive FLUSH_ALL
        (-1) dblMax) s0).customRenderings = s0.customRenderings ∧
     keysOf (ids.foldl (fun st2 b2 => flushEntityBeam st2 b2 .recursive
        FLUSH_ALL (-1) dblMax) s0).beams = keysOf s0.beams ∧
     keysOf (ids.foldl (fun st2 b2 => flushEntityBeam st2 b2 .recursive
        FLUSH_ALL (-1) dblMax) s0).gates = keysOf s0.gates ∧
     keysOf (ids.foldl (fun st2 b2 => flushEntityBeam st2 b2 .recursive
        FLUSH_ALL (-1) dblMax) s0).projectors = keysOf s0.projectors) ∧
    (∀ x, x ∉ ids →
      findA (ids.foldl (fun st2 b2 => flushEntityBeam st2 b2 .recursive
        FLUSH_ALL (-1) dblMax) s0).beams x = findA s0.beams x) ∧
    (∀ x (e : GateEntry), findA s0.gates x = some e →
      hostidVal e.properties.hostid ∉ ids →
      findA (ids.foldl (fun st2 b2 => flushEntityBeam st2 b2 .recursive
        FLUSH_ALL (-1) dblMax) s0).gates x = some e) ∧
    (∀ x (e : ProjectorEntry), findA s0.projectors x = some e →
      hostidVal e.properties.hostid ∉ ids →
      findA (ids.foldl (fun st2 b2 => flushEntityBeam st2 b2 .recursive
        FLUSH_ALL (-1) dblMax) s0).projectors x = some e) ∧
    (∀ x, x ∉ ids →
      (∀ e : GateEntry, findA s0.gates x = some e →
        hostidVal e.properties.hostid ∉ ids) →
      (∀ e : ProjectorEntry, findA s0.projectors x = some e →
        hostidVal e.properties.hostid ∉ ids) →
      findA (ids.foldl (fun st2 b2 => flushEntityBeam st2 b2 .recursive
        FLUSH_ALL (-1) dblMax) s0).categoryData x = findA s0.categoryData x ∧
      findA (ids.foldl (fun st2 b2 => flushEntityBeam st2 b2 .recursive
        FLUSH_ALL (-1) dblMax) s0).genericData x = findA s0.genericData x ∧
      findA (ids.foldl (fun st2 b2 => flushEntityBeam st2 b2 .recursive
        FLUSH_ALL (-1) dblMax) s0).dataTables x = findA s0.dataTables x) := by
  induction ids with
  | nil =>
    intro s0 _ _
    exact ⟨⟨rfl, rfl, rfl, rfl, rfl, rfl, rfl⟩, fun x _ => rfl,
      fun x e hf _ => hf, fun x e hf _ => hf, fun x _ _ _ => ⟨rfl, rfl, rfl⟩⟩
  | cons c ids ih =>
    intro s0 hndG hndQ
    have hSF := beamStep_frame s0 c hndG hndQ
    have hndG1 : (keysOf (flushEntityBeam s0 c .recursive FLUSH_ALL
        (-1) dblMax).gates).Nodup := by
      rw [hSF.1.2.2.2.2.2.1]; exact hndG
    have hndQ1 : (keysOf (flushEntityBeam s0 c .recursive FLUSH_ALL
        (-1) dblMax).projectors).Nodup := by
      rw [hSF.1.2.2.2.2.2.2]; exact hndQ
    have hih := ih (flushEntityBeam s0 c .recursive FLUSH_ALL (-1) dblMax)
      hndG1 hndQ1
    refine ⟨⟨hih.1.1.trans hSF.1.1, hih.1.2.1.trans hSF.1.2.1,
      hih.1.2.2.1.trans hSF.1.2.2.1, hih.1.2.2.2.1.trans hSF.1.2.2.2.1,
      hih.1.2.2.2.2.1.trans hSF.1.2.2.2.2.1,
      hih.1.2.2.2.2.2.1.trans hSF.1.2.2.2.2.2.1,
      hih.1.2.2.2.2.2.2.trans hSF.1.2.2.2.2.2.2⟩,
      fun x hx => ?_, fun x e hf hh => ?_, fun x e hf hh => ?_,
      fun x hx hcg hcq => ?_⟩
    · have hxc : x ≠ c := fun he => hx (by rw [he]; exact List.mem_cons_self c ids)
      have hxids : x ∉ ids := fun hm => hx (List.mem_cons_of_mem c hm)
      exact (hih.2.1 x hxids).trans (hSF.2.1 x hxc)
    · have hhc : hostidVal e.properties.hostid ≠ c :=
        fun he => hh (by rw [he]; exact List.mem_cons_self c ids)
      have hhids : hostidVal e.properties.hostid ∉ ids :=
        fun hm => hh (List.mem_cons_of_mem c hm)
      exact hih.2.2.1 x e (hSF.2.2.1 x e hf hhc) hhids
    · have hhc : hostidVal e.properties.hostid ≠ c :=
        fun he => hh (by rw [he]; exact List.mem_cons_self c ids)
      have hhids : hostidVal e.properties.hostid ∉ ids :=
        fun hm => hh (List.mem_cons_of_mem c hm)
      exact hih.2.2.2.1 x e (hSF.2.2.2.1 x e hf hhc) hhids
    · have hxc : x ≠ c := fun he => hx (by rw [he]; exact List.mem_cons_self c ids)
      have hxids : x ∉ ids := fun hm => hx (List.mem_cons_of_mem c hm)
      have hstep := hSF.2.2.2.2 x hxc
        (fun e hf hc2 => hcg e hf (by rw [hc2]; exact List.mem_cons_self c ids))
        (fun e hf hc2 => hcq e hf (by rw [hc2]; exact List.mem_cons_self c ids))
      have hcg1 : ∀ e : GateEntry,
          findA (flushEntityBeam s0 c .recursive FLUSH_ALL
            (-1) dblMax).gates x = some e →
          hostidVal e.properties.hostid ∉ ids := by
        intro e2 hf2 hm
        obtain ⟨e0, hf0, hp0⟩ := gates_pp_transfer (beamStep_pp s0 c) hf2
        refine hcg e0 hf0 (List.mem_cons_of_mem c ?_)
        rw [← hp0] at hm
        exact hm
      have hcq1 : ∀ e : ProjectorEntry,
          findA (flushEntityBeam s0 c .recursive FLUSH_ALL
            (-1) dblMax).projectors x = some e →
          hostidVal e.properties.hostid ∉ ids := by
        intro e2 hf2 hm
        obtain ⟨e0, hf0, hp0⟩ := projectors_pp_transfer (beamStep_pp s0 c) hf2
        refine hcq e0 hf0 (List.mem_cons_of_mem c ?_)
        rw [← hp0] at hm
        exact hm
      have hihx := hih.2.2.2.2 x hxids hcg1 hcq1
      exact ⟨hihx.1.trans hstep.1, hihx.2.1.trans hstep.2.1,
        hihx.2.2.trans hstep.2.2⟩

theorem beamFold_beam_flushes (ids : List ObjectId) :
    ∀ (s0 : MemoryDataStore) {b : ObjectId} {e : BeamEntry},
    (keysOf s0.gates).Nodup → (keysOf s0.projectors).Nodup → ids.Nodup →
    b ∈ ids → findA s0.beams b = some e → sliceTimesWF e.updates →
    commandTimesWF e.commands → b ∉ keysOf s0.gates →
    b ∉ keysOf s0.projectors →
    ((∃ e2, findA (ids.foldl (fun st2 b2 => flushEntityBeam st2 b2 .recursive
        FLUSH_ALL (-1) dblMax) s0).beams b = some e2 ∧
      e2.properties = e.properties ∧ e2.preferences = e.preferences ∧
      e2.updates.data = [] ∧ e2.commands.data = []) ∧
     (∀ sl, findA s0.categoryData b = some sl → catTimesWF sl →
       ∃ sl2, findA (ids.foldl (fun st2 b2 => flushEntityBeam st2 b2 .recursive
         FLUSH_ALL (-1) dblMax) s0).categoryData b = some sl2 ∧
         sl2.data = []) ∧
     (∀ sl, findA s0.genericData b = some sl →
       ∃ sl2, findA (ids.foldl (fun st2 b2 => flushEntityBeam st2 b2 .recursive
         FLUSH_ALL (-1) dblMax) s0).genericData b = some sl2 ∧
         sl2.data = []) ∧
     (∀ tl, findA s0.dataTables b = some tl →
       ∃ tl2, findA (ids.foldl (fun st2 b2 => flushEntityBeam st2 b2 .recursive
         FLUSH_ALL (-1) dblMax) s0).dataTables b = some tl2 ∧
         ∀ tb ∈ tl2, tb.rows = [])) := by
  induction ids with
  | nil => intro s0 b e _ _ _ hb; cases hb
  | cons c ids ih =>
    intro s0 b e hndG hndQ hnd hb hf hu hc hbG hbQ
    have hSF := beamStep_frame s0 c hndG hndQ
    have hSS := beamStep_self s0 c hndG hndQ
    have hndG1 : (keysOf (flushEntityBeam s0 c .recursive FLUSH_ALL
        (-1) dblMax).gates).Nodup := by
      rw [hSF.1.2.2.2.2.2.1]; exact hndG
    have hndQ1 : (keysOf (flushEntityBeam s0 c .recursive FLUSH_ALL
        (-1) dblMax).projectors).Nodup := by
      rw [hSF.1.2.2.2.2.2.2]; exact hndQ
    have hbG1 : b ∉ keysOf (flushEntityBeam s0 c .recursive FLUSH_ALL
        (-1) dblMax).gates := by
      rw [hSF.1.2.2.2.2.2.1]; exact hbG
    have hbQ1 : b ∉ keysOf (flushEntityBeam s0 c .recursive FLUSH_ALL
        (-1) dblMax).projectors := by
      rw [hSF.1.2.2.2.2.2.2]; exact hbQ
    rcases List.mem_cons.mp hb with rfl | hmem
    · have hbids : b ∉ ids := (List.nodup_cons.mp hnd).1
      obtain ⟨e2, hf2, hp2, hpr2, hu2, hc2⟩ := hSS.1 e hf hu hc
      obtain ⟨hcat1, hgen1, htab1⟩ := hSS.2.2.2.1 hbG hbQ
      have hFF := beamFold_frame ids
        (flushEntityBeam s0 b .recursive FLUSH_ALL (-1) dblMax) hndG1 hndQ1
      have hcg1 : ∀ e3 : GateEntry,
          findA (flushEntityBeam s0 b .recursive FLUSH_ALL
            (-1) dblMax).gates b = some e3 →
          hostidVal e3.properties.hostid ∉ ids := by
        intro e3 hf3
        exact absurd (mem_keysOf_of_mem (mem_of_findA_eq_some hf3)) hbG1
      have hcq1 : ∀ e3 : ProjectorEntry,
          findA (flushEntityBeam s0 b .recursive FLUSH_ALL
            (-1) dblMax).projectors b = some e3 →
          hostidVal e3.properties.hostid ∉ ids := by
        intro e3 hf3
        exact absurd (mem_keysOf_of_mem (mem_of_findA_eq_some hf3)) hbQ1
      have hshf := hFF.2.2.2.2 b hbids hcg1 hcq1
      refine ⟨⟨e2, (hFF.2.1 b hbids).trans hf2, hp2, hpr2, hu2, hc2⟩,
        fun sl hfs hwf => ?_, fun sl hfs => ?_, fun tl hfs => ?_⟩
      · obtain ⟨sl2, hf3, hd3⟩ := hcat1 sl hfs hwf
        exact ⟨sl2, hshf.1.trans hf3, hd3⟩
      · obtain ⟨sl2, hf3, hd3⟩ := hgen1 sl hfs
        exact ⟨sl2, hshf.2.1.trans hf3, hd3⟩
      · obtain ⟨tl2, hf3, hd3⟩ := htab1 tl hfs
        exact ⟨tl2, hshf.2.2.trans hf3, hd3⟩
    · have hbc : b ≠ c := by
        rintro rfl
        exact (List.nodup_cons.mp hnd).1 hmem
      have hf1 : findA (flushEntityBeam s0 c .recursive FLUSH_ALL
          (-1) dblMax).beams b = some e := (hSF.2.1 b hbc).trans hf
      have hsh := hSF.2.2.2.2 b hbc
        (fun e3 hf3 _ => absurd (mem_keysOf_of_mem (mem_of_findA_eq_some hf3)) hbG)
        (fun e3 hf3 _ => absurd (mem_keysOf_of_mem (mem_of_findA_eq_some hf3)) hbQ)
      obtain ⟨hE, hC1, hC2, hC3⟩ := ih
        (flushEntityBeam s0 c .recursive FLUSH_ALL (-1) dblMax)
        hndG1 hndQ1 (List.nodup_cons.mp hnd).2 hmem hf1 hu hc hbG1 hbQ1
      exact ⟨hE, fun sl hfs hwf => hC1 sl (hsh.1.trans hfs) hwf,
        fun sl hfs => hC2 sl (hsh.2.1.trans hfs),
        fun tl hfs => hC3 tl (hsh.2.2.trans hfs)⟩

theorem beamFold_gate_flushes (ids : List ObjectId) :
    ∀ (s0 : MemoryDataStore) {b g : ObjectId} {e : GateEntry},
    (keysOf s0.gates).Nodup → (keysOf s0.projectors).Nodup → ids.Nodup →
    b ∈ ids → g ∉ ids → findA s0.gates g = some e →
    hostidVal e.properties.hostid = b → g ≠ b → g ∉ keysOf s0.projectors →
    sliceTimesWF e.updates → commandTimesWF e.commands →
    ((∃ e2, findA (ids.foldl (fun st2 b2 => flushEntityBeam st2 b2 .recursive
        FLUSH_ALL (-1) dblMax) s0).gates g = some e2 ∧
      e2.properties = e.properties ∧ e2.preferences = e.preferences ∧
      e2.updates.data = [] ∧ e2.commands.data = []) ∧
     (∀ sl, findA s0.categoryData g = some sl → catTimesWF sl →
       ∃ sl2, findA (ids.foldl (fun st2 b2 => flushEntityBeam st2 b2 .recursive
         FLUSH_ALL (-1) dblMax) s0).categoryData g = some sl2 ∧
         sl2.data = []) ∧
     (∀ sl, findA s0.genericData g = some sl →
       ∃ sl2, findA (ids.foldl (fun st2 b2 => flushEntityBeam st2 b2 .recursive
         FLUSH_ALL (-1) dblMax) s0).genericData g = some sl2 ∧
         sl2.data = []) ∧
     (∀ tl, findA s0.dataTables g = some tl →
       ∃ tl2, findA (ids.foldl (fun st2 b2 => flushEntityBeam st2 b2 .recursive
         FLUSH_ALL (-1) dblMax) s0).dataTables g = some tl2 ∧
         ∀ tb ∈ tl2, tb.rows = [])) := by
  induction ids with
  | nil => intro s0 b g e _ _ _ hb; cases hb
  | cons c ids ih =>
    intro s0 b g e hndG hndQ hnd hb hgids hf hh hgb hgQ hu hc
    have hSF := beamStep_frame s0 c hndG hndQ
    have hSS := beamStep_self s0 c hndG hndQ
    have hndG1 : (keysOf (flushEntityBeam s0 c .recursive FLUSH_ALL
        (-1) dblMax).gates).Nodup := by
      rw [hSF.1.2.2.2.2.2.1]; exact hndG
    have hndQ1 : (keysOf (flushEntityBeam s0 c .recursive FLUSH_ALL
        (-1) dblMax).projectors).Nodup := by
      rw [hSF.1.2.2.2.2.2.2]; exact hndQ
    have hgQ1 : g ∉ keysOf (flushEntityBeam s0 c .recursive FLUSH_ALL
        (-1) dblMax).projectors := by
      rw [hSF.1.2.2.2.2.2.2]; exact hgQ
    have hgc : g ≠ c := fun he => hgids (by rw [he]; exact List.mem_cons_self c ids)
    have hgids2 : g ∉ ids := fun hm => hgids (List.mem_cons_of_mem c hm)
    rcases List.mem_cons.mp hb with rfl | hmem
    · have hbids : b ∉ ids := (List.nodup_cons.mp hnd).1
      obtain ⟨e2, hf2, hp2, hpr2, hu2, hc2⟩ := hSS.2.1 g e hf hh hu hc
      obtain ⟨hcat1, hgen1, htab1⟩ := hSS.2.2.2.2.1 g e hf hh hgb hgQ
      have hFF := beamFold_frame ids
        (flushEntityBeam s0 b .recursive FLUSH_ALL (-1) dblMax) hndG1 hndQ1
      have hhost2 : hostidVal e2.properties.hostid ∉ ids := by
        rw [hp2, hh]; exact hbids
      have hcg1 : ∀ e3 : GateEntry,
          findA (flushEntityBeam s0 b .recursive FLUSH_ALL
            (-1) dblMax).gates g = some e3 →
          hostidVal e3.properties.hostid ∉ ids := by
        intro e3 hf3
        rw [hf2] at hf3
        injection hf3 with hf3
        rw [← hf3]
        exact hhost2
      have hcq1 : ∀ e3 : ProjectorEntry,
          findA (flushEntityBeam s0 b .recursive FLUSH_ALL
            (-1) dblMax).projectors g = some e3 →
          hostidVal e3.properties.hostid ∉ ids := by
        intro e3 hf3
        exact absurd (mem_keysOf_of_mem (mem_of_findA_eq_some hf3)) hgQ1
      have hshf := hFF.2.2.2.2 g hgids2 hcg1 hcq1
      refine ⟨⟨e2, hFF.2.2.1 g e2 hf2 hhost2, hp2, hpr2, hu2, hc2⟩,
        fun sl hfs hwf => ?_, fun sl hfs => ?_, fun tl hfs => ?_⟩
      · obtain ⟨sl2, hf3, hd3⟩ := hcat1 sl hfs hwf
        exact ⟨sl2, hshf.1.trans hf3, hd3⟩
      · obtain ⟨sl2, hf3, hd3⟩ := hgen1 sl hfs
        exact ⟨sl2, hshf.2.1.trans hf3, hd3⟩
      · obtain ⟨tl2, hf3, hd3⟩ := htab1 tl hfs
        exact ⟨tl2, hshf.2.2.trans hf3, hd3⟩
    · have hbc : b ≠ c := by
        rintro rfl
        exact (List.nodup_cons.mp hnd).1 hmem
      have hhc : hostidVal e.properties.hostid ≠ c := by
        rw [hh]; exact hbc
      have hf1 : findA (flushEntityBeam s0 c .recursive FLUSH_ALL
          (-1) dblMax).gates g = some e := hSF.2.2.1 g e hf hhc
      have hsh := hSF.2.2.2.2 g hgc
        (fun e3 hf3 => by
          rw [hf] at hf3
          injection hf3 with hf3
          rw [← hf3]
          exact hhc)
        (fun e3 hf3 _ =>
          absurd (mem_keysOf_of_mem (mem_of_findA_eq_some hf3)) hgQ)
      obtain ⟨hE, hC1, hC2, hC3⟩ := ih
        (flushEntityBeam s0 c .recursive FLUSH_ALL (-1) dblMax)
        hndG1 hndQ1 (List.nodup_cons.mp hnd).2 hmem hgids2 hf1 hh hgb hgQ1 hu hc
      exact ⟨hE, fun sl hfs hwf => hC1 sl (hsh.1.trans hfs) hwf,
        fun sl hfs => hC2 sl (hsh.2.1.trans hfs),
        fun tl hfs => hC3 tl (hsh.2.2.trans hfs)⟩

theorem beamFold_proj_flushes (ids : List ObjectId) :
    ∀ (s0 : MemoryDataStore) {b q : ObjectId} {e : ProjectorEntry},
    (keysOf s0.gates).Nodup → (keysOf s0.projectors).Nodup → ids.Nodup →
    b ∈ ids → q ∉ ids → findA s0.projectors q = some e →
    hostidVal e.properties.hostid = b → q ≠ b → q ∉ keysOf s0.gates →
    sliceTimesWF e.updates → commandTimesWF e.commands →
    ((∃ e2, findA (ids.foldl (fun st2 b2 => flushEntityBeam st2 b2 .recursive
        FLUSH_ALL (-1) dblMax) s0).projectors q = some e2 ∧
      e2.properties = e.properties ∧ e2.preferences = e.preferences ∧
      e2.updates.data = [] ∧ e2.commands.data = []) ∧
     (∀ sl, findA s0.categoryData q = some sl → catTimesWF sl →
       ∃ sl2, findA (ids.foldl (fun st2 b2 => flushEntityBeam st2 b2 .recursive
         FLUSH_ALL (-1) dblMax) s0).categoryData q = some sl2 ∧
         sl2.data = []) ∧
     (∀ sl, findA s0.genericData q = some sl →
       ∃ sl2, findA (ids.foldl (fun st2 b2 => flushEntityBeam st2 b2 .recursive
         FLUSH_ALL (-1) dblMax) s0).genericData q = some sl2 ∧
         sl2.data = []) ∧
     (∀ tl, findA s0.dataTables q = some tl →
       ∃ tl2, findA (ids.foldl (fun st2 b2 => flushEntityBeam st2 b2 .recursive
         FLUSH_ALL (-1) dblMax) s0).dataTables q = some tl2 ∧
         ∀ tb ∈ tl2, tb.rows = [])) := by
  induction ids with
  | nil => intro s0 b q e _ _ _ hb; cases hb
  | cons c ids ih =>
    intro s0 b q e hndG hndQ hnd hb hqids hf hh hqb hqG hu hc
    have hSF := beamStep_frame s0 c hndG hndQ
    have hSS := beamStep_self s0 c hndG hndQ
    have hndG1 : (keysOf (flushEntityBeam s0 c .recursive FLUSH_ALL
        (-1) dblMax).gates).Nodup := by
      rw [hSF.1.2.2.2.2.2.1]; exact hndG
    have hndQ1 : (keysOf (flushEntityBeam s0 c .recursive FLUSH_ALL
        (-1) dblMax).projectors).Nodup := by
      rw [hSF.1.2.2.2.2.2.2]; exact hndQ
    have hqG1 : q ∉ keysOf (flushEntityBeam s0 c .recursive FLUSH_ALL
        (-1) dblMax).gates := by
      rw [hSF.1.2.2.2.2.2.1]; exact hqG
    have hqc : q ≠ c := fun he => hqids (by rw [he]; exact List.mem_cons_self c ids)
    have hqids2 : q ∉ ids := fun hm => hqids (List.mem_cons_of_mem c hm)
    rcases List.mem_cons.mp hb with rfl | hmem
    · have hbids : b ∉ ids := (List.nodup_cons.mp hnd).1
      obtain ⟨e2, hf2, hp2, hpr2, hu2, hc2⟩ := hSS.2.2.1 q e hf hh hu hc
      obtain ⟨hcat1, hgen1, htab1⟩ := hSS.2.2.2.2.2 q e hf hh hqb hqG
      have hFF := beamFold_frame ids
        (flushEntityBeam s0 b .recursive FLUSH_ALL (-1) dblMax) hndG1 hndQ1
      have hhost2 : hostidVal e2.properties.hostid ∉ ids := by
        rw [hp2, hh]; exact hbids
      have hcq1 : ∀ e3 : ProjectorEntry,
          findA (flushEntityBeam s0 b .recursive FLUSH_ALL
            (-1) dblMax).projectors q = some e3 →
          hostidVal e3.properties.hostid ∉ ids := by
        intro e3 hf3
        rw [hf2] at hf3
        injection hf3 with hf3
        rw [← hf3]
        exact hhost2
      have hcg1 : ∀ e3 : GateEntry,
          findA (flushEntityBeam s0 b .recursive FLUSH_ALL
            (-1) dblMax).gates q = some e3 →
          hostidVal e3.properties.hostid ∉ ids := by
        intro e3 hf3
        exact absurd (mem_keysOf_of_mem (mem_of_findA_eq_some hf3)) hqG1
      have hshf := hFF.2.2.2.2 q hqids2 hcg1 hcq1
      refine ⟨⟨e2, hFF.2.2.2.1 q e2 hf2 hhost2, hp2, hpr2, hu2, hc2⟩,
        fun sl hfs hwf => ?_, fun sl hfs => ?_, fun tl hfs => ?_⟩
      · obtain ⟨sl2, hf3, hd3⟩ := hcat1 sl hfs hwf
        exact ⟨sl2, hshf.1.trans hf3, hd3⟩
      · obtain ⟨sl2, hf3, hd3⟩ := hgen1 sl hfs
        exact ⟨sl2, hshf.2.1.trans hf3, hd3⟩
      · obtain ⟨tl2, hf3, hd3⟩ := htab1 tl hfs
        exact ⟨tl2, hshf.2.2.trans hf3, hd3⟩
    · have hbc : b ≠ c := by
        rintro rfl
        exact (List.nodup_cons.mp hnd).1 hmem
      have hhc : hostidVal e.properties.hostid ≠ c := by
        rw [hh]; exact hbc
      have hf1 : findA (flushEntityBeam s0 c .recursive FLUSH_ALL
          (-1) dblMax).projectors q = some e := hSF.2.2.2.1 q e hf hhc
      have hsh := hSF.2.2.2.2 q hqc
        (fun e3 hf3 _ =>
          absurd (mem_keysOf_of_mem (mem_of_findA_eq_some hf3)) hqG)
        (fun e3 hf3 => by
          rw [hf] at hf3
          injection hf3 with hf3
          rw [← hf3]
          exact hhc)
      obtain ⟨hE, hC1, hC2, hC3⟩ := ih
        (flushEntityBeam s0 c .recursive FLUSH_ALL (-1) dblMax)
        hndG1 hndQ1 (List.nodup_cons.mp hnd).2 hmem hqids2 hf1 hh hqb hqG1 hu hc
      exact ⟨hE, fun sl hfs hwf => hC1 sl (hsh.1.trans hfs) hwf,
        fun sl hfs => hC2 sl (hsh.2.1.trans hfs),
        fun tl hfs => hC3 tl (hsh.2.2.trans hfs)⟩

/-- Stage 1 of the recursive `FLUSH_ALL` platform flush (`flushEntity_`
lines 802–894 specialised to a platform): the platform's own
update/command flush.  Stages 2–6 are the child folds in source order. -/
def platStage1 (s : MemoryDataStore) (P : ObjectId) : MemoryDataStore :=
  flushPlatformData s P true true (-1) dblMax

/-- Stage 2: the recursive flush of every beam hosted on the platform. -/
def platStage2 (s : MemoryDataStore) (P : ObjectId) : MemoryDataStore :=
  (beamIdListForHost s P).foldl
    (fun st2 b2 => flushEntityBeam st2 b2 .recursive FLUSH_ALL (-1) dblMax)
    (platStage1 s P)

/-- Stage 3: the flush of every laser hosted on the platform. -/
def platStage3 (s : MemoryDataStore) (P : ObjectId) : MemoryDataStore :=
  (laserIdListForHost s P).foldl
    (fun st2 l => flushEntityOther st2 l .laser FLUSH_ALL (-1) dblMax)
    (platStage2 s P)

/-- Stage 4: the flush of every LOB group hosted on the platform. -/
def platStage4 (s : MemoryDataStore) (P : ObjectId) : MemoryDataStore :=
  (lobGroupIdListForHost s P).foldl
    (fun st2 o => flushEntityOther st2 o .lobGroup FLUSH_ALL (-1) dblMax)
    (platStage3 s P)

/-- Stage 5: the flush of every projector hosted on the platform; the id
list is computed on the stage-4 store, as in the source. -/
def platStage5 (s : MemoryDataStore) (P : ObjectId) : MemoryDataStore :=
  (projectorIdListForHost (platStage4 s P) P).foldl
    (fun st2 q => flushEntityOther st2 q .projector FLUSH_ALL (-1) dblMax)
    (platStage4 s P)

/-- Stage 6: the flush of every custom rendering hosted on the platform. -/
def platStage6 (s : MemoryDataStore) (P : ObjectId) : MemoryDataStore :=
  (customRenderingIdListForHost s P).foldl
    (fun st2 c => flushEntityOther st2 c .customRendering FLUSH_ALL (-1) dblMax)
    (platStage5 s P)

theorem platStage1_eq (s : MemoryDataStore) (P : ObjectId) :
    platStage1 s P = flushPlatformData s P true true (-1) dblMax := rfl

theorem platStage2_eq (s : MemoryDataStore) (P : ObjectId) :
    platStage2 s P = (beamIdListForHost s P).foldl
      (fun st2 b2 => flushEntityBeam st2 b2 .recursive FLUSH_ALL (-1) dblMax)
      (platStage1 s P) := rfl

theorem platStage3_eq (s : MemoryDataStore) (P : ObjectId) :
    platStage3 s P = (laserIdListForHost s P).foldl
      (fun st2 l => flushEntityOther st2 l .laser FLUSH_ALL (-1) dblMax)
      (platStage2 s P) := rfl

theorem platStage4_eq (s : MemoryDataStore) (P : ObjectId) :
    platStage4 s P = (lobGroupIdListForHost s P).foldl
      (fun st2 o => flushEntityOther st2 o .lobGroup FLUSH_ALL (-1) dblMax)
      (platStage3 s P) := rfl

theorem platStage5_eq (s : MemoryDataStore) (P : ObjectId) :
    platStage5 s P = (projectorIdListForHost (platStage4 s P) P).foldl
      (fun st2 q => flushEntityOther st2 q .projector FLUSH_ALL (-1) dblMax)
      (platStage4 s P) := rfl

theorem platStage6_eq (s : MemoryDataStore) (P : ObjectId) :
    platStage6 s P = (customRenderingIdListForHost s P).foldl
      (fun st2 c => flushEntityOther st2 c .customRendering FLUSH_ALL (-1)
        dblMax)
      (platStage5 s P) := rfl

attribute [irreducible] platStage1 platStage2 platStage3 platStage4
  platStage5 platStage6

/-- The platform-level recursive `FLUSH_ALL` pipeline, with every child id
list except the projectors' normalised to the initial store: the beam,
laser, LOB-group and custom-rendering containers are untouched by the
stages before their own fold, so the id lists the source computes on the
intermediate stores coincide with those of `s`. -/
theorem platformStep_eq2 (s : MemoryDataStore) (P : ObjectId)
    (hndG : (keysOf s.gates).Nodup) (hndQ : (keysOf s.projectors).Nodup) :
    flushEntityPlatform s P .recursive FLUSH_ALL (-1) dblMax =
      flushCommonTail (platStage6 s P) P FLUSH_ALL (-1) dblMax := by
  have h1 := flushPlatformData_parts s P
  rw [← platStage1_eq s P] at h1
  have hndG1 : (keysOf (platStage1 s P).gates).Nodup := by
    rw [h1.2.1]; exact hndG
  have hndQ1 : (keysOf (platStage1 s P).projectors).Nodup := by
    rw [h1.2.2.2.1]; exact hndQ
  have h2 := beamFold_frame (beamIdListForHost s P) (platStage1 s P) hndG1 hndQ1
  rw [← platStage2_eq s P] at h2
  have h3 := laserFold_frame (laserIdListForHost s P) (platStage2 s P)
  rw [← platStage3_eq s P] at h3
  have h4 := lobFold_frame (lobGroupIdListForHost s P) (platStage3 s P)
  rw [← platStage4_eq s P] at h4
  have h5 := projFold_frame (projectorIdListForHost (platStage4 s P) P)
    (platStage4 s P)
  rw [← platStage5_eq s P] at h5
  have hst2lasers : (platStage2 s P).lasers = s.lasers :=
    h2.1.2.1.trans h1.2.2.1
  have hst3lobs : (platStage3 s P).lobGroups = s.lobGroups :=
    h3.1.2.2.2.2.1.trans (h2.1.2.2.1.trans h1.2.2.2.2.1)
  have hst5crs : (platStage5 s P).customRenderings = s.customRenderings :=
    h5.1.2.2.2.2.2.1.trans (h4.1.2.2.2.2.2.1.trans
      (h3.1.2.2.2.2.2.1.trans (h2.1.2.2.2.1.trans h1.2.2.2.2.2.1)))
  rw [platformStep_eq, ← platStage1_eq s P,
    flushPlatBeamFold_def (platStage1 s P) P,
    beamIdListForHost_congr h1.1 P, ← platStage2_eq s P,
    flushPlatLaserFold_def (platStage2 s P) P,
    laserIdListForHost_congr hst2lasers P, ← platStage3_eq s P,
    flushPlatLobFold_def (platStage3 s P) P,
    lobGroupIdListForHost_congr hst3lobs P, ← platStage4_eq s P,
    flushPlatProjFold_def (platStage4 s P) P, ← platStage5_eq s P,
    flushPlatCrFold_def (platStage5 s P) P,
    customRenderingIdListForHost_congr hst5crs P, ← platStage6_eq s P]

instance {α : Type} [SliceSample α] (sl : MemoryDataSlice α) :
    Decidable (sliceTimesWF sl) :=
  decidable_of_iff
    (∀ a ∈ sl.data, -1 ≤ SliceSample.time a ∧ SliceSample.time a < dblMax)
    (by rw [sliceTimesWF])

instance (cs : CommandSlice) : Decidable (commandTimesWF cs) :=
  decidable_of_iff (∀ a ∈ cs.data, -1 ≤ a.1 ∧ a.1 < dblMax)
    (by rw [commandTimesWF])

instance (sl : MemoryCategoryDataSlice) : Decidable (catTimesWF sl) :=
  decidable_of_iff (∀ a ∈ sl.data, -1 ≤ a.1 ∧ a.1 < dblMax)
    (by rw [catTimesWF])

instance (s : MemoryDataStore) : Decidable (storeTimesWF s) :=
  decidable_of_iff
    ((∀ p ∈ s.platforms, sliceTimesWF p.2.updates ∧ commandTimesWF p.2.commands) ∧
     (∀ p ∈ s.beams, sliceTimesWF p.2.updates ∧ commandTimesWF p.2.commands) ∧
     (∀ p ∈ s.gates, sliceTimesWF p.2.updates ∧ commandTimesWF p.2.commands) ∧
     (∀ p ∈ s.lasers, sliceTimesWF p.2.updates ∧ commandTimesWF p.2.commands) ∧
     (∀ p ∈ s.projectors, sliceTimesWF p.2.updates ∧ commandTimesWF p.2.commands) ∧
     (∀ p ∈ s.lobGroups, sliceTimesWF p.2.updates ∧ commandTimesWF p.2.commands) ∧
     (∀ p ∈ s.customRenderings,
       sliceTimesWF p.2.updates ∧ commandTimesWF p.2.commands) ∧
     (∀ p ∈ s.categoryData, catTimesWF p.2))
    (by rw [storeTimesWF])

/-- The C7 per-entity conclusion: after the flush, entity `r`'s container
entry survives with byte-identical properties and preferences but empty
update and command data, and its category data, generic data and data
tables (when present in `s`) survive with all samples/rows erased. -/
def entityFlushedAt (s res : MemoryDataStore) (r : ObjectId) : Prop :=
  (∀ e : PlatformEntry, findA s.platforms r = some e →
    ∃ e2, findA res.platforms r = some e2 ∧ e2.properties = e.properties ∧
      e2.preferences = e.preferences ∧ e2.updates.data = [] ∧
      e2.commands.data = []) ∧
  (∀ e : BeamEntry, findA s.beams r = some e →
    ∃ e2, findA res.beams r = some e2 ∧ e2.properties = e.properties ∧
      e2.preferences = e.preferences ∧ e2.updates.data = [] ∧
      e2.commands.data = []) ∧
  (∀ e : GateEntry, findA s.gates r = some e →
    ∃ e2, findA res.gates r = some e2 ∧ e2.properties = e.properties ∧
      e2.preferences = e.preferences ∧ e2.updates.data = [] ∧
      e2.commands.data = []) ∧
  (∀ e : LaserEntry, findA s.lasers r = some e →
    ∃ e2, findA res.lasers r = some e2 ∧ e2.properties = e.properties ∧
      e2.preferences = e.preferences ∧ e2.updates.data = [] ∧
      e2.commands.data = []) ∧
  (∀ e : ProjectorEntry, findA s.projectors r = some e →
    ∃ e2, findA res.projectors r = some e2 ∧ e2.properties = e.properties ∧
      e2.preferences = e.preferences ∧ e2.updates.data = [] ∧
      e2.commands.data = []) ∧
  (∀ e : LobGroupEntry, findA s.lobGroups r = some e →
    ∃ e2, findA res.lobGroups r = some e2 ∧ e2.properties = e.properties ∧
      e2.preferences = e.preferences ∧ e2.updates.data = [] ∧
      e2.commands.data = []) ∧
  (∀ e : CustomRenderingEntry, findA s.customRenderings r = some e →
    ∃ e2, findA res.customRenderings r = some e2 ∧
      e2.properties = e.properties ∧ e2.preferences = e.preferences ∧
      e2.updates.data = [] ∧ e2.commands.data = []) ∧
  (∀ sl, findA s.categoryData r = some sl →
    ∃ sl2, findA res.categoryData r = some sl2 ∧ sl2.data = []) ∧
  (∀ sl, findA s.genericData r = some sl →
    ∃ sl2, findA res.genericData r = some sl2 ∧ sl2.data = []) ∧
  (∀ tl, findA s.dataTables r = some tl →
    ∃ tl2, findA res.dataTables r = some tl2 ∧ ∀ tb ∈ tl2, tb.rows = [])

theorem ppEq_hasChanged_set (X : MemoryDataStore) :
    ppEq { X with hasChanged := true } X :=
  ⟨fun _ => rfl, fun _ => rfl, fun _ => rfl, fun _ => rfl, fun _ => rfl,
   fun _ => rfl, fun _ => rfl⟩

theorem entityFlushedAt_hasChanged {s X : MemoryDataStore} {r : ObjectId}
    (h : entityFlushedAt s X r) :
    entityFlushedAt s { X with hasChanged := true } r := h

/-- Stage-2 facts: the beam fold leaves the platform container literally
unchanged, the laser/LOB/custom-rendering containers untouched, keeps the
key lists of the beam/gate/projector containers, preserves every beam
entry off the id list and every gate/projector entry whose host is off
the list, and leaves the shared maps of such ids unchanged. -/
theorem platStage2_facts (s : MemoryDataStore) (P : ObjectId)
    (hndG : (keysOf s.gates).Nodup) (hndQ : (keysOf s.projectors).Nodup) :
    ((platStage2 s P).platforms = (platStage1 s P).platforms ∧
     (platStage2 s P).lasers = s.lasers ∧
     (platStage2 s P).lobGroups = s.lobGroups ∧
     (platStage2 s P).customRenderings = s.customRenderings ∧
     keysOf (platStage2 s P).beams = keysOf s.beams ∧
     keysOf (platStage2 s P).gates = keysOf s.gates ∧
     keysOf (platStage2 s P).projectors = keysOf s.projectors) ∧
    (∀ x, x ∉ beamIdListForHost s P →
      findA (platStage2 s P).beams x = findA s.beams x) ∧
    (∀ x (e : GateEntry), findA s.gates x = some e →
      hostidVal e.properties.hostid ∉ beamIdListForHost s P →
      findA (platStage2 s P).gates x = some e) ∧
    (∀ x (e : ProjectorEntry), findA s.projectors x = some e →
      hostidVal e.properties.hostid ∉ beamIdListForHost s P →
      findA (platStage2 s P).projectors x = some e) ∧
    (∀ x, x ∉ beamIdListForHost s P →
      (∀ e : GateEntry, findA s.gates x = some e →
        hostidVal e.properties.hostid ∉ beamIdListForHost s P) →
      (∀ e : ProjectorEntry, findA s.projectors x = some e →
        hostidVal e.properties.hostid ∉ beamIdListForHost s P) →
      findA (platStage2 s P).categoryData x = findA s.categoryData x ∧
      findA (platStage2 s P).genericData x = findA s.genericData x ∧
      findA (platStage2 s P).dataTables x = findA s.dataTables x) := by
  have h1 := flushPlatformData_parts s P
  rw [← platStage1_eq s P] at h1
  have hndG1 : (keysOf (platStage1 s P).gates).Nodup := by
    rw [h1.2.1]; exact hndG
  have hndQ1 : (keysOf (platStage1 s P).projectors).Nodup := by
    rw [h1.2.2.2.1]; exact hndQ
  have h2 := beamFold_frame (beamIdListForHost s P) (platStage1 s P) hndG1 hndQ1
  rw [← platStage2_eq s P] at h2
  refine ⟨⟨h2.1.1, h2.1.2.1.trans h1.2.2.1, h2.1.2.2.1.trans h1.2.2.2.2.1,
    h2.1.2.2.2.1.trans h1.2.2.2.2.2.1,
    h2.1.2.2.2.2.1.trans (congrArg keysOf h1.1),
    h2.1.2.2.2.2.2.1.trans (congrArg keysOf h1.2.1),
    h2.1.2.2.2.2.2.2.trans (congrArg keysOf h1.2.2.2.1)⟩,
    fun x hx => (h2.2.1 x hx).trans (congrArg (fun l => findA l x) h1.1),
    fun x e hf hh => h2.2.2.1 x e
      ((congrArg (fun l => findA l x) h1.2.1).trans hf) hh,
    fun x e hf hh => h2.2.2.2.1 x e
      ((congrArg (fun l => findA l x) h1.2.2.2.1).trans hf) hh,
    fun x hx hcg hcq => ?_⟩
  have hcg1 : ∀ e : GateEntry, findA (platStage1 s P).gates x = some e →
      hostidVal e.properties.hostid ∉ beamIdListForHost s P := fun e hf =>
    hcg e ((congrArg (fun l => findA l x) h1.2.1).symm.trans hf)
  have hcq1 : ∀ e : ProjectorEntry,
      findA (platStage1 s P).projectors x = some e →
      hostidVal e.properties.hostid ∉ beamIdListForHost s P := fun e hf =>
    hcq e ((congrArg (fun l => findA l x) h1.2.2.2.1).symm.trans hf)
  obtain ⟨hc1, hc2, hc3⟩ := h2.2.2.2.2 x hx hcg1 hcq1
  exact ⟨hc1.trans (congrArg (fun l => findA l x) h1.2.2.2.2.2.2.1),
    hc2.trans (congrArg (fun l => findA l x) h1.2.2.2.2.2.2.2.1),
    hc3.trans (congrArg (fun l => findA l x) h1.2.2.2.2.2.2.2.2.1)⟩

/-- Container-literal facts across stages 3–6: each later fold touches
only its own container and the shared maps. -/
theorem platStage6_facts (s : MemoryDataStore) (P : ObjectId)
    (hndG : (keysOf s.gates).Nodup) (hndQ : (keysOf s.projectors).Nodup) :
    (platStage6 s P).platforms = (platStage1 s P).platforms ∧
    (platStage6 s P).beams = (platStage2 s P).beams ∧
    (platStage6 s P).gates = (platStage2 s P).gates ∧
    (platStage6 s P).lasers = (platStage3 s P).lasers ∧
    (platStage6 s P).lobGroups = (platStage4 s P).lobGroups ∧
    (platStage6 s P).projectors = (platStage5 s P).projectors ∧
    (platStage4 s P).projectors = (platStage2 s P).projectors ∧
    keysOf (platStage4 s P).projectors = keysOf s.projectors := by
  have h2 := platStage2_facts s P hndG hndQ
  have h3 := laserFold_frame (laserIdListForHost s P) (platStage2 s P)
  rw [← platStage3_eq s P] at h3
  have h4 := lobFold_frame (lobGroupIdListForHost s P) (platStage3 s P)
  rw [← platStage4_eq s P] at h4
  have h5 := projFold_frame (projectorIdListForHost (platStage4 s P) P)
    (platStage4 s P)
  rw [← platStage5_eq s P] at h5
  have h6 := crFold_frame (customRenderingIdListForHost s P) (platStage5 s P)
  rw [← platStage6_eq s P] at h6
  have hp42 : (platStage4 s P).projectors = (platStage2 s P).projectors :=
    h4.1.2.2.2.2.1.trans h3.1.2.2.2.1
  exact ⟨h6.1.1.trans (h5.1.1.trans (h4.1.1.trans (h3.1.1.trans h2.1.1))),
    h6.1.2.1.trans (h5.1.2.1.trans (h4.1.2.1.trans h3.1.2.1)),
    h6.1.2.2.1.trans (h5.1.2.2.1.trans (h4.1.2.2.1.trans h3.1.2.2.1)),
    h6.1.2.2.2.1.trans (h5.1.2.2.2.1.trans h4.1.2.2.2.1),
    h6.1.2.2.2.2.2.1.trans h5.1.2.2.2.2.1,
    h6.1.2.2.2.2.1, hp42,
    (congrArg keysOf hp42).trans h2.1.2.2.2.2.2.2⟩

/-- Container-literal facts vs the initial store for the stages right
before the laser, LOB and custom-rendering folds. -/
theorem platStageMid_facts (s : MemoryDataStore) (P : ObjectId)
    (hndG : (keysOf s.gates).Nodup) (hndQ : (keysOf s.projectors).Nodup) :
    (platStage2 s P).lasers = s.lasers ∧
    (platStage3 s P).lobGroups = s.lobGroups ∧
    (platStage5 s P).customRenderings = s.customRenderings := by
  have h2 := platStage2_facts s P hndG hndQ
  have h3 := laserFold_frame (laserIdListForHost s P) (platStage2 s P)
  rw [← platStage3_eq s P] at h3
  have h4 := lobFold_frame (lobGroupIdListForHost s P) (platStage3 s P)
  rw [← platStage4_eq s P] at h4
  have h5 := projFold_frame (projectorIdListForHost (platStage4 s P) P)
    (platStage4 s P)
  rw [← platStage5_eq s P] at h5
  exact ⟨h2.1.2.1,
    h3.1.2.2.2.2.1.trans h2.1.2.2.1,
    h5.1.2.2.2.2.2.1.trans (h4.1.2.2.2.2.2.1.trans
      (h3.1.2.2.2.2.2.1.trans h2.1.2.2.2.1))⟩

/-- An id outside the projector key list is outside the projector id list
computed on the stage-4 store. -/
theorem not_mem_projList4 (s : MemoryDataStore) (P x : ObjectId)
    (hndG : (keysOf s.gates).Nodup) (hndQ : (keysOf s.projectors).Nodup)
    (hx : x ∉ keysOf s.projectors) :
    x ∉ projectorIdListForHost (platStage4 s P) P := by
  intro hm
  have hsub := (projectorIdListForHost_sublist_keys (platStage4 s P) P).subset hm
  rw [(platStage6_facts s P hndG hndQ).2.2.2.2.2.2.2] at hsub
  exact hx hsub

/-- Shared-map frame through stage 3 for ids untouched by the beam and
laser folds. -/
theorem platStage3_shared (s : MemoryDataStore) (P x : ObjectId)
    (hndG : (keysOf s.gates).Nodup) (hndQ : (keysOf s.projectors).Nodup)
    (hxb : x ∉ beamIdListForHost s P)
    (hcg : ∀ e : GateEntry, findA s.gates x = some e →
      hostidVal e.properties.hostid ∉ beamIdListForHost s P)
    (hcq : ∀ e : ProjectorEntry, findA s.projectors x = some e →
      hostidVal e.properties.hostid ∉ beamIdListForHost s P)
    (hxl : x ∉ laserIdListForHost s P) :
    findA (platStage3 s P).categoryData x = findA s.categoryData x ∧
    findA (platStage3 s P).genericData x = findA s.genericData x ∧
    findA (platStage3 s P).dataTables x = findA s.dataTables x := by
  have h2 := (platStage2_facts s P hndG hndQ).2.2.2.2 x hxb hcg hcq
  have h3 := laserFold_frame (laserIdListForHost s P) (platStage2 s P)
  rw [← platStage3_eq s P] at h3
  obtain ⟨-, c3, g3, t3⟩ := h3.2 x hxl
  exact ⟨c3.trans h2.1, g3.trans h2.2.1, t3.trans h2.2.2⟩

/-- Shared-map frame through stage 4. -/
theorem platStage4_shared (s : MemoryDataStore) (P x : ObjectId)
    (hndG : (keysOf s.gates).Nodup) (hndQ : (keysOf s.projectors).Nodup)
    (hxb : x ∉ beamIdListForHost s P)
    (hcg : ∀ e : GateEntry, findA s.gates x = some e →
      hostidVal e.properties.hostid ∉ beamIdListForHost s P)
    (hcq : ∀ e : ProjectorEntry, findA s.projectors x = some e →
      hostidVal e.properties.hostid ∉ beamIdListForHost s P)
    (hxl : x ∉ laserIdListForHost s P)
    (hxo : x ∉ lobGroupIdListForHost s P) :
    findA (platStage4 s P).categoryData x = findA s.categoryData x ∧
    findA (platStage4 s P).genericData x = findA s.genericData x ∧
    findA (platStage4 s P).dataTables x = findA s.dataTables x := by
  have h3s := platStage3_shared s P x hndG hndQ hxb hcg hcq hxl
  have h4 := lobFold_frame (lobGroupIdListForHost s P) (platStage3 s P)
  rw [← platStage4_eq s P] at h4
  obtain ⟨-, c4, g4, t4⟩ := h4.2 x hxo
  exact ⟨c4.trans h3s.1, g4.trans h3s.2.1, t4.trans h3s.2.2⟩

/-- Shared-map frame through stage 5. -/
theorem platStage5_shared (s : MemoryDataStore) (P x : ObjectId)
    (hndG : (keysOf s.gates).Nodup) (hndQ : (keysOf s.projectors).Nodup)
    (hxb : x ∉ beamIdListForHost s P)
    (hcg : ∀ e : GateEntry, findA s.gates x = some e →
      hostidVal e.properties.hostid ∉ beamIdListForHost s P)
    (hcq : ∀ e : ProjectorEntry, findA s.projectors x = some e →
      hostidVal e.properties.hostid ∉ beamIdListForHost s P)
    (hxl : x ∉ laserIdListForHost s P)
    (hxo : x ∉ lobGroupIdListForHost s P)
    (hxq : x ∉ projectorIdListForHost (platStage4 s P) P) :
    findA (platStage5 s P).categoryData x = findA s.categoryData x ∧
    findA (platStage5 s P).genericData x = findA s.genericData x ∧
    findA (platStage5 s P).dataTables x = findA s.dataTables x := by
  have h4s := platStage4_shared s P x hndG hndQ hxb hcg hcq hxl hxo
  have h5 := projFold_frame (projectorIdListForHost (platStage4 s P) P)
    (platStage4 s P)
  rw [← platStage5_eq s P] at h5
  obtain ⟨-, c5, g5, t5⟩ := h5.2 x hxq
  exact ⟨c5.trans h4s.1, g5.trans h4s.2.1, t5.trans h4s.2.2⟩

/-- Shared-map frame through stage 6. -/
theorem platStage6_shared (s : MemoryDataStore) (P x : ObjectId)
    (hndG : (keysOf s.gates).Nodup) (hndQ : (keysOf s.projectors).Nodup)
    (hxb : x ∉ beamIdListForHost s P)
    (hcg : ∀ e : GateEntry, findA s.gates x = some e →
      hostidVal e.properties.hostid ∉ beamIdListForHost s P)
    (hcq : ∀ e : ProjectorEntry, findA s.projectors x = some e →
      hostidVal e.properties.hostid ∉ beamIdListForHost s P)
    (hxl : x ∉ laserIdListForHost s P)
    (hxo : x ∉ lobGroupIdListForHost s P)
    (hxq : x ∉ projectorIdListForHost (platStage4 s P) P)
    (hxc : x ∉ customRenderingIdListForHost s P) :
    findA (platStage6 s P).categoryData x = findA s.categoryData x ∧
    findA (platStage6 s P).genericData x = findA s.genericData x ∧
    findA (platStage6 s P).dataTables x = findA s.dataTables x := by
  have h5s := platStage5_shared s P x hndG hndQ hxb hcg hcq hxl hxo hxq
  have h6 := crFold_frame (customRenderingIdListForHost s P) (platStage5 s P)
  rw [← platStage6_eq s P] at h6
  obtain ⟨-, c6, g6, t6⟩ := h6.2 x hxc
  exact ⟨c6.trans h5s.1, g6.trans h5s.2.1, t6.trans h5s.2.2⟩

/-- Shared-map frame over stages 3–6 only (for ids flushed during the
beam fold). -/
theorem platStage6_shared_from2 (s : MemoryDataStore) (P x : ObjectId)
    (hxl : x ∉ laserIdListForHost s P)
    (hxo : x ∉ lobGroupIdListForHost s P)
    (hxq : x ∉ projectorIdListForHost (platStage4 s P) P)
    (hxc : x ∉ customRenderingIdListForHost s P) :
    findA (platStage6 s P).categoryData x =
      findA (platStage2 s P).categoryData x ∧
    findA (platStage6 s P).genericData x =
      findA (platStage2 s P).genericData x ∧
    findA (platStage6 s P).dataTables x =
      findA (platStage2 s P).dataTables x := by
  have h3 := laserFold_frame (laserIdListForHost s P) (platStage2 s P)
  rw [← platStage3_eq s P] at h3
  have h4 := lobFold_frame (lobGroupIdListForHost s P) (platStage3 s P)
  rw [← platStage4_eq s P] at h4
  have h5 := projFold_frame (projectorIdListForHost (platStage4 s P) P)
    (platStage4 s P)
  rw [← platStage5_eq s P] at h5
  have h6 := crFold_frame (customRenderingIdListForHost s P) (platStage5 s P)
  rw [← platStage6_eq s P] at h6
  obtain ⟨-, c3, g3, t3⟩ := h3.2 x hxl
  obtain ⟨-, c4, g4, t4⟩ := h4.2 x hxo
  obtain ⟨-, c5, g5, t5⟩ := h5.2 x hxq
  obtain ⟨-, c6, g6, t6⟩ := h6.2 x hxc
  exact ⟨c6.trans (c5.trans (c4.trans c3)),
    g6.trans (g5.trans (g4.trans g3)),
    t6.trans (t5.trans (t4.trans t3))⟩

/-- Shared-map frame over stages 4–6 only (for laser ids flushed at
stage 3). -/
theorem platStage6_shared_from3 (s : MemoryDataStore) (P x : ObjectId)
    (hxo : x ∉ lobGroupIdListForHost s P)
    (hxq : x ∉ projectorIdListForHost (platStage4 s P) P)
    (hxc : x ∉ customRenderingIdListForHost s P) :
    findA (platStage6 s P).categoryData x =
      findA (platStage3 s P).categoryData x ∧
    findA (platStage6 s P).genericData x =
      findA (platStage3 s P).genericData x ∧
    findA (platStage6 s P).dataTables x =
      findA (platStage3 s P).dataTables x := by
  have h4 := lobFold_frame (lobGroupIdListForHost s P) (platStage3 s P)
  rw [← platStage4_eq s P] at h4
  have h5 := projFold_frame (projectorIdListForHost (platStage4 s P) P)
    (platStage4 s P)
  rw [← platStage5_eq s P] at h5
  have h6 := crFold_frame (customRenderingIdListForHost s P) (platStage5 s P)
  rw [← platStage6_eq s P] at h6
  obtain ⟨-, c4, g4, t4⟩ := h4.2 x hxo
  obtain ⟨-, c5, g5, t5⟩ := h5.2 x hxq
  obtain ⟨-, c6, g6, t6⟩ := h6.2 x hxc
  exact ⟨c6.trans (c5.trans c4), g6.trans (g5.trans g4),
    t6.trans (t5.trans t4)⟩

/-- Shared-map frame over stages 5–6 only (for LOB-group ids flushed at
stage 4). -/
theorem platStage6_shared_from4 (s : MemoryDataStore) (P x : ObjectId)
    (hxq : x ∉ projectorIdListForHost (platStage4 s P) P)
    (hxc : x ∉ customRenderingIdListForHost s P) :
    findA (platStage6 s P).categoryData x =
      findA (platStage4 s P).categoryData x ∧
    findA (platStage6 s P).genericData x =
      findA (platStage4 s P).genericData x ∧
    findA (platStage6 s P).dataTables x =
      findA (platStage4 s P).dataTables x := by
  have h5 := projFold_frame (projectorIdListForHost (platStage4 s P) P)
    (platStage4 s P)
  rw [← platStage5_eq s P] at h5
  have h6 := crFold_frame (customRenderingIdListForHost s P) (platStage5 s P)
  rw [← platStage6_eq s P] at h6
  obtain ⟨-, c5, g5, t5⟩ := h5.2 x hxq
  obtain ⟨-, c6, g6, t6⟩ := h6.2 x hxc
  exact ⟨c6.trans c5, g6.trans g5, t6.trans t5⟩

/-- Shared-map frame over stage 6 only (for projector ids flushed at
stage 5). -/
theorem platStage6_shared_from5 (s : MemoryDataStore) (P x : ObjectId)
    (hxc : x ∉ customRenderingIdListForHost s P) :
    findA (platStage6 s P).categoryData x =
      findA (platStage5 s P).categoryData x ∧
    findA (platStage6 s P).genericData x =
      findA (platStage5 s P).genericData x ∧
    findA (platStage6 s P).dataTables x =
      findA (platStage5 s P).dataTables x := by
  have h6 := crFold_frame (customRenderingIdListForHost s P) (platStage5 s P)
  rw [← platStage6_eq s P] at h6
  obtain ⟨-, c6, g6, t6⟩ := h6.2 x hxc
  exact ⟨c6, g6, t6⟩

/-- The flushed platform itself: entry flushed at stage 1 and preserved,
shared maps flushed by the common tail. -/
theorem platFlush_self (s : MemoryDataStore) (P : ObjectId)
    (hwf : StoreWF s) (htw : storeTimesWF s)
    (hP : (findA s.platforms P).isSome = true) :
    entityFlushedAt s (flushCommonTail (platStage6 s P) P FLUSH_ALL (-1)
      dblMax) P := by
  have hnd := storeWF_nodups s hwf
  have hPk : P ∈ keysOf s.platforms := (findA_isSome_iff _ _).mp hP
  have hfw := (storeWF_forward s hwf P).1 hPk
  have h6 := platStage6_facts s P hnd.2.2.1 hnd.2.2.2.2.1
  have hT := flushCommonTail_all_entities (platStage6 s P) P
  have hxb : P ∉ beamIdListForHost s P :=
    fun hm => hfw.1 ((beamIdListForHost_sublist_keys s P).subset hm)
  have hxl : P ∉ laserIdListForHost s P :=
    fun hm => hfw.2.2.1 ((laserIdListForHost_sublist_keys s P).subset hm)
  have hxo : P ∉ lobGroupIdListForHost s P :=
    fun hm => hfw.2.2.2.2.1 ((lobGroupIdListForHost_sublist_keys s P).subset hm)
  have hxq : P ∉ projectorIdListForHost (platStage4 s P) P :=
    not_mem_projList4 s P P hnd.2.2.1 hnd.2.2.2.2.1 hfw.2.2.2.1
  have hxc : P ∉ customRenderingIdListForHost s P :=
    fun hm => hfw.2.2.2.2.2
      ((customRenderingIdListForHost_sublist_keys s P).subset hm)
  have hcg : ∀ e : GateEntry, findA s.gates P = some e →
      hostidVal e.properties.hostid ∉ beamIdListForHost s P := fun e hf =>
    Option.noConfusion (((findA_eq_none_iff s.gates P).mpr hfw.2.1).symm.trans hf)
  have hcq : ∀ e : ProjectorEntry, findA s.projectors P = some e →
      hostidVal e.properties.hostid ∉ beamIdListForHost s P := fun e hf =>
    Option.noConfusion
      (((findA_eq_none_iff s.projectors P).mpr hfw.2.2.2.1).symm.trans hf)
  have hsh := platStage6_shared s P P hnd.2.2.1 hnd.2.2.2.2.1 hxb hcg hcq hxl
    hxo hxq hxc
  have hself := flushCommonTail_all_self (platStage6 s P) P
  refine ⟨?_, ?_, ?_, ?_, ?_, ?_, ?_, ?_, ?_, ?_⟩
  · intro e hf
    obtain ⟨hu, hc⟩ := htw.1 (P, e) (mem_of_findA_eq_some hf)
    obtain ⟨e2, hf2, hp2, hpr2, hu2, hc2⟩ := flushPlatformData_self s P hf hu hc
    rw [← platStage1_eq s P] at hf2
    exact ⟨e2, (congrArg (fun l => findA l P) (hT.1.trans h6.1)).trans hf2,
      hp2, hpr2, hu2, hc2⟩
  · intro e hf
    exact Option.noConfusion
      (((findA_eq_none_iff s.beams P).mpr hfw.1).symm.trans hf)
  · intro e hf
    exact Option.noConfusion
      (((findA_eq_none_iff s.gates P).mpr hfw.2.1).symm.trans hf)
  · intro e hf
    exact Option.noConfusion
      (((findA_eq_none_iff s.lasers P).mpr hfw.2.2.1).symm.trans hf)
  · intro e hf
    exact Option.noConfusion
      (((findA_eq_none_iff s.projectors P).mpr hfw.2.2.2.1).symm.trans hf)
  · intro e hf
    exact Option.noConfusion
      (((findA_eq_none_iff s.lobGroups P).mpr hfw.2.2.2.2.1).symm.trans hf)
  · intro e hf
    exact Option.noConfusion
      (((findA_eq_none_iff s.customRenderings P).mpr hfw.2.2.2.2.2).symm.trans hf)
  · intro sl hf
    have hwfc : catTimesWF sl :=
      htw.2.2.2.2.2.2.2 (P, sl) (mem_of_findA_eq_some hf)
    obtain ⟨sl2, hf2, hd2⟩ := hself.1 sl (hsh.1.trans hf) hwfc
    exact ⟨sl2, hf2, hd2⟩
  · intro sl hf
    obtain ⟨sl2, hf2, hd2⟩ := hself.2.1 sl (hsh.2.1.trans hf)
    exact ⟨sl2, hf2, hd2⟩
  · intro tl hf
    obtain ⟨tl2, hf2, hd2⟩ := hself.2.2 tl (hsh.2.2.trans hf)
    exact ⟨tl2, hf2, hd2⟩

/-- A beam hosted on the flushed platform: entry and shared maps flushed
during the stage-2 beam fold and preserved afterwards. -/
theorem platFlush_beam (s : MemoryDataStore) (P b : ObjectId)
    (hwf : StoreWF s) (htw : storeTimesWF s)
    (hP : (findA s.platforms P).isSome = true)
    (hb : b ∈ beamIdListForHost s P) :
    entityFlushedAt s (flushCommonTail (platStage6 s P) P FLUSH_ALL (-1)
      dblMax) b := by
  have hnd := storeWF_nodups s hwf
  have hPk : P ∈ keysOf s.platforms := (findA_isSome_iff _ _).mp hP
  have hbK : b ∈ keysOf s.beams := (beamIdListForHost_sublist_keys s P).subset hb
  have hfwb := (storeWF_forward s hwf b).2.1 hbK
  have hbP : b ∉ keysOf s.platforms :=
    fun hp => ((storeWF_forward s hwf b).1 hp).1 hbK
  have hbne : b ≠ P := fun he => hbP (he ▸ hPk)
  have h6 := platStage6_facts s P hnd.2.2.1 hnd.2.2.2.2.1
  have hT := flushCommonTail_all_entities (platStage6 s P) P
  have hTf := flushCommonTail_all_frame (platStage6 s P) P b hbne
  have h1 := flushPlatformData_parts s P
  rw [← platStage1_eq s P] at h1
  have hndG1 : (keysOf (platStage1 s P).gates).Nodup := by
    rw [h1.2.1]; exact hnd.2.2.1
  have hndQ1 : (keysOf (platStage1 s P).projectors).Nodup := by
    rw [h1.2.2.2.1]; exact hnd.2.2.2.2.1
  have hndbids : (beamIdListForHost s P).Nodup :=
    List.Nodup.sublist (beamIdListForHost_sublist_keys s P) hnd.2.1
  have hbG1 : b ∉ keysOf (platStage1 s P).gates := by
    rw [h1.2.1]; exact hfwb.1
  have hbQ1 : b ∉ keysOf (platStage1 s P).projectors := by
    rw [h1.2.2.2.1]; exact hfwb.2.2.1
  have hxl : b ∉ laserIdListForHost s P :=
    fun hm => hfwb.2.1 ((laserIdListForHost_sublist_keys s P).subset hm)
  have hxo : b ∉ lobGroupIdListForHost s P :=
    fun hm => hfwb.2.2.2.1 ((lobGroupIdListForHost_sublist_keys s P).subset hm)
  have hxq : b ∉ projectorIdListForHost (platStage4 s P) P :=
    not_mem_projList4 s P b hnd.2.2.1 hnd.2.2.2.2.1 hfwb.2.2.1
  have hxc : b ∉ customRenderingIdListForHost s P :=
    fun hm => hfwb.2.2.2.2
      ((customRenderingIdListForHost_sublist_keys s P).subset hm)
  have hfrom2 := platStage6_shared_from2 s P b hxl hxo hxq hxc
  obtain ⟨e0, hmem0, -⟩ := mem_beamIdListForHost.mp hb
  have he0 : findA s.beams b = some e0 := findA_eq_some_of_mem hnd.2.1 hmem0
  obtain ⟨hu0, hc0⟩ := htw.2.1 (b, e0) hmem0
  have hf1 : findA (platStage1 s P).beams b = some e0 := by
    rw [h1.1]; exact he0
  have hfl := beamFold_beam_flushes (beamIdListForHost s P) (platStage1 s P)
    hndG1 hndQ1 hndbids hb hf1 hu0 hc0 hbG1 hbQ1
  rw [← platStage2_eq s P] at hfl
  obtain ⟨⟨e2, hf2, hp2, hpr2, hu2, hc2⟩, hflc, hflg, hflt⟩ := hfl
  refine ⟨?_, ?_, ?_, ?_, ?_, ?_, ?_, ?_, ?_, ?_⟩
  · intro e hf
    exact Option.noConfusion
      (((findA_eq_none_iff s.platforms b).mpr hbP).symm.trans hf)
  · intro e hf
    have heq : e0 = e := Option.some.inj (he0.symm.trans hf)
    subst heq
    exact ⟨e2, (congrArg (fun l => findA l b) (hT.2.1.trans h6.2.1)).trans hf2,
      hp2, hpr2, hu2, hc2⟩
  · intro e hf
    exact Option.noConfusion
      (((findA_eq_none_iff s.gates b).mpr hfwb.1).symm.trans hf)
  · intro e hf
    exact Option.noConfusion
      (((findA_eq_none_iff s.lasers b).mpr hfwb.2.1).symm.trans hf)
  · intro e hf
    exact Option.noConfusion
      (((findA_eq_none_iff s.projectors b).mpr hfwb.2.2.1).symm.trans hf)
  · intro e hf
    exact Option.noConfusion
      (((findA_eq_none_iff s.lobGroups b).mpr hfwb.2.2.2.1).symm.trans hf)
  · intro e hf
    exact Option.noConfusion
      (((findA_eq_none_iff s.customRenderings b).mpr hfwb.2.2.2.2).symm.trans hf)
  · intro sl hf
    have hwfc : catTimesWF sl :=
      htw.2.2.2.2.2.2.2 (b, sl) (mem_of_findA_eq_some hf)
    have hf1c : findA (platStage1 s P).categoryData b = some sl := by
      rw [h1.2.2.2.2.2.2.1]; exact hf
    obtain ⟨sl2, hf3, hd3⟩ := hflc sl hf1c hwfc
    exact ⟨sl2, (hTf.1.trans hfrom2.1).trans hf3, hd3⟩
  · intro sl hf
    have hf1g : findA (platStage1 s P).genericData b = some sl := by
      rw [h1.2.2.2.2.2.2.2.1]; exact hf
    obtain ⟨sl2, hf3, hd3⟩ := hflg sl hf1g
    exact ⟨sl2, (hTf.2.1.trans hfrom2.2.1).trans hf3, hd3⟩
  · intro tl hf
    have hf1t : findA (platStage1 s P).dataTables b = some tl := by
      rw [h1.2.2.2.2.2.2.2.2.1]; exact hf
    obtain ⟨tl2, hf3, hd3⟩ := hflt tl hf1t
    exact ⟨tl2, (hTf.2.2.trans hfrom2.2.2).trans hf3, hd3⟩

/-- A laser hosted on the flushed platform: entry and shared maps flushed
during the stage-3 laser fold and preserved afterwards. -/
theorem platFlush_laser (s : MemoryDataStore) (P l : ObjectId)
    (hwf : StoreWF s) (htw : storeTimesWF s)
    (hP : (findA s.platforms P).isSome = true)
    (hl : l ∈ laserIdListForHost s P) :
    entityFlushedAt s (flushCommonTail (platStage6 s P) P FLUSH_ALL (-1)
      dblMax) l := by
  have hnd := storeWF_nodups s hwf
  have hPk : P ∈ keysOf s.platforms := (findA_isSome_iff _ _).mp hP
  have hlK : l ∈ keysOf s.lasers := (laserIdListForHost_sublist_keys s P).subset hl
  have hfwl := (storeWF_forward s hwf l).2.2.2.1 hlK
  have hlP : l ∉ keysOf s.platforms :=
    fun hp => ((storeWF_forward s hwf l).1 hp).2.2.1 hlK
  have hlB : l ∉ keysOf s.beams :=
    fun hb2 => ((storeWF_forward s hwf l).2.1 hb2).2.1 hlK
  have hlG : l ∉ keysOf s.gates :=
    fun hg2 => ((storeWF_forward s hwf l).2.2.1 hg2).1 hlK
  have hlne : l ≠ P := fun he => hlP (he ▸ hPk)
  have h6 := platStage6_facts s P hnd.2.2.1 hnd.2.2.2.2.1
  have h2f := platStage2_facts s P hnd.2.2.1 hnd.2.2.2.2.1
  have hT := flushCommonTail_all_entities (platStage6 s P) P
  have hTf := flushCommonTail_all_frame (platStage6 s P) P l hlne
  have hxb : l ∉ beamIdListForHost s P :=
    fun hm => hlB ((beamIdListForHost_sublist_keys s P).subset hm)
  have hxo : l ∉ lobGroupIdListForHost s P :=
    fun hm => hfwl.2.1 ((lobGroupIdListForHost_sublist_keys s P).subset hm)
  have hxq : l ∉ projectorIdListForHost (platStage4 s P) P :=
    not_mem_projList4 s P l hnd.2.2.1 hnd.2.2.2.2.1 hfwl.1
  have hxc : l ∉ customRenderingIdListForHost s P :=
    fun hm => hfwl.2.2
      ((customRenderingIdListForHost_sublist_keys s P).subset hm)
  have hcg : ∀ e : GateEntry, findA s.gates l = some e →
      hostidVal e.properties.hostid ∉ beamIdListForHost s P := fun e hf =>
    Option.noConfusion (((findA_eq_none_iff s.gates l).mpr hlG).symm.trans hf)
  have hcq : ∀ e : ProjectorEntry, findA s.projectors l = some e →
      hostidVal e.properties.hostid ∉ beamIdListForHost s P := fun e hf =>
    Option.noConfusion
      (((findA_eq_none_iff s.projectors l).mpr hfwl.1).symm.trans hf)
  have hsh2 := h2f.2.2.2.2 l hxb hcg hcq
  have hfrom3 := platStage6_shared_from3 s P l hxo hxq hxc
  obtain ⟨e0, hmem0, -⟩ := mem_laserIdListForHost.mp hl
  have he0 : findA s.lasers l = some e0 :=
    findA_eq_some_of_mem hnd.2.2.2.1 hmem0
  obtain ⟨hu0, hc0⟩ := htw.2.2.2.1 (l, e0) hmem0
  have hndlids : (laserIdListForHost s P).Nodup :=
    List.Nodup.sublist (laserIdListForHost_sublist_keys s P) hnd.2.2.2.1
  have hf2l : findA (platStage2 s P).lasers l = some e0 := by
    rw [h2f.1.2.1]; exact he0
  have hfl := laserFold_flushes (laserIdListForHost s P) (platStage2 s P)
    hndlids hl hf2l hu0 hc0
  rw [← platStage3_eq s P] at hfl
  obtain ⟨e2, hf3, hp2, hpr2, hu2, hc2⟩ := hfl
  have hshf := laserFold_shared_flushes (laserIdListForHost s P)
    (platStage2 s P) hndlids hl
  rw [← platStage3_eq s P] at hshf
  obtain ⟨hc1, hg1, ht1⟩ := hshf
  refine ⟨?_, ?_, ?_, ?_, ?_, ?_, ?_, ?_, ?_, ?_⟩
  · intro e hf
    exact Option.noConfusion
      (((findA_eq_none_iff s.platforms l).mpr hlP).symm.trans hf)
  · intro e hf
    exact Option.noConfusion
      (((findA_eq_none_iff s.beams l).mpr hlB).symm.trans hf)
  · intro e hf
    exact Option.noConfusion
      (((findA_eq_none_iff s.gates l).mpr hlG).symm.trans hf)
  · intro e hf
    have heq : e0 = e := Option.some.inj (he0.symm.trans hf)
    subst heq
    exact ⟨e2,
      (congrArg (fun l2 => findA l2 l) (hT.2.2.2.1.trans h6.2.2.2.1)).trans hf3,
      hp2, hpr2, hu2, hc2⟩
  · intro e hf
    exact Option.noConfusion
      (((findA_eq_none_iff s.projectors l).mpr hfwl.1).symm.trans hf)
  · intro e hf
    exact Option.noConfusion
      (((findA_eq_none_iff s.lobGroups l).mpr hfwl.2.1).symm.trans hf)
  · intro e hf
    exact Option.noConfusion
      (((findA_eq_none_iff s.customRenderings l).mpr hfwl.2.2).symm.trans hf)
  · intro sl hf
    have hwfc : catTimesWF sl :=
      htw.2.2.2.2.2.2.2 (l, sl) (mem_of_findA_eq_some hf)
    obtain ⟨sl2, hf4, hd4⟩ := hc1 sl (hsh2.1.trans hf) hwfc
    exact ⟨sl2, (hTf.1.trans hfrom3.1).trans hf4, hd4⟩
  · intro sl hf
    obtain ⟨sl2, hf4, hd4⟩ := hg1 sl (hsh2.2.1.trans hf)
    exact ⟨sl2, (hTf.2.1.trans hfrom3.2.1).trans hf4, hd4⟩
  · intro tl hf
    obtain ⟨tl2, hf4, hd4⟩ := ht1 tl (hsh2.2.2.trans hf)
    exact ⟨tl2, (hTf.2.2.trans hfrom3.2.2).trans hf4, hd4⟩

/-- A LOB group hosted on the flushed platform: entry and shared maps
flushed during the stage-4 fold and preserved afterwards. -/
theorem platFlush_lob (s : MemoryDataStore) (P o : ObjectId)
    (hwf : StoreWF s) (htw : storeTimesWF s)
    (hP : (findA s.platforms P).isSome = true)
    (ho : o ∈ lobGroupIdListForHost s P) :
    entityFlushedAt s (flushCommonTail (platStage6 s P) P FLUSH_ALL (-1)
      dblMax) o := by
  have hnd := storeWF_nodups s hwf
  have hPk : P ∈ keysOf s.platforms := (findA_isSome_iff _ _).mp hP
  have hoK : o ∈ keysOf s.lobGroups :=
    (lobGroupIdListForHost_sublist_keys s P).subset ho
  have hoC : o ∉ keysOf s.customRenderings :=
    (storeWF_forward s hwf o).2.2.2.2.2 hoK
  have hoP : o ∉ keysOf s.platforms :=
    fun hp => ((storeWF_forward s hwf o).1 hp).2.2.2.2.1 hoK
  have hoB : o ∉ keysOf s.beams :=
    fun hb2 => ((storeWF_forward s hwf o).2.1 hb2).2.2.2.1 hoK
  have hoG : o ∉ keysOf s.gates :=
    fun hg2 => ((storeWF_forward s hwf o).2.2.1 hg2).2.2.1 hoK
  have hoL : o ∉ keysOf s.lasers :=
    fun hl2 => ((storeWF_forward s hwf o).2.2.2.1 hl2).2.1 hoK
  have hoQ : o ∉ keysOf s.projectors :=
    fun hq2 => ((storeWF_forward s hwf o).2.2.2.2.1 hq2).1 hoK
  have hone : o ≠ P := fun he => hoP (he ▸ hPk)
  have h6 := platStage6_facts s P hnd.2.2.1 hnd.2.2.2.2.1
  have hMid := platStageMid_facts s P hnd.2.2.1 hnd.2.2.2.2.1
  have hT := flushCommonTail_all_entities (platStage6 s P) P
  have hTf := flushCommonTail_all_frame (platStage6 s P) P o hone
  have hxb : o ∉ beamIdListForHost s P :=
    fun hm => hoB ((beamIdListForHost_sublist_keys s P).subset hm)
  have hxl : o ∉ laserIdListForHost s P :=
    fun hm => hoL ((laserIdListForHost_sublist_keys s P).subset hm)
  have hxq : o ∉ projectorIdListForHost (platStage4 s P) P :=
    not_mem_projList4 s P o hnd.2.2.1 hnd.2.2.2.2.1 hoQ
  have hxc : o ∉ customRenderingIdListForHost s P :=
    fun hm => hoC ((customRenderingIdListForHost_sublist_keys s P).subset hm)
  have hcg : ∀ e : GateEntry, findA s.gates o = some e →
      hostidVal e.properties.hostid ∉ beamIdListForHost s P := fun e hf =>
    Option.noConfusion (((findA_eq_none_iff s.gates o).mpr hoG).symm.trans hf)
  have hcq : ∀ e : ProjectorEntry, findA s.projectors o = some e →
      hostidVal e.properties.hostid ∉ beamIdListForHost s P := fun e hf =>
    Option.noConfusion
      (((findA_eq_none_iff s.projectors o).mpr hoQ).symm.trans hf)
  have hsh3 := platStage3_shared s P o hnd.2.2.1 hnd.2.2.2.2.1 hxb hcg hcq hxl
  have hfrom4 := platStage6_shared_from4 s P o hxq hxc
  obtain ⟨e0, hmem0, -⟩ := mem_lobGroupIdListForHost.mp ho
  have he0 : findA s.lobGroups o = some e0 :=
    findA_eq_some_of_mem hnd.2.2.2.2.2.1 hmem0
  obtain ⟨hu0, hc0⟩ := htw.2.2.2.2.2.1 (o, e0) hmem0
  have hndoids : (lobGroupIdListForHost s P).Nodup :=
    List.Nodup.sublist (lobGroupIdListForHost_sublist_keys s P) hnd.2.2.2.2.2.1
  have hf3o : findA (platStage3 s P).lobGroups o = some e0 := by
    rw [hMid.2.1]; exact he0
  have hfl := lobFold_flushes (lobGroupIdListForHost s P) (platStage3 s P)
    hndoids ho hf3o hu0 hc0
  rw [← platStage4_eq s P] at hfl
  obtain ⟨e2, hf4, hp2, hpr2, hu2, hc2⟩ := hfl
  have hshf := lobFold_shared_flushes (lobGroupIdListForHost s P)
    (platStage3 s P) hndoids ho
  rw [← platStage4_eq s P] at hshf
  obtain ⟨hc1, hg1, ht1⟩ := hshf
  refine ⟨?_, ?_, ?_, ?_, ?_, ?_, ?_, ?_, ?_, ?_⟩
  · intro e hf
    exact Option.noConfusion
      (((findA_eq_none_iff s.platforms o).mpr hoP).symm.trans hf)
  · intro e hf
    exact Option.noConfusion
      (((findA_eq_none_iff s.beams o).mpr hoB).symm.trans hf)
  · intro e hf
    exact Option.noConfusion
      (((findA_eq_none_iff s.gates o).mpr hoG).symm.trans hf)
  · intro e hf
    exact Option.noConfusion
      (((findA_eq_none_iff s.lasers o).mpr hoL).symm.trans hf)
  · intro e hf
    exact Option.noConfusion
      (((findA_eq_none_iff s.projectors o).mpr hoQ).symm.trans hf)
  · intro e hf
    have heq : e0 = e := Option.some.inj (he0.symm.trans hf)
    subst heq
    exact ⟨e2,
      (congrArg (fun l2 => findA l2 o)
        (hT.2.2.2.2.2.1.trans h6.2.2.2.2.1)).trans hf4,
      hp2, hpr2, hu2, hc2⟩
  · intro e hf
    exact Option.noConfusion
      (((findA_eq_none_iff s.customRenderings o).mpr hoC).symm.trans hf)
  · intro sl hf
    have hwfc : catTimesWF sl :=
      htw.2.2.2.2.2.2.2 (o, sl) (mem_of_findA_eq_some hf)
    obtain ⟨sl2, hf4, hd4⟩ := hc1 sl (hsh3.1.trans hf) hwfc
    exact ⟨sl2, (hTf.1.trans hfrom4.1).trans hf4, hd4⟩
  · intro sl hf
    obtain ⟨sl2, hf4, hd4⟩ := hg1 sl (hsh3.2.1.trans hf)
    exact ⟨sl2, (hTf.2.1.trans hfrom4.2.1).trans hf4, hd4⟩
  · intro tl hf
    obtain ⟨tl2, hf4, hd4⟩ := ht1 tl (hsh3.2.2.trans hf)
    exact ⟨tl2, (hTf.2.2.trans hfrom4.2.2).trans hf4, hd4⟩

/-- A custom rendering hosted on the flushed platform: entry and shared
maps flushed during the stage-6 fold. -/
theorem platFlush_cr (s : MemoryDataStore) (P c : ObjectId)
    (hwf : StoreWF s) (htw : storeTimesWF s)
    (hP : (findA s.platforms P).isSome = true)
    (hc : c ∈ customRenderingIdListForHost s P) :
    entityFlushedAt s (flushCommonTail (platStage6 s P) P FLUSH_ALL (-1)
      dblMax) c := by
  have hnd := storeWF_nodups s hwf
  have hPk : P ∈ keysOf s.platforms := (findA_isSome_iff _ _).mp hP
  have hcK : c ∈ keysOf s.customRenderings :=
    (customRenderingIdListForHost_sublist_keys s P).subset hc
  have hcP : c ∉ keysOf s.platforms :=
    fun hp => ((storeWF_forward s hwf c).1 hp).2.2.2.2.2 hcK
  have hcB : c ∉ keysOf s.beams :=
    fun hb2 => ((storeWF_forward s hwf c).2.1 hb2).2.2.2.2 hcK
  have hcG : c ∉ keysOf s.gates :=
    fun hg2 => ((storeWF_forward s hwf c).2.2.1 hg2).2.2.2 hcK
  have hcL : c ∉ keysOf s.lasers :=
    fun hl2 => ((storeWF_forward s hwf c).2.2.2.1 hl2).2.2 hcK
  have hcQ : c ∉ keysOf s.projectors :=
    fun hq2 => ((storeWF_forward s hwf c).2.2.2.2.1 hq2).2 hcK
  have hcO : c ∉ keysOf s.lobGroups :=
    fun ho2 => (storeWF_forward s hwf c).2.2.2.2.2 ho2 hcK
  have hcne : c ≠ P := fun he => hcP (he ▸ hPk)
  have h6 := platStage6_facts s P hnd.2.2.1 hnd.2.2.2.2.1
  have hMid := platStageMid_facts s P hnd.2.2.1 hnd.2.2.2.2.1
  have hT := flushCommonTail_all_entities (platStage6 s P) P
  have hTf := flushCommonTail_all_frame (platStage6 s P) P c hcne
  have hxb : c ∉ beamIdListForHost s P :=
    fun hm => hcB ((beamIdListForHost_sublist_keys s P).subset hm)
  have hxl : c ∉ laserIdListForHost s P :=
    fun hm => hcL ((laserIdListForHost_sublist_keys s P).subset hm)
  have hxo : c ∉ lobGroupIdListForHost s P :=
    fun hm => hcO ((lobGroupIdListForHost_sublist_keys s P).subset hm)
  have hxq : c ∉ projectorIdListForHost (platStage4 s P) P :=
    not_mem_projList4 s P c hnd.2.2.1 hnd.2.2.2.2.1 hcQ
  have hcg : ∀ e : GateEntry, findA s.gates c = some e →
      hostidVal e.properties.hostid ∉ beamIdListForHost s P := fun e hf =>
    Option.noConfusion (((findA_eq_none_iff s.gates c).mpr hcG).symm.trans hf)
  have hcq : ∀ e : ProjectorEntry, findA s.projectors c = some e →
      hostidVal e.properties.hostid ∉ beamIdListForHost s P := fun e hf =>
    Option.noConfusion
      (((findA_eq_none_iff s.projectors c).mpr hcQ).symm.trans hf)
  have hsh5 := platStage5_shared s P c hnd.2.2.1 hnd.2.2.2.2.1 hxb hcg hcq hxl
    hxo hxq
  obtain ⟨e0, hmem0, -⟩ := mem_customRenderingIdListForHost.mp hc
  have he0 : findA s.customRenderings c = some e0 :=
    findA_eq_some_of_mem hnd.2.2.2.2.2.2 hmem0
  obtain ⟨hu0, hc0⟩ := htw.2.2.2.2.2.2.1 (c, e0) hmem0
  have hndcids : (customRenderingIdListForHost s P).Nodup :=
    List.Nodup.sublist (customRenderingIdListForHost_sublist_keys s P)
      hnd.2.2.2.2.2.2
  have hf5c : findA (platStage5 s P).customRenderings c = some e0 := by
    rw [hMid.2.2]; exact he0
  have hfl := crFold_flushes (customRenderingIdListForHost s P)
    (platStage5 s P) hndcids hc hf5c hu0 hc0
  rw [← platStage6_eq s P] at hfl
  obtain ⟨e2, hf6, hp2, hpr2, hu2, hc2⟩ := hfl
  have hshf := crFold_shared_flushes (customRenderingIdListForHost s P)
    (platStage5 s P) hndcids hc
  rw [← platStage6_eq s P] at hshf
  obtain ⟨hc1, hg1, ht1⟩ := hshf
  refine ⟨?_, ?_, ?_, ?_, ?_, ?_, ?_, ?_, ?_, ?_⟩
  · intro e hf
    exact Option.noConfusion
      (((findA_eq_none_iff s.platforms c).mpr hcP).symm.trans hf)
  · intro e hf
    exact Option.noConfusion
      (((findA_eq_none_iff s.beams c).mpr hcB).symm.trans hf)
  · intro e hf
    exact Option.noConfusion
      (((findA_eq_none_iff s.gates c).mpr hcG).symm.trans hf)
  · intro e hf
    exact Option.noConfusion
      (((findA_eq_none_iff s.lasers c).mpr hcL).symm.trans hf)
  · intro e hf
    exact Option.noConfusion
      (((findA_eq_none_iff s.projectors c).mpr hcQ).symm.trans hf)
  · intro e hf
    exact Option.noConfusion
      (((findA_eq_none_iff s.lobGroups c).mpr hcO).symm.trans hf)
  · intro e hf
    have heq : e0 = e := Option.some.inj (he0.symm.trans hf)
    subst heq
    exact ⟨e2, (congrArg (fun l2 => findA l2 c) hT.2.2.2.2.2.2).trans hf6,
      hp2, hpr2, hu2, hc2⟩
  · intro sl hf
    have hwfc : catTimesWF sl :=
      htw.2.2.2.2.2.2.2 (c, sl) (mem_of_findA_eq_some hf)
    obtain ⟨sl2, hf4, hd4⟩ := hc1 sl (hsh5.1.trans hf) hwfc
    exact ⟨sl2, hTf.1.trans hf4, hd4⟩
  · intro sl hf
    obtain ⟨sl2, hf4, hd4⟩ := hg1 sl (hsh5.2.1.trans hf)
    exact ⟨sl2, hTf.2.1.trans hf4, hd4⟩
  · intro tl hf
    obtain ⟨tl2, hf4, hd4⟩ := ht1 tl (hsh5.2.2.trans hf)
    exact ⟨tl2, hTf.2.2.trans hf4, hd4⟩

/-- A projector hosted directly on the flushed platform: its entry
survives the beam fold (its host is no beam), is flushed during the
stage-5 projector fold — whose id list is computed on the stage-4 store,
as in the source — and is preserved afterwards. -/
theorem platFlush_proj (s : MemoryDataStore) (P q : ObjectId)
    (hwf : StoreWF s) (htw : storeTimesWF s)
    (hP : (findA s.platforms P).isSome = true)
    (hq : q ∈ projectorIdListForHost s P) :
    entityFlushedAt s (flushCommonTail (platStage6 s P) P FLUSH_ALL (-1)
      dblMax) q := by
  have hnd := storeWF_nodups s hwf
  have hPk : P ∈ keysOf s.platforms := (findA_isSome_iff _ _).mp hP
  have hqK : q ∈ keysOf s.projectors :=
    (projectorIdListForHost_sublist_keys s P).subset hq
  have hfwq := (storeWF_forward s hwf q).2.2.2.2.1 hqK
  have hqP : q ∉ keysOf s.platforms :=
    fun hp => ((storeWF_forward s hwf q).1 hp).2.2.2.1 hqK
  have hqB : q ∉ keysOf s.beams :=
    fun hb2 => ((storeWF_forward s hwf q).2.1 hb2).2.2.1 hqK
  have hqG : q ∉ keysOf s.gates :=
    fun hg2 => ((storeWF_forward s hwf q).2.2.1 hg2).2.1 hqK
  have hqL : q ∉ keysOf s.lasers :=
    fun hl2 => ((storeWF_forward s hwf q).2.2.2.1 hl2).1 hqK
  have hqne : q ≠ P := fun he => hqP (he ▸ hPk)
  have hPb : P ∉ beamIdListForHost s P :=
    fun hm => ((storeWF_forward s hwf P).1 hPk).1
      ((beamIdListForHost_sublist_keys s P).subset hm)
  have h6 := platStage6_facts s P hnd.2.2.1 hnd.2.2.2.2.1
  have h2f := platStage2_facts s P hnd.2.2.1 hnd.2.2.2.2.1
  have hT := flushCommonTail_all_entities (platStage6 s P) P
  have hTf := flushCommonTail_all_frame (platStage6 s P) P q hqne
  have hxb : q ∉ beamIdListForHost s P :=
    fun hm => hqB ((beamIdListForHost_sublist_keys s P).subset hm)
  have hxl : q ∉ laserIdListForHost s P :=
    fun hm => hqL ((laserIdListForHost_sublist_keys s P).subset hm)
  have hxo : q ∉ lobGroupIdListForHost s P :=
    fun hm => hfwq.1 ((lobGroupIdListForHost_sublist_keys s P).subset hm)
  have hxc : q ∉ customRenderingIdListForHost s P :=
    fun hm => hfwq.2 ((customRenderingIdListForHost_sublist_keys s P).subset hm)
  obtain ⟨e0, hmem0, hh0⟩ := mem_projectorIdListForHost.mp hq
  have he0 : findA s.projectors q = some e0 :=
    findA_eq_some_of_mem hnd.2.2.2.2.1 hmem0
  obtain ⟨hu0, hc0⟩ := htw.2.2.2.2.1 (q, e0) hmem0
  have hcg : ∀ e : GateEntry, findA s.gates q = some e →
      hostidVal e.properties.hostid ∉ beamIdListForHost s P := fun e hf =>
    Option.noConfusion (((findA_eq_none_iff s.gates q).mpr hqG).symm.trans hf)
  have hcq : ∀ e : ProjectorEntry, findA s.projectors q = some e →
      hostidVal e.properties.hostid ∉ beamIdListForHost s P := by
    intro e hf
    rw [← Option.some.inj (he0.symm.trans hf), hh0]
    exact hPb
  have hsh4 := platStage4_shared s P q hnd.2.2.1 hnd.2.2.2.2.1 hxb hcg hcq hxl hxo
  have hfrom5 := platStage6_shared_from5 s P q hxc
  have hf2 : findA (platStage2 s P).projectors q = some e0 :=
    h2f.2.2.2.1 q e0 he0 (by rw [hh0]; exact hPb)
  have hf4 : findA (platStage4 s P).projectors q = some e0 := by
    rw [h6.2.2.2.2.2.2.1]; exact hf2
  have hq4 : q ∈ projectorIdListForHost (platStage4 s P) P :=
    mem_projectorIdListForHost.mpr ⟨e0, mem_of_findA_eq_some hf4, hh0⟩
  have hndq4 : (projectorIdListForHost (platStage4 s P) P).Nodup :=
    List.Nodup.sublist (projectorIdListForHost_sublist_keys (platStage4 s P) P)
      (by rw [h6.2.2.2.2.2.2.2]; exact hnd.2.2.2.2.1)
  have hfl := projFold_flushes (projectorIdListForHost (platStage4 s P) P)
    (platStage4 s P) hndq4 hq4 hf4 hu0 hc0
  rw [← platStage5_eq s P] at hfl
  obtain ⟨e2, hf5, hp2, hpr2, hu2, hc2⟩ := hfl
  have hshf := projFold_shared_flushes (projectorIdListForHost (platStage4 s P) P)
    (platStage4 s P) hndq4 hq4
  rw [← platStage5_eq s P] at hshf
  obtain ⟨hc1, hg1, ht1⟩ := hshf
  refine ⟨?_, ?_, ?_, ?_, ?_, ?_, ?_, ?_, ?_, ?_⟩
  · intro e hf
    exact Option.noConfusion
      (((findA_eq_none_iff s.platforms q).mpr hqP).symm.trans hf)
  · intro e hf
    exact Option.noConfusion
      (((findA_eq_none_iff s.beams q).mpr hqB).symm.trans hf)
  · intro e hf
    exact Option.noConfusion
      (((findA_eq_none_iff s.gates q).mpr hqG).symm.trans hf)
  · intro e hf
    exact Option.noConfusion
      (((findA_eq_none_iff s.lasers q).mpr hqL).symm.trans hf)
  · intro e hf
    have heq : e0 = e := Option.some.inj (he0.symm.trans hf)
    subst heq
    exact ⟨e2,
      (congrArg (fun l2 => findA l2 q)
        (hT.2.2.2.2.1.trans h6.2.2.2.2.2.1)).trans hf5,
      hp2, hpr2, hu2, hc2⟩
  · intro e hf
    exact Option.noConfusion
      (((findA_eq_none_iff s.lobGroups q).mpr hfwq.1).symm.trans hf)
  · intro e hf
    exact Option.noConfusion
      (((findA_eq_none_iff s.customRenderings q).mpr hfwq.2).symm.trans hf)
  · intro sl hf
    have hwfc : catTimesWF sl :=
      htw.2.2.2.2.2.2.2 (q, sl) (mem_of_findA_eq_some hf)
    obtain ⟨sl2, hf4s, hd4⟩ := hc1 sl (hsh4.1.trans hf) hwfc
    exact ⟨sl2, (hTf.1.trans hfrom5.1).trans hf4s, hd4⟩
  · intro sl hf
    obtain ⟨sl2, hf4s, hd4⟩ := hg1 sl (hsh4.2.1.trans hf)
    exact ⟨sl2, (hTf.2.1.trans hfrom5.2.1).trans hf4s, hd4⟩
  · intro tl hf
    obtain ⟨tl2, hf4s, hd4⟩ := ht1 tl (hsh4.2.2.trans hf)
    exact ⟨tl2, (hTf.2.2.trans hfrom5.2.2).trans hf4s, hd4⟩

/-- A gate hosted on a beam of the flushed platform: flushed during the
stage-2 beam fold (at its host beam's recursive step) and preserved
afterwards. -/
theorem platFlush_beamGate (s : MemoryDataStore) (P b g : ObjectId)
    (hwf : StoreWF s) (htw : storeTimesWF s)
    (hP : (findA s.platforms P).isSome = true)
    (hbm : b ∈ beamIdListForHost s P)
    (hg : g ∈ gateIdListForHost s b) :
    entityFlushedAt s (flushCommonTail (platStage6 s P) P FLUSH_ALL (-1)
      dblMax) g := by
  have hnd := storeWF_nodups s hwf
  have hPk : P ∈ keysOf s.platforms := (findA_isSome_iff _ _).mp hP
  have hbK : b ∈ keysOf s.beams :=
    (beamIdListForHost_sublist_keys s P).subset hbm
  have hgK : g ∈ keysOf s.gates := (gateIdListForHost_sublist_keys s b).subset hg
  have hfwg := (storeWF_forward s hwf g).2.2.1 hgK
  have hgP : g ∉ keysOf s.platforms :=
    fun hp => ((storeWF_forward s hwf g).1 hp).2.1 hgK
  have hgB : g ∉ keysOf s.beams :=
    fun hb2 => ((storeWF_forward s hwf g).2.1 hb2).1 hgK
  have hgne : g ≠ P := fun he => hgP (he ▸ hPk)
  have h6 := platStage6_facts s P hnd.2.2.1 hnd.2.2.2.2.1
  have hT := flushCommonTail_all_entities (platStage6 s P) P
  have hTf := flushCommonTail_all_frame (platStage6 s P) P g hgne
  have h1 := flushPlatformData_parts s P
  rw [← platStage1_eq s P] at h1
  have hndG1 : (keysOf (platStage1 s P).gates).Nodup := by
    rw [h1.2.1]; exact hnd.2.2.1
  have hndQ1 : (keysOf (platStage1 s P).projectors).Nodup := by
    rw [h1.2.2.2.1]; exact hnd.2.2.2.2.1
  have hndbids : (beamIdListForHost s P).Nodup :=
    List.Nodup.sublist (beamIdListForHost_sublist_keys s P) hnd.2.1
  have hxl : g ∉ laserIdListForHost s P :=
    fun hm => hfwg.1 ((laserIdListForHost_sublist_keys s P).subset hm)
  have hxo : g ∉ lobGroupIdListForHost s P :=
    fun hm => hfwg.2.2.1 ((lobGroupIdListForHost_sublist_keys s P).subset hm)
  have hxq : g ∉ projectorIdListForHost (platStage4 s P) P :=
    not_mem_projList4 s P g hnd.2.2.1 hnd.2.2.2.2.1 hfwg.2.1
  have hxc : g ∉ customRenderingIdListForHost s P :=
    fun hm => hfwg.2.2.2
      ((customRenderingIdListForHost_sublist_keys s P).subset hm)
  have hfrom2 := platStage6_shared_from2 s P g hxl hxo hxq hxc
  obtain ⟨e0, hmem0, hh0⟩ := mem_gateIdListForHost.mp hg
  have he0 : findA s.gates g = some e0 := findA_eq_some_of_mem hnd.2.2.1 hmem0
  obtain ⟨hu0, hc0⟩ := htw.2.2.1 (g, e0) hmem0
  have hf1 : findA (platStage1 s P).gates g = some e0 := by
    rw [h1.2.1]; exact he0
  have hgids : g ∉ beamIdListForHost s P :=
    fun hm => hgB ((beamIdListForHost_sublist_keys s P).subset hm)
  have hgb : g ≠ b := fun he => hgB (he ▸ hbK)
  have hgQ1 : g ∉ keysOf (platStage1 s P).projectors := by
    rw [h1.2.2.2.1]; exact hfwg.2.1
  have hfl := beamFold_gate_flushes (beamIdListForHost s P) (platStage1 s P)
    hndG1 hndQ1 hndbids hbm hgids hf1 hh0 hgb hgQ1 hu0 hc0
  rw [← platStage2_eq s P] at hfl
  obtain ⟨⟨e2, hf2, hp2, hpr2, hu2, hc2⟩, hflc, hflg, hflt⟩ := hfl
  refine ⟨?_, ?_, ?_, ?_, ?_, ?_, ?_, ?_, ?_, ?_⟩
  · intro e hf
    exact Option.noConfusion
      (((findA_eq_none_iff s.platforms g).mpr hgP).symm.trans hf)
  · intro e hf
    exact Option.noConfusion
      (((findA_eq_none_iff s.beams g).mpr hgB).symm.trans hf)
  · intro e hf
    have heq : e0 = e := Option.some.inj (he0.symm.trans hf)
    subst heq
    exact ⟨e2, (congrArg (fun l2 => findA l2 g) (hT.2.2.1.trans h6.2.2.1)).trans
      hf2, hp2, hpr2, hu2, hc2⟩
  · intro e hf
    exact Option.noConfusion
      (((findA_eq_none_iff s.lasers g).mpr hfwg.1).symm.trans hf)
  · intro e hf
    exact Option.noConfusion
      (((findA_eq_none_iff s.projectors g).mpr hfwg.2.1).symm.trans hf)
  · intro e hf
    exact Option.noConfusion
      (((findA_eq_none_iff s.lobGroups g).mpr hfwg.2.2.1).symm.trans hf)
  · intro e hf
    exact Option.noConfusion
      (((findA_eq_none_iff s.customRenderings g).mpr hfwg.2.2.2).symm.trans hf)
  · intro sl hf
    have hwfc : catTimesWF sl :=
      htw.2.2.2.2.2.2.2 (g, sl) (mem_of_findA_eq_some hf)
    have hf1c : findA (platStage1 s P).categoryData g = some sl := by
      rw [h1.2.2.2.2.2.2.1]; exact hf
    obtain ⟨sl2, hf3, hd3⟩ := hflc sl hf1c hwfc
    exact ⟨sl2, (hTf.1.trans hfrom2.1).trans hf3, hd3⟩
  · intro sl hf
    have hf1g : findA (platStage1 s P).genericData g = some sl := by
      rw [h1.2.2.2.2.2.2.2.1]; exact hf
    obtain ⟨sl2, hf3, hd3⟩ := hflg sl hf1g
    exact ⟨sl2, (hTf.2.1.trans hfrom2.2.1).trans hf3, hd3⟩
  · intro tl hf
    have hf1t : findA (platStage1 s P).dataTables g = some tl := by
      rw [h1.2.2.2.2.2.2.2.2.1]; exact hf
    obtain ⟨tl2, hf3, hd3⟩ := hflt tl hf1t
    exact ⟨tl2, (hTf.2.2.trans hfrom2.2.2).trans hf3, hd3⟩

/-- A projector hosted on a beam of the flushed platform: flushed during
the stage-2 beam fold; its flushed entry still names the beam as host, so
the stage-5 projector fold (computed on the stage-4 store) skips it, and
it is preserved to the end. -/
theorem platFlush_beamProj (s : MemoryDataStore) (P b q : ObjectId)
    (hwf : StoreWF s) (htw : storeTimesWF s)
    (hP : (findA s.platforms P).isSome = true)
    (hbm : b ∈ beamIdListForHost s P)
    (hq : q ∈ projectorIdListForHost s b) :
    entityFlushedAt s (flushCommonTail (platStage6 s P) P FLUSH_ALL (-1)
      dblMax) q := by
  have hnd := storeWF_nodups s hwf
  have hPk : P ∈ keysOf s.platforms := (findA_isSome_iff _ _).mp hP
  have hbK : b ∈ keysOf s.beams :=
    (beamIdListForHost_sublist_keys s P).subset hbm
  have hqK : q ∈ keysOf s.projectors :=
    (projectorIdListForHost_sublist_keys s b).subset hq
  have hfwq := (storeWF_forward s hwf q).2.2.2.2.1 hqK
  have hqP : q ∉ keysOf s.platforms :=
    fun hp => ((storeWF_forward s hwf q).1 hp).2.2.2.1 hqK
  have hqB : q ∉ keysOf s.beams :=
    fun hb2 => ((storeWF_forward s hwf q).2.1 hb2).2.2.1 hqK
  have hqG : q ∉ keysOf s.gates :=
    fun hg2 => ((storeWF_forward s hwf q).2.2.1 hg2).2.1 hqK
  have hqL : q ∉ keysOf s.lasers :=
    fun hl2 => ((storeWF_forward s hwf q).2.2.2.1 hl2).1 hqK
  have hqne : q ≠ P := fun he => hqP (he ▸ hPk)
  have hbne : b ≠ P :=
    fun he => ((storeWF_forward s hwf P).1 hPk).1 (he ▸ hbK)
  have h6 := platStage6_facts s P hnd.2.2.1 hnd.2.2.2.2.1
  have hT := flushCommonTail_all_entities (platStage6 s P) P
  have hTf := flushCommonTail_all_frame (platStage6 s P) P q hqne
  have h1 := flushPlatformData_parts s P
  rw [← platStage1_eq s P] at h1
  have hndG1 : (keysOf (platStage1 s P).gates).Nodup := by
    rw [h1.2.1]; exact hnd.2.2.1
  have hndQ1 : (keysOf (platStage1 s P).projectors).Nodup := by
    rw [h1.2.2.2.1]; exact hnd.2.2.2.2.1
  have hndbids : (beamIdListForHost s P).Nodup :=
    List.Nodup.sublist (beamIdListForHost_sublist_keys s P) hnd.2.1
  obtain ⟨e0, hmem0, hh0⟩ := mem_projectorIdListForHost.mp hq
  have he0 : findA s.projectors q = some e0 :=
    findA_eq_some_of_mem hnd.2.2.2.2.1 hmem0
  obtain ⟨hu0, hc0⟩ := htw.2.2.2.2.1 (q, e0) hmem0
  have hf1 : findA (platStage1 s P).projectors q = some e0 := by
    rw [h1.2.2.2.1]; exact he0
  have hqids : q ∉ beamIdListForHost s P :=
    fun hm => hqB ((beamIdListForHost_sublist_keys s P).subset hm)
  have hqb : q ≠ b := fun he => hqB (he ▸ hbK)
  have hqG1 : q ∉ keysOf (platStage1 s P).gates := by
    rw [h1.2.1]; exact hqG
  have hfl := beamFold_proj_flushes (beamIdListForHost s P) (platStage1 s P)
    hndG1 hndQ1 hndbids hbm hqids hf1 hh0 hqb hqG1 hu0 hc0
  rw [← platStage2_eq s P] at hfl
  obtain ⟨⟨e2, hf2, hp2, hpr2, hu2, hc2⟩, hflc, hflg, hflt⟩ := hfl
  have hndq4keys : (keysOf (platStage4 s P).projectors).Nodup := by
    rw [h6.2.2.2.2.2.2.2]; exact hnd.2.2.2.2.1
  have hf4 : findA (platStage4 s P).projectors q = some e2 := by
    rw [h6.2.2.2.2.2.2.1]; exact hf2
  have hxq : q ∉ projectorIdListForHost (platStage4 s P) P := by
    intro hm
    obtain ⟨e3, hmem3, hh3⟩ := mem_projectorIdListForHost.mp hm
    have hf4b : findA (platStage4 s P).projectors q = some e3 :=
      findA_eq_some_of_mem hndq4keys hmem3
    have heq2 : e2 = e3 := Option.some.inj (hf4.symm.trans hf4b)
    have hhb : hostidVal e2.properties.hostid = b := by
      rw [hp2]; exact hh0
    rw [← heq2] at hh3
    exact hbne (hhb.symm.trans hh3)
  have hxl : q ∉ laserIdListForHost s P :=
    fun hm => hqL ((laserIdListForHost_sublist_keys s P).subset hm)
  have hxo : q ∉ lobGroupIdListForHost s P :=
    fun hm => hfwq.1 ((lobGroupIdListForHost_sublist_keys s P).subset hm)
  have hxc : q ∉ customRenderingIdListForHost s P :=
    fun hm => hfwq.2 ((customRenderingIdListForHost_sublist_keys s P).subset hm)
  have hfrom2 := platStage6_shared_from2 s P q hxl hxo hxq hxc
  have h5 := projFold_frame (projectorIdListForHost (platStage4 s P) P)
    (platStage4 s P)
  rw [← platStage5_eq s P] at h5
  refine ⟨?_, ?_, ?_, ?_, ?_, ?_, ?_, ?_, ?_, ?_⟩
  · intro e hf
    exact Option.noConfusion
      (((findA_eq_none_iff s.platforms q).mpr hqP).symm.trans hf)
  · intro e hf
    exact Option.noConfusion
      (((findA_eq_none_iff s.beams q).mpr hqB).symm.trans hf)
  · intro e hf
    exact Option.noConfusion
      (((findA_eq_none_iff s.gates q).mpr hqG).symm.trans hf)
  · intro e hf
    exact Option.noConfusion
      (((findA_eq_none_iff s.lasers q).mpr hqL).symm.trans hf)
  · intro e hf
    have heq : e0 = e := Option.some.inj (he0.symm.trans hf)
    subst heq
    exact ⟨e2,
      (congrArg (fun l2 => findA l2 q)
        (hT.2.2.2.2.1.trans h6.2.2.2.2.2.1)).trans (((h5.2 q hxq).1).trans hf4),
      hp2, hpr2, hu2, hc2⟩
  · intro e hf
    exact Option.noConfusion
      (((findA_eq_none_iff s.lobGroups q).mpr hfwq.1).symm.trans hf)
  · intro e hf
    exact Option.noConfusion
      (((findA_eq_none_iff s.customRenderings q).mpr hfwq.2).symm.trans hf)
  · intro sl hf
    have hwfc : catTimesWF sl :=
      htw.2.2.2.2.2.2.2 (q, sl) (mem_of_findA_eq_some hf)
    have hf1c : findA (platStage1 s P).categoryData q = some sl := by
      rw [h1.2.2.2.2.2.2.1]; exact hf
    obtain ⟨sl2, hf3, hd3⟩ := hflc sl hf1c hwfc
    exact ⟨sl2, (hTf.1.trans hfrom2.1).trans hf3, hd3⟩
  · intro sl hf
    have hf1g : findA (platStage1 s P).genericData q = some sl := by
      rw [h1.2.2.2.2.2.2.2.1]; exact hf
    obtain ⟨sl2, hf3, hd3⟩ := hflg sl hf1g
    exact ⟨sl2, (hTf.2.1.trans hfrom2.2.1).trans hf3, hd3⟩
  · intro tl hf
    have hf1t : findA (platStage1 s P).dataTables q = some tl := by
      rw [h1.2.2.2.2.2.2.2.2.1]; exact hf
    obtain ⟨tl2, hf3, hd3⟩ := hflt tl hf1t
    exact ⟨tl2, (hTf.2.2.trans hfrom2.2.2).trans hf3, hd3⟩

/-- C7: for a platform `P` present in a store whose ids are globally
unique and whose stored times lie in the `[-1, DBL_MAX)` window erased by
`FLUSH_ALL`, `flush(P, FLUSH_RECURSIVE, FLUSH_ALL)` returns success (0);
the properties/preferences projection of every container entry is
byte-identical to before and `objectType` is unchanged for every id
(flushing never removes an entity); and every entity removed-with-`P` by
`removeEntity` — `P` itself, its hosted beams, lasers, projectors, LOB
groups and custom renderings, and the gates/projectors hosted on those
beams — has its updates, commands, category data, generic data and data
tables erased while its entry survives with identical properties and
preferences. -/
theorem flush_platform_recursive_all (s : MemoryDataStore) (P : ObjectId)
    (hwf : StoreWF s) (htw : storeTimesWF s) (hP0 : ¬(P = 0))
    (hP : (findA s.platforms P).isSome = true) :
    (flushStore s P .recursive FLUSH_ALL).2.2 = 0 ∧
    ppEq (flushStore s P .recursive FLUSH_ALL).1 s ∧
    (∀ x, objectType (flushStore s P .recursive FLUSH_ALL).1 x =
      objectType s x) ∧
    ∀ r, removedBy s P r →
      entityFlushedAt s (flushStore s P .recursive FLUSH_ALL).1 r := by
  have hnd := storeWF_nodups s hwf
  have hty : objectType s P = .platform := by rw [objectType, if_pos hP]
  have hne : ¬(objectType s P = .none) := by
    rw [hty]
    exact fun h => ObjectType.noConfusion h
  have hfs := flushStore_nonzero s P .recursive FLUSH_ALL hP0 hne
  have hres1 : (flushStore s P .recursive FLUSH_ALL).1 =
      flushedResult s P .recursive FLUSH_ALL := by rw [hfs]
  have hfr : flushedResult s P .recursive FLUSH_ALL =
      { flushEntityPlatform s P .recursive FLUSH_ALL (-1) dblMax with
          hasChanged := true } := by
    rw [flushedResult_eq, hty, flushStart_all, flushEntity_platform_eq]
  have hpp : ppEq (flushStore s P .recursive FLUSH_ALL).1 s := by
    rw [hres1, hfr]
    exact ppEq_trans (ppEq_hasChanged_set _) (platformStep_pp s P)
  refine ⟨by rw [hfs], hpp, fun x => objectType_eq_of_ppEq hpp x,
    fun r hr => ?_⟩
  rw [hres1, hfr]
  refine entityFlushedAt_hasChanged ?_
  rw [platformStep_eq2 s P hnd.2.2.1 hnd.2.2.2.2.1]
  rcases removedBy_cases s P r hr with heq | h | h | h | h | h | ⟨b, hbm, h⟩
  · rw [heq]
    exact platFlush_self s P hwf htw hP
  · exact platFlush_beam s P r hwf htw hP h
  · exact platFlush_laser s P r hwf htw hP h
  · exact platFlush_proj s P r hwf htw hP h
  · exact platFlush_lob s P r hwf htw hP h
  · exact platFlush_cr s P r hwf htw hP h
  · rw [beamChildIds, List.mem_append] at h
    rcases h with h | h
    · exact platFlush_beamGate s P b r hwf htw hP hbm h
    · exact platFlush_beamProj s P b r hwf htw hP hbm h

/-- Gate 3 of the C7 witness store, hosted on beam 2, with one update
sample. -/
def wGateOn2C7 : GateEntry :=
  { properties := { id := 3, originalid := 0, hostid := some 2,
                    type := .absolutePosition },
    preferences := { commonprefs := defaultCommon, interpolategatepos := false },
    updates := { data := [{ (default : GateUpdate) with time := 4 }],
                 current := none, currentInterp := default, changed := false },
    commands := emptyCommands }

/-- C7 witness store: platform 1 hosting beam 2 which hosts gate 3, with
update samples, category data, generic data and a data table. -/
def wStoreC7 : MemoryDataStore :=
  { emptyStore with
      platforms := [(1, wPlatform)], beams := [(2, wTargetBeam)],
      gates := [(3, wGateOn2C7)],
      categoryData := [(1, { data := [(2, 4)], updateTime := 0 }),
                       (3, { data := [(0, 7)], updateTime := 0 })],
      genericData := [(3, { data := [(1, 9)], updateTime := 0 })],
      dataTables := [(1, [{ rows := [1, 2] }])] }

/-- Small rationals are below the flush window's upper bound. -/
theorem lt_dblMax_of_le_ten {t : Rat} (h : t ≤ 10) : t < dblMax := by
  refine lt_of_le_of_lt h ?_
  rw [dblMax]
  norm_num

/-- The C7 witness store's times all lie in the `[-1, DBL_MAX)` window. -/
theorem storeTimesWF_wStoreC7 : storeTimesWF wStoreC7 := by
  refine ⟨?_, ?_, ?_, ?_, ?_, ?_, ?_, ?_⟩
  · intro p hp
    rcases List.mem_singleton.mp hp with rfl
    exact ⟨fun a ha => by
        rcases List.mem_singleton.mp ha with rfl
        exact ⟨show (-1 : Rat) ≤ 5 by norm_num,
          lt_dblMax_of_le_ten (show (5 : Rat) ≤ 10 by norm_num)⟩,
      fun a ha => absurd ha (List.not_mem_nil a)⟩
  · intro p hp
    rcases List.mem_singleton.mp hp with rfl
    exact ⟨fun a ha => absurd ha (List.not_mem_nil a),
      fun a ha => absurd ha (List.not_mem_nil a)⟩
  · intro p hp
    rcases List.mem_singleton.mp hp with rfl
    exact ⟨fun a ha => by
        rcases List.mem_singleton.mp ha with rfl
        exact ⟨show (-1 : Rat) ≤ 4 by norm_num,
          lt_dblMax_of_le_ten (show (4 : Rat) ≤ 10 by norm_num)⟩,
      fun a ha => absurd ha (List.not_mem_nil a)⟩
  · intro p hp
    exact absurd hp (List.not_mem_nil p)
  · intro p hp
    exact absurd hp (List.not_mem_nil p)
  · intro p hp
    exact absurd hp (List.not_mem_nil p)
  · intro p hp
    exact absurd hp (List.not_mem_nil p)
  · intro p hp
    rcases List.mem_cons.mp hp with rfl | hp2
    · exact fun a ha => by
        rcases List.mem_singleton.mp ha with rfl
        exact ⟨show (-1 : Rat) ≤ 2 by norm_num,
          lt_dblMax_of_le_ten (show (2 : Rat) ≤ 10 by norm_num)⟩
    · rcases List.mem_singleton.mp hp2 with rfl
      exact fun a ha => by
        rcases List.mem_singleton.mp ha with rfl
        exact ⟨show (-1 : Rat) ≤ 0 by norm_num,
          lt_dblMax_of_le_ten (show (0 : Rat) ≤ 10 by norm_num)⟩

/-- Witness for C7: flushing platform 1 recursively succeeds, keeps
`objectType` of the grandchild gate 3, and erases the gate's update
sample and generic/category data while keeping its entry. -/
theorem flush_platform_recursive_all_witness :
    (StoreWF wStoreC7 ∧ storeTimesWF wStoreC7 ∧ ¬((1 : ObjectId) = 0) ∧
      (findA wStoreC7.platforms 1).isSome = true ∧ removedBy wStoreC7 1 3) ∧
    (flushStore wStoreC7 1 .recursive FLUSH_ALL).2.2 = 0 ∧
    objectType (flushStore wStoreC7 1 .recursive FLUSH_ALL).1 3 =
      objectType wStoreC7 3 ∧
    entityFlushedAt wStoreC7 (flushStore wStoreC7 1 .recursive FLUSH_ALL).1
      3 := by
  have h := flush_platform_recursive_all wStoreC7 1 (by decide)
    storeTimesWF_wStoreC7 (by decide) (by decide)
  exact ⟨⟨by decide, storeTimesWF_wStoreC7, by decide, by decide, by decide⟩,
    h.1, h.2.2.1 3, h.2.2.2 3 (by decide)⟩
